import Mathlib

/-!
# Collision-query engine of `sbpl_collision_checking`

A shallow embedding of `SBPLCollisionSpace` (file
`sbpl_collision_checking/src/sbpl_collision_space.cpp`) and proofs about it.

Conventions of the embedding.

* `double` values are rationals (`ℚ`), every finite double being one;
  comparisons, `max` and copies are exact on them. The sums
  `radius + padding_` of the two threshold tests are rounded as the machine
  rounds them (`dadd`, IEEE 754 binary64, round to nearest with ties to even).
  The arithmetic of `getClearance` (a difference, a running sum and a
  quotient) is that of the rationals: its rounding is left out, and so is the
  quotient by a count of zero, which is not a number for the machine.
* `int` values are `Int`, `size_t` indices are `Nat`.
* A C++ out-parameter becomes a field of the result structure of the function;
  the member `collision_spheres_`, the only member the queries write, is
  returned in the same way.
* A `for` loop with an early `return` becomes a recursive function returning a
  flag (`true`: the loop ran to its end, `false`: it executed `return false`)
  together with the values of the variables at that moment.
* `std::vector::operator[]` with an index that is out of range is undefined in
  the source; the embedding reads a default value there and drops the write.
* `ROS_*` logging has no effect on the results and is left out; the `verbose`
  arguments are kept in the signatures.
* Collaborators whose code is outside this file of the repository (the
  occupancy grid accessors, the robot model, `leatherman::distance`,
  `angles::normalize_angle`, `sbpl::Interpolator::interpolatePath`, the line
  iterator of `leatherman`) are parameters: fields of `OccupancyGrid`,
  `RobotModel`, `Group`, `Externals`, and a function into `Bresenham3D`.
-/

set_option linter.unusedVariables false

namespace sbpl_arm_planner

/-! ## Data model -/

namespace KDL

/-- The type `KDL::Vector`: three coordinates. -/
structure Vector where
  x : ℚ
  y : ℚ
  z : ℚ
  deriving DecidableEq, Repr

/-- The default-constructed `KDL::Vector`, all zeros. -/
def Vector.Zero : Vector := ⟨0, 0, 0⟩

instance : Inhabited Vector := ⟨Vector.Zero⟩

/-- The type `KDL::Rotation`: a 3x3 matrix, stored row by row. -/
structure Rotation where
  Xx : ℚ
  Yx : ℚ
  Zx : ℚ
  Xy : ℚ
  Yy : ℚ
  Zy : ℚ
  Xz : ℚ
  Yz : ℚ
  Zz : ℚ
  deriving DecidableEq, Repr

/-- The identity rotation `KDL::Rotation::Identity()`. -/
def Rotation.Identity : Rotation := ⟨1, 0, 0, 0, 1, 0, 0, 0, 1⟩

/-- The type `KDL::Frame`: a rotation `M` and a translation `p`. -/
structure Frame where
  M : Rotation
  p : Vector
  deriving DecidableEq, Repr

/-- The identity frame `KDL::Frame::Identity()`. -/
def Frame.Identity : Frame := ⟨Rotation.Identity, Vector.Zero⟩

instance : Inhabited Frame := ⟨Frame.Identity⟩

/-- The product `KDL::Frame * KDL::Vector`, that is `M * v + p`. -/
def Frame.mulVec (f : Frame) (v : Vector) : Vector :=
  ⟨f.M.Xx * v.x + f.M.Yx * v.y + f.M.Zx * v.z + f.p.x,
   f.M.Xy * v.x + f.M.Yy * v.y + f.M.Zy * v.z + f.p.y,
   f.M.Xz * v.x + f.M.Yz * v.y + f.M.Zz * v.z + f.p.z⟩

end KDL

/-- The frames of one group, `std::vector<std::vector<KDL::Frame> >`, indexed
`[chain][segment]`. -/
abbrev GroupFrames := List (List KDL.Frame)

/-- The frames of all sphere groups,
`std::vector<std::vector<std::vector<KDL::Frame> > >`, indexed by sphere group. -/
abbrev FrameCache := List GroupFrames

/-- The struct `Sphere`: a named sphere with its centre `v` in the frame
`[kdl_chain][kdl_segment]` of its group. -/
structure Sphere where
  name : String
  v : KDL.Vector
  radius : ℚ
  kdl_chain : Nat
  kdl_segment : Nat
  deriving DecidableEq, Repr

/-- The class `Group` as the engine uses it: its name, its two sphere subsets
and its forward kinematics, which returns a success flag and the frames it
wrote. -/
structure Group where
  name : String
  spheres_low : List Sphere
  spheres_high : List Sphere
  computeFK : List ℚ → Bool × GroupFrames

/-- The accessor `Group::getSpheres(low_res)`. -/
def Group.getSpheres (g : Group) (low_res : Bool) : List Sphere :=
  if low_res then g.spheres_low else g.spheres_high

/-- The class `RobotModel` as the engine uses it: `getSphereGroups`,
`getDefaultGroup` and `computeDefaultGroupFK`. -/
structure RobotModel where
  sphere_groups : List Group
  default_group : Group
  computeDefaultGroupFK : List ℚ → Bool × GroupFrames

/-- The class `OccupancyGrid` as the engine uses it: `worldToGrid`,
`isInBounds` and `getDistance`. -/
structure OccupancyGrid where
  worldToGrid : ℚ → ℚ → ℚ → Int × Int × Int
  isInBounds : Int → Int → Int → Bool
  getDistance : Int → Int → Int → ℚ

/-- Free functions of other packages that the engine calls. -/
structure Externals where
  /-- The function `leatherman::distance(a, b)`. -/
  distance : KDL.Vector → KDL.Vector → ℚ
  /-- The function `angles::normalize_angle`. -/
  normalize_angle : ℚ → ℚ
  /-- The function `sbpl::Interpolator::interpolatePath(start, end, min_limits,
  max_limits, inc, path)`: its return value and the path it wrote. -/
  interpolatePath : List ℚ → List ℚ → List ℚ → List ℚ → List ℚ → Bool × List (List ℚ)

/-- The members of `SBPLCollisionSpace` that the queries read or write. -/
structure SBPLCollisionSpace where
  grid_ : OccupancyGrid
  model_ : RobotModel
  padding_ : ℚ
  object_attached_ : Bool
  object_spheres_p_ : List Sphere
  use_multi_level_collision_check_ : Bool
  collision_spheres_ : List Sphere
  inc_ : List ℚ
  min_limits_ : List ℚ
  max_limits_ : List ℚ
  continuous_ : List Bool

/-- The method `std::vector::resize(n)` on a vector of `KDL::Vector`: keeps the first
`n` elements and appends default-constructed ones up to length `n`. -/
def resize (l : List KDL.Vector) (n : Nat) : List KDL.Vector :=
  l.take n ++ List.replicate (n - l.length) KDL.Vector.Zero

/-- The expression `frames[chain][segment]`. -/
def frameAt (frames : GroupFrames) (chain segment : Nat) : KDL.Frame :=
  (frames.getD chain []).getD segment KDL.Frame.Identity

/-- The posed centre of a sphere,
`frames[s->kdl_chain][s->kdl_segment] * s->v`. -/
def posedCenter (frames : GroupFrames) (s : Sphere) : KDL.Vector :=
  (frameAt frames s.kdl_chain s.kdl_segment).mulVec s.v

/-! ## Double arithmetic -/

/-- The power `2 ^ e` as a rational. -/
def pow2 (e : Int) : ℚ :=
  if 0 ≤ e then ((2 ^ e.toNat : Nat) : ℚ) else 1 / ((2 ^ (-e).toNat : Nat) : ℚ)

/-- Rounding of a rational to the nearest integer, a tie going to the even
one. -/
def roundHalfEven (x : ℚ) : Int :=
  if x - ⌊x⌋ < 1 / 2 then ⌊x⌋
  else if 1 / 2 < x - ⌊x⌋ then ⌊x⌋ + 1
  else if ⌊x⌋ % 2 = 0 then ⌊x⌋ else ⌊x⌋ + 1

/-- The loop of `log2Floor`, with a bound on the number of halvings. -/
def log2Fuel : Nat → Nat → Nat
  | 0, _ => 0
  | fuel + 1, n => if 2 ≤ n then log2Fuel fuel (n / 2) + 1 else 0

/-- The exponent `l` with `2 ^ l ≤ n < 2 ^ (l + 1)` of a positive natural. -/
def log2Floor (n : Nat) : Nat := log2Fuel n n

/-- The binade of a positive rational `q`: the exponent `b` with
`2 ^ b ≤ q < 2 ^ (b + 1)`. -/
def binade (q : ℚ) : Int :=
  let l : Int := (log2Floor q.num.natAbs : Int) - (log2Floor q.den : Int)
  if pow2 l ≤ q then l else l - 1

/-- The exponent of the spacing of the doubles around a positive rational `q`:
53 significant bits in the binade of `q`, and the spacing `2 ^ (-1074)` of the
subnormal numbers below `2 ^ (-1022)`. -/
def ulpExponent (q : ℚ) : Int := max (binade q) (-1022) - 52

/-- The double nearest to a positive rational, a tie going to the even
significand. A result beyond the largest finite double, infinity for the
machine, is `2 ^ 1024`, which compares with every finite double as infinity
does. -/
def roundPos (q : ℚ) : ℚ :=
  min (pow2 (ulpExponent q) * (roundHalfEven (q / pow2 (ulpExponent q)) : ℚ)) (pow2 1024)

/-- The rounding of the IEEE 754 binary64 format in its default mode, round to
nearest with ties to even, on the exact result of an operation. -/
def roundToDouble (q : ℚ) : ℚ :=
  if 0 < q then roundPos q else if q < 0 then -roundPos (-q) else 0

/-- The sum `a + b` of two doubles as the machine computes it. -/
def dadd (a b : ℚ) : ℚ := roundToDouble (a + b)

/-! ## Sphere-vs-field test -/

/-- The variables of the loop of `checkSpheresAgainstWorld`. -/
structure SpheresLoop where
  sph_poses : List KDL.Vector
  dist : ℚ
  dist_temp : ℚ
  in_collision : Bool
  collision_spheres_ : List Sphere

/-- The loop `for(size_t i = 0; i < spheres.size(); ++i)` of
`checkSpheresAgainstWorld`, from index `i` on, `spheres` being the spheres
`spheres[i], spheres[i+1], ...` still to visit. -/
def checkSpheresAgainstWorld_loop (cs : SBPLCollisionSpace) (frames : GroupFrames)
    (visualize : Bool) : List Sphere → Nat → SpheresLoop → Bool × SpheresLoop
  | [], _, st => (true, st)
  | s :: spheres, i, st =>
    let pose := posedCenter frames s
    let sph_poses := st.sph_poses.set i pose
    let xyz := cs.grid_.worldToGrid pose.x pose.y pose.z
    -- check bounds
    if !cs.grid_.isInBounds xyz.1 xyz.2.1 xyz.2.2 then
      (false, { st with sph_poses := sph_poses })
    else
      -- check for collision with world
      let dist_temp := cs.grid_.getDistance xyz.1 xyz.2.1 xyz.2.2
      if dist_temp ≤ dadd s.radius cs.padding_ then
        let dist := dist_temp
        if visualize then
          let dist := if dist_temp < dist then dist_temp else dist
          checkSpheresAgainstWorld_loop cs frames visualize spheres (i + 1)
            { sph_poses := sph_poses, dist := dist, dist_temp := dist_temp,
              in_collision := true,
              collision_spheres_ := st.collision_spheres_ ++ [{ s with v := pose }] }
        else
          (false, { st with sph_poses := sph_poses, dist := dist, dist_temp := dist_temp })
      else
        let dist := if dist_temp < st.dist then dist_temp else st.dist
        checkSpheresAgainstWorld_loop cs frames visualize spheres (i + 1)
          { st with sph_poses := sph_poses, dist := dist, dist_temp := dist_temp }

/-- The outputs of `checkSpheresAgainstWorld`. -/
structure SpheresResult where
  ret : Bool
  sph_poses : List KDL.Vector
  dist : ℚ
  collision_spheres_ : List Sphere

/-- The method `SBPLCollisionSpace::checkSpheresAgainstWorld`; the argument
`sph_poses` is the content of the out-parameter at the call. -/
def checkSpheresAgainstWorld (cs : SBPLCollisionSpace) (frames : GroupFrames)
    (spheres : List Sphere) (verbose visualize : Bool) (sph_poses : List KDL.Vector) :
    SpheresResult :=
  let st0 : SpheresLoop :=
    { sph_poses := resize sph_poses spheres.length, dist := 100, dist_temp := 100,
      in_collision := false, collision_spheres_ := cs.collision_spheres_ }
  match checkSpheresAgainstWorld_loop cs frames visualize spheres 0 st0 with
  | (false, st) => ⟨false, st.sph_poses, st.dist, st.collision_spheres_⟩
  | (true, st) =>
    if visualize && st.in_collision then
      ⟨false, st.sph_poses, st.dist, st.collision_spheres_⟩
    else
      ⟨true, st.sph_poses, st.dist, st.collision_spheres_⟩

/-! ## Sphere-group-vs-sphere-group test -/

/-- The variables of the loops of `checkSphereGroupAgainstSphereGroup`. -/
structure GroupPairLoop where
  dist : ℚ
  in_collision : Bool
  collision_spheres_ : List Sphere
  cntr : Nat

/-- The inner loop `for(size_t j = 0; j < spheres2.size(); ++j)` of
`checkSphereGroupAgainstSphereGroup` for one sphere `gsph1[i]` posed at
`spheres1[i]`; the list holds the pairs `(gsph2[j], spheres2[j])` still to
visit. -/
def checkSphereGroupAgainstSphereGroup_inner (ext : Externals) (cs : SBPLCollisionSpace)
    (visualize : Bool) (g1 : Sphere) (s1 : KDL.Vector) :
    List (Sphere × KDL.Vector) → GroupPairLoop → Bool × GroupPairLoop
  | [], st => (true, st)
  | (g2, s2) :: rest, st =>
    let d := ext.distance s1 s2
    if d ≤ max (dadd g1.radius cs.padding_) (dadd g2.radius cs.padding_) then
      let dist := if d < st.dist then d else st.dist
      if visualize then
        let collision_spheres_ :=
          st.collision_spheres_ ++ [{ g1 with v := s1 }, { g2 with v := s2 }]
        let dist := if d < dist then d else dist
        checkSphereGroupAgainstSphereGroup_inner ext cs visualize g1 s1 rest
          { dist := dist, in_collision := true, collision_spheres_ := collision_spheres_,
            cntr := st.cntr + 1 }
      else
        (false, { st with dist := dist })
    else
      let dist := if d < st.dist then d else st.dist
      checkSphereGroupAgainstSphereGroup_inner ext cs visualize g1 s1 rest
        { st with dist := dist, cntr := st.cntr + 1 }

/-- The outer loop `for(size_t i = 0; i < spheres1.size(); ++i)` of
`checkSphereGroupAgainstSphereGroup`; the first list holds the pairs
`(gsph1[i], spheres1[i])` still to visit, the second list all pairs
`(gsph2[j], spheres2[j])`. -/
def checkSphereGroupAgainstSphereGroup_outer (ext : Externals) (cs : SBPLCollisionSpace)
    (visualize : Bool) (l2 : List (Sphere × KDL.Vector)) :
    List (Sphere × KDL.Vector) → GroupPairLoop → Bool × GroupPairLoop
  | [], st => (true, st)
  | (g1, s1) :: rest, st =>
    match checkSphereGroupAgainstSphereGroup_inner ext cs visualize g1 s1 l2 st with
    | (false, st1) => (false, st1)
    | (true, st1) => checkSphereGroupAgainstSphereGroup_outer ext cs visualize l2 rest st1

/-- The outputs of `checkSphereGroupAgainstSphereGroup`; `cntr` is the number
of distance computations it logs. -/
structure GroupPairResult where
  ret : Bool
  dist : ℚ
  collision_spheres_ : List Sphere
  cntr : Nat

/-- The method `SBPLCollisionSpace::checkSphereGroupAgainstSphereGroup`. Once
the two length tests have passed, `gsph1[i]` and `spheres1[i]` range over the
same indices, so the loops run over the zipped lists. -/
def checkSphereGroupAgainstSphereGroup (ext : Externals) (cs : SBPLCollisionSpace)
    (group1 group2 : Group) (spheres1 spheres2 : List KDL.Vector)
    (low_res1 low_res2 verbose visualize : Bool) : GroupPairResult :=
  let gsph1 := group1.getSpheres low_res1
  let gsph2 := group2.getSpheres low_res2
  if gsph1.length ≠ spheres1.length ∨ gsph2.length ≠ spheres2.length then
    ⟨false, 100, cs.collision_spheres_, 0⟩
  else
    let st0 : GroupPairLoop :=
      { dist := 100, in_collision := false, collision_spheres_ := cs.collision_spheres_,
        cntr := 0 }
    match checkSphereGroupAgainstSphereGroup_outer ext cs visualize (gsph2.zip spheres2)
        (gsph1.zip spheres1) st0 with
    | (false, st) => ⟨false, st.dist, st.collision_spheres_, st.cntr⟩
    | (true, st) =>
      if visualize && st.in_collision then
        ⟨false, st.dist, st.collision_spheres_, st.cntr⟩
      else
        ⟨true, st.dist, st.collision_spheres_, st.cntr⟩

/-! ## Point validity: the per-resolution checks

The two per-resolution overloads of `checkCollision` run the same three blocks
of code, on `dframes` and `model_.getDefaultGroup()` in one and on `frames[0]`
and `sg[0]` in the other. Each block is one function here, used by both. Every
sub-check has the shape
`if(!check(..., dist_temp)) { if(!visualize) return false; else in_collision = true; }
 if(dist_temp < dist) dist = dist_temp;`. -/

/-- The outputs of the overload `checkCollision(angles, low_res, verbose,
visualize, dist)`. -/
structure CollisionResult where
  ret : Bool
  dist : ℚ
  collision_spheres_ : List Sphere

/-- The variables of the per-resolution `checkCollision` that live across its
sub-checks. -/
structure CollisionLoop where
  in_collision : Bool
  dist : ℚ
  dg_spheres : List KDL.Vector
  g_spheres : List KDL.Vector
  collision_spheres_ : List Sphere

/-- The block `// check attached object against world` run on the frames
`frames` of the default group. The flag is `false` when the block executed
`return false`. -/
def checkCollision_attached (cs : SBPLCollisionSpace) (frames : GroupFrames)
    (verbose visualize : Bool) (st : CollisionLoop) : Bool × CollisionLoop :=
  if cs.object_attached_ then
    let w := checkSpheresAgainstWorld { cs with collision_spheres_ := st.collision_spheres_ }
      frames cs.object_spheres_p_ verbose visualize st.dg_spheres
    if !w.ret && !visualize then
      (false, { st with dg_spheres := w.sph_poses, collision_spheres_ := w.collision_spheres_ })
    else
      (true, { st with in_collision := if !w.ret then true else st.in_collision,
                       dist := if w.dist < st.dist then w.dist else st.dist,
                       dg_spheres := w.sph_poses,
                       collision_spheres_ := w.collision_spheres_ })
  else (true, st)

/-- The block `// check default sphere group against world` for the default
group `dgroup` with frames `frames`. -/
def checkCollision_default (cs : SBPLCollisionSpace) (dgroup : Group) (frames : GroupFrames)
    (low_res verbose visualize : Bool) (st : CollisionLoop) : Bool × CollisionLoop :=
  let w := checkSpheresAgainstWorld { cs with collision_spheres_ := st.collision_spheres_ }
    frames (dgroup.getSpheres low_res) verbose visualize st.dg_spheres
  if !w.ret && !visualize then
    (false, { st with dg_spheres := w.sph_poses, collision_spheres_ := w.collision_spheres_ })
  else
    (true, { st with in_collision := if !w.ret then true else st.in_collision,
                     dist := if w.dist < st.dist then w.dist else st.dist,
                     dg_spheres := w.sph_poses,
                     collision_spheres_ := w.collision_spheres_ })

/-- The blocks `// check against world` and `// check against default group
spheres` of the loop over the other sphere groups, for the group `g` with
frames `frames` and the default group `dgroup`. -/
def checkCollision_group (ext : Externals) (cs : SBPLCollisionSpace) (dgroup : Group)
    (low_res verbose visualize : Bool) (g : Group) (frames : GroupFrames)
    (st : CollisionLoop) : Bool × CollisionLoop :=
  -- check against world
  let w := checkSpheresAgainstWorld { cs with collision_spheres_ := st.collision_spheres_ }
    frames (g.getSpheres low_res) verbose visualize st.g_spheres
  if !w.ret && !visualize then
    (false, { st with g_spheres := w.sph_poses, collision_spheres_ := w.collision_spheres_ })
  else
    let in_collision := if !w.ret then true else st.in_collision
    let dist := if w.dist < st.dist then w.dist else st.dist
    -- check against default group spheres
    let p := checkSphereGroupAgainstSphereGroup ext
      { cs with collision_spheres_ := w.collision_spheres_ } dgroup g
      st.dg_spheres w.sph_poses low_res low_res verbose visualize
    if !p.ret && !visualize then
      (false, { in_collision := in_collision, dist := dist, dg_spheres := st.dg_spheres,
                g_spheres := w.sph_poses, collision_spheres_ := p.collision_spheres_ })
    else
      (true, { in_collision := if !p.ret then true else in_collision,
               dist := if p.dist < dist then p.dist else dist,
               dg_spheres := st.dg_spheres, g_spheres := w.sph_poses,
               collision_spheres_ := p.collision_spheres_ })

/-- The loop `for(size_t i = 1; i < sg.size(); ++i)` of
`checkCollision(angles, low_res, ...)`; the list holds the groups
`sg[i], sg[i+1], ...` still to visit. -/
def checkCollision_res_loop (ext : Externals) (cs : SBPLCollisionSpace)
    (low_res verbose visualize : Bool) : List Group → CollisionLoop → Bool × CollisionLoop
  | [], st => (true, st)
  | g :: sg, st =>
    -- compute FK for group
    let fk := g.computeFK []
    if !fk.1 then (false, st)
    else
      match checkCollision_group ext cs cs.model_.default_group low_res verbose visualize g
          fk.2 st with
      | (false, st1) => (false, st1)
      | (true, st1) => checkCollision_res_loop ext cs low_res verbose visualize sg st1

/-- The overload `SBPLCollisionSpace::checkCollision(angles, low_res, verbose,
visualize, dist)`: the per-resolution check that computes all frames itself. -/
def checkCollision_res (ext : Externals) (cs : SBPLCollisionSpace) (angles : List ℚ)
    (low_res verbose visualize : Bool) : CollisionResult :=
  let collision_spheres_ := if visualize then [] else cs.collision_spheres_
  -- compute FK for default group
  let fk := cs.model_.computeDefaultGroupFK angles
  if !fk.1 then ⟨false, 100, collision_spheres_⟩
  else
    let dframes := fk.2
    let st0 : CollisionLoop :=
      { in_collision := false, dist := 100, dg_spheres := [], g_spheres := [],
        collision_spheres_ := collision_spheres_ }
    match checkCollision_attached cs dframes verbose visualize st0 with
    | (false, st) => ⟨false, st.dist, st.collision_spheres_⟩
    | (true, st1) =>
      match checkCollision_default cs cs.model_.default_group dframes low_res verbose
          visualize st1 with
      | (false, st) => ⟨false, st.dist, st.collision_spheres_⟩
      | (true, st2) =>
        -- check other sphere groups
        match checkCollision_res_loop ext cs low_res verbose visualize
            (cs.model_.sphere_groups.drop 1) st2 with
        | (false, st) => ⟨false, st.dist, st.collision_spheres_⟩
        | (true, st) =>
          if visualize && st.in_collision then ⟨false, st.dist, st.collision_spheres_⟩
          else ⟨true, st.dist, st.collision_spheres_⟩

/-- The outputs of the overload `checkCollision(angles, frames, low_res,
verbose, visualize, dist)`; `frames` is the content of the in-out parameter at
the return. -/
structure CollisionFramesResult where
  ret : Bool
  dist : ℚ
  frames : FrameCache
  collision_spheres_ : List Sphere

/-- The step `if(frames[i].empty()) { if(!computeFK(angles, frames[i])) return false; }`
for a forward kinematics with outcome `r`: the flag is `false` when the step
executed `return false`, and the cache is the content of `frames` after it. -/
def cachedFK_step (r : Bool × GroupFrames) (frames : FrameCache) (i : Nat) : Bool × FrameCache :=
  if (frames.getD i []).isEmpty then (r.1, frames.set i r.2) else (true, frames)

/-- The loop `for(size_t i = 1; i < sg.size(); ++i)` of
`checkCollision(angles, frames, low_res, ...)` from index `i` on; `sg0` is
`sg[0]` and the list holds the groups `sg[i], sg[i+1], ...` still to visit. -/
def checkCollision_frames_loop (ext : Externals) (cs : SBPLCollisionSpace) (sg0 : Group)
    (low_res verbose visualize : Bool) :
    List Group → Nat → FrameCache → CollisionLoop → Bool × FrameCache × CollisionLoop
  | [], _, frames, st => (true, frames, st)
  | g :: sg, i, frames, st =>
    -- compute FK for group
    let fk := cachedFK_step (g.computeFK []) frames i
    if !fk.1 then (false, fk.2, st)
    else
      match checkCollision_group ext cs sg0 low_res verbose visualize g (fk.2.getD i []) st with
      | (false, st1) => (false, fk.2, st1)
      | (true, st1) =>
        checkCollision_frames_loop ext cs sg0 low_res verbose visualize sg (i + 1) fk.2 st1

/-- The overload `SBPLCollisionSpace::checkCollision(angles, frames, low_res,
verbose, visualize, dist)`: the per-resolution check that reuses the frames it
finds in `frames`. With no sphere group at all the source indexes `frames[0]`
and `sg[0]` out of range; the embedding returns `false` there. -/
def checkCollision_frames (ext : Externals) (cs : SBPLCollisionSpace) (angles : List ℚ)
    (frames : FrameCache) (low_res verbose visualize : Bool) : CollisionFramesResult :=
  let collision_spheres_ := if visualize then [] else cs.collision_spheres_
  -- first group, is default group
  match cs.model_.sphere_groups with
  | [] => ⟨false, 100, frames, collision_spheres_⟩
  | sg0 :: sg =>
    -- if empty, low_res is probably enabled
    let frames := if frames.isEmpty then List.replicate (sg0 :: sg).length [] else frames
    -- compute FK for default group
    let fk := cachedFK_step (cs.model_.computeDefaultGroupFK angles) frames 0
    if !fk.1 then ⟨false, 100, fk.2, collision_spheres_⟩
    else
      let frames := fk.2
      let st0 : CollisionLoop :=
        { in_collision := false, dist := 100, dg_spheres := [], g_spheres := [],
          collision_spheres_ := collision_spheres_ }
      match checkCollision_attached cs (frames.getD 0 []) verbose visualize st0 with
      | (false, st) => ⟨false, st.dist, frames, st.collision_spheres_⟩
      | (true, st1) =>
        match checkCollision_default cs sg0 (frames.getD 0 []) low_res verbose visualize st1 with
        | (false, st) => ⟨false, st.dist, frames, st.collision_spheres_⟩
        | (true, st2) =>
          -- check other sphere groups
          match checkCollision_frames_loop ext cs sg0 low_res verbose visualize sg 1 frames
              st2 with
          | (false, frames, st) => ⟨false, st.dist, frames, st.collision_spheres_⟩
          | (true, frames, st) =>
            if visualize && st.in_collision then
              ⟨false, st.dist, frames, st.collision_spheres_⟩
            else ⟨true, st.dist, frames, st.collision_spheres_⟩

/-! ## Point validity: the two-level check -/

/-- The overload `SBPLCollisionSpace::checkCollision(angles, verbose,
visualize, dist)`. Its local `frames` starts empty; the result carries its
final content. -/
def checkCollision (ext : Externals) (cs : SBPLCollisionSpace) (angles : List ℚ)
    (verbose visualize : Bool) : CollisionFramesResult :=
  let frames : FrameCache := []
  if !cs.use_multi_level_collision_check_ then
    let r := checkCollision_res ext cs angles false verbose visualize
    ⟨r.ret, r.dist, frames, r.collision_spheres_⟩
  else
    let c := checkCollision_frames ext cs angles frames true verbose visualize
    if c.ret then c
    else
      checkCollision_frames ext { cs with collision_spheres_ := c.collision_spheres_ } angles
        c.frames false verbose visualize

/-- The overload `SBPLCollisionSpace::isStateValid(angles, frames, verbose,
visualize, dist)`. -/
def isStateValid_frames (ext : Externals) (cs : SBPLCollisionSpace) (angles : List ℚ)
    (frames : FrameCache) (verbose visualize : Bool) : CollisionFramesResult :=
  let frames := if !frames.isEmpty then frames.set 0 [] else frames
  if !cs.use_multi_level_collision_check_ then
    let r := checkCollision_res ext cs angles false verbose visualize
    ⟨r.ret, r.dist, frames, r.collision_spheres_⟩
  else
    let c := checkCollision_frames ext cs angles frames true verbose visualize
    if c.ret then c
    else
      checkCollision_frames ext { cs with collision_spheres_ := c.collision_spheres_ } angles
        c.frames false verbose visualize

/-- The overload `SBPLCollisionSpace::isStateValid(angles, verbose, visualize,
dist)`. -/
def isStateValid (ext : Externals) (cs : SBPLCollisionSpace) (angles : List ℚ)
    (verbose visualize : Bool) : CollisionFramesResult :=
  checkCollision ext cs angles verbose visualize

/-! ## Continuous path validity -/

/-- The method `interpolatePath(start, end, inc, path)`, which hands the
endpoints, the limit tables and the step to the interpolator. -/
def interpolatePath (ext : Externals) (cs : SBPLCollisionSpace) (start end_ inc : List ℚ) :
    Bool × List (List ℚ) :=
  ext.interpolatePath start end_ cs.min_limits_ cs.max_limits_ inc

/-- The loop `for(size_t i=0; i < start.size(); ++i)` of `checkPathForCollision`
that normalizes `start_norm[i]` and `end_norm[i]`; it returns
`(start_norm, end_norm)`. -/
def normalizeEndpoints (ext : Externals) (start end_ : List ℚ) : List ℚ × List ℚ :=
  (List.range start.length).foldl
    (fun se i => (se.1.set i (ext.normalize_angle (start.getD i 0)),
                  se.2.set i (ext.normalize_angle (end_.getD i 0))))
    (start, end_)

/-- The variables of the loops of `checkPathForCollision`. The field `visited`
is not in the source: it records, in order, the index `j` of every call
`isStateValid(path[j], ...)`. -/
structure PathLoop where
  num_checks : Nat
  dist : ℚ
  dist_temp : ℚ
  frames : FrameCache
  collision_spheres_ : List Sphere
  visited : List Nat

/-- The body shared by the two waypoint loops of `checkPathForCollision`:
`num_checks++`, the point check of `path[j]`, and the update of `dist`. The
flag is `false` when the body executed `return false`. -/
def checkPathForCollision_body (ext : Externals) (cs : SBPLCollisionSpace)
    (path : List (List ℚ)) (verbose : Bool) (j : Nat) (st : PathLoop) : Bool × PathLoop :=
  let num_checks := st.num_checks + 1
  let r := isStateValid_frames ext { cs with collision_spheres_ := st.collision_spheres_ }
    (path.getD j []) st.frames verbose false
  let dist_temp := r.dist
  if !r.ret then
    (false, { num_checks := num_checks, dist := dist_temp, dist_temp := dist_temp,
              frames := r.frames, collision_spheres_ := r.collision_spheres_,
              visited := st.visited ++ [j] })
  else
    (true, { num_checks := num_checks,
             dist := if dist_temp < st.dist then dist_temp else st.dist,
             dist_temp := dist_temp, frames := r.frames,
             collision_spheres_ := r.collision_spheres_,
             visited := st.visited ++ [j] })

/-- The loop `for(size_t j = i; j < path.size(); j=j+inc_cc)` from index `j`
on. The first argument bounds the number of iterations; `none` means that the
bound was reached before the loop ended. -/
def checkPathForCollision_inner (ext : Externals) (cs : SBPLCollisionSpace)
    (path : List (List ℚ)) (verbose : Bool) (inc_cc : Nat) :
    Nat → Nat → PathLoop → Option (Bool × PathLoop)
  | 0, j, st => if j < path.length then none else some (true, st)
  | fuel + 1, j, st =>
    if j < path.length then
      match checkPathForCollision_body ext cs path verbose j st with
      | (false, st1) => some (false, st1)
      | (true, st1) =>
        checkPathForCollision_inner ext cs path verbose inc_cc fuel (j + inc_cc) st1
    else some (true, st)

/-- The loop `for(int i = 0; i < inc_cc; i++)` from phase `i` on, with `k`
phases still to run. -/
def checkPathForCollision_outer (ext : Externals) (cs : SBPLCollisionSpace)
    (path : List (List ℚ)) (verbose : Bool) (inc_cc : Nat) :
    Nat → Nat → PathLoop → Option (Bool × PathLoop)
  | 0, _, st => some (true, st)
  | k + 1, i, st =>
    match checkPathForCollision_inner ext cs path verbose inc_cc path.length i st with
    | none => none
    | some (false, st1) => some (false, st1)
    | some (true, st1) => checkPathForCollision_outer ext cs path verbose inc_cc k (i + 1) st1

/-- The loop `for(size_t i = 0; i < path.size(); i++)` from index `i` on, with
`k` waypoints still to visit. -/
def checkPathForCollision_linear (ext : Externals) (cs : SBPLCollisionSpace)
    (path : List (List ℚ)) (verbose : Bool) : Nat → Nat → PathLoop → Bool × PathLoop
  | 0, _, st => (true, st)
  | k + 1, i, st =>
    match checkPathForCollision_body ext cs path verbose i st with
    | (false, st1) => (false, st1)
    | (true, st1) => checkPathForCollision_linear ext cs path verbose k (i + 1) st1

/-- The outputs of `checkPathForCollision`; `visited` is the record kept in
`PathLoop`. -/
structure PathResult where
  ret : Bool
  path_length : Nat
  num_checks : Nat
  dist : ℚ
  frames : FrameCache
  collision_spheres_ : List Sphere
  visited : List Nat

/-- The result of `checkPathForCollision` at a `return` reached from a loop with
flag `b` and variables `st`. -/
def PathResult.ofLoop (path_length : Nat) (b : Bool) (st : PathLoop) : PathResult :=
  ⟨b, path_length, st.num_checks, st.dist, st.frames, st.collision_spheres_, st.visited⟩

/-- The overload `SBPLCollisionSpace::checkPathForCollision(start, end, frames,
verbose, path_length, num_checks, dist)`; `none` means that the bound on the
iterations of the strided loop was reached. -/
def checkPathForCollision_frames (ext : Externals) (cs : SBPLCollisionSpace)
    (start end_ : List ℚ) (frames : FrameCache) (verbose : Bool) : Option PathResult :=
  let inc_cc := 5
  let st0 : PathLoop :=
    { num_checks := 0, dist := 100, dist_temp := 0, frames := frames,
      collision_spheres_ := cs.collision_spheres_, visited := [] }
  let norm := normalizeEndpoints ext start end_
  let ip := interpolatePath ext cs norm.1 norm.2 cs.inc_
  if !ip.1 then some (PathResult.ofLoop 0 false st0)
  else
    let path := ip.2
    -- for debugging & statistical purposes
    let path_length := path.length
    -- try to find collisions that might come later in the path earlier
    if path.length > inc_cc then
      match checkPathForCollision_outer ext cs path verbose inc_cc inc_cc 0 st0 with
      | none => none
      | some (b, st) => some (PathResult.ofLoop path_length b st)
    else
      match checkPathForCollision_linear ext cs path verbose path.length 0 st0 with
      | (b, st) => some (PathResult.ofLoop path_length b st)

/-- The overload `SBPLCollisionSpace::checkPathForCollision(start, end, verbose,
path_length, num_checks, dist)`. -/
def checkPathForCollision (ext : Externals) (cs : SBPLCollisionSpace)
    (start end_ : List ℚ) (verbose : Bool) : Option PathResult :=
  checkPathForCollision_frames ext cs start end_ [] verbose

/-! ## Line segment validity -/

/-- The struct `leatherman::CELL3V`: a cell and an obstacle flag. -/
structure CELL3V where
  x : Int
  y : Int
  z : Int
  bIsObstacle : Bool
  deriving DecidableEq, Repr

/-- The line iterator of `leatherman` (`bresenham3d_param_t` with
`get_bresenham3d_parameters`, `get_current_point3d` and `get_next_point3d`) as
the engine uses it: the cells that `get_current_point3d` yields, `first`
before any call of `get_next_point3d`, and one cell of `rest` after each call
of `get_next_point3d` that returns `true`. The code of the iterator is outside
the repository; that it ends is part of its contract. -/
structure Bresenham3D where
  first : Int × Int × Int
  rest : List (Int × Int × Int)

/-- The cells of a traversal, in order. -/
def Bresenham3D.cells (line : Bresenham3D) : List (Int × Int × Int) :=
  line.first :: line.rest

/-- The variables of the loop of `isValidLineSegment`: `tested` is the vector
behind `pTestedCells` when that pointer is not null; `examined` lists the
cells the loop has read so far, in order, and is not a variable of the source. -/
structure LineLoop where
  retvalue : Int
  min_dist : ℚ
  tested : List CELL3V
  examined : List (Int × Int × Int)

/-- The loop `do { ... } while (get_next_point3d(&params))` of
`isValidLineSegment` over the cells still to visit. The local `pTestedCells`
is never assigned, so whether it is null is an argument. The first component
is `some v` when the loop executed `return v`, and `none` when it ended. -/
def isValidLineSegment_loop (cs : SBPLCollisionSpace) (radius : Int) (pTestedCells_null : Bool) :
    List (Int × Int × Int) → LineLoop → Option ℚ × LineLoop
  | [], st => (none, st)
  | nXYZ :: cells, st =>
    let examined := st.examined ++ [nXYZ]
    if !cs.grid_.isInBounds nXYZ.1 nXYZ.2.1 nXYZ.2.2 then
      (some 0, { st with examined := examined })
    else
      let cell_val := cs.grid_.getDistance nXYZ.1 nXYZ.2.1 nXYZ.2.2
      if cell_val ≤ (radius : ℚ) ∧ pTestedCells_null = true then
        (some cell_val, { st with examined := examined })   --return 0
      else
        let retvalue := if cell_val ≤ (radius : ℚ) then 0 else st.retvalue
        let min_dist := if cell_val < st.min_dist then cell_val else st.min_dist
        -- insert the tested point
        let tested :=
          if pTestedCells_null then st.tested
          else st.tested ++ [{ x := nXYZ.1, y := nXYZ.2.1, z := nXYZ.2.2,
                               bIsObstacle := decide (cell_val ≤ (radius : ℚ)) }]
        isValidLineSegment_loop cs radius pTestedCells_null cells
          { retvalue := retvalue, min_dist := min_dist, tested := tested, examined := examined }

/-- The outputs of `isValidLineSegment`: the value it returns and the cells it
has read. -/
structure LineResult where
  ret : ℚ
  examined : List (Int × Int × Int)

/-- The method `SBPLCollisionSpace::isValidLineSegment(a, b, radius)`, for the
line iterator `get_bresenham3d_parameters`. -/
def isValidLineSegment
    (get_bresenham3d_parameters : Int → Int → Int → Int → Int → Int → Bresenham3D)
    (cs : SBPLCollisionSpace) (a b : List Int) (radius : Int) : LineResult :=
  let st0 : LineLoop := { retvalue := 1, min_dist := 100, tested := [], examined := [] }
  -- iterate through the points on the segment
  let params := get_bresenham3d_parameters (a.getD 0 0) (a.getD 1 0) (a.getD 2 0)
    (b.getD 0 0) (b.getD 1 0) (b.getD 2 0)
  match isValidLineSegment_loop cs radius true params.cells st0 with
  | (some v, st) => ⟨v, st.examined⟩
  | (none, st) => if st.retvalue ≠ 0 then ⟨st.min_dist, st.examined⟩ else ⟨0, st.examined⟩

/-! ## Clearance of a configuration -/

/-- The variables of the loop of `getClearance`; `read` lists the indices `i`
of the spheres the loop has read, in order, and is not a variable of the
source. -/
structure ClearanceLoop where
  sum : ℚ
  dist : ℚ
  min_dist : ℚ
  read : List Nat

/-- The loop `for(int i = 0; i < int(spheres.size()); ++i)` of `getClearance`
from index `i` on; the list holds the spheres `spheres[i], spheres[i+1], ...`
still to visit. -/
def getClearance_loop (cs : SBPLCollisionSpace) (frames : GroupFrames) :
    List Sphere → Nat → ClearanceLoop → ClearanceLoop
  | [], _, st => st
  | s :: spheres, i, st =>
    let v := posedCenter frames s
    let xyz := cs.grid_.worldToGrid v.x v.y v.z
    let dist := cs.grid_.getDistance xyz.1 xyz.2.1 xyz.2.2 - s.radius
    let min_dist := if st.min_dist > dist then dist else st.min_dist
    getClearance_loop cs frames spheres (i + 1)
      { sum := st.sum + dist, dist := dist, min_dist := min_dist, read := st.read ++ [i] }

/-- The outputs of `getClearance`: the return value, the out-parameters
`avg_dist` and `min_dist`, the final value of the local `num_spheres`, and the
sphere indices read. -/
structure ClearanceResult where
  ret : Bool
  avg_dist : ℚ
  min_dist : ℚ
  num_spheres : Int
  read : List Nat

/-- The method `SBPLCollisionSpace::getClearance(angles, num_spheres, avg_dist,
min_dist)`; the argument `avg_dist` is the content of the out-parameter at the
call, which a failing call leaves as it is. -/
def getClearance (cs : SBPLCollisionSpace) (angles : List ℚ) (num_spheres : Int)
    (avg_dist : ℚ) : ClearanceResult :=
  let st0 : ClearanceLoop := { sum := 0, dist := 100, min_dist := 100, read := [] }
  let spheres := cs.model_.default_group.getSpheres false
  let fk := cs.model_.computeDefaultGroupFK angles
  if !fk.1 then ⟨false, avg_dist, 100, num_spheres, []⟩
  else
    let frames := fk.2
    let num_spheres := if num_spheres > (spheres.length : Int) then (spheres.length : Int)
      else num_spheres
    let st := getClearance_loop cs frames spheres 0 st0
    ⟨true, st.sum / (num_spheres : ℚ), st.min_dist, num_spheres, st.read⟩

/-! ## Scene and state updates

The updates act on collaborators whose code is outside the repository (the
robot model, the distance field) and through methods of the engine that are
not in the source file (`processCollisionObjectMsg`,
`putCollisionObjectsInGrid`, `setAttachedObjects`). Their state is a type `W`
and their operations are the fields of `SceneOps W`; the members that the
source file itself assigns are fields of `SceneState W`. -/

/-- The message `sensor_msgs::JointState` as the engine reads it. -/
structure JointState where
  name : List String
  position : List ℚ

/-- The message `arm_navigation_msgs::RobotState` as the engine reads it;
`multi_dof_joint_state` is handed to the robot model unread. -/
structure RobotState where
  joint_state : JointState
  multi_dof_joint_state : List String

/-- The message `arm_navigation_msgs::CollisionObject` as the engine reads it:
its `id`; `shapes` stands for the rest of the message, handed on unread. -/
structure CollisionObject where
  id : String
  shapes : List String
  deriving DecidableEq, Repr

/-- The message `arm_navigation_msgs::AttachedCollisionObject`, handed on
unread. -/
structure AttachedCollisionObject where
  link_name : String
  object : CollisionObject
  deriving DecidableEq, Repr

/-- The message `arm_navigation_msgs::CollisionMap` as the engine and the grid
read it: `header.frame_id` and the centres of the boxes. -/
structure CollisionMap where
  frame_id : String
  boxes : List KDL.Vector

/-- The message `arm_navigation_msgs::PlanningScene` as the engine reads it. -/
structure PlanningScene where
  robot_state : RobotState
  collision_objects : List CollisionObject
  attached_collision_objects : List AttachedCollisionObject
  collision_map : CollisionMap

/-- The member `Link::voxels_`: points in the frame `[kdl_chain][kdl_segment]`. -/
structure Voxels where
  kdl_chain : Nat
  kdl_segment : Nat
  v : List KDL.Vector

/-- The struct `Link` as `updateVoxelGroup` reads it. -/
structure Link where
  voxels_ : Voxels

/-- The class `Group` as `updateVoxelGroup` reads it: its name and its links. -/
structure VoxelGroup where
  name : String
  links_ : List Link

/-- The members that the source file assigns during scene and state updates,
and the state `world` of everything else. -/
structure SceneState (W : Type) where
  world : W
  group_name_ : String
  object_map_ : List (String × CollisionObject)
  reference_frame_ : String

/-- The operations that scene and state updates call and whose code is not in
the source files. A `Bool` is the return value of the operation. -/
structure SceneOps (W : Type) where
  /-- The method `model_.setJointPosition(name, position)`. -/
  setJointPosition : String → ℚ → W → W
  /-- The method `model_.setModelToWorldTransform(state, frame)`. -/
  setModelToWorldTransform : List String → String → W → Bool × W
  /-- The method `model_.init(ns)`. -/
  init : String → W → Bool × W
  /-- The method `model_.initAllGroups()`. -/
  initAllGroups : W → Bool × W
  /-- The method `model_.setDefaultGroup(name)`. -/
  setDefaultGroup : String → W → Bool × W
  /-- The method `model_.getVoxelGroups(vg)`. -/
  getVoxelGroups : W → List VoxelGroup
  /-- The method `model_.computeGroupFK(angles, g, frames)`. -/
  computeGroupFK : List ℚ → VoxelGroup → W → Bool × GroupFrames
  /-- The method `reset()` of the distance field. -/
  reset : W → W
  /-- The method `addPointsToField(pts)` of the distance field. -/
  addPointsToField : List KDL.Vector → W → W
  /-- The method `processCollisionObjectMsg(object)` of the engine. -/
  processCollisionObjectMsg : CollisionObject → SceneState W → SceneState W
  /-- The method `putCollisionObjectsInGrid()` of the engine. -/
  putCollisionObjectsInGrid : SceneState W → SceneState W
  /-- The method `setAttachedObjects(objects)` of the engine. -/
  setAttachedObjects : List AttachedCollisionObject → SceneState W → Bool × SceneState W

/-- The assignment `m[key] = value` on a `std::map`. -/
def mapAssign (m : List (String × CollisionObject)) (key : String) (value : CollisionObject) :
    List (String × CollisionObject) :=
  if m.any (fun kv => kv.1 == key) then
    m.map (fun kv => if kv.1 == key then (key, value) else kv)
  else m ++ [(key, value)]

/-- The method `OccupancyGrid::reset()`. -/
def OccupancyGrid.reset {W : Type} (ops : SceneOps W) (st : SceneState W) : SceneState W :=
  { st with world := ops.reset st.world }

/-- The method `OccupancyGrid::addCollisionMapToField(collision_map)`. -/
def OccupancyGrid.addCollisionMapToField {W : Type} (ops : SceneOps W)
    (collision_map : CollisionMap) (st : SceneState W) : SceneState W :=
  { st with world := ops.addPointsToField collision_map.boxes st.world }

/-- The method `OccupancyGrid::updateFromCollisionMap(collision_map)`. -/
def OccupancyGrid.updateFromCollisionMap {W : Type} (ops : SceneOps W)
    (collision_map : CollisionMap) (st : SceneState W) : SceneState W :=
  if collision_map.boxes.isEmpty then st
  else
    OccupancyGrid.addCollisionMapToField ops collision_map
      { st with reference_frame_ := collision_map.frame_id }

/-- The overload `SBPLCollisionSpace::updateVoxelGroup(Group *g)`. -/
def updateVoxelGroup {W : Type} (ops : SceneOps W) (g : VoxelGroup) (st : SceneState W) :
    Bool × SceneState W :=
  let angles : List ℚ := []
  let fk := ops.computeGroupFK angles g st.world
  if !fk.1 then (false, st)
  else
    let frames := fk.2
    let world := g.links_.foldl
      (fun w l => ops.addPointsToField
        (l.voxels_.v.map
          (fun v => (frameAt frames l.voxels_.kdl_chain l.voxels_.kdl_segment).mulVec v)) w)
      st.world
    (true, { st with world := world })

/-- The loop of `updateVoxelGroups` over the voxel groups still to visit;
`ret` is the local of that name. -/
def updateVoxelGroups_loop {W : Type} (ops : SceneOps W) :
    List VoxelGroup → Bool → SceneState W → Bool × SceneState W
  | [], ret, st => (ret, st)
  | g :: vg, ret, st =>
    match updateVoxelGroup ops g st with
    | (false, st1) => updateVoxelGroups_loop ops vg false st1
    | (true, st1) => updateVoxelGroups_loop ops vg ret st1

/-- The method `SBPLCollisionSpace::updateVoxelGroups()`. -/
def updateVoxelGroups {W : Type} (ops : SceneOps W) (st : SceneState W) :
    Bool × SceneState W :=
  updateVoxelGroups_loop ops (ops.getVoxelGroups st.world) true st

/-- The method `SBPLCollisionSpace::init(group_name, ns)`. -/
def init {W : Type} (ops : SceneOps W) (group_name ns : String) (st : SceneState W) :
    Bool × SceneState W :=
  let st := { st with group_name_ := group_name }
  -- initialize the collision model
  let r1 := ops.init ns st.world
  if !r1.1 then (false, { st with world := r1.2 })
  else
    let r2 := ops.initAllGroups r1.2
    if !r2.1 then (false, { st with world := r2.2 })
    else
      -- choose the group we are planning for
      let r3 := ops.setDefaultGroup st.group_name_ r2.2
      if !r3.1 then (false, { st with world := r3.2 })
      else
        let u := updateVoxelGroups ops { st with world := r3.2 }
        if !u.1 then (false, u.2) else (true, u.2)

/-- The loop `for(size_t i = 0; i < name.size(); ++i) model_.setJointPosition(name[i],
position[i])`, which runs only when the two lists have the same length. -/
def setJointPositions {W : Type} (ops : SceneOps W) (name : List String) (position : List ℚ)
    (w : W) : W :=
  (name.zip position).foldl (fun w np => ops.setJointPosition np.1 np.2 w) w

/-- The method `SBPLCollisionSpace::setRobotState(state)`. -/
def setRobotState {W : Type} (ops : SceneOps W) (st : SceneState W) (state : RobotState) :
    SceneState W :=
  if state.joint_state.name.length ≠ state.joint_state.position.length then st
  else
    let world := setJointPositions ops state.joint_state.name state.joint_state.position st.world
    { st with world := world }

/-- The loop over `scene.collision_objects` of `setPlanningScene`. -/
def setPlanningScene_objects {W : Type} (ops : SceneOps W) :
    List CollisionObject → SceneState W → SceneState W
  | [], st => st
  | o :: objects, st =>
    setPlanningScene_objects ops objects
      (ops.processCollisionObjectMsg o { st with object_map_ := mapAssign st.object_map_ o.id o })

/-- The method `SBPLCollisionSpace::setPlanningScene(scene)`. -/
def setPlanningScene {W : Type} (ops : SceneOps W) (st : SceneState W) (scene : PlanningScene) :
    Bool × SceneState W :=
  -- robot state
  if scene.robot_state.joint_state.name.length ≠ scene.robot_state.joint_state.position.length
  then (false, st)
  else
    let w1 := setJointPositions ops scene.robot_state.joint_state.name
      scene.robot_state.joint_state.position st.world
    let t := ops.setModelToWorldTransform scene.robot_state.multi_dof_joint_state
      scene.collision_map.frame_id w1
    if !t.1 then (false, { st with world := t.2 })
    else
      -- reset the distance field
      let st2 := OccupancyGrid.reset ops { st with world := t.2 }
      -- collision objects
      let st3 := setPlanningScene_objects ops scene.collision_objects st2
      let st4 := ops.putCollisionObjectsInGrid st3
      -- attached collision objects
      let a := ops.setAttachedObjects scene.attached_collision_objects st4
      if !a.1 then (false, a.2)
      else
        -- collision map
        let st5 :=
          if !scene.collision_map.boxes.isEmpty then
            OccupancyGrid.updateFromCollisionMap ops scene.collision_map a.2
          else a.2
        -- self collision
        let u := updateVoxelGroups ops st5
        (true, u.2)

/-! ## Element accesses of the path check -/

/-- The vectors of doubles that `checkPathForCollision` indexes with
`operator[]`: its arguments `start` and `end`, its locals `start_norm` and
`end_norm`, and the members `min_limits_` and `max_limits_`. -/
inductive PathVector where
  | start
  | end_
  | start_norm
  | end_norm
  | min_limits_
  | max_limits_
  deriving DecidableEq, Repr

/-- The size of a vector of `checkPathForCollision`. The locals are
constructed as copies, `start_norm(start)` and `end_norm(end)`, and no
statement resizes them. -/
def PathVector.size (cs : SBPLCollisionSpace) (start end_ : List ℚ) : PathVector → Nat
  | .start => start.length
  | .end_ => end_.length
  | .start_norm => start.length
  | .end_norm => end_.length
  | .min_limits_ => cs.min_limits_.length
  | .max_limits_ => cs.max_limits_.length

/-- The element accesses `v[i]` on the vectors of `PathVector` that the body of
`checkPathForCollision` executes, in program order. The normalization loop
accesses `start_norm[i]`, `start[i]`, `end_norm[i]` and `end[i]` for every
`i < start.size()`. When `interpolatePath` fails, the four `ROS_ERROR` lines
take the elements 0 to 6 of `start_norm`, `end_norm`, `min_limits_` and
`max_limits_` as arguments (the error level is enabled unless the logger was
reconfigured). After a successful interpolation the body indexes `path` only. -/
def checkPathForCollision_accesses (ext : Externals) (cs : SBPLCollisionSpace)
    (start end_ : List ℚ) : List (PathVector × Nat) :=
  let loop := (List.range start.length).flatMap (fun i =>
    [(PathVector.start_norm, i), (PathVector.start, i),
     (PathVector.end_norm, i), (PathVector.end_, i)])
  let norm := normalizeEndpoints ext start end_
  if !(interpolatePath ext cs norm.1 norm.2 cs.inc_).1 then
    loop
      ++ [0, 1, 2, 3, 4, 5, 6].map (fun i => (PathVector.start_norm, i))
      ++ [0, 1, 2, 3, 4, 5, 6].map (fun i => (PathVector.end_norm, i))
      ++ [0, 1, 2, 3, 4, 5, 6].map (fun i => (PathVector.min_limits_, i))
      ++ [0, 1, 2, 3, 4, 5, 6].map (fun i => (PathVector.max_limits_, i))
  else loop

/-! ## Definitions used in the statements -/

/-- The grid cell of the posed centre of a sphere. -/
def sphereCell (cs : SBPLCollisionSpace) (frames : GroupFrames) (s : Sphere) : Int × Int × Int :=
  cs.grid_.worldToGrid (posedCenter frames s).x (posedCenter frames s).y (posedCenter frames s).z

/-- Whether the posed centre of a sphere maps to a cell inside the grid. -/
def sphereInBounds (cs : SBPLCollisionSpace) (frames : GroupFrames) (s : Sphere) : Bool :=
  cs.grid_.isInBounds (sphereCell cs frames s).1 (sphereCell cs frames s).2.1
    (sphereCell cs frames s).2.2

/-- The distance value of the cell of the posed centre of a sphere. -/
def fieldDistance (cs : SBPLCollisionSpace) (frames : GroupFrames) (s : Sphere) : ℚ :=
  cs.grid_.getDistance (sphereCell cs frames s).1 (sphereCell cs frames s).2.1
    (sphereCell cs frames s).2.2

/-- A sphere passes the sphere-vs-field test: its cell is in bounds and the
cell's distance exceeds the machine sum `radius + padding_`. -/
def SphereClear (cs : SBPLCollisionSpace) (frames : GroupFrames) (s : Sphere) : Prop :=
  sphereInBounds cs frames s = true ∧ dadd s.radius cs.padding_ < fieldDistance cs frames s

/-- The run of the loop of `checkSpheresAgainstWorld` from its initial state. -/
def spheresRun (cs : SBPLCollisionSpace) (frames : GroupFrames) (spheres : List Sphere)
    (visualize : Bool) (sph_poses : List KDL.Vector) : Bool × SpheresLoop :=
  checkSpheresAgainstWorld_loop cs frames visualize spheres 0
    { sph_poses := resize sph_poses spheres.length, dist := 100, dist_temp := 100,
      in_collision := false, collision_spheres_ := cs.collision_spheres_ }

/-- A posed sphere pair passes the pairwise test: the distance of the posed
centres exceeds `max(radius1 + padding_, radius2 + padding_)`, the sums being
machine sums. -/
def PairClear (ext : Externals) (cs : SBPLCollisionSpace) (p1 p2 : Sphere × KDL.Vector) : Prop :=
  max (dadd p1.1.radius cs.padding_) (dadd p2.1.radius cs.padding_) < ext.distance p1.2 p2.2

/-- The run of the loops of `checkSphereGroupAgainstSphereGroup` from their
initial state. -/
def groupPairRun (ext : Externals) (cs : SBPLCollisionSpace) (visualize : Bool)
    (l1 l2 : List (Sphere × KDL.Vector)) : Bool × GroupPairLoop :=
  checkSphereGroupAgainstSphereGroup_outer ext cs visualize l2 l1
    { dist := 100, in_collision := false, collision_spheres_ := cs.collision_spheres_, cntr := 0 }

/-- All spheres of a list pass the sphere-vs-field test. -/
def SpheresClear (cs : SBPLCollisionSpace) (frames : GroupFrames) (spheres : List Sphere) : Prop :=
  ∀ s ∈ spheres, SphereClear cs frames s

/-- The pairwise test passes: the lengths match and every pair, one posed
sphere of each group, is clear. -/
def GroupsClear (ext : Externals) (cs : SBPLCollisionSpace) (group1 group2 : Group)
    (low_res1 low_res2 : Bool) (spheres1 spheres2 : List KDL.Vector) : Prop :=
  ((group1.getSpheres low_res1).length = spheres1.length ∧
    (group2.getSpheres low_res2).length = spheres2.length) ∧
  ∀ p1 ∈ (group1.getSpheres low_res1).zip spheres1,
    ∀ p2 ∈ (group2.getSpheres low_res2).zip spheres2, PairClear ext cs p1 p2

/-- A non-default sphere group passes its part of the per-resolution check:
its forward kinematics `fk` succeeded, its spheres pass the sphere-vs-field
test, and the pairwise test against the posed spheres `dg_spheres` of the
default group `dgroup` passes. -/
def GroupPass (ext : Externals) (cs : SBPLCollisionSpace) (dgroup : Group)
    (dg_spheres : List KDL.Vector) (low_res : Bool) (g : Group) (fk : Bool × GroupFrames) :
    Prop :=
  fk.1 = true ∧ SpheresClear cs fk.2 (g.getSpheres low_res) ∧
    GroupsClear ext cs dgroup g low_res low_res dg_spheres
      ((g.getSpheres low_res).map (posedCenter fk.2))

/-- The whole per-resolution check passes: forward kinematics `dfk` of the
default group succeeded, the attached object (if any) and the spheres of the
default group `dgroup` pass the sphere-vs-field test, and every other group,
listed with the outcome of its forward kinematics, passes `GroupPass` against
the posed spheres of the default group. -/
def CheckPass (ext : Externals) (cs : SBPLCollisionSpace) (dgroup : Group) (low_res : Bool)
    (dfk : Bool × GroupFrames) (others : List (Group × (Bool × GroupFrames))) : Prop :=
  dfk.1 = true ∧
  (cs.object_attached_ = true → SpheresClear cs dfk.2 cs.object_spheres_p_) ∧
  SpheresClear cs dfk.2 (dgroup.getSpheres low_res) ∧
  ∀ gf ∈ others,
    GroupPass ext cs dgroup ((dgroup.getSpheres low_res).map (posedCenter dfk.2)) low_res
      gf.1 gf.2

/-- What the sub-checks of group `i` see of the step `cachedFK_step`: its
flag and the frames `frames[i]` after it. -/
def cachedFK (r : Bool × GroupFrames) (frames : FrameCache) (i : Nat) : Bool × GroupFrames :=
  ((cachedFK_step r frames i).1, (cachedFK_step r frames i).2.getD i [])

/-- The groups `sg[i], sg[i+1], ...` with what `cachedFK` gives for each on the
cache `frames`. -/
def cachedGroups : List Group → Nat → FrameCache → List (Group × (Bool × GroupFrames))
  | [], _, _ => []
  | g :: sg, i, frames =>
    (g, cachedFK (g.computeFK []) frames i) :: cachedGroups sg (i + 1) frames

/-- The cache the caching check starts from: `frames.resize(sg.size())` when
`frames` is empty. -/
def initialCache (cs : SBPLCollisionSpace) (frames : FrameCache) : FrameCache :=
  if frames.isEmpty then List.replicate cs.model_.sphere_groups.length [] else frames

/-- The frame that translates by `d` along the x axis. -/
def xShift (d : ℚ) : KDL.Frame := ⟨KDL.Rotation.Identity, ⟨d, 0, 0⟩⟩

/-- Example externals: the distance of two points of the x axis; angles are
left as they are; the interpolator fails. -/
def exampleExt : Externals :=
  { distance := fun a b => |a.x - b.x|,
    normalize_angle := fun a => a,
    interpolatePath := fun _ _ _ _ _ => (false, []) }

/-- Example grid: cells of size 1, ten cells along x, an obstacle plane at
`x = 0`, so that the distance of cell `(i, j, k)` is `i`. -/
def exampleGrid : OccupancyGrid :=
  { worldToGrid := fun x y z => (⌊x⌋, ⌊y⌋, ⌊z⌋),
    isInBounds := fun i _ _ => decide (0 ≤ i ∧ i < 10),
    getDistance := fun i _ _ => (i : ℚ) }

/-- Example group with one sphere of radius 1 at the origin of a frame shifted
by `d`, at both resolutions. -/
def exampleGroup (name : String) (d : ℚ) : Group :=
  { name := name,
    spheres_low := [⟨name, ⟨0, 0, 0⟩, 1, 0, 0⟩],
    spheres_high := [⟨name, ⟨0, 0, 0⟩, 1, 0, 0⟩],
    computeFK := fun _ => (true, [[xShift d]]) }

/-- Example engine: the default group `arm` at `x = angles[0]`, and two other
groups `a` and `b` whose spheres both sit at `x = 8`. -/
def exampleThreeGroups : SBPLCollisionSpace :=
  { grid_ := exampleGrid,
    model_ :=
      { sphere_groups := [exampleGroup "arm" 4, exampleGroup "a" 8, exampleGroup "b" 8],
        default_group := exampleGroup "arm" 4,
        computeDefaultGroupFK := fun angles => (true, [[xShift (angles.getD 0 0)]]) },
    padding_ := 0, object_attached_ := false, object_spheres_p_ := [],
    use_multi_level_collision_check_ := true, collision_spheres_ := [],
    inc_ := [], min_limits_ := [], max_limits_ := [], continuous_ := [] }

/-- The visitation order as the specification words it: for more than 5
waypoints the ascending indices `j < n` with `j mod 5 = i`, for the phases
`i = 0, 1, 2, 3, 4` one after the other; otherwise `0, 1, ..., n - 1`. -/
def visitOrder (n : Nat) : List Nat :=
  if n > 5 then (List.range 5).flatMap (fun i => (List.range n).filter (fun j => j % 5 = i))
  else List.range n

/-- The point checks of the waypoints with the indices of a list, in the order
of the list, stopping at the first check that fails. -/
def scanWaypoints (ext : Externals) (cs : SBPLCollisionSpace) (path : List (List ℚ))
    (verbose : Bool) : List Nat → PathLoop → Bool × PathLoop
  | [], st => (true, st)
  | j :: js, st =>
    match checkPathForCollision_body ext cs path verbose j st with
    | (false, st1) => (false, st1)
    | (true, st1) => scanWaypoints ext cs path verbose js st1

/-- The indices `j, j + inc, j + 2 inc, ...` below `n`, at most `fuel` of them. -/
def strideIndices (inc n : Nat) : Nat → Nat → List Nat
  | 0, _ => []
  | fuel + 1, j => if j < n then j :: strideIndices inc n fuel (j + inc) else []

/-- The strides of the phases `i, i + 1, ..., i + k - 1`, one after the other. -/
def phaseIndices (inc n : Nat) : Nat → Nat → List Nat
  | 0, _ => []
  | k + 1, i => strideIndices inc n n i ++ phaseIndices inc n k (i + 1)

/-- The state in which `checkPathForCollision` enters its loops. -/
def pathStart (cs : SBPLCollisionSpace) (frames : FrameCache) : PathLoop :=
  { num_checks := 0, dist := 100, dist_temp := 0, frames := frames,
    collision_spheres_ := cs.collision_spheres_, visited := [] }

/-- Example path: 12 waypoints of one joint, evenly spaced from `a` to `b`. -/
def examplePath (a b : ℚ) : List (List ℚ) :=
  (List.range 12).map (fun k => [a + (k : ℚ) * ((b - a) / 11)])

/-- Example externals whose interpolator succeeds with `examplePath`. -/
def examplePathExt : Externals :=
  { distance := fun a b => |a.x - b.x|,
    normalize_angle := fun a => a,
    interpolatePath := fun start end_ _ _ _ =>
      (true, examplePath (start.getD 0 0) (end_.getD 0 0)) }

/-- Example engine with one sphere group, the default group `arm`, whose sphere
of radius 1 sits at `x = angles[0]`; multi-level checking is enabled. -/
def exampleArm : SBPLCollisionSpace :=
  { grid_ := exampleGrid,
    model_ :=
      { sphere_groups := [exampleGroup "arm" 0],
        default_group := exampleGroup "arm" 0,
        computeDefaultGroupFK := fun angles => (true, [[xShift (angles.getD 0 0)]]) },
    padding_ := 0, object_attached_ := false, object_spheres_p_ := [],
    use_multi_level_collision_check_ := true, collision_spheres_ := [],
    inc_ := [1], min_limits_ := [0], max_limits_ := [10], continuous_ := [false] }

/-- Example group with one sphere of radius `r` at both resolutions. -/
def exampleBall (name : String) (r : ℚ) : Group :=
  { name := name,
    spheres_low := [⟨name, ⟨0, 0, 0⟩, r, 0, 0⟩],
    spheres_high := [⟨name, ⟨0, 0, 0⟩, r, 0, 0⟩],
    computeFK := fun _ => (true, [[KDL.Frame.Identity]]) }

/-- The view `b` of a group's frames extends the view `a`: the same frames,
and a success flag that is set whenever that of `a` is. -/
def viewLE (a b : Bool × GroupFrames) : Prop := a.2 = b.2 ∧ (a.1 = true → b.1 = true)

/-- For the groups `gs` at the indices `i, i + 1, ...`, the views on the cache
`F2` extend those on the cache `F1`. -/
def CacheLE (gs : List Group) (i : Nat) (F1 F2 : FrameCache) : Prop :=
  ∀ k g, gs[k]? = some g →
    viewLE (cachedFK (g.computeFK []) F1 (i + k)) (cachedFK (g.computeFK []) F2 (i + k))

/-- The engine with its padding replaced. -/
def withPadding (cs : SBPLCollisionSpace) (p : ℚ) : SBPLCollisionSpace :=
  { cs with padding_ := p }

/-- The state in which the per-resolution check enters its first block. -/
def collisionStart (cs : SBPLCollisionSpace) (visualize : Bool) : CollisionLoop :=
  { in_collision := false, dist := 100, dg_spheres := [], g_spheres := [],
    collision_spheres_ := if visualize then [] else cs.collision_spheres_ }

/-- The cache after the forward kinematics step of the default group. -/
def cacheAfterDefaultFK (cs : SBPLCollisionSpace) (angles : List ℚ) (frames : FrameCache) :
    FrameCache :=
  (cachedFK_step (cs.model_.computeDefaultGroupFK angles) (initialCache cs frames) 0).2

/-- The state of the caching check after its block for the default group. -/
def stateAfterDefault (cs : SBPLCollisionSpace) (sg0 : Group) (angles : List ℚ)
    (frames : FrameCache) (low_res verbose visualize : Bool) : Bool × CollisionLoop :=
  checkCollision_default cs sg0 ((cacheAfterDefaultFK cs angles frames).getD 0 []) low_res
    verbose visualize
    (checkCollision_attached cs ((cacheAfterDefaultFK cs angles frames).getD 0 []) verbose
      visualize (collisionStart cs visualize)).2

/-- A fine sphere is matched by a coarse sphere of the list: same frame, same
local centre, and a radius at least as large. -/
def SphereDominated (coarse : List Sphere) (f : Sphere) : Prop :=
  ∃ c ∈ coarse, c.kdl_chain = f.kdl_chain ∧ c.kdl_segment = f.kdl_segment ∧ c.v = f.v ∧
    f.radius ≤ c.radius

/-- Every fine sphere of the group is matched by a coarse sphere of the group. -/
def GroupDominated (g : Group) : Prop :=
  ∀ f ∈ g.getSpheres false, SphereDominated (g.getSpheres true) f

/-- A forward kinematics outcome that is a success or has written no frames. -/
def FKClean (r : Bool × GroupFrames) : Prop := r.1 = true ∨ r.2 = []

/-- Example group whose coarse sphere does not cover its fine sphere: the fine
sphere of radius 1 sits at the origin of the frame, the coarse one of radius 1
three units further along x. -/
def exampleLooseGroup : Group :=
  { name := "loose",
    spheres_low := [⟨"coarse", ⟨3, 0, 0⟩, 1, 0, 0⟩],
    spheres_high := [⟨"fine", ⟨0, 0, 0⟩, 1, 0, 0⟩],
    computeFK := fun _ => (true, [[KDL.Frame.Identity]]) }

/-- Example engine with the single group `exampleLooseGroup`, posed at
`x = angles[0]`. -/
def exampleLoose (multi : Bool) : SBPLCollisionSpace :=
  { grid_ := exampleGrid,
    model_ :=
      { sphere_groups := [exampleLooseGroup],
        default_group := exampleLooseGroup,
        computeDefaultGroupFK := fun angles => (true, [[xShift (angles.getD 0 0)]]) },
    padding_ := 0, object_attached_ := false, object_spheres_p_ := [],
    use_multi_level_collision_check_ := multi, collision_spheres_ := [],
    inc_ := [], min_limits_ := [], max_limits_ := [], continuous_ := [] }

/-- For the groups `gs` at the indices `i, i + 1, ...`, the cache `F` is one
that the forward kinematics steps leave as it is: each entry holds frames, or
lies outside the cache, or belongs to a forward kinematics that writes none. -/
def CacheStable (gs : List Group) (i : Nat) (F : FrameCache) : Prop :=
  ∀ k g, gs[k]? = some g →
    (F.getD (i + k) []).isEmpty = false ∨ F.length ≤ i + k ∨ (g.computeFK []).2 = []

/-- The verdict of the point check on waypoint `j` of a path check that was
handed the cache `frames`: waypoint 0, which every visitation order checks
first, is checked on `frames` itself, every other waypoint on the cache that
the check of waypoint 0 has left. -/
def waypointValid (ext : Externals) (cs : SBPLCollisionSpace) (path : List (List ℚ))
    (frames : FrameCache) (verbose : Bool) (j : Nat) : Bool :=
  (isStateValid_frames ext cs (path.getD j [])
    (if j = 0 then frames
     else (isStateValid_frames ext cs (path.getD 0 []) frames verbose false).frames)
    verbose false).ret

/-- The minimum of 100 and the values of a list, as the engine tracks a
clearance: `dist = 100` at the start, then `if(d < dist) dist = d` per value. -/
def minCapped (l : List ℚ) : ℚ := l.foldl (fun m d => if d < m then d else m) 100

/-- Example spheres on the x axis: with the frames `[]` the sphere `ballAt x r`
of radius `r` is posed at `(x, 0, 0)`. -/
def ballAt (x r : ℚ) : Sphere := ⟨"ball", ⟨x, 0, 0⟩, r, 0, 0⟩

/-- The pairs of posed spheres, one of each list, in row-major order: the
first list gives the row, the second the column. -/
def pairList (l1 l2 : List (Sphere × KDL.Vector)) :
    List ((Sphere × KDL.Vector) × (Sphere × KDL.Vector)) :=
  l1.flatMap (fun p1 => l2.map (fun p2 => (p1, p2)))

/-- The distance of the posed centres of a pair. -/
def pairDistance (ext : Externals) (q : (Sphere × KDL.Vector) × (Sphere × KDL.Vector)) : ℚ :=
  ext.distance q.1.2 q.2.2

/-- Whether a pair violates the threshold `max(radius1 + padding_, radius2 + padding_)`
of machine sums. -/
def pairViolates (ext : Externals) (cs : SBPLCollisionSpace)
    (q : (Sphere × KDL.Vector) × (Sphere × KDL.Vector)) : Bool :=
  decide (pairDistance ext q ≤
    max (dadd q.1.1.radius cs.padding_) (dadd q.2.1.radius cs.padding_))

/-- The body of the loops of `checkSphereGroupAgainstSphereGroup`, run over a
list of pairs. -/
def pairScan (ext : Externals) (cs : SBPLCollisionSpace) (visualize : Bool) :
    List ((Sphere × KDL.Vector) × (Sphere × KDL.Vector)) → GroupPairLoop → Bool × GroupPairLoop
  | [], st => (true, st)
  | q :: rest, st =>
    if pairViolates ext cs q then
      if visualize then
        pairScan ext cs visualize rest
          { dist := if pairDistance ext q < st.dist then pairDistance ext q else st.dist,
            in_collision := true,
            collision_spheres_ :=
              st.collision_spheres_ ++ [{ q.1.1 with v := q.1.2 }, { q.2.1 with v := q.2.2 }],
            cntr := st.cntr + 1 }
      else
        (false,
          { st with dist := if pairDistance ext q < st.dist then pairDistance ext q else st.dist })
    else
      pairScan ext cs visualize rest
        { st with dist := if pairDistance ext q < st.dist then pairDistance ext q else st.dist,
                  cntr := st.cntr + 1 }

/-- Example group with two spheres of radius 2 at both resolutions. -/
def exampleTwoBalls (name : String) : Group :=
  { name := name,
    spheres_low := [ballAt 0 2, ballAt 0 2],
    spheres_high := [ballAt 0 2, ballAt 0 2],
    computeFK := fun _ => (true, []) }

/-- Example group whose coarse sphere, of radius 5, is wider than its fine
sphere, of radius 1. -/
def exampleWideGroup : Group :=
  { name := "wide",
    spheres_low := [⟨"coarse", ⟨0, 0, 0⟩, 5, 0, 0⟩],
    spheres_high := [⟨"fine", ⟨0, 0, 0⟩, 1, 0, 0⟩],
    computeFK := fun _ => (true, [[KDL.Frame.Identity]]) }

/-- Example group whose forward kinematics reports a failure after it has
written frames, which pose the sphere of the group at `x = 8`. -/
def exampleFailingGroup : Group :=
  { name := "failing",
    spheres_low := [ballAt 0 1],
    spheres_high := [ballAt 0 1],
    computeFK := fun _ => (false, [[xShift 8]]) }

/-- Example engine with multi-level checking: the default group
`exampleWideGroup`, posed at `x = angles[0]`, and `exampleFailingGroup`. -/
def exampleFailingEngine : SBPLCollisionSpace :=
  { grid_ := exampleGrid,
    model_ :=
      { sphere_groups := [exampleWideGroup, exampleFailingGroup],
        default_group := exampleWideGroup,
        computeDefaultGroupFK := fun angles => (true, [[xShift (angles.getD 0 0)]]) },
    padding_ := 0, object_attached_ := false, object_spheres_p_ := [],
    use_multi_level_collision_check_ := true, collision_spheres_ := [],
    inc_ := [], min_limits_ := [], max_limits_ := [], continuous_ := [] }

/-- Whether a cell blocks a segment for a radius: it is out of bounds, or its
distance is at most the radius. -/
def cellBlocked (cs : SBPLCollisionSpace) (radius : Int) (c : Int × Int × Int) : Bool :=
  !cs.grid_.isInBounds c.1 c.2.1 c.2.2 || decide (cs.grid_.getDistance c.1 c.2.1 c.2.2 ≤ (radius : ℚ))

/-- Example line iterator for segments along the x axis: the cells from
`(x0, y0, z0)` to `(x1, y0, z0)`, one step of x at a time. -/
def xAxisLine (x0 y0 z0 x1 _y1 _z1 : Int) : Bresenham3D :=
  { first := (x0, y0, z0),
    rest := (List.range (x1 - x0).natAbs).map
      (fun k => (if x0 ≤ x1 then x0 + ((k : Int) + 1) else x0 - ((k : Int) + 1), y0, z0)) }

/-- What `getClearance` adds up for a sphere: the distance of the cell of its
posed centre minus its radius. -/
def sphereClearance (cs : SBPLCollisionSpace) (frames : GroupFrames) (s : Sphere) : ℚ :=
  fieldDistance cs frames s - s.radius

/-- Example engine whose default group has the two fine spheres of radius 1
posed at `x = 3` and `x = 5`, with the clearances 2 and 4. -/
def exampleClearanceEngine : SBPLCollisionSpace :=
  { grid_ := exampleGrid,
    model_ :=
      { sphere_groups := [],
        default_group :=
          { name := "arm", spheres_low := [], spheres_high := [ballAt 3 1, ballAt 5 1],
            computeFK := fun _ => (true, [[KDL.Frame.Identity]]) },
        computeDefaultGroupFK := fun _ => (true, [[KDL.Frame.Identity]]) },
    padding_ := 0, object_attached_ := false, object_spheres_p_ := [],
    use_multi_level_collision_check_ := true, collision_spheres_ := [],
    inc_ := [], min_limits_ := [], max_limits_ := [], continuous_ := [] }

/-- A call of an operation of `SceneOps`, as the recording operations log it. -/
inductive SceneCall where
  | setJointPosition (name : String) (position : ℚ)
  | setModelToWorldTransform (frame : String)
  | modelInit (ns : String)
  | initAllGroups
  | setDefaultGroup (name : String)
  | reset
  | addPointsToField (pts : List KDL.Vector)
  | processCollisionObjectMsg (id : String)
  | putCollisionObjectsInGrid
  | setAttachedObjects (count : Nat)
  deriving DecidableEq, Repr

/-- Example operations whose state is the log of the calls made so far: every
operation succeeds, the voxel groups are `vg`, and the forward kinematics of a
voxel group is `fk`. -/
def recordingOps (vg : List VoxelGroup) (fk : VoxelGroup → Bool × GroupFrames) :
    SceneOps (List SceneCall) :=
  { setJointPosition := fun name position w => w ++ [SceneCall.setJointPosition name position],
    setModelToWorldTransform := fun _ frame w =>
      (true, w ++ [SceneCall.setModelToWorldTransform frame]),
    init := fun ns w => (true, w ++ [SceneCall.modelInit ns]),
    initAllGroups := fun w => (true, w ++ [SceneCall.initAllGroups]),
    setDefaultGroup := fun name w => (true, w ++ [SceneCall.setDefaultGroup name]),
    getVoxelGroups := fun _ => vg,
    computeGroupFK := fun _ g _ => fk g,
    reset := fun w => w ++ [SceneCall.reset],
    addPointsToField := fun pts w => w ++ [SceneCall.addPointsToField pts],
    processCollisionObjectMsg := fun o st =>
      { st with world := st.world ++ [SceneCall.processCollisionObjectMsg o.id] },
    putCollisionObjectsInGrid := fun st =>
      { st with world := st.world ++ [SceneCall.putCollisionObjectsInGrid] },
    setAttachedObjects := fun objects st =>
      (true, { st with world := st.world ++ [SceneCall.setAttachedObjects objects.length] }) }

/-- Example voxel group: one link with one voxel at the origin of its frame. -/
def exampleVoxelGroup : VoxelGroup :=
  { name := "base", links_ := [{ voxels_ := { kdl_chain := 0, kdl_segment := 0, v := [⟨0, 0, 0⟩] } }] }

/-- Example engine state before any update. -/
def exampleSceneState : SceneState (List SceneCall) :=
  { world := [], group_name_ := "arm", object_map_ := [], reference_frame_ := "map" }

/-- Example robot state: one joint at position 1. -/
def exampleRobotState : RobotState :=
  { joint_state := { name := ["shoulder"], position := [1] }, multi_dof_joint_state := [] }

/-- Example robot state with two joint names and one position. -/
def exampleMalformedState : RobotState :=
  { joint_state := { name := ["shoulder", "elbow"], position := [1] },
    multi_dof_joint_state := [] }

/-- Example scene: a robot state, one collision object, and a collision map
with one box. -/
def exampleScene (state : RobotState) : PlanningScene :=
  { robot_state := state,
    collision_objects := [{ id := "box", shapes := [] }],
    attached_collision_objects := [],
    collision_map := { frame_id := "map", boxes := [⟨1, 2, 3⟩] } }

/-- The clearance that the point check on waypoint `j` returns in a path check
that was handed the cache `frames`; the caches are those of `waypointValid`. -/
def waypointClearance (ext : Externals) (cs : SBPLCollisionSpace) (path : List (List ℚ))
    (frames : FrameCache) (verbose : Bool) (j : Nat) : ℚ :=
  (isStateValid_frames ext cs (path.getD j [])
    (if j = 0 then frames
     else (isStateValid_frames ext cs (path.getD 0 []) frames verbose false).frames)
    verbose false).dist

/-- The cache `F` is fresh for the configuration `angles`: what each forward
kinematics step of the caching check sees on it, a computed entry or a cached
one, is what the forward kinematics returns. -/
def CacheFresh (cs : SBPLCollisionSpace) (angles : List ℚ) (F : FrameCache) : Prop :=
  cachedFK (cs.model_.computeDefaultGroupFK angles) (initialCache cs F) 0 =
    cs.model_.computeDefaultGroupFK angles ∧
  ∀ k g, (cs.model_.sphere_groups.drop 1)[k]? = some g →
    cachedFK (g.computeFK []) (initialCache cs F) (1 + k) = g.computeFK []

/-- The cache and the member `collision_spheres_` after a sequence of calls of
the caching check `checkCollision(angles, frames, low_res, verbose, visualize,
dist)` for the configuration `angles`, one call for each triple
`(low_res, verbose, visualize)` of the list, from the cache and the member of
the pair. -/
def afterCalls (ext : Externals) (cs : SBPLCollisionSpace) (angles : List ℚ) :
    List (Bool × Bool × Bool) → FrameCache × List Sphere → FrameCache × List Sphere
  | [], s => s
  | (low_res, verbose, visualize) :: rest, s =>
    afterCalls ext cs angles rest
      ((checkCollision_frames ext { cs with collision_spheres_ := s.2 } angles s.1 low_res
          verbose visualize).frames,
       (checkCollision_frames ext { cs with collision_spheres_ := s.2 } angles s.1 low_res
          verbose visualize).collision_spheres_)

/-- The double nearest to 0.1, `3602879701896397 / 2 ^ 55`. -/
def doubleTenth : ℚ := 3602879701896397 / 36028797018963968

/-- The double nearest to 0.2, `3602879701896397 / 2 ^ 54`. -/
def doubleFifth : ℚ := 3602879701896397 / 18014398509481984

/-- The double `0.30000000000000004`, `5404319552844596 / 2 ^ 54`: the sum of
`doubleTenth` and `doubleFifth` as the machine computes it. Their sum as
rationals, `10808639105689191 / 2 ^ 55`, lies half a spacing below it. -/
def doubleThreeTenthsUp : ℚ := 5404319552844596 / 18014398509481984

/-- Example group with one sphere of radius `doubleTenth` at the origin of its
frame, at both resolutions. -/
def exampleTenthGroup : Group :=
  { name := "tenth",
    spheres_low := [⟨"tenth", ⟨0, 0, 0⟩, doubleTenth, 0, 0⟩],
    spheres_high := [⟨"tenth", ⟨0, 0, 0⟩, doubleTenth, 0, 0⟩],
    computeFK := fun _ => (true, [[KDL.Frame.Identity]]) }

/-- Example engine for the rounding of the threshold: every cell is in bounds
with the distance `doubleThreeTenthsUp`, and the padding is `doubleFifth`. -/
def exampleRoundingEngine : SBPLCollisionSpace :=
  { grid_ :=
      { worldToGrid := fun x y z => (⌊x⌋, ⌊y⌋, ⌊z⌋),
        isInBounds := fun _ _ _ => true,
        getDistance := fun _ _ _ => doubleThreeTenthsUp },
    model_ :=
      { sphere_groups := [exampleTenthGroup],
        default_group := exampleTenthGroup,
        computeDefaultGroupFK := fun _ => (true, [[KDL.Frame.Identity]]) },
    padding_ := doubleFifth, object_attached_ := false, object_spheres_p_ := [],
    use_multi_level_collision_check_ := false, collision_spheres_ := [],
    inc_ := [], min_limits_ := [], max_limits_ := [], continuous_ := [] }

/-- The cache `F` is fresh for the sphere groups after the first: what each of
their forward kinematics steps sees on it, a computed entry or a cached one, is
what the forward kinematics returns. These steps do not depend on the
configuration. -/
def CacheFreshGroups (cs : SBPLCollisionSpace) (F : FrameCache) : Prop :=
  ∀ k g, (cs.model_.sphere_groups.drop 1)[k]? = some g →
    cachedFK (g.computeFK []) (initialCache cs F) (1 + k) = g.computeFK []

/-- Example group whose coarse sphere, of radius 2, is wider than its fine
sphere, of radius 1; both sit at the origin of its frame, at `x = 3`. -/
def exampleNarrowGroup : Group :=
  { name := "narrow",
    spheres_low := [⟨"coarse", ⟨0, 0, 0⟩, 2, 0, 0⟩],
    spheres_high := [⟨"fine", ⟨0, 0, 0⟩, 1, 0, 0⟩],
    computeFK := fun _ => (true, [[xShift 3]]) }

/-- Example engine with multi-level checking whose coarse and fine subsets
differ: the default group `exampleWideGroup`, posed at `x = angles[0]`, and
`exampleNarrowGroup` at `x = 3`; every forward kinematics succeeds. -/
def exampleWideEngine : SBPLCollisionSpace :=
  { grid_ := exampleGrid,
    model_ :=
      { sphere_groups := [exampleWideGroup, exampleNarrowGroup],
        default_group := exampleWideGroup,
        computeDefaultGroupFK := fun angles => (true, [[xShift (angles.getD 0 0)]]) },
    padding_ := 0, object_attached_ := false, object_spheres_p_ := [],
    use_multi_level_collision_check_ := true, collision_spheres_ := [],
    inc_ := [], min_limits_ := [], max_limits_ := [], continuous_ := [] }

/-- The verdict of the point validity check on waypoint `j` of a path, run on
its own: `isStateValid(path[j], verbose, false, dist)`. -/
def pointValid (ext : Externals) (cs : SBPLCollisionSpace) (path : List (List ℚ))
    (verbose : Bool) (j : Nat) : Bool :=
  (isStateValid ext cs (path.getD j []) verbose false).ret

/-- Example externals whose interpolator succeeds with the two endpoints as
the path. -/
def exampleStepExt : Externals :=
  { distance := fun a b => |a.x - b.x|,
    normalize_angle := fun a => a,
    interpolatePath := fun start end_ _ _ _ => (true, [start, end_]) }

/-- A coarse sphere geometrically bounds a fine sphere of the same frame: the
ball of the fine sphere lies in the ball of the coarse one, the distance
being that of the local centres, which a rigid frame keeps. -/
def SphereBounds (ext : Externals) (c f : Sphere) : Prop :=
  c.kdl_chain = f.kdl_chain ∧ c.kdl_segment = f.kdl_segment ∧
    ext.distance c.v f.v + f.radius ≤ c.radius

/-- The invariant of the data model: every fine sphere of the group is
geometrically bounded by a coarse sphere of the group. -/
def GroupBounded (ext : Externals) (g : Group) : Prop :=
  ∀ f ∈ g.getSpheres false, ∃ c ∈ g.getSpheres true, SphereBounds ext c f

/-- Example grid without obstacles near: every cell is in bounds with the
distance 100. -/
def exampleOpenGrid : OccupancyGrid :=
  { worldToGrid := fun x y z => (⌊x⌋, ⌊y⌋, ⌊z⌋),
    isInBounds := fun _ _ _ => true,
    getDistance := fun _ _ _ => 100 }

/-- Example group whose coarse sphere, of radius 10 at `x = 0`, bounds its fine
sphere, of radius 5 at `x = 5`. -/
def exampleBoundedLeft : Group :=
  { name := "left",
    spheres_low := [⟨"coarse", ⟨0, 0, 0⟩, 10, 0, 0⟩],
    spheres_high := [⟨"fine", ⟨5, 0, 0⟩, 5, 0, 0⟩],
    computeFK := fun _ => (true, [[KDL.Frame.Identity]]) }

/-- Example group whose coarse sphere, of radius 10 at `x = 21/2`, bounds its
fine sphere, of radius 5 at `x = 11/2`. -/
def exampleBoundedRight : Group :=
  { name := "right",
    spheres_low := [⟨"coarse", ⟨21 / 2, 0, 0⟩, 10, 0, 0⟩],
    spheres_high := [⟨"fine", ⟨11 / 2, 0, 0⟩, 5, 0, 0⟩],
    computeFK := fun _ => (true, [[KDL.Frame.Identity]]) }

/-- Example engine on the open grid with the default group
`exampleBoundedLeft` and the group `exampleBoundedRight`, both posed by the
identity frame. -/
def exampleBoundingEngine (multi : Bool) : SBPLCollisionSpace :=
  { grid_ := exampleOpenGrid,
    model_ :=
      { sphere_groups := [exampleBoundedLeft, exampleBoundedRight],
        default_group := exampleBoundedLeft,
        computeDefaultGroupFK := fun _ => (true, [[KDL.Frame.Identity]]) },
    padding_ := 0, object_attached_ := false, object_spheres_p_ := [],
    use_multi_level_collision_check_ := multi, collision_spheres_ := [],
    inc_ := [], min_limits_ := [], max_limits_ := [], continuous_ := [] }

/-! ## Double arithmetic: the rounding is monotone -/

theorem pow2_eq (e : Int) : pow2 e = (2 : ℚ) ^ e := by
  unfold pow2
  split
  · rename_i h
    obtain ⟨n, rfl⟩ := Int.eq_ofNat_of_zero_le h
    simp
  · rename_i h
    obtain ⟨n, hn⟩ : ∃ n : Nat, e = -(n : Int) := ⟨(-e).toNat, by omega⟩
    subst hn
    simp [zpow_neg]

theorem pow2_pos (e : Int) : 0 < pow2 e := by
  rw [pow2_eq]
  positivity

theorem pow2_le_pow2 (a b : Int) (h : a ≤ b) : pow2 a ≤ pow2 b := by
  rw [pow2_eq, pow2_eq]
  exact zpow_le_zpow_right₀ (by norm_num) h

theorem log2Fuel_spec : ∀ (fuel n : Nat), 0 < n → n ≤ fuel →
    2 ^ log2Fuel fuel n ≤ n ∧ n < 2 ^ (log2Fuel fuel n + 1) := by
  intro fuel
  induction fuel with
  | zero => intro n h0 h; omega
  | succ fuel ih =>
    intro n h0 h
    unfold log2Fuel
    split
    · rename_i h2
      obtain ⟨h3, h4⟩ := ih (n / 2) (by omega) (by omega)
      rw [pow_succ, pow_succ]
      constructor <;> omega
    · simp
      omega

theorem log2Floor_spec (n : Nat) (h : 0 < n) :
    2 ^ log2Floor n ≤ n ∧ n < 2 ^ (log2Floor n + 1) :=
  log2Fuel_spec n n h (Nat.le_refl n)

theorem binade_spec (q : ℚ) (hq : 0 < q) :
    (2 : ℚ) ^ binade q ≤ q ∧ q < (2 : ℚ) ^ (binade q + 1) := by
  have hn : 0 < q.num := Rat.num_pos.mpr hq
  have hd : 0 < q.den := q.den_pos
  obtain ⟨a1, a2⟩ := log2Floor_spec q.num.natAbs (by omega)
  obtain ⟨b1, b2⟩ := log2Floor_spec q.den hd
  have hqe : q = (q.num.natAbs : ℚ) / (q.den : ℚ) := by
    have h1 : ((q.num.natAbs : Int) : ℚ) = (q.num : ℚ) := by
      rw [Int.natAbs_of_nonneg hn.le]
    rw [← Int.cast_natCast (R := ℚ) q.num.natAbs, h1]
    exact (Rat.num_div_den q).symm
  have hdq : (0 : ℚ) < (q.den : ℚ) := by exact_mod_cast hd
  have a1' : (2 : ℚ) ^ log2Floor q.num.natAbs ≤ (q.num.natAbs : ℚ) := by exact_mod_cast a1
  have a2' : (q.num.natAbs : ℚ) < (2 : ℚ) ^ (log2Floor q.num.natAbs + 1) := by exact_mod_cast a2
  have b1' : (2 : ℚ) ^ log2Floor q.den ≤ (q.den : ℚ) := by exact_mod_cast b1
  have b2' : (q.den : ℚ) < (2 : ℚ) ^ (log2Floor q.den + 1) := by exact_mod_cast b2
  have hpa : (0 : ℚ) < (2 : ℚ) ^ log2Floor q.num.natAbs := by positivity
  have hpb : (0 : ℚ) < (2 : ℚ) ^ log2Floor q.den := by positivity
  unfold binade
  dsimp only
  rw [pow2_eq]
  generalize log2Floor q.num.natAbs = a at *
  generalize log2Floor q.den = b at *
  generalize (q.num.natAbs : ℚ) = N at *
  generalize (q.den : ℚ) = D at *
  have e1 : (2 : ℚ) ^ ((a : Int) - (b : Int) + 1) = (2 : ℚ) ^ (a + 1) / (2 : ℚ) ^ b := by
    rw [show (a : Int) - (b : Int) + 1 = ((a + 1 : Nat) : Int) - (b : Int) by push_cast; ring,
      zpow_sub₀ (by norm_num), zpow_natCast, zpow_natCast]
  have e2 : (2 : ℚ) ^ ((a : Int) - (b : Int) - 1) = (2 : ℚ) ^ a / (2 : ℚ) ^ (b + 1) := by
    rw [show (a : Int) - (b : Int) - 1 = (a : Int) - ((b + 1 : Nat) : Int) by push_cast; ring,
      zpow_sub₀ (by norm_num), zpow_natCast, zpow_natCast]
  split
  · rename_i h
    refine ⟨h, ?_⟩
    rw [e1, hqe, div_lt_div_iff₀ hdq hpb]
    calc N * 2 ^ b ≤ N * D := by
          apply mul_le_mul_of_nonneg_left b1'
          linarith
      _ < 2 ^ (a + 1) * D := by
          apply mul_lt_mul_of_pos_right a2' hdq
  · rename_i h
    push_neg at h
    refine ⟨?_, by simpa using h⟩
    rw [e2, hqe, div_le_div_iff₀ (by positivity) hdq]
    calc (2 : ℚ) ^ a * D ≤ 2 ^ a * 2 ^ (b + 1) := by
          apply mul_le_mul_of_nonneg_left b2'.le hpa.le
      _ ≤ N * 2 ^ (b + 1) := by
          apply mul_le_mul_of_nonneg_right a1'
          positivity

theorem binade_mono (q q' : ℚ) (hq : 0 < q) (h : q ≤ q') : binade q ≤ binade q' := by
  by_contra hlt
  push_neg at hlt
  obtain ⟨h1, -⟩ := binade_spec q hq
  obtain ⟨-, h2⟩ := binade_spec q' (lt_of_lt_of_le hq h)
  have h3 : (2 : ℚ) ^ (binade q' + 1) ≤ (2 : ℚ) ^ binade q :=
    zpow_le_zpow_right₀ (by norm_num) (by omega)
  linarith

theorem roundHalfEven_bounds (x : ℚ) : ⌊x⌋ ≤ roundHalfEven x ∧ roundHalfEven x ≤ ⌊x⌋ + 1 := by
  unfold roundHalfEven
  split_ifs <;> constructor <;> omega

theorem roundHalfEven_mono (x y : ℚ) (h : x ≤ y) : roundHalfEven x ≤ roundHalfEven y := by
  have hf := Int.floor_mono h
  rcases lt_or_eq_of_le hf with hlt | heq
  · have := (roundHalfEven_bounds x).2
    have := (roundHalfEven_bounds y).1
    omega
  · unfold roundHalfEven
    rw [← heq]
    have hxy : x - ⌊x⌋ ≤ y - ⌊x⌋ := by linarith
    split_ifs <;> first | omega | (exfalso; linarith)

theorem roundHalfEven_intCast (n : Int) : roundHalfEven (n : ℚ) = n := by
  unfold roundHalfEven
  simp

theorem roundHalfEven_nonneg (x : ℚ) (h : 0 ≤ x) : 0 ≤ roundHalfEven x :=
  le_trans (Int.floor_nonneg.mpr h) (roundHalfEven_bounds x).1

/-- Rounding to the grid of spacing `2 ^ e` is monotone. -/
theorem gridRound_mono (e : Int) (x y : ℚ) (h : x ≤ y) :
    pow2 e * (roundHalfEven (x / pow2 e) : ℚ) ≤ pow2 e * (roundHalfEven (y / pow2 e) : ℚ) := by
  apply mul_le_mul_of_nonneg_left _ (pow2_pos e).le
  exact_mod_cast roundHalfEven_mono _ _ (div_le_div_of_nonneg_right h (pow2_pos e).le)

/-- A power of two at or above the spacing lies on the grid. -/
theorem gridRound_pow2 (e k : Int) (h : e ≤ k) :
    pow2 e * (roundHalfEven (pow2 k / pow2 e) : ℚ) = pow2 k := by
  obtain ⟨n, hn⟩ : ∃ n : Nat, k = e + (n : Int) := ⟨(k - e).toNat, by omega⟩
  subst hn
  have h2 : pow2 (e + (n : Int)) / pow2 e = (((2 ^ n : Nat) : Int) : ℚ) := by
    rw [pow2_eq, pow2_eq, zpow_add₀ (by norm_num), zpow_natCast]
    field_simp
  rw [h2, roundHalfEven_intCast, pow2_eq, pow2_eq, zpow_add₀ (by norm_num), zpow_natCast]
  push_cast
  ring

theorem roundPos_nonneg (q : ℚ) (hq : 0 < q) : 0 ≤ roundPos q := by
  unfold roundPos
  apply le_min
  · apply mul_nonneg (pow2_pos _).le
    exact_mod_cast roundHalfEven_nonneg _ (div_nonneg hq.le (pow2_pos _).le)
  · exact (pow2_pos _).le

theorem roundPos_mono (q q' : ℚ) (hq : 0 < q) (h : q ≤ q') : roundPos q ≤ roundPos q' := by
  have hq' : 0 < q' := lt_of_lt_of_le hq h
  have hb := binade_mono q q' hq h
  unfold roundPos
  apply min_le_min _ (le_refl _)
  rcases eq_or_lt_of_le (show ulpExponent q ≤ ulpExponent q' by unfold ulpExponent; omega)
    with he | he
  · rw [he]
    exact gridRound_mono _ _ _ h
  · have hb' : binade q < binade q' := by
      unfold ulpExponent at he
      omega
    have hmax : ulpExponent q' = binade q' - 52 := by
      unfold ulpExponent at he ⊢
      omega
    obtain ⟨-, h1⟩ := binade_spec q hq
    obtain ⟨h2, -⟩ := binade_spec q' hq'
    have h3 : q ≤ pow2 (binade q') := by
      rw [pow2_eq]
      exact h1.le.trans (zpow_le_zpow_right₀ (by norm_num) (by omega))
    have h4 : pow2 (binade q') ≤ q' := by
      rw [pow2_eq]
      exact h2
    calc pow2 (ulpExponent q) * (roundHalfEven (q / pow2 (ulpExponent q)) : ℚ)
        ≤ pow2 (ulpExponent q) *
            (roundHalfEven (pow2 (binade q') / pow2 (ulpExponent q)) : ℚ) :=
          gridRound_mono _ _ _ h3
      _ = pow2 (binade q') := gridRound_pow2 _ _ (by omega)
      _ = pow2 (ulpExponent q') *
            (roundHalfEven (pow2 (binade q') / pow2 (ulpExponent q')) : ℚ) :=
          (gridRound_pow2 _ _ (by omega)).symm
      _ ≤ pow2 (ulpExponent q') * (roundHalfEven (q' / pow2 (ulpExponent q')) : ℚ) :=
          gridRound_mono _ _ _ h4

/-- The machine rounding is monotone. -/
theorem roundToDouble_mono (q q' : ℚ) (h : q ≤ q') : roundToDouble q ≤ roundToDouble q' := by
  unfold roundToDouble
  by_cases h1 : 0 < q
  · have h2 : 0 < q' := lt_of_lt_of_le h1 h
    rw [if_pos h1, if_pos h2]
    exact roundPos_mono q q' h1 h
  · rw [if_neg h1]
    by_cases h2 : 0 < q'
    · rw [if_pos h2]
      have hp := roundPos_nonneg q' h2
      split
      · rename_i h3
        have := roundPos_nonneg (-q) (by linarith)
        linarith
      · exact hp
    · rw [if_neg h2]
      by_cases h3 : q < 0
      · rw [if_pos h3]
        by_cases h4 : q' < 0
        · rw [if_pos h4]
          have := roundPos_mono (-q') (-q) (by linarith) (by linarith)
          linarith
        · rw [if_neg h4]
          have := roundPos_nonneg (-q) (by linarith)
          linarith
      · rw [if_neg h3]
        have h4 : ¬ q' < 0 := by
          intro h4
          exact h3 (lt_of_le_of_lt h h4)
        rw [if_neg h4]

/-- The machine sum is monotone in its first argument. -/
theorem dadd_mono_left (a a' b : ℚ) (h : a ≤ a') : dadd a b ≤ dadd a' b :=
  roundToDouble_mono _ _ (by linarith)

/-- The machine sum is monotone in its second argument. -/
theorem dadd_mono_right (a b b' : ℚ) (h : b ≤ b') : dadd a b ≤ dadd a b' :=
  roundToDouble_mono _ _ (by linarith)

/-- The larger of two machine sums with the same second term is the machine
sum of the larger first term. -/
theorem max_dadd_dadd_right (a a' b : ℚ) : max (dadd a b) (dadd a' b) = dadd (max a a') b := by
  rcases le_total a a' with h | h
  · rw [max_eq_right h, max_eq_right (dadd_mono_left a a' b h)]
  · rw [max_eq_left h, max_eq_left (dadd_mono_left a' a b h)]

/-! ## Sphere-vs-field test: verdict -/

theorem checkSpheresAgainstWorld_loop_true_iff (cs : SBPLCollisionSpace) (frames : GroupFrames)
    (visualize : Bool) (spheres : List Sphere) :
    ∀ (i : Nat) (st : SpheresLoop),
      ((checkSpheresAgainstWorld_loop cs frames visualize spheres i st).1 = true ∧
        (visualize = true →
          (checkSpheresAgainstWorld_loop cs frames visualize spheres i st).2.in_collision = false))
      ↔ ((∀ s ∈ spheres, SphereClear cs frames s) ∧
          (visualize = true → st.in_collision = false)) := by
  induction spheres with
  | nil => intro i st; simp [checkSpheresAgainstWorld_loop]
  | cons s rest ih =>
    intro i st
    simp only [checkSpheresAgainstWorld_loop, List.forall_mem_cons, SphereClear, sphereInBounds,
      fieldDistance, sphereCell]
    by_cases hb : cs.grid_.isInBounds
        (cs.grid_.worldToGrid (posedCenter frames s).x (posedCenter frames s).y
          (posedCenter frames s).z).1
        (cs.grid_.worldToGrid (posedCenter frames s).x (posedCenter frames s).y
          (posedCenter frames s).z).2.1
        (cs.grid_.worldToGrid (posedCenter frames s).x (posedCenter frames s).y
          (posedCenter frames s).z).2.2 = true
    · by_cases hd : cs.grid_.getDistance
        (cs.grid_.worldToGrid (posedCenter frames s).x (posedCenter frames s).y
          (posedCenter frames s).z).1
        (cs.grid_.worldToGrid (posedCenter frames s).x (posedCenter frames s).y
          (posedCenter frames s).z).2.1
        (cs.grid_.worldToGrid (posedCenter frames s).x (posedCenter frames s).y
          (posedCenter frames s).z).2.2 ≤ dadd s.radius cs.padding_
      · cases visualize
        · simp [hb, hd, not_lt.mpr hd]
        · simp only [hb, hd, Bool.not_true, Bool.false_eq_true, if_false, if_true, lt_self_iff_false,
            SphereClear, sphereInBounds, fieldDistance, sphereCell, true_and, not_lt.mpr hd,
            false_and, iff_false, not_and, forall_const, Bool.not_eq_false]
          intro hA
          by_contra hne
          have h2 := (ih _ _).mp ⟨hA, fun _ => by simpa using hne⟩
          simp at h2
      · simp only [hb, hd, Bool.not_true, Bool.false_eq_true, if_false, ih, SphereClear,
          sphereInBounds, fieldDistance, sphereCell, true_and, not_le.mp hd]
    · simp [hb]

theorem sphereClear_with (cs : SBPLCollisionSpace) (l : List Sphere) (frames : GroupFrames)
    (s : Sphere) :
    SphereClear { cs with collision_spheres_ := l } frames s ↔ SphereClear cs frames s :=
  Iff.rfl

theorem checkSpheresAgainstWorld_eq (cs : SBPLCollisionSpace) (frames : GroupFrames)
    (spheres : List Sphere) (verbose visualize : Bool) (sph_poses : List KDL.Vector) :
    checkSpheresAgainstWorld cs frames spheres verbose visualize sph_poses =
      ⟨(spheresRun cs frames spheres visualize sph_poses).1 &&
          !(visualize && (spheresRun cs frames spheres visualize sph_poses).2.in_collision),
        (spheresRun cs frames spheres visualize sph_poses).2.sph_poses,
        (spheresRun cs frames spheres visualize sph_poses).2.dist,
        (spheresRun cs frames spheres visualize sph_poses).2.collision_spheres_⟩ := by
  unfold checkSpheresAgainstWorld spheresRun
  dsimp only
  generalize checkSpheresAgainstWorld_loop cs frames visualize spheres 0 _ = r
  obtain ⟨b, st⟩ := r
  cases b <;> cases visualize <;> cases hc : st.in_collision <;> simp [hc]

/-- The verdict of the sphere-vs-field test, for either setting of `visualize`. -/
theorem checkSpheresAgainstWorld_ret_iff (cs : SBPLCollisionSpace) (frames : GroupFrames)
    (spheres : List Sphere) (verbose visualize : Bool) (sph_poses : List KDL.Vector) :
    (checkSpheresAgainstWorld cs frames spheres verbose visualize sph_poses).ret = true ↔
      ∀ s ∈ spheres, SphereClear cs frames s := by
  have h := checkSpheresAgainstWorld_loop_true_iff cs frames visualize spheres 0
    { sph_poses := resize sph_poses spheres.length, dist := 100, dist_temp := 100,
      in_collision := false, collision_spheres_ := cs.collision_spheres_ }
  simp only [implies_true, and_true] at h
  rw [← h, checkSpheresAgainstWorld_eq]
  unfold spheresRun
  generalize checkSpheresAgainstWorld_loop cs frames visualize spheres 0 _ = r
  obtain ⟨b, st⟩ := r
  cases b <;> cases visualize <;> cases hc : st.in_collision <;> simp [hc]

/-- The loop writes the posed centre of sphere `i + k` at index `i + k`. -/
theorem checkSpheresAgainstWorld_loop_poses (cs : SBPLCollisionSpace) (frames : GroupFrames)
    (visualize : Bool) (spheres : List Sphere) :
    ∀ (i : Nat) (st : SpheresLoop) (pre suf : List KDL.Vector),
      st.sph_poses = pre ++ suf → pre.length = i → suf.length = spheres.length →
      (checkSpheresAgainstWorld_loop cs frames visualize spheres i st).1 = true →
      (checkSpheresAgainstWorld_loop cs frames visualize spheres i st).2.sph_poses =
        pre ++ spheres.map (posedCenter frames) := by
  induction spheres with
  | nil =>
    intro i st pre suf h1 _ h3 _
    have : suf = [] := List.length_eq_zero.mp h3
    simp [checkSpheresAgainstWorld_loop, h1, this]
  | cons s rest ih =>
    intro i st pre suf h1 h2 h3
    obtain ⟨a, suf, rfl⟩ : ∃ a t, suf = a :: t := by
      cases suf with
      | nil => simp at h3
      | cons a t => exact ⟨a, t, rfl⟩
    have hset : st.sph_poses.set i (posedCenter frames s) =
        (pre ++ [posedCenter frames s]) ++ suf := by
      rw [h1, ← h2]; simp
    have hlen : (pre ++ [posedCenter frames s]).length = i + 1 := by simp [h2]
    have hsuf : suf.length = rest.length := by simpa using h3
    simp only [checkSpheresAgainstWorld_loop]
    split
    · simp
    · split
      · split
        · intro h
          rw [ih (i + 1) _ _ suf hset hlen hsuf h]; simp
        · simp
      · intro h
        rw [ih (i + 1) _ _ suf hset hlen hsuf h]; simp

theorem resize_length (l : List KDL.Vector) (n : Nat) : (resize l n).length = n := by
  simp [resize]; omega

/-- When the sphere-vs-field test passes, `sph_poses` holds the posed centres
of all spheres. -/
theorem checkSpheresAgainstWorld_poses (cs : SBPLCollisionSpace) (frames : GroupFrames)
    (spheres : List Sphere) (verbose visualize : Bool) (sph_poses : List KDL.Vector)
    (h : (checkSpheresAgainstWorld cs frames spheres verbose visualize sph_poses).ret = true) :
    (checkSpheresAgainstWorld cs frames spheres verbose visualize sph_poses).sph_poses =
      spheres.map (posedCenter frames) := by
  have key := checkSpheresAgainstWorld_loop_poses cs frames visualize spheres 0
    { sph_poses := resize sph_poses spheres.length, dist := 100, dist_temp := 100,
      in_collision := false, collision_spheres_ := cs.collision_spheres_ } []
    (resize sph_poses spheres.length) rfl rfl (resize_length _ _)
  rw [checkSpheresAgainstWorld_eq] at h ⊢
  simp only [Bool.and_eq_true] at h
  simpa [spheresRun] using key h.1

/-- C1, amended. With `visualize = false`, `checkSpheresAgainstWorld` returns
`true` exactly when every sphere's posed centre maps to a cell in bounds whose
distance is strictly greater than the machine sum `radius + padding_`; when all
cells are in bounds it returns `false` exactly when some sphere has a cell
distance at most that machine sum. For spheres whose sum `radius + padding_`
the machine computes exactly, the machine sum is the sum. -/
theorem checkSpheresAgainstWorld_valid_iff (cs : SBPLCollisionSpace) (frames : GroupFrames)
    (spheres : List Sphere) (verbose : Bool) (sph_poses : List KDL.Vector) :
    ((checkSpheresAgainstWorld cs frames spheres verbose false sph_poses).ret = true ↔
      ∀ s ∈ spheres, sphereInBounds cs frames s = true ∧
        dadd s.radius cs.padding_ < fieldDistance cs frames s) ∧
    ((∀ s ∈ spheres, sphereInBounds cs frames s = true) →
      ((checkSpheresAgainstWorld cs frames spheres verbose false sph_poses).ret = false ↔
        ∃ s ∈ spheres, fieldDistance cs frames s ≤ dadd s.radius cs.padding_)) ∧
    ((∀ s ∈ spheres, dadd s.radius cs.padding_ = s.radius + cs.padding_) →
      ((checkSpheresAgainstWorld cs frames spheres verbose false sph_poses).ret = true ↔
        ∀ s ∈ spheres, sphereInBounds cs frames s = true ∧
          s.radius + cs.padding_ < fieldDistance cs frames s) ∧
      ((∀ s ∈ spheres, sphereInBounds cs frames s = true) →
        ((checkSpheresAgainstWorld cs frames spheres verbose false sph_poses).ret = false ↔
          ∃ s ∈ spheres, fieldDistance cs frames s ≤ s.radius + cs.padding_))) := by
  have hA := checkSpheresAgainstWorld_ret_iff cs frames spheres verbose false sph_poses
  have hB : (∀ s ∈ spheres, sphereInBounds cs frames s = true) →
      ((checkSpheresAgainstWorld cs frames spheres verbose false sph_poses).ret = false ↔
        ∃ s ∈ spheres, fieldDistance cs frames s ≤ dadd s.radius cs.padding_) := by
    intro hb
    rw [← Bool.not_eq_true, checkSpheresAgainstWorld_ret_iff]
    simp only [SphereClear, not_forall, not_and, not_lt]
    constructor
    · rintro ⟨s, hs, h⟩
      exact ⟨s, hs, h (hb s hs)⟩
    · rintro ⟨s, hs, h⟩
      exact ⟨s, hs, fun _ => h⟩
  refine ⟨hA, hB, fun hex => ⟨?_, fun hb => ?_⟩⟩
  · rw [hA]
    constructor
    · intro h s hs
      rw [← hex s hs]
      exact h s hs
    · intro h s hs
      have := h s hs
      rw [← hex s hs] at this
      exact this
  · rw [hB hb]
    constructor
    · rintro ⟨s, hs, h⟩
      exact ⟨s, hs, by rw [← hex s hs]; exact h⟩
    · rintro ⟨s, hs, h⟩
      exact ⟨s, hs, by rw [hex s hs]; exact h⟩

/-! ## Sphere-group-vs-sphere-group test: verdict -/

theorem checkSphereGroupAgainstSphereGroup_inner_true_iff (ext : Externals)
    (cs : SBPLCollisionSpace) (visualize : Bool) (g1 : Sphere) (s1 : KDL.Vector)
    (l2 : List (Sphere × KDL.Vector)) :
    ∀ st : GroupPairLoop,
      ((checkSphereGroupAgainstSphereGroup_inner ext cs visualize g1 s1 l2 st).1 = true ∧
        (visualize = true →
          (checkSphereGroupAgainstSphereGroup_inner ext cs visualize g1 s1 l2 st).2.in_collision
            = false))
      ↔ ((∀ p2 ∈ l2, PairClear ext cs (g1, s1) p2) ∧
          (visualize = true → st.in_collision = false)) := by
  induction l2 with
  | nil => intro st; simp [checkSphereGroupAgainstSphereGroup_inner]
  | cons p2 rest ih =>
    intro st
    obtain ⟨g2, s2⟩ := p2
    simp only [checkSphereGroupAgainstSphereGroup_inner, List.forall_mem_cons, PairClear]
    by_cases hd : ext.distance s1 s2 ≤
        max (dadd g1.radius cs.padding_) (dadd g2.radius cs.padding_)
    · cases visualize
      · simp [hd, not_lt.mpr hd]
      · simp only [hd, if_true, not_lt.mpr hd, false_and, iff_false, not_and, forall_const,
          Bool.not_eq_false]
        intro hA
        by_contra hne
        have h2 := (ih _).mp ⟨hA, fun _ => by simpa using hne⟩
        simp at h2
    · simp only [hd, if_false, ih, PairClear, not_le.mp hd, true_and]

theorem checkSphereGroupAgainstSphereGroup_outer_true_iff (ext : Externals)
    (cs : SBPLCollisionSpace) (visualize : Bool) (l2 l1 : List (Sphere × KDL.Vector)) :
    ∀ st : GroupPairLoop,
      ((checkSphereGroupAgainstSphereGroup_outer ext cs visualize l2 l1 st).1 = true ∧
        (visualize = true →
          (checkSphereGroupAgainstSphereGroup_outer ext cs visualize l2 l1 st).2.in_collision
            = false))
      ↔ ((∀ p1 ∈ l1, ∀ p2 ∈ l2, PairClear ext cs p1 p2) ∧
          (visualize = true → st.in_collision = false)) := by
  induction l1 with
  | nil => intro st; simp [checkSphereGroupAgainstSphereGroup_outer]
  | cons p1 rest ih =>
    intro st
    obtain ⟨g1, s1⟩ := p1
    have hin := checkSphereGroupAgainstSphereGroup_inner_true_iff ext cs visualize g1 s1 l2 st
    simp only [checkSphereGroupAgainstSphereGroup_outer, List.forall_mem_cons]
    revert hin
    generalize checkSphereGroupAgainstSphereGroup_inner ext cs visualize g1 s1 l2 st = r
    obtain ⟨b, st1⟩ := r
    intro hin
    cases b
    · simp only [Bool.false_eq_true, false_and, false_iff, not_and] at hin ⊢
      intro h1 h3
      exact hin h1.1 h3
    · simp only [true_and] at hin
      simp only [ih]
      constructor
      · rintro ⟨h1, h2⟩
        have := hin.mp h2
        exact ⟨⟨this.1, h1⟩, this.2⟩
      · rintro ⟨⟨h1, h2⟩, h3⟩
        exact ⟨h2, hin.mpr ⟨h1, h3⟩⟩

theorem checkSphereGroupAgainstSphereGroup_eq (ext : Externals) (cs : SBPLCollisionSpace)
    (group1 group2 : Group) (spheres1 spheres2 : List KDL.Vector)
    (low_res1 low_res2 verbose visualize : Bool)
    (h1 : (group1.getSpheres low_res1).length = spheres1.length)
    (h2 : (group2.getSpheres low_res2).length = spheres2.length) :
    checkSphereGroupAgainstSphereGroup ext cs group1 group2 spheres1 spheres2 low_res1 low_res2
        verbose visualize =
      ⟨(groupPairRun ext cs visualize ((group1.getSpheres low_res1).zip spheres1)
            ((group2.getSpheres low_res2).zip spheres2)).1 &&
          !(visualize && (groupPairRun ext cs visualize ((group1.getSpheres low_res1).zip spheres1)
            ((group2.getSpheres low_res2).zip spheres2)).2.in_collision),
        (groupPairRun ext cs visualize ((group1.getSpheres low_res1).zip spheres1)
            ((group2.getSpheres low_res2).zip spheres2)).2.dist,
        (groupPairRun ext cs visualize ((group1.getSpheres low_res1).zip spheres1)
            ((group2.getSpheres low_res2).zip spheres2)).2.collision_spheres_,
        (groupPairRun ext cs visualize ((group1.getSpheres low_res1).zip spheres1)
            ((group2.getSpheres low_res2).zip spheres2)).2.cntr⟩ := by
  unfold checkSphereGroupAgainstSphereGroup groupPairRun
  dsimp only
  rw [if_neg (by simp [h1, h2])]
  generalize checkSphereGroupAgainstSphereGroup_outer ext cs visualize _ _ _ = r
  obtain ⟨b, st⟩ := r
  cases b <;> cases visualize <;> cases hc : st.in_collision <;> simp [hc]

theorem checkSphereGroupAgainstSphereGroup_mismatch (ext : Externals) (cs : SBPLCollisionSpace)
    (group1 group2 : Group) (spheres1 spheres2 : List KDL.Vector)
    (low_res1 low_res2 verbose visualize : Bool)
    (h : (group1.getSpheres low_res1).length ≠ spheres1.length ∨
      (group2.getSpheres low_res2).length ≠ spheres2.length) :
    checkSphereGroupAgainstSphereGroup ext cs group1 group2 spheres1 spheres2 low_res1 low_res2
        verbose visualize = ⟨false, 100, cs.collision_spheres_, 0⟩ := by
  unfold checkSphereGroupAgainstSphereGroup
  dsimp only
  rw [if_pos h]

/-- The verdict of the pairwise test, for either setting of `visualize`. -/
theorem checkSphereGroupAgainstSphereGroup_ret_iff (ext : Externals) (cs : SBPLCollisionSpace)
    (group1 group2 : Group) (spheres1 spheres2 : List KDL.Vector)
    (low_res1 low_res2 verbose visualize : Bool) :
    (checkSphereGroupAgainstSphereGroup ext cs group1 group2 spheres1 spheres2 low_res1 low_res2
        verbose visualize).ret = true ↔
      ((group1.getSpheres low_res1).length = spheres1.length ∧
        (group2.getSpheres low_res2).length = spheres2.length) ∧
      ∀ p1 ∈ (group1.getSpheres low_res1).zip spheres1,
        ∀ p2 ∈ (group2.getSpheres low_res2).zip spheres2, PairClear ext cs p1 p2 := by
  by_cases h : (group1.getSpheres low_res1).length = spheres1.length ∧
      (group2.getSpheres low_res2).length = spheres2.length
  · have key := checkSphereGroupAgainstSphereGroup_outer_true_iff ext cs visualize
      ((group2.getSpheres low_res2).zip spheres2) ((group1.getSpheres low_res1).zip spheres1)
      { dist := 100, in_collision := false, collision_spheres_ := cs.collision_spheres_,
        cntr := 0 }
    simp only [implies_true, and_true] at key
    rw [checkSphereGroupAgainstSphereGroup_eq ext cs _ _ _ _ _ _ _ _ h.1 h.2, ← key]
    simp only [h, true_and, and_self]
    unfold groupPairRun
    generalize checkSphereGroupAgainstSphereGroup_outer ext cs visualize _ _ _ = r
    obtain ⟨b, st⟩ := r
    cases b <;> cases visualize <;> cases hc : st.in_collision <;> simp [hc]
  · rw [checkSphereGroupAgainstSphereGroup_mismatch ext cs _ _ _ _ _ _ _ _ (by tauto)]
    simp [h]

/-- C2, amended. Given posed sphere lists whose lengths match the sphere
counts of the groups, `checkSphereGroupAgainstSphereGroup` returns `false`
exactly when some pair `(i, j)`, one sphere of each group, has a centre
distance `d` at most the machine sum `max(radius1_i, radius2_j) + padding_`:
equality with the machine sum is a collision, any larger distance is not, and
the sum of the radii plays no part. For pairs whose sum
`max(radius1_i, radius2_j) + padding_` the machine computes exactly, the
machine sum is the sum. -/
theorem checkSphereGroupAgainstSphereGroup_collision_iff (ext : Externals)
    (cs : SBPLCollisionSpace) (group1 group2 : Group) (spheres1 spheres2 : List KDL.Vector)
    (low_res1 low_res2 verbose visualize : Bool)
    (h1 : spheres1.length = (group1.getSpheres low_res1).length)
    (h2 : spheres2.length = (group2.getSpheres low_res2).length) :
    ((checkSphereGroupAgainstSphereGroup ext cs group1 group2 spheres1 spheres2 low_res1 low_res2
        verbose visualize).ret = false ↔
      ∃ (i j : Nat) (g1 g2 : Sphere) (c1 c2 : KDL.Vector),
        (group1.getSpheres low_res1)[i]? = some g1 ∧ spheres1[i]? = some c1 ∧
        (group2.getSpheres low_res2)[j]? = some g2 ∧ spheres2[j]? = some c2 ∧
        ext.distance c1 c2 ≤ dadd (max g1.radius g2.radius) cs.padding_) ∧
    ((∀ g1 ∈ group1.getSpheres low_res1, ∀ g2 ∈ group2.getSpheres low_res2,
        dadd (max g1.radius g2.radius) cs.padding_ = max g1.radius g2.radius + cs.padding_) →
      ((checkSphereGroupAgainstSphereGroup ext cs group1 group2 spheres1 spheres2 low_res1
          low_res2 verbose visualize).ret = false ↔
        ∃ (i j : Nat) (g1 g2 : Sphere) (c1 c2 : KDL.Vector),
          (group1.getSpheres low_res1)[i]? = some g1 ∧ spheres1[i]? = some c1 ∧
          (group2.getSpheres low_res2)[j]? = some g2 ∧ spheres2[j]? = some c2 ∧
          ext.distance c1 c2 ≤ max g1.radius g2.radius + cs.padding_)) := by
  have hA : (checkSphereGroupAgainstSphereGroup ext cs group1 group2 spheres1 spheres2 low_res1
        low_res2 verbose visualize).ret = false ↔
      ∃ (i j : Nat) (g1 g2 : Sphere) (c1 c2 : KDL.Vector),
        (group1.getSpheres low_res1)[i]? = some g1 ∧ spheres1[i]? = some c1 ∧
        (group2.getSpheres low_res2)[j]? = some g2 ∧ spheres2[j]? = some c2 ∧
        ext.distance c1 c2 ≤ dadd (max g1.radius g2.radius) cs.padding_ := by
    rw [← Bool.not_eq_true, checkSphereGroupAgainstSphereGroup_ret_iff]
    simp only [h1, h2, and_self, true_and, not_forall, PairClear, not_lt, List.mem_iff_getElem?,
      List.getElem?_zip_eq_some, max_dadd_dadd_right]
    constructor
    · rintro ⟨⟨g1, c1⟩, ⟨i, hi1, hi2⟩, ⟨g2, c2⟩, ⟨j, hj1, hj2⟩, hd⟩
      exact ⟨i, j, g1, g2, c1, c2, hi1, hi2, hj1, hj2, hd⟩
    · rintro ⟨i, j, g1, g2, c1, c2, hi1, hi2, hj1, hj2, hd⟩
      exact ⟨(g1, c1), ⟨i, hi1, hi2⟩, (g2, c2), ⟨j, hj1, hj2⟩, hd⟩
  refine ⟨hA, fun hex => ?_⟩
  rw [hA]
  constructor
  · rintro ⟨i, j, g1, g2, c1, c2, hi1, hi2, hj1, hj2, hd⟩
    refine ⟨i, j, g1, g2, c1, c2, hi1, hi2, hj1, hj2, ?_⟩
    rw [← hex g1 (List.mem_iff_getElem?.mpr ⟨i, hi1⟩) g2 (List.mem_iff_getElem?.mpr ⟨j, hj1⟩)]
    exact hd
  · rintro ⟨i, j, g1, g2, c1, c2, hi1, hi2, hj1, hj2, hd⟩
    refine ⟨i, j, g1, g2, c1, c2, hi1, hi2, hj1, hj2, ?_⟩
    rw [hex g1 (List.mem_iff_getElem?.mpr ⟨i, hi1⟩) g2 (List.mem_iff_getElem?.mpr ⟨j, hj1⟩)]
    exact hd

/-! ## Per-resolution check: verdict -/

theorem spheresClear_with (cs : SBPLCollisionSpace) (l : List Sphere) (frames : GroupFrames)
    (spheres : List Sphere) :
    SpheresClear { cs with collision_spheres_ := l } frames spheres ↔
      SpheresClear cs frames spheres :=
  Iff.rfl

theorem groupsClear_with (ext : Externals) (cs : SBPLCollisionSpace) (l : List Sphere)
    (group1 group2 : Group) (low_res1 low_res2 : Bool) (spheres1 spheres2 : List KDL.Vector) :
    GroupsClear ext { cs with collision_spheres_ := l } group1 group2 low_res1 low_res2
        spheres1 spheres2 ↔
      GroupsClear ext cs group1 group2 low_res1 low_res2 spheres1 spheres2 :=
  Iff.rfl

theorem checkSpheresAgainstWorld_ret_iff' (cs : SBPLCollisionSpace) (frames : GroupFrames)
    (spheres : List Sphere) (verbose visualize : Bool) (sph_poses : List KDL.Vector) :
    (checkSpheresAgainstWorld cs frames spheres verbose visualize sph_poses).ret = true ↔
      SpheresClear cs frames spheres :=
  checkSpheresAgainstWorld_ret_iff cs frames spheres verbose visualize sph_poses

theorem checkSphereGroupAgainstSphereGroup_ret_iff' (ext : Externals) (cs : SBPLCollisionSpace)
    (group1 group2 : Group) (spheres1 spheres2 : List KDL.Vector)
    (low_res1 low_res2 verbose visualize : Bool) :
    (checkSphereGroupAgainstSphereGroup ext cs group1 group2 spheres1 spheres2 low_res1 low_res2
        verbose visualize).ret = true ↔
      GroupsClear ext cs group1 group2 low_res1 low_res2 spheres1 spheres2 :=
  checkSphereGroupAgainstSphereGroup_ret_iff ext cs group1 group2 spheres1 spheres2 low_res1
    low_res2 verbose visualize

/-! ## Per-resolution check: the blocks -/

theorem checkCollision_attached_true_iff (cs : SBPLCollisionSpace) (frames : GroupFrames)
    (verbose visualize : Bool) (st : CollisionLoop) :
    ((checkCollision_attached cs frames verbose visualize st).1 = true ∧
      (visualize = true →
        (checkCollision_attached cs frames verbose visualize st).2.in_collision = false))
    ↔ ((cs.object_attached_ = true → SpheresClear cs frames cs.object_spheres_p_) ∧
        (visualize = true → st.in_collision = false)) := by
  have hwiff := checkSpheresAgainstWorld_ret_iff'
    { cs with collision_spheres_ := st.collision_spheres_ } frames cs.object_spheres_p_
    verbose visualize st.dg_spheres
  rw [spheresClear_with] at hwiff
  unfold checkCollision_attached
  dsimp only
  generalize checkSpheresAgainstWorld _ _ _ _ _ _ = W at hwiff ⊢
  cases ha : cs.object_attached_
  · simp
  · rw [← hwiff]
    cases hW : W.ret <;> cases visualize <;> simp

theorem checkCollision_default_true_iff (cs : SBPLCollisionSpace) (dgroup : Group)
    (frames : GroupFrames) (low_res verbose visualize : Bool) (st : CollisionLoop) :
    ((checkCollision_default cs dgroup frames low_res verbose visualize st).1 = true ∧
      (visualize = true →
        (checkCollision_default cs dgroup frames low_res verbose visualize st).2.in_collision
          = false))
    ↔ (SpheresClear cs frames (dgroup.getSpheres low_res) ∧
        (visualize = true → st.in_collision = false)) := by
  have hwiff := checkSpheresAgainstWorld_ret_iff'
    { cs with collision_spheres_ := st.collision_spheres_ } frames (dgroup.getSpheres low_res)
    verbose visualize st.dg_spheres
  rw [spheresClear_with] at hwiff
  unfold checkCollision_default
  dsimp only
  generalize checkSpheresAgainstWorld _ _ _ _ _ _ = W at hwiff ⊢
  rw [← hwiff]
  cases hW : W.ret <;> cases visualize <;> simp

theorem checkCollision_default_dg_spheres (cs : SBPLCollisionSpace) (dgroup : Group)
    (frames : GroupFrames) (low_res verbose visualize : Bool) (st : CollisionLoop)
    (h : SpheresClear cs frames (dgroup.getSpheres low_res)) :
    (checkCollision_default cs dgroup frames low_res verbose visualize st).2.dg_spheres =
      (dgroup.getSpheres low_res).map (posedCenter frames) := by
  have hret := (checkSpheresAgainstWorld_ret_iff'
    { cs with collision_spheres_ := st.collision_spheres_ } frames (dgroup.getSpheres low_res)
    verbose visualize st.dg_spheres).mpr h
  have hposes := checkSpheresAgainstWorld_poses _ _ _ _ _ _ hret
  unfold checkCollision_default
  dsimp only
  rw [hret, hposes]
  simp

theorem checkCollision_group_true_iff (ext : Externals) (cs : SBPLCollisionSpace)
    (dgroup : Group) (low_res verbose visualize : Bool) (g : Group) (frames : GroupFrames)
    (st : CollisionLoop) :
    ((checkCollision_group ext cs dgroup low_res verbose visualize g frames st).1 = true ∧
      (visualize = true →
        (checkCollision_group ext cs dgroup low_res verbose visualize g frames st).2.in_collision
          = false))
    ↔ ((SpheresClear cs frames (g.getSpheres low_res) ∧
          GroupsClear ext cs dgroup g low_res low_res st.dg_spheres
            ((g.getSpheres low_res).map (posedCenter frames))) ∧
        (visualize = true → st.in_collision = false)) := by
  have hwiff := checkSpheresAgainstWorld_ret_iff'
    { cs with collision_spheres_ := st.collision_spheres_ } frames (g.getSpheres low_res)
    verbose visualize st.g_spheres
  have hposes := checkSpheresAgainstWorld_poses
    { cs with collision_spheres_ := st.collision_spheres_ } frames (g.getSpheres low_res)
    verbose visualize st.g_spheres
  rw [spheresClear_with] at hwiff
  unfold checkCollision_group
  dsimp only
  generalize checkSpheresAgainstWorld _ _ _ _ _ _ = W at hwiff hposes ⊢
  have hpiff := checkSphereGroupAgainstSphereGroup_ret_iff' ext
    { cs with collision_spheres_ := W.collision_spheres_ } dgroup g
    st.dg_spheres W.sph_poses low_res low_res verbose visualize
  rw [groupsClear_with] at hpiff
  generalize checkSphereGroupAgainstSphereGroup _ _ _ _ _ _ _ _ _ _ = P at hpiff ⊢
  rw [← hwiff]
  cases hW : W.ret
  · cases hP : P.ret <;> cases visualize <;> simp
  · rw [hposes hW] at hpiff
    rw [← hpiff]
    cases hP : P.ret <;> cases visualize <;> simp

theorem checkCollision_group_dg_spheres (ext : Externals) (cs : SBPLCollisionSpace)
    (dgroup : Group) (low_res verbose visualize : Bool) (g : Group) (frames : GroupFrames)
    (st : CollisionLoop) :
    (checkCollision_group ext cs dgroup low_res verbose visualize g frames st).2.dg_spheres =
      st.dg_spheres := by
  unfold checkCollision_group
  dsimp only
  split
  · rfl
  · split <;> rfl

theorem checkCollision_res_loop_true_iff (ext : Externals) (cs : SBPLCollisionSpace)
    (low_res verbose visualize : Bool) (sg : List Group) :
    ∀ st : CollisionLoop,
      ((checkCollision_res_loop ext cs low_res verbose visualize sg st).1 = true ∧
        (visualize = true →
          (checkCollision_res_loop ext cs low_res verbose visualize sg st).2.in_collision = false))
      ↔ ((∀ g ∈ sg, GroupPass ext cs cs.model_.default_group st.dg_spheres low_res g
            (g.computeFK [])) ∧
          (visualize = true → st.in_collision = false)) := by
  induction sg with
  | nil => intro st; simp [checkCollision_res_loop]
  | cons g rest ih =>
    intro st
    have hg := checkCollision_group_true_iff ext cs cs.model_.default_group low_res verbose
      visualize g (g.computeFK []).2 st
    have hdg := checkCollision_group_dg_spheres ext cs cs.model_.default_group low_res verbose
      visualize g (g.computeFK []).2 st
    simp only [checkCollision_res_loop, List.forall_mem_cons, GroupPass]
    generalize checkCollision_group _ _ _ _ _ _ _ _ _ = G at hg hdg ⊢
    obtain ⟨b, st1⟩ := G
    cases hfk : (g.computeFK []).1
    · simp
    · cases b
      · simp only [Bool.false_eq_true, false_and, false_iff, not_and] at hg
        simp only [Bool.not_true, Bool.false_eq_true, if_false, false_and, true_and, false_iff,
          not_and]
        intro h
        exact hg h.1
      · simp only [true_and] at hg
        simp only [Bool.not_true, Bool.false_eq_true, if_false, true_and, ih, GroupPass]
        simp only at hdg
        rw [hdg, hg]
        tauto

theorem checkCollision_res_ret_iff (ext : Externals) (cs : SBPLCollisionSpace) (angles : List ℚ)
    (low_res verbose visualize : Bool) :
    (checkCollision_res ext cs angles low_res verbose visualize).ret = true ↔
      CheckPass ext cs cs.model_.default_group low_res (cs.model_.computeDefaultGroupFK angles)
        ((cs.model_.sphere_groups.drop 1).map (fun g => (g, g.computeFK []))) := by
  unfold CheckPass
  simp only [List.forall_mem_map]
  unfold checkCollision_res
  dsimp only
  cases hfk : (cs.model_.computeDefaultGroupFK angles).1
  · simp
  simp only [Bool.not_true, Bool.false_eq_true, if_false, true_and]
  have hA := checkCollision_attached_true_iff cs (cs.model_.computeDefaultGroupFK angles).2
    verbose visualize
    { in_collision := false, dist := 100, dg_spheres := [], g_spheres := [],
      collision_spheres_ := if visualize = true then [] else cs.collision_spheres_ }
  generalize checkCollision_attached _ _ _ _ _ = A at hA ⊢
  obtain ⟨bA, stA⟩ := A
  simp only [implies_true, and_true] at hA
  cases bA
  · simp only [Bool.false_eq_true, false_and, false_iff] at hA
    simp [hA]
  simp only [true_and] at hA
  dsimp only
  have hD := checkCollision_default_true_iff cs cs.model_.default_group
    (cs.model_.computeDefaultGroupFK angles).2 low_res verbose visualize stA
  have hDdg := checkCollision_default_dg_spheres cs cs.model_.default_group
    (cs.model_.computeDefaultGroupFK angles).2 low_res verbose visualize stA
  generalize checkCollision_default _ _ _ _ _ _ _ = D at hD hDdg ⊢
  obtain ⟨bD, stD⟩ := D
  simp only at hD hDdg
  cases bD
  · simp only [Bool.false_eq_true, false_and, false_iff, not_and] at hD
    simp only [Bool.false_eq_true, false_iff, not_and]
    intro h1 h2
    exact absurd (hA.mpr h1) (hD h2)
  simp only [true_and] at hD
  dsimp only
  have hL := checkCollision_res_loop_true_iff ext cs low_res verbose visualize
    (cs.model_.sphere_groups.drop 1) stD
  generalize checkCollision_res_loop _ _ _ _ _ _ _ = L at hL ⊢
  obtain ⟨bL, stL⟩ := L
  simp only at hL
  have key : (bL = true ∧ (visualize = true → stL.in_collision = false)) ↔
      ((cs.object_attached_ = true →
          SpheresClear cs (cs.model_.computeDefaultGroupFK angles).2 cs.object_spheres_p_) ∧
        SpheresClear cs (cs.model_.computeDefaultGroupFK angles).2
          (cs.model_.default_group.getSpheres low_res) ∧
        ∀ g ∈ cs.model_.sphere_groups.drop 1,
          GroupPass ext cs cs.model_.default_group
            ((cs.model_.default_group.getSpheres low_res).map
              (posedCenter (cs.model_.computeDefaultGroupFK angles).2)) low_res g
            (g.computeFK [])) := by
    rw [hL, hD, hA]
    constructor
    · rintro ⟨h1, h2, h3⟩
      rw [hDdg h2] at h1
      exact ⟨h3, h2, h1⟩
    · rintro ⟨h1, h2, h3⟩
      rw [hDdg h2]
      exact ⟨h3, h2, h1⟩
  rw [← key]
  cases bL <;> cases visualize <;> cases hc : stL.in_collision <;> simp [hc]

theorem cachedFK_step_getD_ne (r : Bool × GroupFrames) (frames : FrameCache) (i j : Nat)
    (h : i ≠ j) : (cachedFK_step r frames i).2.getD j [] = frames.getD j [] := by
  unfold cachedFK_step
  split
  · simp [List.getD_eq_getElem?_getD, List.getElem?_set_ne h]
  · rfl

theorem cachedFK_step_length (r : Bool × GroupFrames) (frames : FrameCache) (i : Nat) :
    (cachedFK_step r frames i).2.length = frames.length := by
  unfold cachedFK_step
  split <;> simp

theorem cachedFK_of_step_ne (r r' : Bool × GroupFrames) (frames : FrameCache) (i j : Nat)
    (h : i ≠ j) : cachedFK r' (cachedFK_step r frames i).2 j = cachedFK r' frames j := by
  unfold cachedFK
  have h1 := cachedFK_step_getD_ne r frames i j h
  have h2 := cachedFK_step_length r frames i
  generalize (cachedFK_step r frames i).2 = F at h1 h2
  unfold cachedFK_step
  rw [h1]
  split
  · simp [List.getD_eq_getElem?_getD, List.getElem?_set, h2]
  · simpa [List.getD_eq_getElem?_getD] using h1

theorem cachedGroups_of_step (r : Bool × GroupFrames) (frames : FrameCache) (i : Nat)
    (sg : List Group) :
    ∀ j, i < j → cachedGroups sg j (cachedFK_step r frames i).2 = cachedGroups sg j frames := by
  induction sg with
  | nil => intro j _; rfl
  | cons g rest ih =>
    intro j hj
    simp only [cachedGroups]
    rw [cachedFK_of_step_ne r _ frames i j (by omega), ih (j + 1) (by omega)]

theorem checkCollision_frames_loop_true_iff (ext : Externals) (cs : SBPLCollisionSpace)
    (sg0 : Group) (low_res verbose visualize : Bool) (sg : List Group) :
    ∀ (i : Nat) (frames : FrameCache) (st : CollisionLoop),
      ((checkCollision_frames_loop ext cs sg0 low_res verbose visualize sg i frames st).1 = true ∧
        (visualize = true →
          (checkCollision_frames_loop ext cs sg0 low_res verbose visualize sg i frames
            st).2.2.in_collision = false))
      ↔ ((∀ gf ∈ cachedGroups sg i frames,
            GroupPass ext cs sg0 st.dg_spheres low_res gf.1 gf.2) ∧
          (visualize = true → st.in_collision = false)) := by
  induction sg with
  | nil => intro i frames st; simp [checkCollision_frames_loop, cachedGroups]
  | cons g rest ih =>
    intro i frames st
    have hg := checkCollision_group_true_iff ext cs sg0 low_res verbose
      visualize g ((cachedFK_step (g.computeFK []) frames i).2.getD i []) st
    have hdg := checkCollision_group_dg_spheres ext cs sg0 low_res verbose
      visualize g ((cachedFK_step (g.computeFK []) frames i).2.getD i []) st
    simp only [checkCollision_frames_loop, cachedGroups, List.forall_mem_cons, GroupPass, cachedFK]
    generalize checkCollision_group _ _ _ _ _ _ _ _ _ = G at hg hdg ⊢
    obtain ⟨b, st1⟩ := G
    cases hfk : (cachedFK_step (g.computeFK []) frames i).1
    · simp
    · cases b
      · simp only [Bool.false_eq_true, false_and, false_iff, not_and] at hg
        simp only [Bool.not_true, Bool.false_eq_true, if_false, false_and, true_and, false_iff,
          not_and]
        intro h
        exact hg h.1
      · simp only [true_and] at hg
        simp only [Bool.not_true, Bool.false_eq_true, if_false, true_and, ih, GroupPass]
        simp only at hdg
        rw [hdg, hg, cachedGroups_of_step _ _ _ _ _ (Nat.lt_succ_self i)]
        tauto

theorem checkCollision_frames_ret_iff (ext : Externals) (cs : SBPLCollisionSpace)
    (angles : List ℚ) (frames : FrameCache) (low_res verbose visualize : Bool) :
    (checkCollision_frames ext cs angles frames low_res verbose visualize).ret = true ↔
      ∃ sg0 sg, cs.model_.sphere_groups = sg0 :: sg ∧
        CheckPass ext cs sg0 low_res
          (cachedFK (cs.model_.computeDefaultGroupFK angles) (initialCache cs frames) 0)
          (cachedGroups sg 1 (initialCache cs frames)) := by
  unfold checkCollision_frames initialCache
  cases hsg : cs.model_.sphere_groups with
  | nil => simp
  | cons sg0 sg =>
    have hex : ∀ P : Group → List Group → Prop,
        (∃ a b, sg0 :: sg = a :: b ∧ P a b) ↔ P sg0 sg := by
      intro P
      constructor
      · rintro ⟨a, b, hab, h⟩
        cases hab
        exact h
      · intro h
        exact ⟨sg0, sg, rfl, h⟩
    rw [hex]
    dsimp only
    generalize (if frames.isEmpty = true then List.replicate (sg0 :: sg).length [] else frames)
      = F
    unfold CheckPass cachedFK
    cases hfk : (cachedFK_step (cs.model_.computeDefaultGroupFK angles) F 0).1
    · simp
    simp only [Bool.not_true, Bool.false_eq_true, if_false, true_and]
    have hA := checkCollision_attached_true_iff cs
      ((cachedFK_step (cs.model_.computeDefaultGroupFK angles) F 0).2.getD 0 [])
      verbose visualize
      { in_collision := false, dist := 100, dg_spheres := [], g_spheres := [],
        collision_spheres_ := if visualize = true then [] else cs.collision_spheres_ }
    generalize checkCollision_attached _ _ _ _ _ = A at hA ⊢
    obtain ⟨bA, stA⟩ := A
    simp only [implies_true, and_true] at hA
    cases bA
    · simp only [Bool.false_eq_true, false_and, false_iff] at hA
      simp only [Bool.false_eq_true, false_iff, not_and]
      intro h
      exact absurd h hA
    simp only [true_and] at hA
    dsimp only
    have hD := checkCollision_default_true_iff cs sg0
      ((cachedFK_step (cs.model_.computeDefaultGroupFK angles) F 0).2.getD 0 [])
      low_res verbose visualize stA
    have hDdg := checkCollision_default_dg_spheres cs sg0
      ((cachedFK_step (cs.model_.computeDefaultGroupFK angles) F 0).2.getD 0 [])
      low_res verbose visualize stA
    generalize checkCollision_default _ _ _ _ _ _ _ = D at hD hDdg ⊢
    obtain ⟨bD, stD⟩ := D
    simp only at hD hDdg
    cases bD
    · simp only [Bool.false_eq_true, false_and, false_iff, not_and] at hD
      simp only [Bool.false_eq_true, false_iff, not_and]
      intro h1 h2
      exact absurd (hA.mpr h1) (hD h2)
    simp only [true_and] at hD
    dsimp only
    have hL := checkCollision_frames_loop_true_iff ext cs sg0 low_res verbose visualize sg 1
      (cachedFK_step (cs.model_.computeDefaultGroupFK angles) F 0).2 stD
    rw [cachedGroups_of_step _ _ _ _ _ Nat.zero_lt_one] at hL
    generalize checkCollision_frames_loop _ _ _ _ _ _ _ _ _ _ = L at hL ⊢
    obtain ⟨bL, FL, stL⟩ := L
    simp only at hL
    have key : (bL = true ∧ (visualize = true → stL.in_collision = false)) ↔
        ((cs.object_attached_ = true →
            SpheresClear cs ((cachedFK_step (cs.model_.computeDefaultGroupFK angles) F
              0).2.getD 0 []) cs.object_spheres_p_) ∧
          SpheresClear cs ((cachedFK_step (cs.model_.computeDefaultGroupFK angles) F
              0).2.getD 0 []) (sg0.getSpheres low_res) ∧
          ∀ gf ∈ cachedGroups sg 1 F,
            GroupPass ext cs sg0
              ((sg0.getSpheres low_res).map
                (posedCenter ((cachedFK_step (cs.model_.computeDefaultGroupFK angles) F
                  0).2.getD 0 []))) low_res gf.1 gf.2) := by
      rw [hL, hD, hA]
      constructor
      · rintro ⟨h1, h2, h3⟩
        rw [hDdg h2] at h1
        exact ⟨h3, h2, h1⟩
      · rintro ⟨h1, h2, h3⟩
        rw [hDdg h2]
        exact ⟨h3, h2, h1⟩
    rw [← key]
    cases bL <;> cases visualize <;> cases hc : stL.in_collision <;> simp [hc]

/-! ## Per-resolution check: the result -/

theorem cachedFK_replicate (r : Bool × GroupFrames) (n i : Nat) (h : i < n) :
    cachedFK r (List.replicate n []) i = r := by
  unfold cachedFK cachedFK_step
  simp [List.getD_eq_getElem?_getD, List.getElem?_replicate, List.getElem?_set, h]

theorem cachedGroups_replicate (n : Nat) (sg : List Group) :
    ∀ i, i + sg.length ≤ n →
      cachedGroups sg i (List.replicate n []) = sg.map (fun g => (g, g.computeFK [])) := by
  induction sg with
  | nil => intro i _; rfl
  | cons g rest ih =>
    intro i hi
    simp only [List.length_cons] at hi
    simp only [cachedGroups, List.map_cons]
    rw [cachedFK_replicate _ _ _ (by omega), ih (i + 1) (by omega)]

theorem initialCache_nil (cs : SBPLCollisionSpace) :
    initialCache cs [] = List.replicate cs.model_.sphere_groups.length [] := by
  simp [initialCache]

/-- With an empty cache the caching check passes exactly when `CheckPass`
holds for the first sphere group and freshly computed frames. -/
theorem checkCollision_frames_nil_ret_iff (ext : Externals) (cs : SBPLCollisionSpace)
    (angles : List ℚ) (low_res verbose visualize : Bool) :
    (checkCollision_frames ext cs angles [] low_res verbose visualize).ret = true ↔
      ∃ sg0 sg, cs.model_.sphere_groups = sg0 :: sg ∧
        CheckPass ext cs sg0 low_res (cs.model_.computeDefaultGroupFK angles)
          (sg.map (fun g => (g, g.computeFK []))) := by
  rw [checkCollision_frames_ret_iff, initialCache_nil]
  constructor
  · rintro ⟨sg0, sg, hsg, h⟩
    refine ⟨sg0, sg, hsg, ?_⟩
    rw [hsg] at h
    rwa [cachedFK_replicate _ _ _ (by simp), cachedGroups_replicate _ _ _ (by simp; omega)] at h
  · rintro ⟨sg0, sg, hsg, h⟩
    refine ⟨sg0, sg, hsg, ?_⟩
    rw [hsg]
    rwa [cachedFK_replicate _ _ _ (by simp), cachedGroups_replicate _ _ _ (by simp; omega)]

/-- `CheckPass` in terms of the verdicts of the sub-checks. -/
theorem checkPass_iff (ext : Externals) (cs : SBPLCollisionSpace) (dgroup : Group)
    (low_res verbose : Bool) (dfk : Bool × GroupFrames) (sg : List Group) :
    CheckPass ext cs dgroup low_res dfk (sg.map (fun g => (g, g.computeFK []))) ↔
      (dfk.1 = true ∧ ∀ g ∈ sg, (g.computeFK []).1 = true) ∧
      (cs.object_attached_ = true →
        (checkSpheresAgainstWorld cs dfk.2 cs.object_spheres_p_ verbose false []).ret = true) ∧
      (checkSpheresAgainstWorld cs dfk.2 (dgroup.getSpheres low_res) verbose false []).ret
        = true ∧
      ∀ g ∈ sg,
        (checkSpheresAgainstWorld cs (g.computeFK []).2 (g.getSpheres low_res) verbose false
          []).ret = true ∧
        (checkSphereGroupAgainstSphereGroup ext cs dgroup g
          ((dgroup.getSpheres low_res).map (posedCenter dfk.2))
          ((g.getSpheres low_res).map (posedCenter (g.computeFK []).2))
          low_res low_res verbose false).ret = true := by
  simp only [CheckPass, GroupPass, List.forall_mem_map, checkSpheresAgainstWorld_ret_iff',
    checkSphereGroupAgainstSphereGroup_ret_iff']
  constructor
  · rintro ⟨h1, h2, h3, h4⟩
    exact ⟨⟨h1, fun g hg => (h4 g hg).1⟩, h2, h3, fun g hg => (h4 g hg).2⟩
  · rintro ⟨⟨h1, h5⟩, h2, h3, h4⟩
    exact ⟨h1, h2, h3, fun g hg => ⟨h5 g hg, h4 g hg⟩⟩

/-- C3. With `visualize = false` the per-resolution `checkCollision` returns
`true` exactly when forward kinematics succeeds for the default group and for
every other sphere group, the attached object (when there is one) and the
default group pass the sphere-vs-field test, and every other sphere group
passes the sphere-vs-field test and the pairwise test against the posed spheres
of the default group. This holds for the overload that computes its frames
(default group `model_.getDefaultGroup()`, other groups `sg[1..]`) and for the
caching overload started on an empty cache (default group `sg[0]`). No pairwise
test between two other groups takes part. -/
theorem checkCollision_valid_iff (ext : Externals) (cs : SBPLCollisionSpace) (angles : List ℚ)
    (low_res verbose : Bool) :
    ((checkCollision_res ext cs angles low_res verbose false).ret = true ↔
      ((cs.model_.computeDefaultGroupFK angles).1 = true ∧
        ∀ g ∈ cs.model_.sphere_groups.drop 1, (g.computeFK []).1 = true) ∧
      (cs.object_attached_ = true →
        (checkSpheresAgainstWorld cs (cs.model_.computeDefaultGroupFK angles).2
          cs.object_spheres_p_ verbose false []).ret = true) ∧
      (checkSpheresAgainstWorld cs (cs.model_.computeDefaultGroupFK angles).2
        (cs.model_.default_group.getSpheres low_res) verbose false []).ret = true ∧
      ∀ g ∈ cs.model_.sphere_groups.drop 1,
        (checkSpheresAgainstWorld cs (g.computeFK []).2 (g.getSpheres low_res) verbose false
          []).ret = true ∧
        (checkSphereGroupAgainstSphereGroup ext cs cs.model_.default_group g
          ((cs.model_.default_group.getSpheres low_res).map
            (posedCenter (cs.model_.computeDefaultGroupFK angles).2))
          ((g.getSpheres low_res).map (posedCenter (g.computeFK []).2))
          low_res low_res verbose false).ret = true) ∧
    ((checkCollision_frames ext cs angles [] low_res verbose false).ret = true ↔
      ∃ sg0 sg, cs.model_.sphere_groups = sg0 :: sg ∧
        ((cs.model_.computeDefaultGroupFK angles).1 = true ∧
          ∀ g ∈ sg, (g.computeFK []).1 = true) ∧
        (cs.object_attached_ = true →
          (checkSpheresAgainstWorld cs (cs.model_.computeDefaultGroupFK angles).2
            cs.object_spheres_p_ verbose false []).ret = true) ∧
        (checkSpheresAgainstWorld cs (cs.model_.computeDefaultGroupFK angles).2
          (sg0.getSpheres low_res) verbose false []).ret = true ∧
        ∀ g ∈ sg,
          (checkSpheresAgainstWorld cs (g.computeFK []).2 (g.getSpheres low_res) verbose false
            []).ret = true ∧
          (checkSphereGroupAgainstSphereGroup ext cs sg0 g
            ((sg0.getSpheres low_res).map
              (posedCenter (cs.model_.computeDefaultGroupFK angles).2))
            ((g.getSpheres low_res).map (posedCenter (g.computeFK []).2))
            low_res low_res verbose false).ret = true) := by
  constructor
  · rw [checkCollision_res_ret_iff, checkPass_iff ext cs _ low_res verbose]
  · rw [checkCollision_frames_nil_ret_iff]
    simp only [checkPass_iff ext cs _ low_res verbose]

/-- C3, an instance: the groups `a` and `b` of `exampleThreeGroups` overlap each
other (their pairwise test reports a collision), and both per-resolution checks
report the configuration valid. -/
theorem checkCollision_valid_example :
    (checkSphereGroupAgainstSphereGroup exampleExt exampleThreeGroups (exampleGroup "a" 8)
      (exampleGroup "b" 8) [⟨8, 0, 0⟩] [⟨8, 0, 0⟩] false false false false).ret = false ∧
    (checkCollision_res exampleExt exampleThreeGroups [4] false false false).ret = true ∧
    (checkCollision_frames exampleExt exampleThreeGroups [4] [] false false false).ret = true := by
  decide!

/-! ## The two-level check -/

/-- The control flow of the two-level check. With multi-level checking
enabled, the two-level `checkCollision` returns the result of the coarse pass (verdict, clearance, cache and collision
spheres, so nothing of a fine pass) when the coarse pass reports valid, and
otherwise exactly the result of the fine pass, the caching check on the fine
subset run on the cache the coarse pass left. With multi-level checking
disabled it returns the verdict and clearance of the fine-subset check. The
same holds for `isStateValid(angles, frames, ...)` once `frames[0]` is cleared. -/
theorem checkCollision_two_level_cached (ext : Externals) (cs : SBPLCollisionSpace) (angles : List ℚ)
    (frames : FrameCache) (verbose visualize : Bool) :
    (cs.use_multi_level_collision_check_ = true →
      ((checkCollision_frames ext cs angles [] true verbose visualize).ret = true →
        checkCollision ext cs angles verbose visualize =
          checkCollision_frames ext cs angles [] true verbose visualize) ∧
      ((checkCollision_frames ext cs angles [] true verbose visualize).ret = false →
        checkCollision ext cs angles verbose visualize =
          checkCollision_frames ext
            { cs with collision_spheres_ :=
                (checkCollision_frames ext cs angles [] true verbose visualize).collision_spheres_ }
            angles (checkCollision_frames ext cs angles [] true verbose visualize).frames
            false verbose visualize) ∧
      ((checkCollision_frames ext cs angles (if !frames.isEmpty then frames.set 0 [] else frames)
          true verbose visualize).ret = true →
        isStateValid_frames ext cs angles frames verbose visualize =
          checkCollision_frames ext cs angles (if !frames.isEmpty then frames.set 0 [] else frames)
            true verbose visualize) ∧
      ((checkCollision_frames ext cs angles (if !frames.isEmpty then frames.set 0 [] else frames)
          true verbose visualize).ret = false →
        isStateValid_frames ext cs angles frames verbose visualize =
          checkCollision_frames ext
            { cs with collision_spheres_ :=
                (checkCollision_frames ext cs angles
                  (if !frames.isEmpty then frames.set 0 [] else frames) true verbose
                  visualize).collision_spheres_ }
            angles
            (checkCollision_frames ext cs angles
              (if !frames.isEmpty then frames.set 0 [] else frames) true verbose visualize).frames
            false verbose visualize)) ∧
    (cs.use_multi_level_collision_check_ = false →
      (checkCollision ext cs angles verbose visualize).ret =
        (checkCollision_res ext cs angles false verbose visualize).ret ∧
      (checkCollision ext cs angles verbose visualize).dist =
        (checkCollision_res ext cs angles false verbose visualize).dist ∧
      (isStateValid_frames ext cs angles frames verbose visualize).ret =
        (checkCollision_res ext cs angles false verbose visualize).ret ∧
      (isStateValid_frames ext cs angles frames verbose visualize).dist =
        (checkCollision_res ext cs angles false verbose visualize).dist) := by
  refine ⟨fun hm => ⟨?_, ?_, ?_, ?_⟩, fun hm => ?_⟩
  · intro h
    unfold checkCollision
    simp [hm, h]
  · intro h
    unfold checkCollision
    simp [hm, h]
  · intro h
    unfold isStateValid_frames
    simp only [hm, Bool.not_true, Bool.false_eq_true, if_false]
    rw [if_pos h]
  · intro h
    unfold isStateValid_frames
    simp only [hm, Bool.not_true, Bool.false_eq_true, if_false]
    rw [if_neg (by rw [h]; exact Bool.false_ne_true)]
  · unfold checkCollision isStateValid_frames
    simp [hm]

/-! ## Without visualization collision_spheres_ is not written -/

theorem checkSpheresAgainstWorld_loop_collision_spheres (cs : SBPLCollisionSpace)
    (frames : GroupFrames) (spheres : List Sphere) :
    ∀ (i : Nat) (st : SpheresLoop),
      (checkSpheresAgainstWorld_loop cs frames false spheres i st).2.collision_spheres_ =
        st.collision_spheres_ := by
  induction spheres with
  | nil => intro i st; rfl
  | cons s rest ih =>
    intro i st
    simp only [checkSpheresAgainstWorld_loop]
    split
    · rfl
    · split
      · simp
      · rw [ih]

/-- Without visualization the sphere-vs-field test leaves `collision_spheres_`
as it is. -/
theorem checkSpheresAgainstWorld_collision_spheres (cs : SBPLCollisionSpace)
    (frames : GroupFrames) (spheres : List Sphere) (verbose : Bool)
    (sph_poses : List KDL.Vector) :
    (checkSpheresAgainstWorld cs frames spheres verbose false sph_poses).collision_spheres_ =
      cs.collision_spheres_ := by
  rw [checkSpheresAgainstWorld_eq]
  exact checkSpheresAgainstWorld_loop_collision_spheres cs frames spheres 0 _

theorem checkSphereGroupAgainstSphereGroup_inner_collision_spheres (ext : Externals)
    (cs : SBPLCollisionSpace) (g1 : Sphere) (s1 : KDL.Vector)
    (l2 : List (Sphere × KDL.Vector)) :
    ∀ st : GroupPairLoop,
      (checkSphereGroupAgainstSphereGroup_inner ext cs false g1 s1 l2 st).2.collision_spheres_ =
        st.collision_spheres_ := by
  induction l2 with
  | nil => intro st; rfl
  | cons p2 rest ih =>
    intro st
    obtain ⟨g2, s2⟩ := p2
    simp only [checkSphereGroupAgainstSphereGroup_inner]
    split
    · simp
    · rw [ih]

theorem checkSphereGroupAgainstSphereGroup_outer_collision_spheres (ext : Externals)
    (cs : SBPLCollisionSpace) (l2 l1 : List (Sphere × KDL.Vector)) :
    ∀ st : GroupPairLoop,
      (checkSphereGroupAgainstSphereGroup_outer ext cs false l2 l1 st).2.collision_spheres_ =
        st.collision_spheres_ := by
  induction l1 with
  | nil => intro st; rfl
  | cons p1 rest ih =>
    intro st
    obtain ⟨g1, s1⟩ := p1
    have hin := checkSphereGroupAgainstSphereGroup_inner_collision_spheres ext cs g1 s1 l2 st
    simp only [checkSphereGroupAgainstSphereGroup_outer]
    generalize checkSphereGroupAgainstSphereGroup_inner ext cs false g1 s1 l2 st = r at hin ⊢
    obtain ⟨b, st1⟩ := r
    cases b
    · exact hin
    · simp only
      rw [ih, ← hin]

/-- Without visualization the pairwise test leaves `collision_spheres_` as it
is. -/
theorem checkSphereGroupAgainstSphereGroup_collision_spheres (ext : Externals)
    (cs : SBPLCollisionSpace) (group1 group2 : Group) (spheres1 spheres2 : List KDL.Vector)
    (low_res1 low_res2 verbose : Bool) :
    (checkSphereGroupAgainstSphereGroup ext cs group1 group2 spheres1 spheres2 low_res1 low_res2
        verbose false).collision_spheres_ = cs.collision_spheres_ := by
  by_cases h : (group1.getSpheres low_res1).length = spheres1.length ∧
      (group2.getSpheres low_res2).length = spheres2.length
  · rw [checkSphereGroupAgainstSphereGroup_eq ext cs _ _ _ _ _ _ _ _ h.1 h.2]
    exact checkSphereGroupAgainstSphereGroup_outer_collision_spheres ext cs _ _ _
  · rw [checkSphereGroupAgainstSphereGroup_mismatch ext cs _ _ _ _ _ _ _ _ (by tauto)]

theorem checkCollision_attached_collision_spheres (cs : SBPLCollisionSpace)
    (frames : GroupFrames) (verbose : Bool) (st : CollisionLoop) :
    (checkCollision_attached cs frames verbose false st).2.collision_spheres_ =
      st.collision_spheres_ := by
  unfold checkCollision_attached
  dsimp only
  split
  · split <;> exact checkSpheresAgainstWorld_collision_spheres _ _ _ _ _
  · rfl

theorem checkCollision_default_collision_spheres (cs : SBPLCollisionSpace) (dgroup : Group)
    (frames : GroupFrames) (low_res verbose : Bool) (st : CollisionLoop) :
    (checkCollision_default cs dgroup frames low_res verbose false st).2.collision_spheres_ =
      st.collision_spheres_ := by
  unfold checkCollision_default
  dsimp only
  split <;> exact checkSpheresAgainstWorld_collision_spheres _ _ _ _ _

theorem checkCollision_group_collision_spheres (ext : Externals) (cs : SBPLCollisionSpace)
    (dgroup : Group) (low_res verbose : Bool) (g : Group) (frames : GroupFrames)
    (st : CollisionLoop) :
    (checkCollision_group ext cs dgroup low_res verbose false g frames st).2.collision_spheres_ =
      st.collision_spheres_ := by
  unfold checkCollision_group
  dsimp only
  split
  · exact checkSpheresAgainstWorld_collision_spheres _ _ _ _ _
  · split
    · simp only
      rw [checkSphereGroupAgainstSphereGroup_collision_spheres]
      exact checkSpheresAgainstWorld_collision_spheres _ _ _ _ _
    · simp only
      rw [checkSphereGroupAgainstSphereGroup_collision_spheres]
      exact checkSpheresAgainstWorld_collision_spheres _ _ _ _ _

theorem checkCollision_res_loop_collision_spheres (ext : Externals) (cs : SBPLCollisionSpace)
    (low_res verbose : Bool) (sg : List Group) :
    ∀ st : CollisionLoop,
      (checkCollision_res_loop ext cs low_res verbose false sg st).2.collision_spheres_ =
        st.collision_spheres_ := by
  induction sg with
  | nil => intro st; rfl
  | cons g rest ih =>
    intro st
    have hg := checkCollision_group_collision_spheres ext cs cs.model_.default_group low_res
      verbose g (g.computeFK []).2 st
    simp only [checkCollision_res_loop]
    generalize checkCollision_group _ _ _ _ _ _ _ _ _ = G at hg ⊢
    obtain ⟨b, st1⟩ := G
    split
    · rfl
    · cases b
      · exact hg
      · simp only
        rw [ih, ← hg]

theorem checkCollision_frames_loop_collision_spheres (ext : Externals) (cs : SBPLCollisionSpace)
    (sg0 : Group) (low_res verbose : Bool) (sg : List Group) :
    ∀ (i : Nat) (frames : FrameCache) (st : CollisionLoop),
      (checkCollision_frames_loop ext cs sg0 low_res verbose false sg i frames
        st).2.2.collision_spheres_ = st.collision_spheres_ := by
  induction sg with
  | nil => intro i frames st; rfl
  | cons g rest ih =>
    intro i frames st
    have hg := checkCollision_group_collision_spheres ext cs sg0 low_res
      verbose g ((cachedFK_step (g.computeFK []) frames i).2.getD i []) st
    simp only [checkCollision_frames_loop]
    generalize checkCollision_group _ _ _ _ _ _ _ _ _ = G at hg ⊢
    obtain ⟨b, st1⟩ := G
    split
    · rfl
    · cases b
      · exact hg
      · simp only
        rw [ih, ← hg]

/-- Without visualization the caching check leaves `collision_spheres_` as it
is. -/
theorem checkCollision_frames_collision_spheres (ext : Externals) (cs : SBPLCollisionSpace)
    (angles : List ℚ) (frames : FrameCache) (low_res verbose : Bool) :
    (checkCollision_frames ext cs angles frames low_res verbose false).collision_spheres_ =
      cs.collision_spheres_ := by
  unfold checkCollision_frames
  cases hsg : cs.model_.sphere_groups with
  | nil => simp
  | cons sg0 sg =>
    dsimp only
    generalize (if frames.isEmpty = true then List.replicate (sg0 :: sg).length [] else frames)
      = F
    split
    · simp
    · have hA := checkCollision_attached_collision_spheres cs
        ((cachedFK_step (cs.model_.computeDefaultGroupFK angles) F 0).2.getD 0 []) verbose
        { in_collision := false, dist := 100, dg_spheres := [], g_spheres := [],
          collision_spheres_ := if false = true then [] else cs.collision_spheres_ }
      generalize checkCollision_attached _ _ _ _ _ = A at hA ⊢
      obtain ⟨bA, stA⟩ := A
      simp only [Bool.false_eq_true, if_false] at hA
      cases bA
      · exact hA
      dsimp only
      have hD := checkCollision_default_collision_spheres cs sg0
        ((cachedFK_step (cs.model_.computeDefaultGroupFK angles) F 0).2.getD 0 []) low_res
        verbose stA
      generalize checkCollision_default _ _ _ _ _ _ _ = D at hD ⊢
      obtain ⟨bD, stD⟩ := D
      simp only at hD
      cases bD
      · exact hD.trans hA
      dsimp only
      have hL := checkCollision_frames_loop_collision_spheres ext cs sg0 low_res verbose sg 1
        (cachedFK_step (cs.model_.computeDefaultGroupFK angles) F 0).2 stD
      generalize checkCollision_frames_loop _ _ _ _ _ _ _ _ _ _ = L at hL ⊢
      obtain ⟨bL, FL, stL⟩ := L
      simp only at hL
      cases bL
      · exact hL.trans (hD.trans hA)
      · simp only [Bool.false_and, Bool.false_eq_true, if_false]
        exact hL.trans (hD.trans hA)

/-- Without visualization the check that computes its frames leaves
`collision_spheres_` as it is. -/
theorem checkCollision_res_collision_spheres (ext : Externals) (cs : SBPLCollisionSpace)
    (angles : List ℚ) (low_res verbose : Bool) :
    (checkCollision_res ext cs angles low_res verbose false).collision_spheres_ =
      cs.collision_spheres_ := by
  unfold checkCollision_res
  dsimp only
  split
  · simp
  · have hA := checkCollision_attached_collision_spheres cs
      (cs.model_.computeDefaultGroupFK angles).2 verbose
      { in_collision := false, dist := 100, dg_spheres := [], g_spheres := [],
        collision_spheres_ := if false = true then [] else cs.collision_spheres_ }
    generalize checkCollision_attached _ _ _ _ _ = A at hA ⊢
    obtain ⟨bA, stA⟩ := A
    simp only [Bool.false_eq_true, if_false] at hA
    cases bA
    · exact hA
    dsimp only
    have hD := checkCollision_default_collision_spheres cs cs.model_.default_group
      (cs.model_.computeDefaultGroupFK angles).2 low_res verbose stA
    generalize checkCollision_default _ _ _ _ _ _ _ = D at hD ⊢
    obtain ⟨bD, stD⟩ := D
    simp only at hD
    cases bD
    · exact hD.trans hA
    dsimp only
    have hL := checkCollision_res_loop_collision_spheres ext cs low_res verbose
      (cs.model_.sphere_groups.drop 1) stD
    generalize checkCollision_res_loop _ _ _ _ _ _ _ = L at hL ⊢
    obtain ⟨bL, stL⟩ := L
    simp only at hL
    cases bL
    · exact hL.trans (hD.trans hA)
    · simp only [Bool.false_and, Bool.false_eq_true, if_false]
      exact hL.trans (hD.trans hA)

/-- Without visualization `isStateValid(angles, frames, ...)` leaves
`collision_spheres_` as it is. -/
theorem isStateValid_frames_collision_spheres (ext : Externals) (cs : SBPLCollisionSpace)
    (angles : List ℚ) (frames : FrameCache) (verbose : Bool) :
    (isStateValid_frames ext cs angles frames verbose false).collision_spheres_ =
      cs.collision_spheres_ := by
  unfold isStateValid_frames
  dsimp only
  generalize (if (!frames.isEmpty) = true then frames.set 0 [] else frames) = F
  by_cases hm : (!cs.use_multi_level_collision_check_) = true
  · rw [if_pos hm]
    exact checkCollision_res_collision_spheres _ _ _ _ _
  · rw [if_neg hm]
    by_cases hc : (checkCollision_frames ext cs angles F true verbose false).ret = true
    · rw [if_pos hc]
      exact checkCollision_frames_collision_spheres _ _ _ _ _ _
    · rw [if_neg hc, checkCollision_frames_collision_spheres,
        checkCollision_frames_collision_spheres]

/-! ## Path check: the loops scan the visitation order -/

theorem scanWaypoints_append (ext : Externals) (cs : SBPLCollisionSpace) (path : List (List ℚ))
    (verbose : Bool) (l1 l2 : List Nat) :
    ∀ st, scanWaypoints ext cs path verbose (l1 ++ l2) st =
      match scanWaypoints ext cs path verbose l1 st with
      | (false, st1) => (false, st1)
      | (true, st1) => scanWaypoints ext cs path verbose l2 st1 := by
  induction l1 with
  | nil => intro st; rfl
  | cons j js ih =>
    intro st
    simp only [List.cons_append, scanWaypoints]
    generalize checkPathForCollision_body ext cs path verbose j st = r
    obtain ⟨b, st1⟩ := r
    cases b
    · rfl
    · exact ih st1

/-- With enough fuel the strided loop is the scan of its stride. -/
theorem checkPathForCollision_inner_eq (ext : Externals) (cs : SBPLCollisionSpace)
    (path : List (List ℚ)) (verbose : Bool) (inc_cc : Nat) (hinc : 1 ≤ inc_cc) :
    ∀ (fuel j : Nat) (st : PathLoop), path.length ≤ j + fuel →
      checkPathForCollision_inner ext cs path verbose inc_cc fuel j st =
        some (scanWaypoints ext cs path verbose (strideIndices inc_cc path.length fuel j) st) := by
  intro fuel
  induction fuel with
  | zero =>
    intro j st h
    simp only [checkPathForCollision_inner, strideIndices, scanWaypoints]
    rw [if_neg (by omega)]
  | succ f ih =>
    intro j st h
    simp only [checkPathForCollision_inner, strideIndices]
    by_cases hj : j < path.length
    · simp only [hj, if_true, scanWaypoints]
      generalize checkPathForCollision_body ext cs path verbose j st = r
      obtain ⟨b, st1⟩ := r
      cases b
      · rfl
      · exact ih (j + inc_cc) st1 (by omega)
    · simp only [hj, if_false, scanWaypoints]

/-- The loop over the phases is the scan of the strides of the phases. -/
theorem checkPathForCollision_outer_eq (ext : Externals) (cs : SBPLCollisionSpace)
    (path : List (List ℚ)) (verbose : Bool) (inc_cc : Nat) (hinc : 1 ≤ inc_cc) :
    ∀ (k i : Nat) (st : PathLoop),
      checkPathForCollision_outer ext cs path verbose inc_cc k i st =
        some (scanWaypoints ext cs path verbose (phaseIndices inc_cc path.length k i) st) := by
  intro k
  induction k with
  | zero => intro i st; rfl
  | succ k ih =>
    intro i st
    simp only [checkPathForCollision_outer, phaseIndices]
    rw [checkPathForCollision_inner_eq ext cs path verbose inc_cc hinc _ _ _ (by omega),
      scanWaypoints_append]
    generalize scanWaypoints ext cs path verbose _ st = r
    obtain ⟨b, st1⟩ := r
    cases b
    · rfl
    · exact ih (i + 1) st1

/-- The plain loop is the scan of `i, i + 1, ..., i + k - 1`. -/
theorem checkPathForCollision_linear_eq (ext : Externals) (cs : SBPLCollisionSpace)
    (path : List (List ℚ)) (verbose : Bool) :
    ∀ (k i : Nat) (st : PathLoop),
      checkPathForCollision_linear ext cs path verbose k i st =
        scanWaypoints ext cs path verbose (List.range' i k) st := by
  intro k
  induction k with
  | zero => intro i st; rfl
  | succ k ih =>
    intro i st
    simp only [checkPathForCollision_linear, List.range'_succ, scanWaypoints]
    generalize checkPathForCollision_body ext cs path verbose i st = r
    obtain ⟨b, st1⟩ := r
    cases b
    · rfl
    · exact ih (i + 1) st1

theorem mem_strideIndices (inc n : Nat) (hinc : 1 ≤ inc) :
    ∀ (fuel j x : Nat), n ≤ j + fuel →
      (x ∈ strideIndices inc n fuel j ↔ x < n ∧ j ≤ x ∧ (x - j) % inc = 0) := by
  intro fuel
  induction fuel with
  | zero =>
    intro j x h
    simp only [strideIndices, List.not_mem_nil, false_iff]
    omega
  | succ f ih =>
    intro j x h
    simp only [strideIndices]
    by_cases hj : j < n
    · simp only [hj, if_true, List.mem_cons, ih (j + inc) x (by omega)]
      constructor
      · rintro (rfl | ⟨h1, h2, h3⟩)
        · simp [hj]
        · refine ⟨h1, by omega, ?_⟩
          have : x - j = (x - (j + inc)) + inc := by omega
          rw [this, Nat.add_mod_right]
          exact h3
      · rintro ⟨h1, h2, h3⟩
        by_cases hx : x = j
        · exact Or.inl hx
        · right
          have hlt : j < x := by omega
          have hge : inc ≤ x - j := by
            by_contra hlt'
            have := Nat.mod_eq_of_lt (not_le.mp hlt')
            omega
          refine ⟨h1, by omega, ?_⟩
          have : x - j = (x - (j + inc)) + inc := by omega
          rw [this, Nat.add_mod_right] at h3
          exact h3
    · simp only [hj, if_false, List.not_mem_nil, false_iff]
      omega

theorem sorted_strideIndices (inc n : Nat) (hinc : 1 ≤ inc) :
    ∀ (fuel j : Nat), (strideIndices inc n fuel j).Sorted (· < ·) ∧
      ∀ x ∈ strideIndices inc n fuel j, j ≤ x := by
  intro fuel
  induction fuel with
  | zero => intro j; simp [strideIndices]
  | succ f ih =>
    intro j
    simp only [strideIndices]
    by_cases hj : j < n
    · simp only [hj, if_true, List.sorted_cons, List.mem_cons]
      have := ih (j + inc)
      refine ⟨⟨fun x hx => ?_, this.1⟩, ?_⟩
      · have := this.2 x hx
        omega
      · rintro x (rfl | hx)
        · exact le_refl _
        · have := this.2 x hx
          omega
    · simp [hj]

/-- The stride of phase `i < 5` holds the indices below `n` that are `i`
modulo 5, in ascending order. -/
theorem strideIndices_eq_filter (n i : Nat) (hi : i < 5) :
    strideIndices 5 n n i = (List.range n).filter (fun j => j % 5 = i) := by
  apply List.eq_of_perm_of_sorted (r := (· < ·))
  · rw [List.perm_ext_iff_of_nodup (sorted_strideIndices 5 n (by omega) n i).1.nodup
      ((List.nodup_range n).filter _)]
    intro x
    rw [mem_strideIndices 5 n (by omega) n i x (by omega)]
    simp only [List.mem_filter, List.mem_range, decide_eq_true_eq]
    omega
  · exact (sorted_strideIndices 5 n (by omega) n i).1
  · exact (List.sorted_lt_range n).filter _

theorem phaseIndices_five (n : Nat) :
    phaseIndices 5 n 5 0 =
      (List.range 5).flatMap (fun i => (List.range n).filter (fun j => j % 5 = i)) := by
  simp only [phaseIndices, List.append_nil]
  rw [strideIndices_eq_filter n 0 (by omega), strideIndices_eq_filter n 1 (by omega),
    strideIndices_eq_filter n 2 (by omega), strideIndices_eq_filter n 3 (by omega),
    strideIndices_eq_filter n 4 (by omega)]
  simp [List.range_succ, List.flatMap]

/-- The refinement: after a successful interpolation into `path`,
`checkPathForCollision` returns, and its result is that of the scan of the
waypoints in the order `visitOrder path.length`. -/
theorem checkPathForCollision_frames_eq_scan (ext : Externals) (cs : SBPLCollisionSpace)
    (start end_ : List ℚ) (frames : FrameCache) (verbose : Bool) (path : List (List ℚ))
    (hip : interpolatePath ext cs (normalizeEndpoints ext start end_).1
      (normalizeEndpoints ext start end_).2 cs.inc_ = (true, path)) :
    checkPathForCollision_frames ext cs start end_ frames verbose =
      some (PathResult.ofLoop path.length
        (scanWaypoints ext cs path verbose (visitOrder path.length) (pathStart cs frames)).1
        (scanWaypoints ext cs path verbose (visitOrder path.length) (pathStart cs frames)).2) := by
  unfold checkPathForCollision_frames visitOrder
  dsimp only
  rw [hip]
  simp only [Bool.not_true, Bool.false_eq_true, if_false]
  by_cases hn : path.length > 5
  · simp only [hn, if_true]
    rw [checkPathForCollision_outer_eq ext cs path verbose 5 (by omega), phaseIndices_five]
    rfl
  · simp only [hn, if_false]
    rw [checkPathForCollision_linear_eq, List.range_eq_range']
    rfl

/-! ## Path check: properties of the scan and of the visitation order -/

theorem with_collision_spheres_self (cs : SBPLCollisionSpace) :
    { cs with collision_spheres_ := cs.collision_spheres_ } = cs := rfl

/-- The scan visits a prefix of its list, counts what it visits, and visits
the whole list when no check fails. -/
theorem scanWaypoints_visited (ext : Externals) (cs : SBPLCollisionSpace)
    (path : List (List ℚ)) (verbose : Bool) (l : List Nat) :
    ∀ st : PathLoop, ∃ k, k ≤ l.length ∧
      (scanWaypoints ext cs path verbose l st).2.visited = st.visited ++ l.take k ∧
      (scanWaypoints ext cs path verbose l st).2.num_checks = st.num_checks + k ∧
      ((scanWaypoints ext cs path verbose l st).1 = true → k = l.length) := by
  induction l with
  | nil => intro st; exact ⟨0, le_refl _, by simp [scanWaypoints], rfl, fun _ => rfl⟩
  | cons j js ih =>
    intro st
    simp only [scanWaypoints]
    have hv : (checkPathForCollision_body ext cs path verbose j st).2.visited = st.visited ++ [j]
        ∧ (checkPathForCollision_body ext cs path verbose j st).2.num_checks = st.num_checks + 1
        := by
      unfold checkPathForCollision_body
      dsimp only
      split <;> exact ⟨rfl, rfl⟩
    generalize checkPathForCollision_body ext cs path verbose j st = r at hv ⊢
    obtain ⟨b, st1⟩ := r
    cases b
    · exact ⟨1, by simp, by simpa using hv.1, hv.2, fun h => by simp at h⟩
    · obtain ⟨k, hk, h1, h2, h3⟩ := ih st1
      refine ⟨k + 1, by simpa using hk, ?_, ?_, ?_⟩
      · simp only at hv ⊢
        rw [h1, hv.1]; simp
      · simp only at hv ⊢
        rw [h2, hv.2]; omega
      · intro h
        simp only at h ⊢
        rw [h3 h]; simp

/-- One point check of the path loops, when its verdict on the caches that
satisfy `Inv` is `v`. -/
theorem checkPathForCollision_body_of_valid (ext : Externals) (cs : SBPLCollisionSpace)
    (path : List (List ℚ)) (verbose : Bool) (Inv : FrameCache → Prop) (v : Bool) (j : Nat)
    (hpure : ∀ fr, Inv fr →
      (isStateValid_frames ext cs (path.getD j []) fr verbose false).ret = v ∧
      Inv (isStateValid_frames ext cs (path.getD j []) fr verbose false).frames)
    (st : PathLoop) (hcs : st.collision_spheres_ = cs.collision_spheres_) (hinv : Inv st.frames) :
    ∃ st1, checkPathForCollision_body ext cs path verbose j st = (v, st1) ∧
      st1.visited = st.visited ++ [j] ∧ st1.num_checks = st.num_checks + 1 ∧
      st1.collision_spheres_ = cs.collision_spheres_ ∧ Inv st1.frames := by
  have hj := hpure st.frames hinv
  have hcol := isStateValid_frames_collision_spheres ext cs (path.getD j []) st.frames verbose
  unfold checkPathForCollision_body
  dsimp only
  rw [hcs, with_collision_spheres_self, hj.1, hcol]
  cases v
  · exact ⟨_, rfl, rfl, rfl, rfl, hj.2⟩
  · exact ⟨_, rfl, rfl, rfl, rfl, hj.2⟩

/-- The scan when the verdict of every point check is given by `valid` on the
caches that satisfy an invariant `Inv` of the point check. -/
theorem scanWaypoints_of_valid (ext : Externals) (cs : SBPLCollisionSpace)
    (path : List (List ℚ)) (verbose : Bool) (Inv : FrameCache → Prop) (valid : Nat → Bool)
    (l : List Nat)
    (hpure : ∀ j ∈ l, ∀ fr, Inv fr →
      (isStateValid_frames ext cs (path.getD j []) fr verbose false).ret = valid j ∧
      Inv (isStateValid_frames ext cs (path.getD j []) fr verbose false).frames) :
    ∀ st : PathLoop, st.collision_spheres_ = cs.collision_spheres_ → Inv st.frames →
      (scanWaypoints ext cs path verbose l st).1 = l.all valid ∧
      (scanWaypoints ext cs path verbose l st).2.visited =
        st.visited ++ l.take (l.findIdx (fun j => !valid j) + 1) ∧
      (scanWaypoints ext cs path verbose l st).2.num_checks =
        st.num_checks + (l.take (l.findIdx (fun j => !valid j) + 1)).length := by
  induction l with
  | nil => intro st _ _; simp [scanWaypoints]
  | cons j js ih =>
    intro st hcs hinv
    obtain ⟨st1, hb, h1, h2, h3, h4⟩ := checkPathForCollision_body_of_valid ext cs path verbose
      Inv (valid j) j (hpure j (List.mem_cons_self _ _)) st hcs hinv
    simp only [scanWaypoints, hb, List.all_cons, List.findIdx_cons]
    cases hv : valid j
    · simp [h1, h2]
    · simp only [Bool.true_and, Bool.not_true, cond_false]
      have := ih (fun x hx => hpure x (List.mem_cons_of_mem _ hx)) st1 h3 h4
      refine ⟨this.1, ?_, ?_⟩
      · rw [this.2.1, h1]; simp
      · rw [this.2.2, h2]; simp only [List.take_succ_cons, List.length_cons]; omega

theorem mem_visitOrder (n x : Nat) : x ∈ visitOrder n ↔ x < n := by
  unfold visitOrder
  split
  · simp only [List.mem_flatMap, List.mem_range, List.mem_filter, decide_eq_true_eq]
    constructor
    · rintro ⟨i, _, hx, _⟩
      exact hx
    · intro hx
      exact ⟨x % 5, Nat.mod_lt _ (by omega), hx, rfl⟩
  · simp

theorem nodup_visitOrder (n : Nat) : (visitOrder n).Nodup := by
  unfold visitOrder
  split
  · rw [List.nodup_flatMap]
    refine ⟨fun i _ => (List.nodup_range n).filter _, ?_⟩
    refine (List.pairwise_lt_range 5).imp ?_
    intro a b hab
    simp only [Function.onFun, List.disjoint_left, List.mem_filter, List.mem_range,
      decide_eq_true_eq]
    rintro x ⟨_, h1⟩ ⟨_, h2⟩
    omega
  · exact List.nodup_range n

/-- The visitation order lists every index below `n` exactly once. -/
theorem visitOrder_perm (n : Nat) : (visitOrder n).Perm (List.range n) := by
  rw [List.perm_ext_iff_of_nodup (nodup_visitOrder n) (List.nodup_range n)]
  intro x
  rw [mem_visitOrder, List.mem_range]

theorem visitOrder_length (n : Nat) : (visitOrder n).length = n := by
  rw [(visitOrder_perm n).length_eq, List.length_range]

/-! ## Path check: visitation order and interpolation failure -/

/-- C6. After a successful interpolation into `n` waypoints,
`checkPathForCollision` checks waypoints in the order `visitOrder n`: the
indices it has checked, in order, are a prefix of `visitOrder n` (all of it
when it returns valid), and `num_checks` counts them. For `n > 5` that order
is the concatenation, for the phases `i = 0, ..., 4`, of the ascending `j < n`
with `j mod 5 = i`; for `n ≤ 5` it is `0, 1, ..., n - 1`; for `n = 12` it is
`0,5,10,1,6,11,2,7,3,8,4,9`. -/
theorem checkPathForCollision_visit_order (ext : Externals) (cs : SBPLCollisionSpace)
    (start end_ : List ℚ) (frames : FrameCache) (verbose : Bool) (path : List (List ℚ))
    (hip : interpolatePath ext cs (normalizeEndpoints ext start end_).1
      (normalizeEndpoints ext start end_).2 cs.inc_ = (true, path)) :
    (∃ r, checkPathForCollision_frames ext cs start end_ frames verbose = some r ∧
      r.visited <+: visitOrder path.length ∧
      r.num_checks = r.visited.length ∧
      (r.ret = true → r.visited = visitOrder path.length)) ∧
    (5 < path.length → visitOrder path.length =
      (List.range 5).flatMap (fun i => (List.range path.length).filter (fun j => j % 5 = i))) ∧
    (path.length ≤ 5 → visitOrder path.length = List.range path.length) ∧
    visitOrder 12 = [0, 5, 10, 1, 6, 11, 2, 7, 3, 8, 4, 9] := by
  refine ⟨?_, ?_, ?_, by decide⟩
  · rw [checkPathForCollision_frames_eq_scan ext cs start end_ frames verbose path hip]
    obtain ⟨k, hk, h1, h2, h3⟩ := scanWaypoints_visited ext cs path verbose
      (visitOrder path.length) (pathStart cs frames)
    refine ⟨_, rfl, ?_, ?_, ?_⟩
    · dsimp only [PathResult.ofLoop]
      rw [h1]
      exact List.take_prefix _ _
    · dsimp only [PathResult.ofLoop]
      rw [h1, h2]
      simp only [pathStart, List.nil_append, Nat.zero_add, List.length_take]
      omega
    · intro h
      dsimp only [PathResult.ofLoop] at h ⊢
      rw [h1, h3 h]
      simp [pathStart]
  · intro h
    simp [visitOrder, h]
  · intro h
    simp [visitOrder, Nat.not_lt.mpr h]

/-- C6 at the example path from 2 to 9. -/
theorem checkPathForCollision_visit_order_witness :
    (∃ r, checkPathForCollision_frames examplePathExt exampleArm [2] [9] [] false = some r ∧
      r.visited <+: visitOrder (examplePath 2 9).length ∧
      r.num_checks = r.visited.length ∧
      (r.ret = true → r.visited = visitOrder (examplePath 2 9).length)) ∧
    (5 < (examplePath 2 9).length → visitOrder (examplePath 2 9).length =
      (List.range 5).flatMap
        (fun i => (List.range (examplePath 2 9).length).filter (fun j => j % 5 = i))) ∧
    ((examplePath 2 9).length ≤ 5 →
      visitOrder (examplePath 2 9).length = List.range (examplePath 2 9).length) ∧
    visitOrder 12 = [0, 5, 10, 1, 6, 11, 2, 7, 3, 8, 4, 9] :=
  checkPathForCollision_visit_order examplePathExt exampleArm [2] [9] [] false (examplePath 2 9)
    (by decide!)

/-- C9. When the interpolation between the normalized endpoints fails,
`checkPathForCollision` returns `false` with `path_length = 0`,
`num_checks = 0` and clearance 100; it has made no point check, and the cache
and `collision_spheres_` are as they were. -/
theorem checkPathForCollision_interpolation_failure (ext : Externals)
    (cs : SBPLCollisionSpace) (start end_ : List ℚ) (frames : FrameCache) (verbose : Bool)
    (hip : (interpolatePath ext cs (normalizeEndpoints ext start end_).1
      (normalizeEndpoints ext start end_).2 cs.inc_).1 = false) :
    checkPathForCollision_frames ext cs start end_ frames verbose =
      some { ret := false, path_length := 0, num_checks := 0, dist := 100, frames := frames,
             collision_spheres_ := cs.collision_spheres_, visited := [] } := by
  unfold checkPathForCollision_frames
  dsimp only
  rw [hip]
  rfl

/-- C9 at the example engine with an interpolator that fails. -/
theorem checkPathForCollision_interpolation_failure_witness :
    checkPathForCollision_frames exampleExt exampleArm [2] [20] [] false =
      some { ret := false, path_length := 0, num_checks := 0, dist := 100, frames := [],
             collision_spheres_ := exampleArm.collision_spheres_, visited := [] } :=
  checkPathForCollision_interpolation_failure exampleExt exampleArm [2] [20] [] false
    (by decide!)

/-! ## Sphere-group-vs-sphere-group test: an instance -/

/-- C2 at two spheres of radius 2 and 3 with padding 0, where the machine sums
are exact: at centre distance 4, above `max(2, 3)` but below the sum 5, the test
passes; at distance exactly 3 it reports a collision. -/
theorem checkSphereGroupAgainstSphereGroup_collision_iff_witness :
    ((checkSphereGroupAgainstSphereGroup exampleExt exampleThreeGroups (exampleBall "p" 2)
        (exampleBall "q" 3) [⟨1, 0, 0⟩] [⟨5, 0, 0⟩] false false false false).ret = false ↔
      ∃ (i j : Nat) (g1 g2 : Sphere) (c1 c2 : KDL.Vector),
        ((exampleBall "p" 2).getSpheres false)[i]? = some g1 ∧
        [(⟨1, 0, 0⟩ : KDL.Vector)][i]? = some c1 ∧
        ((exampleBall "q" 3).getSpheres false)[j]? = some g2 ∧
        [(⟨5, 0, 0⟩ : KDL.Vector)][j]? = some c2 ∧
        exampleExt.distance c1 c2 ≤
          dadd (max g1.radius g2.radius) exampleThreeGroups.padding_) ∧
    dadd (max (2 : ℚ) 3) exampleThreeGroups.padding_ = max (2 : ℚ) 3 + 0 ∧
    (checkSphereGroupAgainstSphereGroup exampleExt exampleThreeGroups (exampleBall "p" 2)
        (exampleBall "q" 3) [⟨1, 0, 0⟩] [⟨5, 0, 0⟩] false false false false).ret = true ∧
    (checkSphereGroupAgainstSphereGroup exampleExt exampleThreeGroups (exampleBall "p" 2)
        (exampleBall "q" 3) [⟨1, 0, 0⟩] [⟨4, 0, 0⟩] false false false false).ret = false :=
  ⟨(checkSphereGroupAgainstSphereGroup_collision_iff exampleExt exampleThreeGroups
      (exampleBall "p" 2) (exampleBall "q" 3) [⟨1, 0, 0⟩] [⟨5, 0, 0⟩] false false false false
      (by decide) (by decide)).1,
    by decide!, by decide!, by decide!⟩

/-! ## Path check: the point check and the cache -/

/-- The point check clears `frames[0]` first: what was there has no effect. -/
theorem isStateValid_frames_cons (ext : Externals) (cs : SBPLCollisionSpace) (angles : List ℚ)
    (a : GroupFrames) (t : FrameCache) (verbose visualize : Bool) :
    isStateValid_frames ext cs angles (a :: t) verbose visualize =
      isStateValid_frames ext cs angles ([] :: t) verbose visualize := by
  unfold isStateValid_frames
  simp

theorem all_eq_of_perm {α : Type} (p : α → Bool) {l1 l2 : List α} (h : l1.Perm l2) :
    l1.all p = l2.all p := by
  rw [Bool.eq_iff_iff]
  simp only [List.all_eq_true]
  exact ⟨fun h1 x hx => h1 x (h.mem_iff.mpr hx), fun h1 x hx => h1 x (h.mem_iff.mp hx)⟩

/-! ## The cache of the caching check -/

theorem viewLE_refl (a : Bool × GroupFrames) : viewLE a a := ⟨rfl, id⟩

theorem viewLE_trans {a b c : Bool × GroupFrames} (h1 : viewLE a b) (h2 : viewLE b c) :
    viewLE a c := ⟨h1.1.trans h2.1, fun h => h2.2 (h1.2 h)⟩

theorem cachedFK_eq (r : Bool × GroupFrames) (F : FrameCache) (i : Nat) :
    cachedFK r F i =
      if (F.getD i []).isEmpty then (r.1, if i < F.length then r.2 else [])
      else (true, F.getD i []) := by
  unfold cachedFK cachedFK_step
  split
  · simp [List.getD_eq_getElem?_getD, List.getElem?_set]
    split <;> simp
  · rfl

theorem cachedFK_congr (r : Bool × GroupFrames) (F G : FrameCache) (i : Nat)
    (h1 : F.getD i [] = G.getD i []) (h2 : F.length = G.length) :
    cachedFK r F i = cachedFK r G i := by
  rw [cachedFK_eq, cachedFK_eq, h1, h2]

theorem cachedFK_step_getD_self (r : Bool × GroupFrames) (F : FrameCache) (i : Nat) :
    (cachedFK_step r F i).2.getD i [] = (cachedFK r F i).2 := rfl

/-- The step on index `i` only extends the view of index `i`. -/
theorem viewLE_cachedFK_step (r : Bool × GroupFrames) (F : FrameCache) (i : Nat) :
    viewLE (cachedFK r F i) (cachedFK r (cachedFK_step r F i).2 i) := by
  have hlen := cachedFK_step_length r F i
  have hget : (cachedFK_step r F i).2.getD i [] = (cachedFK r F i).2 := rfl
  rw [cachedFK_eq r (cachedFK_step r F i).2, hget, hlen, cachedFK_eq]
  cases h1 : (F.getD i []).isEmpty
  · simp only [Bool.false_eq_true, if_false, h1]; exact viewLE_refl _
  · simp only [if_true]
    by_cases h2 : i < F.length
    · simp only [h2, if_true]
      cases h3 : r.2.isEmpty
      · simp only [Bool.false_eq_true, if_false]; exact ⟨rfl, fun _ => rfl⟩
      · simp only [if_true]; exact viewLE_refl _
    · simp only [h2, if_false, List.isEmpty_nil, if_true]; exact viewLE_refl _

theorem cacheLE_refl (gs : List Group) (i : Nat) (F : FrameCache) : CacheLE gs i F F :=
  fun _ _ _ => viewLE_refl _

theorem cacheLE_trans {gs : List Group} {i : Nat} {F1 F2 F3 : FrameCache}
    (h1 : CacheLE gs i F1 F2) (h2 : CacheLE gs i F2 F3) : CacheLE gs i F1 F3 :=
  fun k g hk => viewLE_trans (h1 k g hk) (h2 k g hk)

theorem cacheLE_cons (g : Group) (gs : List Group) (i : Nat) (F1 F2 : FrameCache) :
    CacheLE (g :: gs) i F1 F2 ↔
      viewLE (cachedFK (g.computeFK []) F1 i) (cachedFK (g.computeFK []) F2 i) ∧
      CacheLE gs (i + 1) F1 F2 := by
  constructor
  · intro h
    refine ⟨by simpa using h 0 g (by simp), fun k g' hk => ?_⟩
    have := h (k + 1) g' (by simpa using hk)
    rwa [show i + (k + 1) = i + 1 + k by omega] at this
  · rintro ⟨h0, h1⟩ k g' hk
    cases k with
    | zero =>
      simp only [List.getElem?_cons_zero, Option.some.injEq] at hk
      subst hk
      simpa using h0
    | succ k =>
      have := h1 k g' (by simpa using hk)
      rwa [show i + 1 + k = i + (k + 1) by omega] at this

/-- A step on index `i` does not change the views of the later indices. -/
theorem cacheLE_of_step (r : Bool × GroupFrames) (gs : List Group) (i j : Nat) (hj : i < j)
    (F : FrameCache) :
    CacheLE gs j F (cachedFK_step r F i).2 ∧ CacheLE gs j (cachedFK_step r F i).2 F := by
  constructor <;> intro k g _ <;>
    rw [cachedFK_of_step_ne r _ F i (j + k) (by omega)] <;> exact viewLE_refl _

theorem mem_cachedGroups (gs : List Group) :
    ∀ (i : Nat) (F : FrameCache) (gf : Group × (Bool × GroupFrames)),
      gf ∈ cachedGroups gs i F ↔
        ∃ k g, gs[k]? = some g ∧ gf = (g, cachedFK (g.computeFK []) F (i + k)) := by
  induction gs with
  | nil => intro i F gf; simp [cachedGroups]
  | cons g rest ih =>
    intro i F gf
    simp only [cachedGroups, List.mem_cons, ih]
    constructor
    · rintro (rfl | ⟨k, g', hk, rfl⟩)
      · exact ⟨0, g, by simp, rfl⟩
      · exact ⟨k + 1, g', by simpa using hk, by rw [show i + (k + 1) = i + 1 + k by omega]⟩
    · rintro ⟨k, g', hk, rfl⟩
      cases k with
      | zero =>
        simp only [List.getElem?_cons_zero, Option.some.injEq] at hk
        subst hk
        exact Or.inl rfl
      | succ k =>
        exact Or.inr ⟨k, g', by simpa using hk, by rw [show i + (k + 1) = i + 1 + k by omega]⟩

/-- The loop of the caching check keeps the length of the cache and the
entries below its start index. -/
theorem checkCollision_frames_loop_frames_lt (ext : Externals) (cs : SBPLCollisionSpace)
    (sg0 : Group) (low_res verbose visualize : Bool) (sg : List Group) :
    ∀ (i : Nat) (frames : FrameCache) (st : CollisionLoop),
      (checkCollision_frames_loop ext cs sg0 low_res verbose visualize sg i frames
        st).2.1.length = frames.length ∧
      ∀ j < i, (checkCollision_frames_loop ext cs sg0 low_res verbose visualize sg i frames
        st).2.1.getD j [] = frames.getD j [] := by
  induction sg with
  | nil => intro i frames st; exact ⟨rfl, fun _ _ => rfl⟩
  | cons g rest ih =>
    intro i frames st
    have hlen := cachedFK_step_length (g.computeFK []) frames i
    have hget := fun j (hj : j < i) =>
      cachedFK_step_getD_ne (g.computeFK []) frames i j (by omega)
    simp only [checkCollision_frames_loop]
    generalize cachedFK_step (g.computeFK []) frames i = S at hlen hget ⊢
    split
    · exact ⟨hlen, hget⟩
    · generalize checkCollision_group _ _ _ _ _ _ _ _ _ = G
      obtain ⟨b, st1⟩ := G
      cases b
      · exact ⟨hlen, hget⟩
      · have := ih (i + 1) S.2 st1
        exact ⟨this.1.trans hlen, fun j hj => (this.2 j (by omega)).trans (hget j hj)⟩

/-- The loop of the caching check only extends the views of its groups. -/
theorem checkCollision_frames_loop_cacheLE (ext : Externals) (cs : SBPLCollisionSpace)
    (sg0 : Group) (low_res verbose visualize : Bool) (sg : List Group) :
    ∀ (i : Nat) (frames : FrameCache) (st : CollisionLoop),
      CacheLE sg i frames
        (checkCollision_frames_loop ext cs sg0 low_res verbose visualize sg i frames st).2.1 := by
  induction sg with
  | nil => intro i frames st; exact cacheLE_refl _ _ _
  | cons g rest ih =>
    intro i frames st
    have hstep := viewLE_cachedFK_step (g.computeFK []) frames i
    have htail := (cacheLE_of_step (g.computeFK []) rest i (i + 1) (Nat.lt_succ_self i) frames).1
    have hlt := checkCollision_frames_loop_frames_lt ext cs sg0 low_res verbose visualize rest
      (i + 1) (cachedFK_step (g.computeFK []) frames i).2
    have ih' := ih (i + 1) (cachedFK_step (g.computeFK []) frames i).2
    simp only [checkCollision_frames_loop]
    generalize cachedFK_step (g.computeFK []) frames i = S at hstep htail hlt ih' ⊢
    split
    · exact (cacheLE_cons _ _ _ _ _).mpr ⟨hstep, htail⟩
    · generalize checkCollision_group _ _ _ _ _ _ _ _ _ = G
      obtain ⟨b, st1⟩ := G
      cases b
      · exact (cacheLE_cons _ _ _ _ _).mpr ⟨hstep, htail⟩
      · refine (cacheLE_cons _ _ _ _ _).mpr ⟨?_, cacheLE_trans htail (ih' st1)⟩
        rw [cachedFK_congr _ _ S.2 i ((hlt st1).2 i (Nat.lt_succ_self i)) (hlt st1).1]
        exact hstep

/-! ## Padding: the pass predicates are monotone -/

theorem sphereClear_padding_mono (cs : SBPLCollisionSpace) (p : ℚ) (hp : cs.padding_ ≤ p)
    (frames : GroupFrames) (s : Sphere) (h : SphereClear (withPadding cs p) frames s) :
    SphereClear cs frames s := by
  obtain ⟨h1, h2⟩ := h
  refine ⟨h1, lt_of_le_of_lt ?_ h2⟩
  show dadd s.radius cs.padding_ ≤ dadd s.radius p
  exact dadd_mono_right _ _ _ hp

theorem spheresClear_padding_mono (cs : SBPLCollisionSpace) (p : ℚ) (hp : cs.padding_ ≤ p)
    (frames : GroupFrames) (spheres : List Sphere)
    (h : SpheresClear (withPadding cs p) frames spheres) : SpheresClear cs frames spheres :=
  fun s hs => sphereClear_padding_mono cs p hp frames s (h s hs)

theorem groupsClear_padding_mono (ext : Externals) (cs : SBPLCollisionSpace) (p : ℚ)
    (hp : cs.padding_ ≤ p) (group1 group2 : Group) (low_res1 low_res2 : Bool)
    (spheres1 spheres2 : List KDL.Vector)
    (h : GroupsClear ext (withPadding cs p) group1 group2 low_res1 low_res2 spheres1 spheres2) :
    GroupsClear ext cs group1 group2 low_res1 low_res2 spheres1 spheres2 := by
  refine ⟨h.1, fun p1 h1 p2 h2 => lt_of_le_of_lt ?_ (h.2 p1 h1 p2 h2)⟩
  show max (dadd p1.1.radius cs.padding_) (dadd p2.1.radius cs.padding_) ≤
    max (dadd p1.1.radius p) (dadd p2.1.radius p)
  exact max_le_max (dadd_mono_right _ _ _ hp) (dadd_mono_right _ _ _ hp)

theorem groupPass_mono (ext : Externals) (cs : SBPLCollisionSpace) (p : ℚ)
    (hp : cs.padding_ ≤ p) (dgroup : Group) (dg_spheres : List KDL.Vector) (low_res : Bool)
    (g : Group) (v1 v2 : Bool × GroupFrames) (hv : viewLE v1 v2)
    (h : GroupPass ext (withPadding cs p) dgroup dg_spheres low_res g v1) :
    GroupPass ext cs dgroup dg_spheres low_res g v2 := by
  obtain ⟨h1, h2, h3⟩ := h
  rw [hv.1] at h2 h3
  exact ⟨hv.2 h1, spheresClear_padding_mono cs p hp _ _ h2,
    groupsClear_padding_mono ext cs p hp _ _ _ _ _ _ h3⟩

/-- `CheckPass` survives a smaller padding and extended views. -/
theorem checkPass_mono (ext : Externals) (cs : SBPLCollisionSpace) (p : ℚ)
    (hp : cs.padding_ ≤ p) (dgroup : Group) (low_res : Bool) (d1 d2 : Bool × GroupFrames)
    (o1 o2 : List (Group × (Bool × GroupFrames))) (hd : viewLE d1 d2)
    (ho : ∀ gf ∈ o2, ∃ gf' ∈ o1, gf'.1 = gf.1 ∧ viewLE gf'.2 gf.2)
    (h : CheckPass ext (withPadding cs p) dgroup low_res d1 o1) :
    CheckPass ext cs dgroup low_res d2 o2 := by
  obtain ⟨h1, h2, h3, h4⟩ := h
  rw [hd.1] at h2 h3 h4
  refine ⟨hd.2 h1, fun ha => spheresClear_padding_mono cs p hp _ _ (h2 ha),
    spheresClear_padding_mono cs p hp _ _ h3, fun gf hgf => ?_⟩
  obtain ⟨gf', hgf', he, hle⟩ := ho gf hgf
  have := h4 gf' hgf'
  rw [he] at this
  exact groupPass_mono ext cs p hp _ _ _ _ _ _ hle this

theorem checkPass_cached_mono (ext : Externals) (cs : SBPLCollisionSpace) (p : ℚ)
    (hp : cs.padding_ ≤ p) (sg0 : Group) (sg : List Group) (low_res : Bool)
    (dfk : Bool × GroupFrames) (F1 F2 : FrameCache)
    (hd : viewLE (cachedFK dfk F1 0) (cachedFK dfk F2 0)) (ho : CacheLE sg 1 F1 F2)
    (h : CheckPass ext (withPadding cs p) sg0 low_res (cachedFK dfk F1 0) (cachedGroups sg 1 F1)) :
    CheckPass ext cs sg0 low_res (cachedFK dfk F2 0) (cachedGroups sg 1 F2) := by
  refine checkPass_mono ext cs p hp sg0 low_res _ _ _ _ hd (fun gf hgf => ?_) h
  obtain ⟨k, g, hk, rfl⟩ := (mem_cachedGroups sg 1 F2 gf).mp hgf
  exact ⟨_, (mem_cachedGroups sg 1 F1 _).mpr ⟨k, g, hk, rfl⟩, rfl, ho k g hk⟩

/-- The flag of the block for one group: the block returns early only without
visualization, when one of its two tests fails. -/
theorem checkCollision_group_flag (ext : Externals) (cs : SBPLCollisionSpace)
    (dgroup : Group) (low_res verbose visualize : Bool) (g : Group) (frames : GroupFrames)
    (st : CollisionLoop) :
    (checkCollision_group ext cs dgroup low_res verbose visualize g frames st).1 = true ↔
      (visualize = true ∨
        (SpheresClear cs frames (g.getSpheres low_res) ∧
          GroupsClear ext cs dgroup g low_res low_res st.dg_spheres
            ((g.getSpheres low_res).map (posedCenter frames)))) := by
  cases visualize
  · have := checkCollision_group_true_iff ext cs dgroup low_res verbose false g frames st
    simpa using this
  · unfold checkCollision_group
    simp

theorem checkCollision_attached_flag (cs : SBPLCollisionSpace) (frames : GroupFrames)
    (verbose visualize : Bool) (st : CollisionLoop) :
    (checkCollision_attached cs frames verbose visualize st).1 = true ↔
      (visualize = true ∨
        (cs.object_attached_ = true → SpheresClear cs frames cs.object_spheres_p_)) := by
  cases visualize
  · have := checkCollision_attached_true_iff cs frames verbose false st
    simpa using this
  · unfold checkCollision_attached
    simp
    split <;> rfl

theorem checkCollision_default_flag (cs : SBPLCollisionSpace) (dgroup : Group)
    (frames : GroupFrames) (low_res verbose visualize : Bool) (st : CollisionLoop) :
    (checkCollision_default cs dgroup frames low_res verbose visualize st).1 = true ↔
      (visualize = true ∨ SpheresClear cs frames (dgroup.getSpheres low_res)) := by
  cases visualize
  · have := checkCollision_default_true_iff cs dgroup frames low_res verbose false st
    simpa using this
  · unfold checkCollision_default
    simp

/-- Two runs of the loop of the caching check from the same cache, one with a
larger padding: the run with the smaller padding gets at least as far, so the
views on its cache extend those of the other. -/
theorem checkCollision_frames_loop_padding (ext : Externals) (cs : SBPLCollisionSpace) (p : ℚ)
    (hp : cs.padding_ ≤ p) (sg0 : Group) (low_res verbose visualize : Bool) (sg : List Group) :
    ∀ (i : Nat) (frames : FrameCache) (st' st : CollisionLoop),
      (visualize = false → st'.dg_spheres = st.dg_spheres) →
      CacheLE sg i
        (checkCollision_frames_loop ext (withPadding cs p) sg0 low_res verbose visualize sg i
          frames st').2.1
        (checkCollision_frames_loop ext cs sg0 low_res verbose visualize sg i frames st).2.1 := by
  induction sg with
  | nil => intro i frames st' st _; exact cacheLE_refl _ _ _
  | cons g rest ih =>
    intro i frames st' st hdg
    have hlt' := checkCollision_frames_loop_frames_lt ext (withPadding cs p) sg0 low_res verbose
      visualize rest (i + 1) (cachedFK_step (g.computeFK []) frames i).2
    have hlt := checkCollision_frames_loop_frames_lt ext cs sg0 low_res verbose
      visualize rest (i + 1) (cachedFK_step (g.computeFK []) frames i).2
    have hsingle := checkCollision_frames_loop_cacheLE ext cs sg0 low_res verbose visualize rest
      (i + 1) (cachedFK_step (g.computeFK []) frames i).2
    have ih' := ih (i + 1) (cachedFK_step (g.computeFK []) frames i).2
    have hG' := checkCollision_group_flag ext (withPadding cs p) sg0 low_res verbose visualize g
      ((cachedFK_step (g.computeFK []) frames i).2.getD i []) st'
    have hG := checkCollision_group_flag ext cs sg0 low_res verbose visualize g
      ((cachedFK_step (g.computeFK []) frames i).2.getD i []) st
    have hGdg' := checkCollision_group_dg_spheres ext (withPadding cs p) sg0 low_res verbose
      visualize g ((cachedFK_step (g.computeFK []) frames i).2.getD i []) st'
    have hGdg := checkCollision_group_dg_spheres ext cs sg0 low_res verbose
      visualize g ((cachedFK_step (g.computeFK []) frames i).2.getD i []) st
    simp only [checkCollision_frames_loop]
    generalize cachedFK_step (g.computeFK []) frames i = S at *
    split
    · exact cacheLE_refl _ _ _
    · generalize checkCollision_group ext (withPadding cs p) sg0 low_res verbose visualize g
        (S.2.getD i []) st' = G' at *
      generalize checkCollision_group ext cs sg0 low_res verbose visualize g
        (S.2.getD i []) st = G at *
      obtain ⟨b', st1'⟩ := G'
      obtain ⟨b, st1⟩ := G
      cases b'
      · cases b
        · exact cacheLE_refl _ _ _
        · refine (cacheLE_cons _ _ _ _ _).mpr ⟨?_, hsingle st1⟩
          rw [cachedFK_congr _ _ S.2 i ((hlt st1).2 i (Nat.lt_succ_self i)) (hlt st1).1]
          exact viewLE_refl _
      · have hb : b = true := by
          rw [hG]
          rcases hG'.mp rfl with hv | ⟨h1, h2⟩
          · exact Or.inl hv
          · by_cases hv : visualize = true
            · exact Or.inl hv
            · right
              rw [← hdg (by simpa using hv)]
              exact ⟨spheresClear_padding_mono cs p hp _ _ h1,
                groupsClear_padding_mono ext cs p hp _ _ _ _ _ _ h2⟩
        subst hb
        refine (cacheLE_cons _ _ _ _ _).mpr ⟨?_, ih' st1' st1 ?_⟩
        · rw [cachedFK_congr _ _ S.2 i ((hlt st1).2 i (Nat.lt_succ_self i)) (hlt st1).1,
            cachedFK_congr _ _ S.2 i ((hlt' st1').2 i (Nat.lt_succ_self i)) (hlt' st1').1]
          exact viewLE_refl _
        · intro hv
          simp only at hGdg' hGdg
          rw [hGdg', hGdg]
          exact hdg hv

/-! ## Padding: the cache left by the caching check -/

/-- The cache that the caching check leaves: that of its loop when it reaches
the loop, else that after the forward kinematics step of the default group. -/
theorem checkCollision_frames_frames_eq (ext : Externals) (cs : SBPLCollisionSpace)
    (angles : List ℚ) (frames : FrameCache) (low_res verbose visualize : Bool)
    (sg0 : Group) (sg : List Group) (hsg : cs.model_.sphere_groups = sg0 :: sg) :
    (checkCollision_frames ext cs angles frames low_res verbose visualize).frames =
      if (cachedFK_step (cs.model_.computeDefaultGroupFK angles) (initialCache cs frames) 0).1
            = true ∧
          (checkCollision_attached cs ((cacheAfterDefaultFK cs angles frames).getD 0 []) verbose
            visualize (collisionStart cs visualize)).1 = true ∧
          (stateAfterDefault cs sg0 angles frames low_res verbose visualize).1 = true then
        (checkCollision_frames_loop ext cs sg0 low_res verbose visualize sg 1
          (cacheAfterDefaultFK cs angles frames)
          (stateAfterDefault cs sg0 angles frames low_res verbose visualize).2).2.1
      else cacheAfterDefaultFK cs angles frames := by
  unfold stateAfterDefault cacheAfterDefaultFK collisionStart checkCollision_frames initialCache
  rw [hsg]
  dsimp only
  generalize (if frames.isEmpty = true then List.replicate (sg0 :: sg).length [] else frames)
    = F
  cases hfk : (cachedFK_step (cs.model_.computeDefaultGroupFK angles) F 0).1
  · simp
  simp only [Bool.not_true, Bool.false_eq_true, if_false, true_and]
  generalize checkCollision_attached _ _ _ _ _ = A
  obtain ⟨bA, stA⟩ := A
  cases bA
  · simp
  dsimp only
  generalize checkCollision_default _ _ _ _ _ _ _ = D
  obtain ⟨bD, stD⟩ := D
  cases bD
  · simp
  dsimp only
  generalize checkCollision_frames_loop _ _ _ _ _ _ _ _ _ _ = L
  obtain ⟨bL, FL, stL⟩ := L
  cases bL
  · simp
  · simp only [and_self, if_true]
    split <;> rfl

theorem cacheAfterDefaultFK_length (cs : SBPLCollisionSpace) (angles : List ℚ)
    (frames : FrameCache) :
    (cacheAfterDefaultFK cs angles frames).length = (initialCache cs frames).length :=
  cachedFK_step_length _ _ _

/-- The caching check keeps the length of the cache it starts from and leaves
at index 0 what the forward kinematics step of the default group left. -/
theorem checkCollision_frames_frames_zero (ext : Externals) (cs : SBPLCollisionSpace)
    (angles : List ℚ) (frames : FrameCache) (low_res verbose visualize : Bool)
    (sg0 : Group) (sg : List Group) (hsg : cs.model_.sphere_groups = sg0 :: sg) :
    (checkCollision_frames ext cs angles frames low_res verbose visualize).frames.length =
      (initialCache cs frames).length ∧
    (checkCollision_frames ext cs angles frames low_res verbose visualize).frames.getD 0 [] =
      (cacheAfterDefaultFK cs angles frames).getD 0 [] := by
  rw [checkCollision_frames_frames_eq ext cs angles frames low_res verbose visualize sg0 sg hsg]
  split
  · have := checkCollision_frames_loop_frames_lt ext cs sg0 low_res verbose visualize sg 1
      (cacheAfterDefaultFK cs angles frames)
      (stateAfterDefault cs sg0 angles frames low_res verbose visualize).2
    exact ⟨this.1.trans (cacheAfterDefaultFK_length _ _ _), this.2 0 Nat.zero_lt_one⟩
  · exact ⟨cacheAfterDefaultFK_length _ _ _, rfl⟩

/-- The caching check only extends the views on its cache. -/
theorem checkCollision_frames_cacheLE (ext : Externals) (cs : SBPLCollisionSpace)
    (angles : List ℚ) (frames : FrameCache) (low_res verbose visualize : Bool)
    (sg0 : Group) (sg : List Group) (hsg : cs.model_.sphere_groups = sg0 :: sg) :
    viewLE (cachedFK (cs.model_.computeDefaultGroupFK angles) (initialCache cs frames) 0)
      (cachedFK (cs.model_.computeDefaultGroupFK angles)
        (checkCollision_frames ext cs angles frames low_res verbose visualize).frames 0) ∧
    CacheLE sg 1 (initialCache cs frames)
      (checkCollision_frames ext cs angles frames low_res verbose visualize).frames := by
  have hz := checkCollision_frames_frames_zero ext cs angles frames low_res verbose visualize
    sg0 sg hsg
  constructor
  · rw [cachedFK_congr _ _ (cacheAfterDefaultFK cs angles frames) 0 hz.2
      (hz.1.trans (cacheAfterDefaultFK_length _ _ _).symm)]
    exact viewLE_cachedFK_step _ _ _
  · have h1 := (cacheLE_of_step (cs.model_.computeDefaultGroupFK angles) sg 0 1 Nat.zero_lt_one
      (initialCache cs frames)).1
    rw [checkCollision_frames_frames_eq ext cs angles frames low_res verbose visualize sg0 sg hsg]
    split
    · exact cacheLE_trans h1 (checkCollision_frames_loop_cacheLE ext cs sg0 low_res verbose
        visualize sg 1 _ _)
    · exact h1

theorem withPadding_model (cs : SBPLCollisionSpace) (p : ℚ) :
    (withPadding cs p).model_ = cs.model_ := rfl

theorem initialCache_withPadding (cs : SBPLCollisionSpace) (p : ℚ) (frames : FrameCache) :
    initialCache (withPadding cs p) frames = initialCache cs frames := rfl

theorem cacheAfterDefaultFK_withPadding (cs : SBPLCollisionSpace) (p : ℚ) (angles : List ℚ)
    (frames : FrameCache) :
    cacheAfterDefaultFK (withPadding cs p) angles frames = cacheAfterDefaultFK cs angles frames :=
  rfl

/-- Two runs of the caching check from the same cache, one with a larger
padding: the views on the cache left by the run with the smaller padding
extend those of the other. -/
theorem checkCollision_frames_padding_cacheLE (ext : Externals) (cs : SBPLCollisionSpace)
    (p : ℚ) (hp : cs.padding_ ≤ p) (angles : List ℚ) (frames : FrameCache)
    (low_res verbose visualize : Bool) (sg0 : Group) (sg : List Group)
    (hsg : cs.model_.sphere_groups = sg0 :: sg) :
    viewLE
      (cachedFK (cs.model_.computeDefaultGroupFK angles)
        (checkCollision_frames ext (withPadding cs p) angles frames low_res verbose
          visualize).frames 0)
      (cachedFK (cs.model_.computeDefaultGroupFK angles)
        (checkCollision_frames ext cs angles frames low_res verbose visualize).frames 0) ∧
    CacheLE sg 1
      (checkCollision_frames ext (withPadding cs p) angles frames low_res verbose
        visualize).frames
      (checkCollision_frames ext cs angles frames low_res verbose visualize).frames := by
  have hz := checkCollision_frames_frames_zero ext cs angles frames low_res verbose visualize
    sg0 sg hsg
  have hz' := checkCollision_frames_frames_zero ext (withPadding cs p) angles frames low_res
    verbose visualize sg0 sg hsg
  rw [initialCache_withPadding, cacheAfterDefaultFK_withPadding] at hz'
  constructor
  · rw [cachedFK_congr _ _ _ 0 (hz'.2.trans hz.2.symm) (hz'.1.trans hz.1.symm)]
    exact viewLE_refl _
  · rw [checkCollision_frames_frames_eq ext cs angles frames low_res verbose visualize sg0 sg hsg,
      checkCollision_frames_frames_eq ext (withPadding cs p) angles frames low_res verbose
        visualize sg0 sg hsg]
    simp only [initialCache_withPadding, cacheAfterDefaultFK_withPadding, withPadding_model]
    by_cases h' : (cachedFK_step (cs.model_.computeDefaultGroupFK angles)
          (initialCache cs frames) 0).1 = true ∧
        (checkCollision_attached (withPadding cs p)
          ((cacheAfterDefaultFK cs angles frames).getD 0 []) verbose
          visualize (collisionStart (withPadding cs p) visualize)).1 = true ∧
        (stateAfterDefault (withPadding cs p) sg0 angles frames low_res verbose visualize).1
          = true
    · have h : (cachedFK_step (cs.model_.computeDefaultGroupFK angles)
            (initialCache cs frames) 0).1 = true ∧
          (checkCollision_attached cs
            ((cacheAfterDefaultFK cs angles frames).getD 0 []) verbose
            visualize (collisionStart cs visualize)).1 = true ∧
          (stateAfterDefault cs sg0 angles frames low_res verbose visualize).1 = true := by
        obtain ⟨h1, h2, h3⟩ := h'
        refine ⟨h1, ?_, ?_⟩
        · rw [checkCollision_attached_flag] at h2 ⊢
          rcases h2 with hv | h2
          · exact Or.inl hv
          · exact Or.inr fun ha => spheresClear_padding_mono cs p hp _ _ (h2 ha)
        · unfold stateAfterDefault at h3 ⊢
          rw [cacheAfterDefaultFK_withPadding] at h3
          rw [checkCollision_default_flag] at h3 ⊢
          rcases h3 with hv | h3
          · exact Or.inl hv
          · exact Or.inr (spheresClear_padding_mono cs p hp _ _ h3)
      rw [if_pos h', if_pos h]
      refine checkCollision_frames_loop_padding ext cs p hp sg0 low_res verbose visualize sg 1 _
        _ _ ?_
      intro hv
      subst hv
      obtain ⟨-, -, h3⟩ := h'
      unfold stateAfterDefault at h3 ⊢
      rw [cacheAfterDefaultFK_withPadding] at h3 ⊢
      rw [checkCollision_default_flag] at h3
      have h3' : SpheresClear (withPadding cs p)
          ((cacheAfterDefaultFK cs angles frames).getD 0 []) (sg0.getSpheres low_res) := by
        simpa using h3
      rw [checkCollision_default_dg_spheres _ _ _ _ _ _ _ h3',
        checkCollision_default_dg_spheres _ _ _ _ _ _ _
          (spheresClear_padding_mono cs p hp _ _ h3')]
    · rw [if_neg h']
      split
      · exact checkCollision_frames_loop_cacheLE ext cs sg0 low_res verbose visualize sg 1 _ _
      · exact cacheLE_refl _ _ _

/-! ## Padding: the result -/

theorem initialCache_of_length_pos (cs : SBPLCollisionSpace) (frames : FrameCache)
    (h : 0 < frames.length) : initialCache cs frames = frames := by
  unfold initialCache
  cases frames with
  | nil => simp at h
  | cons a t => rfl

theorem checkPass_with (ext : Externals) (cs : SBPLCollisionSpace) (l : List Sphere)
    (dgroup : Group) (low_res : Bool) (dfk : Bool × GroupFrames)
    (others : List (Group × (Bool × GroupFrames))) :
    CheckPass ext { cs with collision_spheres_ := l } dgroup low_res dfk others ↔
      CheckPass ext cs dgroup low_res dfk others :=
  Iff.rfl

/-- The caching check leaves a cache with an entry for every sphere group. -/
theorem checkCollision_frames_frames_length_pos (ext : Externals) (cs : SBPLCollisionSpace)
    (angles : List ℚ) (low_res verbose visualize : Bool)
    (sg0 : Group) (sg : List Group) (hsg : cs.model_.sphere_groups = sg0 :: sg) :
    0 < (checkCollision_frames ext cs angles [] low_res verbose visualize).frames.length := by
  rw [(checkCollision_frames_frames_zero ext cs angles [] low_res verbose visualize sg0 sg
    hsg).1, initialCache_nil, hsg]
  simp

theorem checkCollision_res_padding (ext : Externals) (cs : SBPLCollisionSpace) (p : ℚ)
    (hp : cs.padding_ ≤ p) (angles : List ℚ) (low_res verbose visualize : Bool)
    (h : (checkCollision_res ext (withPadding cs p) angles low_res verbose visualize).ret
      = true) :
    (checkCollision_res ext cs angles low_res verbose visualize).ret = true := by
  rw [checkCollision_res_ret_iff] at h ⊢
  exact checkPass_mono ext cs p hp _ _ _ _ _ _ (viewLE_refl _)
    (fun gf hgf => ⟨gf, hgf, rfl, viewLE_refl _⟩) h

theorem checkCollision_frames_padding (ext : Externals) (cs : SBPLCollisionSpace) (p : ℚ)
    (hp : cs.padding_ ≤ p) (angles : List ℚ) (frames : FrameCache)
    (low_res verbose visualize : Bool)
    (h : (checkCollision_frames ext (withPadding cs p) angles frames low_res verbose
      visualize).ret = true) :
    (checkCollision_frames ext cs angles frames low_res verbose visualize).ret = true := by
  rw [checkCollision_frames_ret_iff] at h ⊢
  obtain ⟨sg0, sg, hsg, hpass⟩ := h
  exact ⟨sg0, sg, hsg, checkPass_cached_mono ext cs p hp sg0 sg low_res _ _ _ (viewLE_refl _)
    (cacheLE_refl _ _ _) hpass⟩

/-- The two-level check: valid with a padding, valid with any smaller one. -/
theorem checkCollision_padding (ext : Externals) (cs : SBPLCollisionSpace) (p : ℚ)
    (hp : cs.padding_ ≤ p) (angles : List ℚ) (verbose visualize : Bool)
    (h : (checkCollision ext (withPadding cs p) angles verbose visualize).ret = true) :
    (checkCollision ext cs angles verbose visualize).ret = true := by
  unfold checkCollision at h ⊢
  dsimp only at h ⊢
  have hmulti : (withPadding cs p).use_multi_level_collision_check_ =
    cs.use_multi_level_collision_check_ := rfl
  rw [hmulti] at h
  cases hm : cs.use_multi_level_collision_check_
  · simp only [hm, Bool.not_false, if_true] at h ⊢
    exact checkCollision_res_padding ext cs p hp angles false verbose visualize h
  · simp only [hm, Bool.not_true, Bool.false_eq_true, if_false] at h ⊢
    by_cases hc : (checkCollision_frames ext cs angles [] true verbose visualize).ret = true
    · rw [if_pos hc]; exact hc
    · rw [if_neg hc]
      have hc' : ¬ (checkCollision_frames ext (withPadding cs p) angles [] true verbose
          visualize).ret = true :=
        fun h' => hc (checkCollision_frames_padding ext cs p hp angles [] true verbose
          visualize h')
      rw [if_neg hc'] at h
      rw [checkCollision_frames_ret_iff] at h ⊢
      obtain ⟨sg0, sg, hsg, hpass⟩ := h
      refine ⟨sg0, sg, hsg, ?_⟩
      have hsg' : cs.model_.sphere_groups = sg0 :: sg := hsg
      have hlen := checkCollision_frames_frames_length_pos ext cs angles true verbose visualize
        sg0 sg hsg'
      have hlen' := checkCollision_frames_frames_length_pos ext (withPadding cs p) angles true
        verbose visualize sg0 sg hsg'
      have hle := checkCollision_frames_padding_cacheLE ext cs p hp angles [] true verbose
        visualize sg0 sg hsg'
      rw [initialCache_of_length_pos _ _ hlen'] at hpass
      rw [initialCache_of_length_pos _ _ hlen]
      exact checkPass_cached_mono ext cs p hp sg0 sg false _ _ _ hle.1 hle.2 hpass

/-- C10. For paddings `p ≤ p'`, a check that reports not valid with padding
`p` reports not valid with padding `p'`: the sphere-vs-field test, the pairwise
test, both per-resolution checks, and the two-level `checkCollision` (with
multi-level checking enabled or disabled), for either setting of `visualize`. -/
theorem padding_monotone (ext : Externals) (cs : SBPLCollisionSpace) (p' : ℚ)
    (hp : cs.padding_ ≤ p') :
    (∀ (frames : GroupFrames) (spheres : List Sphere) (verbose visualize : Bool)
        (sph_poses : List KDL.Vector),
      (checkSpheresAgainstWorld cs frames spheres verbose visualize sph_poses).ret = false →
      (checkSpheresAgainstWorld (withPadding cs p') frames spheres verbose visualize
        sph_poses).ret = false) ∧
    (∀ (group1 group2 : Group) (spheres1 spheres2 : List KDL.Vector)
        (low_res1 low_res2 verbose visualize : Bool),
      (checkSphereGroupAgainstSphereGroup ext cs group1 group2 spheres1 spheres2 low_res1
        low_res2 verbose visualize).ret = false →
      (checkSphereGroupAgainstSphereGroup ext (withPadding cs p') group1 group2 spheres1
        spheres2 low_res1 low_res2 verbose visualize).ret = false) ∧
    (∀ (angles : List ℚ) (low_res verbose visualize : Bool),
      (checkCollision_res ext cs angles low_res verbose visualize).ret = false →
      (checkCollision_res ext (withPadding cs p') angles low_res verbose visualize).ret
        = false) ∧
    (∀ (angles : List ℚ) (frames : FrameCache) (low_res verbose visualize : Bool),
      (checkCollision_frames ext cs angles frames low_res verbose visualize).ret = false →
      (checkCollision_frames ext (withPadding cs p') angles frames low_res verbose
        visualize).ret = false) ∧
    (∀ (angles : List ℚ) (verbose visualize : Bool),
      (checkCollision ext cs angles verbose visualize).ret = false →
      (checkCollision ext (withPadding cs p') angles verbose visualize).ret = false) := by
  refine ⟨?_, ?_, ?_, ?_, ?_⟩
  · intro frames spheres verbose visualize sph_poses h
    rw [← Bool.not_eq_true] at h ⊢
    intro h'
    apply h
    rw [checkSpheresAgainstWorld_ret_iff'] at h' ⊢
    exact spheresClear_padding_mono cs p' hp _ _ h'
  · intro group1 group2 spheres1 spheres2 low_res1 low_res2 verbose visualize h
    rw [← Bool.not_eq_true] at h ⊢
    intro h'
    apply h
    rw [checkSphereGroupAgainstSphereGroup_ret_iff'] at h' ⊢
    exact groupsClear_padding_mono ext cs p' hp _ _ _ _ _ _ h'
  · intro angles low_res verbose visualize h
    rw [← Bool.not_eq_true] at h ⊢
    exact fun h' => h (checkCollision_res_padding ext cs p' hp angles low_res verbose
      visualize h')
  · intro angles frames low_res verbose visualize h
    rw [← Bool.not_eq_true] at h ⊢
    exact fun h' => h (checkCollision_frames_padding ext cs p' hp angles frames low_res verbose
      visualize h')
  · intro angles verbose visualize h
    rw [← Bool.not_eq_true] at h ⊢
    exact fun h' => h (checkCollision_padding ext cs p' hp angles verbose visualize h')

/-- C10 at the example engine with three groups: with padding 3 the
configuration `[4]` is in collision, with padding 0 it is valid, and raising
the padding keeps every check that reported not valid not valid. -/
theorem padding_monotone_witness :
    ((∀ (frames : GroupFrames) (spheres : List Sphere) (verbose visualize : Bool)
        (sph_poses : List KDL.Vector),
      (checkSpheresAgainstWorld exampleThreeGroups frames spheres verbose visualize
        sph_poses).ret = false →
      (checkSpheresAgainstWorld (withPadding exampleThreeGroups 3) frames spheres verbose
        visualize sph_poses).ret = false) ∧
    (∀ (group1 group2 : Group) (spheres1 spheres2 : List KDL.Vector)
        (low_res1 low_res2 verbose visualize : Bool),
      (checkSphereGroupAgainstSphereGroup exampleExt exampleThreeGroups group1 group2 spheres1
        spheres2 low_res1 low_res2 verbose visualize).ret = false →
      (checkSphereGroupAgainstSphereGroup exampleExt (withPadding exampleThreeGroups 3) group1
        group2 spheres1 spheres2 low_res1 low_res2 verbose visualize).ret = false) ∧
    (∀ (angles : List ℚ) (low_res verbose visualize : Bool),
      (checkCollision_res exampleExt exampleThreeGroups angles low_res verbose visualize).ret
        = false →
      (checkCollision_res exampleExt (withPadding exampleThreeGroups 3) angles low_res verbose
        visualize).ret = false) ∧
    (∀ (angles : List ℚ) (frames : FrameCache) (low_res verbose visualize : Bool),
      (checkCollision_frames exampleExt exampleThreeGroups angles frames low_res verbose
        visualize).ret = false →
      (checkCollision_frames exampleExt (withPadding exampleThreeGroups 3) angles frames low_res
        verbose visualize).ret = false) ∧
    (∀ (angles : List ℚ) (verbose visualize : Bool),
      (checkCollision exampleExt exampleThreeGroups angles verbose visualize).ret = false →
      (checkCollision exampleExt (withPadding exampleThreeGroups 3) angles verbose
        visualize).ret = false)) ∧
    (checkCollision exampleExt exampleThreeGroups [4] false false).ret = true ∧
    (checkCollision exampleExt (withPadding exampleThreeGroups 3) [4] false false).ret = false ∧
    (checkCollision exampleExt (withPadding exampleThreeGroups 5) [4] false false).ret = false :=
  ⟨padding_monotone exampleExt exampleThreeGroups 3 (by decide!), by decide!, by decide!,
    by decide!⟩

/-! ## Coarse and fine subsets -/

theorem posedCenter_eq_of_dominated (frames : GroupFrames) (c f : Sphere)
    (h1 : c.kdl_chain = f.kdl_chain) (h2 : c.kdl_segment = f.kdl_segment) (h3 : c.v = f.v) :
    posedCenter frames c = posedCenter frames f := by
  unfold posedCenter
  rw [h1, h2, h3]

theorem spheresClear_of_dominated (cs : SBPLCollisionSpace) (frames : GroupFrames) (g : Group)
    (hg : GroupDominated g) (h : SpheresClear cs frames (g.getSpheres true)) :
    SpheresClear cs frames (g.getSpheres false) := by
  intro f hf
  obtain ⟨c, hc, h1, h2, h3, h4⟩ := hg f hf
  obtain ⟨hb, hd⟩ := h c hc
  have hpose := posedCenter_eq_of_dominated frames c f h1 h2 h3
  unfold SphereClear sphereInBounds fieldDistance sphereCell at *
  rw [hpose] at hb hd
  exact ⟨hb, lt_of_le_of_lt (dadd_mono_left _ _ _ h4) hd⟩

theorem mem_zip_map {α β : Type} (f : α → β) (l : List α) (p : α × β) :
    p ∈ l.zip (l.map f) ↔ p.1 ∈ l ∧ p.2 = f p.1 := by
  induction l with
  | nil => simp
  | cons a t ih =>
    simp only [List.map_cons, List.zip_cons_cons, List.mem_cons, ih]
    constructor
    · rintro (rfl | ⟨h1, h2⟩)
      · exact ⟨Or.inl rfl, rfl⟩
      · exact ⟨Or.inr h1, h2⟩
    · rintro ⟨rfl | h1, h2⟩
      · left; exact Prod.ext rfl h2
      · exact Or.inr ⟨h1, h2⟩

theorem groupsClear_of_dominated (ext : Externals) (cs : SBPLCollisionSpace) (g1 g2 : Group)
    (fr1 fr2 : GroupFrames) (h1 : GroupDominated g1) (h2 : GroupDominated g2)
    (h : GroupsClear ext cs g1 g2 true true ((g1.getSpheres true).map (posedCenter fr1))
      ((g2.getSpheres true).map (posedCenter fr2))) :
    GroupsClear ext cs g1 g2 false false ((g1.getSpheres false).map (posedCenter fr1))
      ((g2.getSpheres false).map (posedCenter fr2)) := by
  refine ⟨⟨by simp, by simp⟩, fun p1 hp1 p2 hp2 => ?_⟩
  rw [mem_zip_map] at hp1 hp2
  obtain ⟨c1, hc1, a1, a2, a3, a4⟩ := h1 p1.1 hp1.1
  obtain ⟨c2, hc2, b1, b2, b3, b4⟩ := h2 p2.1 hp2.1
  have := h.2 (c1, posedCenter fr1 c1) ((mem_zip_map _ _ _).mpr ⟨hc1, rfl⟩)
    (c2, posedCenter fr2 c2) ((mem_zip_map _ _ _).mpr ⟨hc2, rfl⟩)
  unfold PairClear at this ⊢
  simp only at this
  rw [hp1.2, hp2.2, ← posedCenter_eq_of_dominated fr1 c1 p1.1 a1 a2 a3,
    ← posedCenter_eq_of_dominated fr2 c2 p2.1 b1 b2 b3]
  exact lt_of_le_of_lt (max_le_max (dadd_mono_left _ _ _ a4) (dadd_mono_left _ _ _ b4)) this

/-- With dominated groups, a pass on the coarse subsets is a pass on the fine
subsets. -/
theorem checkPass_of_dominated (ext : Externals) (cs : SBPLCollisionSpace) (dgroup : Group)
    (dfk : Bool × GroupFrames) (others : List (Group × (Bool × GroupFrames)))
    (hd : GroupDominated dgroup) (ho : ∀ gf ∈ others, GroupDominated gf.1)
    (h : CheckPass ext cs dgroup true dfk others) : CheckPass ext cs dgroup false dfk others := by
  obtain ⟨h1, h2, h3, h4⟩ := h
  refine ⟨h1, h2, spheresClear_of_dominated cs _ _ hd h3, fun gf hgf => ?_⟩
  obtain ⟨a1, a2, a3⟩ := h4 gf hgf
  exact ⟨a1, spheresClear_of_dominated cs _ _ (ho gf hgf) a2,
    groupsClear_of_dominated ext cs _ _ _ _ hd (ho gf hgf) a3⟩

theorem cachedFK_eq_of_clean (r : Bool × GroupFrames) (F0 F : FrameCache) (j : Nat)
    (hc : FKClean r) (h0 : cachedFK r F0 j = r) (hle : viewLE (cachedFK r F0 j) (cachedFK r F j)) :
    cachedFK r F j = r := by
  rw [h0] at hle
  obtain ⟨h2, h1⟩ := hle
  rcases hc with hc | hc
  · exact Prod.ext ((h1 hc).trans hc.symm) h2.symm
  · refine Prod.ext ?_ h2.symm
    have h3 := h2
    rw [cachedFK_eq] at h3 ⊢
    split
    · rfl
    · rename_i hne
      rw [if_neg hne] at h3
      simp only at h3
      rw [hc] at h3
      rw [← h3] at hne
      simp at hne

theorem cachedGroups_eq_map (sg : List Group) :
    ∀ (i : Nat) (F : FrameCache),
      (∀ k g, sg[k]? = some g → cachedFK (g.computeFK []) F (i + k) = g.computeFK []) →
      cachedGroups sg i F = sg.map (fun g => (g, g.computeFK [])) := by
  induction sg with
  | nil => intro i F _; rfl
  | cons g rest ih =>
    intro i F h
    simp only [cachedGroups, List.map_cons]
    rw [show cachedFK (g.computeFK []) F i = g.computeFK [] by simpa using h 0 g (by simp),
      ih (i + 1) F (fun k g' hk => by
        have := h (k + 1) g' (by simpa using hk)
        rwa [show i + (k + 1) = i + 1 + k by omega] at this)]

/-! ## Coarse and fine subsets: the result -/

/-- When forward kinematics succeeds or leaves no frames, the views on the
cache left by a caching check on the empty cache are the fresh outcomes. -/
theorem checkCollision_frames_views_of_clean (ext : Externals) (cs : SBPLCollisionSpace)
    (angles : List ℚ) (low_res verbose visualize : Bool) (sg0 : Group) (sg : List Group)
    (hsg : cs.model_.sphere_groups = sg0 :: sg)
    (hd : FKClean (cs.model_.computeDefaultGroupFK angles))
    (ho : ∀ g ∈ sg, FKClean (g.computeFK [])) :
    cachedFK (cs.model_.computeDefaultGroupFK angles)
      (checkCollision_frames ext cs angles [] low_res verbose visualize).frames 0 =
        cs.model_.computeDefaultGroupFK angles ∧
    cachedGroups sg 1 (checkCollision_frames ext cs angles [] low_res verbose visualize).frames =
      sg.map (fun g => (g, g.computeFK [])) := by
  obtain ⟨h1, h2⟩ := checkCollision_frames_cacheLE ext cs angles [] low_res verbose visualize
    sg0 sg hsg
  rw [initialCache_nil, hsg] at h1 h2
  constructor
  · exact cachedFK_eq_of_clean _ _ _ 0 hd (cachedFK_replicate _ _ _ (by simp)) h1
  · apply cachedGroups_eq_map
    intro k g hk
    have hklt : k < sg.length := by
      by_contra hge
      rw [List.getElem?_eq_none (by omega)] at hk
      exact absurd hk (by simp)
    exact cachedFK_eq_of_clean _ _ _ (1 + k) (ho g (List.mem_iff_getElem?.mpr ⟨k, hk⟩))
      (cachedFK_replicate _ _ _ (by simp; omega)) (h2 k g hk)

/-- A model outside the invariant of the data model: the coarse sphere of
`exampleLooseGroup` does not bound its fine sphere, and at the configuration
`[1]` both per-resolution checks report valid on the coarse subset and not
valid on the fine subset; the two-level check reports valid where the
fine-only check reports not valid. -/
theorem coarse_valid_fine_invalid :
    (checkCollision_res exampleExt (exampleLoose true) [1] true false false).ret = true ∧
    (checkCollision_res exampleExt (exampleLoose true) [1] false false false).ret = false ∧
    (checkCollision_frames exampleExt (exampleLoose true) [1] [] true false false).ret = true ∧
    (checkCollision_frames exampleExt (exampleLoose true) [1] [] false false false).ret
      = false ∧
    (checkCollision exampleExt (exampleLoose true) [1] false false).ret = true ∧
    (checkCollision exampleExt (exampleLoose false) [1] false false).ret = false := by
  decide!

/-- C5, amended. In a model in which every fine sphere of every group is
matched by a coarse sphere of the same group (same frame, same local centre,
a radius at least as large), a per-resolution check that reports valid on the
coarse subset reports valid on the fine subset, for both overloads. If moreover
the first sphere group is the default group and every forward kinematics
succeeds or leaves no frames, the two-level `checkCollision` returns the
verdict of the fine-only check. That the coarse spheres geometrically bound
the fine ones, at other centres, does not suffice: the pairwise test compares
the centre distance with the larger radius, not with the sum of the radii. -/
theorem coarse_fine_consistency (ext : Externals) (cs : SBPLCollisionSpace) (angles : List ℚ)
    (verbose visualize : Bool)
    (hdom : ∀ g ∈ cs.model_.default_group :: cs.model_.sphere_groups, GroupDominated g) :
    ((checkCollision_res ext cs angles true verbose visualize).ret = true →
      (checkCollision_res ext cs angles false verbose visualize).ret = true) ∧
    (∀ frames : FrameCache,
      (checkCollision_frames ext cs angles frames true verbose visualize).ret = true →
      (checkCollision_frames ext cs angles frames false verbose visualize).ret = true) ∧
    (cs.model_.sphere_groups.head? = some cs.model_.default_group →
      FKClean (cs.model_.computeDefaultGroupFK angles) →
      (∀ g ∈ cs.model_.sphere_groups.drop 1, FKClean (g.computeFK [])) →
      (checkCollision ext cs angles verbose visualize).ret =
        (checkCollision_res ext cs angles false verbose visualize).ret) := by
  refine ⟨?_, ?_, ?_⟩
  · intro h
    rw [checkCollision_res_ret_iff] at h ⊢
    refine checkPass_of_dominated ext cs _ _ _ (hdom _ (List.mem_cons_self _ _)) ?_ h
    intro gf hgf
    obtain ⟨g, hg, rfl⟩ := List.mem_map.mp hgf
    exact hdom g (List.mem_cons_of_mem _ (List.mem_of_mem_drop hg))
  · intro frames h
    rw [checkCollision_frames_ret_iff] at h ⊢
    obtain ⟨sg0, sg, hsg, hpass⟩ := h
    refine ⟨sg0, sg, hsg, checkPass_of_dominated ext cs _ _ _ ?_ ?_ hpass⟩
    · exact hdom sg0 (List.mem_cons_of_mem _ (by rw [hsg]; exact List.mem_cons_self _ _))
    · intro gf hgf
      obtain ⟨k, g, hk, rfl⟩ := (mem_cachedGroups _ _ _ _).mp hgf
      exact hdom g (List.mem_cons_of_mem _
        (by rw [hsg]; exact List.mem_cons_of_mem _ (List.mem_iff_getElem?.mpr ⟨k, hk⟩)))
  · intro hfirst hd ho
    obtain ⟨sg, hsg⟩ : ∃ sg, cs.model_.sphere_groups = cs.model_.default_group :: sg := by
      cases h : cs.model_.sphere_groups with
      | nil => rw [h] at hfirst; simp at hfirst
      | cons a t =>
        rw [h] at hfirst
        simp only [List.head?_cons, Option.some.injEq] at hfirst
        exact ⟨t, by rw [hfirst]⟩
    have hdrop : cs.model_.sphere_groups.drop 1 = sg := by rw [hsg]; rfl
    rw [hdrop] at ho
    have hres := checkCollision_res_ret_iff ext cs angles false verbose visualize
    rw [hdrop] at hres
    unfold checkCollision
    dsimp only
    cases hm : cs.use_multi_level_collision_check_
    · simp
    · simp only [Bool.not_true, Bool.false_eq_true, if_false]
      by_cases hc : (checkCollision_frames ext cs angles [] true verbose visualize).ret = true
      · rw [if_pos hc, hc]
        symm
        rw [hres]
        rw [checkCollision_frames_nil_ret_iff] at hc
        obtain ⟨sg0, sg', hsg', hpass⟩ := hc
        rw [hsg] at hsg'
        cases hsg'
        refine checkPass_of_dominated ext cs _ _ _ (hdom _ (List.mem_cons_self _ _)) ?_ hpass
        intro gf hgf
        obtain ⟨g, hg, rfl⟩ := List.mem_map.mp hgf
        exact hdom g (List.mem_cons_of_mem _ (by rw [hsg]; exact List.mem_cons_of_mem _ hg))
      · rw [if_neg hc, Bool.eq_iff_iff, hres, checkCollision_frames_ret_iff]
        have hlen := checkCollision_frames_frames_length_pos ext cs angles true verbose visualize
          _ sg hsg
        obtain ⟨hv0, hv1⟩ := checkCollision_frames_views_of_clean ext cs angles true verbose
          visualize _ sg hsg hd ho
        rw [initialCache_of_length_pos _ _ hlen]
        constructor
        · rintro ⟨sg0, sg', hsg', hpass⟩
          have hsg'' : cs.model_.default_group :: sg = sg0 :: sg' := hsg.symm.trans hsg'
          cases hsg''
          have hpass' : CheckPass ext cs cs.model_.default_group false
              (cachedFK (cs.model_.computeDefaultGroupFK angles)
                (checkCollision_frames ext cs angles [] true verbose visualize).frames 0)
              (cachedGroups sg 1
                (checkCollision_frames ext cs angles [] true verbose visualize).frames) := hpass
          rw [hv0, hv1] at hpass'
          exact hpass'
        · intro hpass
          refine ⟨cs.model_.default_group, sg, hsg, ?_⟩
          have hpass' : CheckPass ext cs cs.model_.default_group false
              (cachedFK (cs.model_.computeDefaultGroupFK angles)
                (checkCollision_frames ext cs angles [] true verbose visualize).frames 0)
              (cachedGroups sg 1
                (checkCollision_frames ext cs angles [] true verbose visualize).frames) := by
            rw [hv0, hv1]
            exact hpass
          exact hpass'

/-! ## Stable caches -/

theorem set_nil_of_getD_isEmpty (F : FrameCache) (j : Nat)
    (h : (F.getD j []).isEmpty = true) : F.set j [] = F := by
  by_cases hj : j < F.length
  · apply List.ext_getElem (by simp)
    intro n h1 h2
    by_cases hn : j = n
    · subst hn
      simp only [List.getElem_set_self]
      simp only [List.getD_eq_getElem?_getD, List.getElem?_eq_getElem hj, Option.getD_some,
        List.isEmpty_iff] at h
      exact h.symm
    · simp [List.getElem_set_ne hn]
  · exact List.set_eq_of_length_le (by omega)

theorem cachedFK_step_of_stable (r : Bool × GroupFrames) (F : FrameCache) (j : Nat)
    (h : (F.getD j []).isEmpty = false ∨ F.length ≤ j ∨ r.2 = []) :
    (cachedFK_step r F j).2 = F := by
  unfold cachedFK_step
  cases he : (F.getD j []).isEmpty
  · simp
  · simp only [if_true]
    rcases h with h | h | h
    · rw [he] at h; cases h
    · exact List.set_eq_of_length_le h
    · rw [h]; exact set_nil_of_getD_isEmpty F j he

theorem cacheStable_cons (g : Group) (gs : List Group) (i : Nat) (F : FrameCache) :
    CacheStable (g :: gs) i F ↔
      ((F.getD i []).isEmpty = false ∨ F.length ≤ i ∨ (g.computeFK []).2 = []) ∧
      CacheStable gs (i + 1) F := by
  constructor
  · intro h
    refine ⟨by simpa using h 0 g (by simp), fun k g' hk => ?_⟩
    have := h (k + 1) g' (by simpa using hk)
    rwa [show i + (k + 1) = i + 1 + k by omega] at this
  · rintro ⟨h0, h1⟩ k g' hk
    cases k with
    | zero =>
      simp only [List.getElem?_cons_zero, Option.some.injEq] at hk
      subst hk
      simpa using h0
    | succ k =>
      have := h1 k g' (by simpa using hk)
      rwa [show i + 1 + k = i + (k + 1) by omega] at this

/-- Stability only looks at the length and at the entries from `i` on. -/
theorem cacheStable_congr (gs : List Group) (i : Nat) (F G : FrameCache)
    (hlen : G.length = F.length) (hget : ∀ j, i ≤ j → G.getD j [] = F.getD j [])
    (h : CacheStable gs i F) : CacheStable gs i G := by
  intro k g hk
  rw [hget (i + k) (by omega), hlen]
  exact h k g hk

/-- On a stable cache the loop of the caching check leaves the cache as it is. -/
theorem checkCollision_frames_loop_of_stable (ext : Externals) (cs : SBPLCollisionSpace)
    (sg0 : Group) (low_res verbose visualize : Bool) (sg : List Group) :
    ∀ (i : Nat) (frames : FrameCache) (st : CollisionLoop), CacheStable sg i frames →
      (checkCollision_frames_loop ext cs sg0 low_res verbose visualize sg i frames st).2.1
        = frames := by
  induction sg with
  | nil => intro i frames st _; rfl
  | cons g rest ih =>
    intro i frames st hst
    obtain ⟨h0, h1⟩ := (cacheStable_cons _ _ _ _).mp hst
    have hS := cachedFK_step_of_stable (g.computeFK []) frames i h0
    simp only [checkCollision_frames_loop]
    split
    · exact hS
    · generalize checkCollision_group _ _ _ _ _ _ _ _ _ = G
      obtain ⟨b, st1⟩ := G
      cases b
      · exact hS
      · simp only
        rw [hS]
        exact ih (i + 1) frames st1 h1

theorem cachedFK_step_stable_self (r : Bool × GroupFrames) (F : FrameCache) (i : Nat) :
    ((cachedFK_step r F i).2.getD i []).isEmpty = false ∨ (cachedFK_step r F i).2.length ≤ i ∨
      r.2 = [] := by
  by_cases hi : i < F.length
  · cases he : ((cachedFK_step r F i).2.getD i []).isEmpty
    · exact Or.inl rfl
    · right; right
      have h2 : (cachedFK_step r F i).2.getD i [] = (cachedFK r F i).2 := rfl
      rw [h2, cachedFK_eq] at he
      cases hF : (F.getD i []).isEmpty
      · rw [hF] at he
        simp only [Bool.false_eq_true, if_false] at he
        rw [hF] at he
        cases he
      · rw [hF] at he
        simp only [if_true, hi] at he
        exact List.isEmpty_iff.mp he
  · right; left
    rw [cachedFK_step_length]
    omega

/-- A loop of the caching check that runs to its end leaves a stable cache. -/
theorem checkCollision_frames_loop_stable (ext : Externals) (cs : SBPLCollisionSpace)
    (sg0 : Group) (low_res verbose visualize : Bool) (sg : List Group) :
    ∀ (i : Nat) (frames : FrameCache) (st : CollisionLoop),
      (checkCollision_frames_loop ext cs sg0 low_res verbose visualize sg i frames st).1 = true →
      CacheStable sg i
        (checkCollision_frames_loop ext cs sg0 low_res verbose visualize sg i frames st).2.1 := by
  induction sg with
  | nil => intro i frames st _ k g hk; simp at hk
  | cons g rest ih =>
    intro i frames st
    have hself := cachedFK_step_stable_self (g.computeFK []) frames i
    have hlt := checkCollision_frames_loop_frames_lt ext cs sg0 low_res verbose visualize rest
      (i + 1) (cachedFK_step (g.computeFK []) frames i).2
    have ih' := ih (i + 1) (cachedFK_step (g.computeFK []) frames i).2
    simp only [checkCollision_frames_loop]
    generalize cachedFK_step (g.computeFK []) frames i = S at hself hlt ih' ⊢
    split
    · intro h; cases h
    · generalize checkCollision_group _ _ _ _ _ _ _ _ _ = G
      obtain ⟨b, st1⟩ := G
      cases b
      · intro h; cases h
      · intro h
        refine (cacheStable_cons _ _ _ _).mpr ⟨?_, ih' st1 h⟩
        simp only
        rw [(hlt st1).2 i (Nat.lt_succ_self i), (hlt st1).1]
        exact hself

theorem initialCache_length_pos (cs : SBPLCollisionSpace) (frames : FrameCache)
    (sg0 : Group) (sg : List Group) (hsg : cs.model_.sphere_groups = sg0 :: sg) :
    0 < (initialCache cs frames).length := by
  unfold initialCache
  cases frames with
  | nil => simp [hsg]
  | cons a t => simp

/-- A caching check that returns valid has run its loop to the end. -/
theorem checkCollision_frames_valid_loop (ext : Externals) (cs : SBPLCollisionSpace)
    (angles : List ℚ) (frames : FrameCache) (low_res verbose visualize : Bool)
    (sg0 : Group) (sg : List Group) (hsg : cs.model_.sphere_groups = sg0 :: sg)
    (h : (checkCollision_frames ext cs angles frames low_res verbose visualize).ret = true) :
    ((cachedFK_step (cs.model_.computeDefaultGroupFK angles) (initialCache cs frames) 0).1
          = true ∧
        (checkCollision_attached cs ((cacheAfterDefaultFK cs angles frames).getD 0 []) verbose
          visualize (collisionStart cs visualize)).1 = true ∧
        (stateAfterDefault cs sg0 angles frames low_res verbose visualize).1 = true) ∧
    (checkCollision_frames_loop ext cs sg0 low_res verbose visualize sg 1
      (cacheAfterDefaultFK cs angles frames)
      (stateAfterDefault cs sg0 angles frames low_res verbose visualize).2).1 = true := by
  revert h
  unfold stateAfterDefault cacheAfterDefaultFK collisionStart checkCollision_frames initialCache
  rw [hsg]
  dsimp only
  generalize (if frames.isEmpty = true then List.replicate (sg0 :: sg).length [] else frames)
    = F
  cases hfk : (cachedFK_step (cs.model_.computeDefaultGroupFK angles) F 0).1
  · simp
  simp only [Bool.not_true, Bool.false_eq_true, if_false, true_and]
  generalize checkCollision_attached _ _ _ _ _ = A
  obtain ⟨bA, stA⟩ := A
  cases bA
  · simp
  dsimp only
  generalize checkCollision_default _ _ _ _ _ _ _ = D
  obtain ⟨bD, stD⟩ := D
  cases bD
  · simp
  dsimp only
  generalize checkCollision_frames_loop _ _ _ _ _ _ _ _ _ _ = L
  obtain ⟨bL, FL, stL⟩ := L
  cases bL
  · simp
  · simp

/-- A caching check that returns valid leaves a stable cache. -/
theorem checkCollision_frames_stable_of_valid (ext : Externals) (cs : SBPLCollisionSpace)
    (angles : List ℚ) (frames : FrameCache) (low_res verbose visualize : Bool)
    (sg0 : Group) (sg : List Group) (hsg : cs.model_.sphere_groups = sg0 :: sg)
    (h : (checkCollision_frames ext cs angles frames low_res verbose visualize).ret = true) :
    CacheStable sg 1
      (checkCollision_frames ext cs angles frames low_res verbose visualize).frames := by
  obtain ⟨h1, h2⟩ := checkCollision_frames_valid_loop ext cs angles frames low_res verbose
    visualize sg0 sg hsg h
  rw [checkCollision_frames_frames_eq ext cs angles frames low_res verbose visualize sg0 sg hsg,
    if_pos h1]
  exact checkCollision_frames_loop_stable ext cs sg0 low_res verbose visualize sg 1 _ _ h2

/-- On a stable cache `a :: T` the caching check leaves `a' :: T`, where `a'`
is `a` when `a` holds frames and else what the forward kinematics of the
default group wrote. -/
theorem checkCollision_frames_of_stable (ext : Externals) (cs : SBPLCollisionSpace)
    (angles : List ℚ) (a : GroupFrames) (T : FrameCache) (low_res verbose visualize : Bool)
    (sg0 : Group) (sg : List Group) (hsg : cs.model_.sphere_groups = sg0 :: sg)
    (hst : CacheStable sg 1 (a :: T)) :
    (checkCollision_frames ext cs angles (a :: T) low_res verbose visualize).frames =
      (if a.isEmpty then (cs.model_.computeDefaultGroupFK angles).2 else a) :: T := by
  have hinit : initialCache cs (a :: T) = a :: T := rfl
  have hafter : cacheAfterDefaultFK cs angles (a :: T) =
      (if a.isEmpty then (cs.model_.computeDefaultGroupFK angles).2 else a) :: T := by
    unfold cacheAfterDefaultFK cachedFK_step
    rw [hinit]
    cases a <;> simp
  rw [checkCollision_frames_frames_eq ext cs angles _ low_res verbose visualize sg0 sg hsg, hafter]
  generalize (if a.isEmpty = true then (cs.model_.computeDefaultGroupFK angles).2 else a) = a'
  by_cases hcond : (cachedFK_step (cs.model_.computeDefaultGroupFK angles)
        (initialCache cs (a :: T)) 0).1 = true ∧
      (checkCollision_attached cs ((a' :: T).getD 0 []) verbose visualize
        (collisionStart cs visualize)).1 = true ∧
      (stateAfterDefault cs sg0 angles (a :: T) low_res verbose visualize).1 = true
  · rw [if_pos hcond]
    apply checkCollision_frames_loop_of_stable
    refine cacheStable_congr sg 1 (a :: T) _ (by simp) (fun j hj => ?_) hst
    cases j with
    | zero => omega
    | succ j => simp
  · rw [if_neg hcond]

/-- With multi-level checking, on a stable cache `a :: T` the point check
leaves the frames of the default group followed by `T`. -/
theorem isStateValid_frames_of_stable (ext : Externals) (cs : SBPLCollisionSpace)
    (angles : List ℚ) (a : GroupFrames) (T : FrameCache) (verbose visualize : Bool)
    (sg0 : Group) (sg : List Group) (hsg : cs.model_.sphere_groups = sg0 :: sg)
    (hm : cs.use_multi_level_collision_check_ = true)
    (hst : CacheStable sg 1 (a :: T)) :
    (isStateValid_frames ext cs angles (a :: T) verbose visualize).frames =
      (cs.model_.computeDefaultGroupFK angles).2 :: T := by
  have hst0 : CacheStable sg 1 (([] : GroupFrames) :: T) := by
    refine cacheStable_congr sg 1 (a :: T) _ (by simp) (fun j hj => ?_) hst
    cases j with
    | zero => omega
    | succ j => simp
  have hst1 : CacheStable sg 1 ((cs.model_.computeDefaultGroupFK angles).2 :: T) := by
    refine cacheStable_congr sg 1 (a :: T) _ (by simp) (fun j hj => ?_) hst
    cases j with
    | zero => omega
    | succ j => simp
  have hc := checkCollision_frames_of_stable ext cs angles [] T true verbose visualize sg0 sg
    hsg hst0
  simp only [List.isEmpty_nil, if_true] at hc
  have hf := checkCollision_frames_of_stable ext
    { cs with collision_spheres_ := (checkCollision_frames ext cs angles ([] :: T) true verbose
        visualize).collision_spheres_ }
    angles (cs.model_.computeDefaultGroupFK angles).2 T false verbose visualize sg0 sg hsg hst1
  have hclear : (if (!(a :: T).isEmpty) = true then (a :: T).set 0 [] else a :: T)
      = [] :: T := by simp
  have hmulti : ¬ (!cs.use_multi_level_collision_check_) = true := by simp [hm]
  unfold isStateValid_frames
  dsimp only
  rw [hclear, if_neg hmulti]
  by_cases hret : (checkCollision_frames ext cs angles ([] :: T) true verbose visualize).ret
      = true
  · rw [if_pos hret]
    exact hc
  · rw [if_neg hret, hc, hf]
    show (if (cs.model_.computeDefaultGroupFK angles).2.isEmpty = true
      then (cs.model_.computeDefaultGroupFK angles).2
      else (cs.model_.computeDefaultGroupFK angles).2) :: T = _
    rw [ite_self]

/-- With multi-level checking, a point check that returns valid leaves a
stable cache with an entry for the default group. -/
theorem isStateValid_frames_stable_of_valid (ext : Externals) (cs : SBPLCollisionSpace)
    (angles : List ℚ) (frames : FrameCache) (verbose visualize : Bool)
    (hm : cs.use_multi_level_collision_check_ = true)
    (h : (isStateValid_frames ext cs angles frames verbose visualize).ret = true) :
    ∃ sg0 sg a T, cs.model_.sphere_groups = sg0 :: sg ∧
      (isStateValid_frames ext cs angles frames verbose visualize).frames = a :: T ∧
      CacheStable sg 1 (a :: T) := by
  revert h
  unfold isStateValid_frames
  dsimp only
  rw [if_neg (by simp [hm])]
  generalize (if (!frames.isEmpty) = true then frames.set 0 [] else frames) = F
  have key : ∀ (cs' : SBPLCollisionSpace) (F' : FrameCache) (lr : Bool),
      cs'.model_ = cs.model_ →
      (checkCollision_frames ext cs' angles F' lr verbose visualize).ret = true →
      ∃ sg0 sg a T, cs.model_.sphere_groups = sg0 :: sg ∧
        (checkCollision_frames ext cs' angles F' lr verbose visualize).frames = a :: T ∧
        CacheStable sg 1 (a :: T) := by
    intro cs' F' lr hmodel h
    obtain ⟨sg0, sg, hsg, -⟩ := (checkCollision_frames_ret_iff ext cs' angles F' lr verbose
      visualize).mp h
    have hstab := checkCollision_frames_stable_of_valid ext cs' angles F' lr verbose visualize
      sg0 sg hsg h
    have hlen := (checkCollision_frames_frames_zero ext cs' angles F' lr verbose visualize sg0 sg
      hsg).1
    have hpos := initialCache_length_pos cs' F' sg0 sg hsg
    rw [← hlen] at hpos
    generalize (checkCollision_frames ext cs' angles F' lr verbose visualize).frames = O
      at hstab hpos
    cases O with
    | nil => simp at hpos
    | cons a T => exact ⟨sg0, sg, a, T, hmodel ▸ hsg, rfl, hstab⟩
  by_cases hc : (checkCollision_frames ext cs angles F true verbose visualize).ret = true
  · rw [if_pos hc]
    intro _
    exact key cs F true rfl hc
  · rw [if_neg hc]
    intro h
    exact key _ _ false rfl h

/-! ## Path check: settled caches -/

/-- Without multi-level checking the verdict of the point check does not
depend on the cache. -/
theorem isStateValid_frames_ret_single (ext : Externals) (cs : SBPLCollisionSpace)
    (angles : List ℚ) (frames : FrameCache) (verbose visualize : Bool)
    (hm : cs.use_multi_level_collision_check_ = false) :
    (isStateValid_frames ext cs angles frames verbose visualize).ret =
      (checkCollision_res ext cs angles false verbose visualize).ret := by
  have hmulti : (!cs.use_multi_level_collision_check_) = true := by simp [hm]
  unfold isStateValid_frames
  dsimp only
  rw [if_pos hmulti]

/-- Once a point check has returned valid, the cache it leaves is settled:
from it, and from every cache a later point check leaves, the verdict on a
waypoint is the same. -/
theorem isStateValid_frames_settled (ext : Externals) (cs : SBPLCollisionSpace)
    (angles0 : List ℚ) (frames : FrameCache) (verbose : Bool)
    (h : (isStateValid_frames ext cs angles0 frames verbose false).ret = true) :
    ∃ Inv : FrameCache → Prop,
      Inv (isStateValid_frames ext cs angles0 frames verbose false).frames ∧
      ∀ angles fr, Inv fr →
        (isStateValid_frames ext cs angles fr verbose false).ret =
          (isStateValid_frames ext cs angles
            (isStateValid_frames ext cs angles0 frames verbose false).frames verbose false).ret ∧
        Inv (isStateValid_frames ext cs angles fr verbose false).frames := by
  cases hm : cs.use_multi_level_collision_check_
  · refine ⟨fun _ => True, trivial, fun angles fr _ => ⟨?_, trivial⟩⟩
    rw [isStateValid_frames_ret_single ext cs angles fr verbose false hm,
      isStateValid_frames_ret_single ext cs angles _ verbose false hm]
  · obtain ⟨sg0, sg, a, T, hsg, hfr, hst⟩ :=
      isStateValid_frames_stable_of_valid ext cs angles0 frames verbose false hm h
    refine ⟨fun fr => ∃ b, fr = b :: T, ⟨a, hfr⟩, ?_⟩
    rintro angles fr ⟨b, rfl⟩
    have hstb : CacheStable sg 1 (b :: T) := by
      refine cacheStable_congr sg 1 (a :: T) _ (by simp) (fun j hj => ?_) hst
      cases j with
      | zero => omega
      | succ j => simp
    refine ⟨?_, _, isStateValid_frames_of_stable ext cs angles b T verbose false sg0 sg hsg hm
      hstb⟩
    rw [hfr, isStateValid_frames_cons ext cs angles b T,
      isStateValid_frames_cons ext cs angles a T]

/-- The scan of a duplicate-free list of indices that starts with waypoint 0,
from the state in which the path check enters its loops: its verdicts are
those of `waypointValid`. -/
theorem scanWaypoints_pathStart (ext : Externals) (cs : SBPLCollisionSpace)
    (path : List (List ℚ)) (frames : FrameCache) (verbose : Bool) (l : List Nat)
    (hnd : l.Nodup) (hhead : ∀ j rest, l = j :: rest → j = 0) :
    (scanWaypoints ext cs path verbose l (pathStart cs frames)).1 =
      l.all (waypointValid ext cs path frames verbose) ∧
    (scanWaypoints ext cs path verbose l (pathStart cs frames)).2.visited =
      l.take (l.findIdx (fun j => !waypointValid ext cs path frames verbose j) + 1) ∧
    (scanWaypoints ext cs path verbose l (pathStart cs frames)).2.num_checks =
      (l.take (l.findIdx (fun j => !waypointValid ext cs path frames verbose j) + 1)).length := by
  cases l with
  | nil => simp [scanWaypoints, pathStart]
  | cons j rest =>
    obtain rfl := hhead j rest rfl
    have hnot : (0 : Nat) ∉ rest := (List.nodup_cons.mp hnd).1
    have hV0 : waypointValid ext cs path frames verbose 0 =
        (isStateValid_frames ext cs (path.getD 0 []) frames verbose false).ret := by
      simp [waypointValid]
    have hcol := isStateValid_frames_collision_spheres ext cs (path.getD 0 []) frames verbose
    simp only [scanWaypoints, List.all_cons, List.findIdx_cons]
    have hbody : checkPathForCollision_body ext cs path verbose 0 (pathStart cs frames) =
        (if !(isStateValid_frames ext cs (path.getD 0 []) frames verbose false).ret then
          (false, { num_checks := 1,
                    dist := (isStateValid_frames ext cs (path.getD 0 []) frames verbose false).dist,
                    dist_temp :=
                      (isStateValid_frames ext cs (path.getD 0 []) frames verbose false).dist,
                    frames :=
                      (isStateValid_frames ext cs (path.getD 0 []) frames verbose false).frames,
                    collision_spheres_ := cs.collision_spheres_,
                    visited := [0] })
        else
          (true, { num_checks := 1,
                   dist :=
                     if (isStateValid_frames ext cs (path.getD 0 []) frames verbose false).dist
                        < 100
                     then (isStateValid_frames ext cs (path.getD 0 []) frames verbose false).dist
                     else 100,
                   dist_temp :=
                     (isStateValid_frames ext cs (path.getD 0 []) frames verbose false).dist,
                   frames :=
                     (isStateValid_frames ext cs (path.getD 0 []) frames verbose false).frames,
                   collision_spheres_ := cs.collision_spheres_,
                   visited := [0] })) := by
      unfold checkPathForCollision_body
      simp only [pathStart, with_collision_spheres_self, hcol, Nat.zero_add, List.nil_append]
    rw [hbody, hV0]
    cases hr : (isStateValid_frames ext cs (path.getD 0 []) frames verbose false).ret
    · simp
    · obtain ⟨Inv, hI0, hI⟩ := isStateValid_frames_settled ext cs (path.getD 0 []) frames verbose hr
      have hpure : ∀ j ∈ rest, ∀ fr, Inv fr →
          (isStateValid_frames ext cs (path.getD j []) fr verbose false).ret =
            waypointValid ext cs path frames verbose j ∧
          Inv (isStateValid_frames ext cs (path.getD j []) fr verbose false).frames := by
        intro j hj fr hfr
        have hj0 : j ≠ 0 := fun h0 => hnot (h0 ▸ hj)
        obtain ⟨h1, h2⟩ := hI (path.getD j []) fr hfr
        refine ⟨?_, h2⟩
        rw [h1]
        simp [waypointValid, hj0]
      simp only [Bool.not_true, Bool.false_eq_true, if_false, Bool.true_and, cond_false]
      obtain ⟨g1, g2, g3⟩ := scanWaypoints_of_valid ext cs path verbose Inv
        (waypointValid ext cs path frames verbose) rest hpure
        { num_checks := 1,
          dist :=
            if (isStateValid_frames ext cs (path.getD 0 []) frames verbose false).dist < 100
            then (isStateValid_frames ext cs (path.getD 0 []) frames verbose false).dist
            else 100,
          dist_temp := (isStateValid_frames ext cs (path.getD 0 []) frames verbose false).dist,
          frames := (isStateValid_frames ext cs (path.getD 0 []) frames verbose false).frames,
          collision_spheres_ := cs.collision_spheres_,
          visited := [0] } rfl hI0
      refine ⟨g1, ?_, ?_⟩
      · rw [g2]; simp
      · rw [g3]; simp; omega

/-- For a path with a waypoint the visitation order starts with waypoint 0. -/
theorem visitOrder_head (n j : Nat) (rest : List Nat) (h : visitOrder n = j :: rest) :
    j = 0 := by
  have hn : 0 < n := by
    rcases Nat.eq_zero_or_pos n with h0 | h0
    · subst h0
      simp [visitOrder] at h
    · exact h0
  obtain ⟨m, rfl⟩ : ∃ m, n = m + 1 := ⟨n - 1, by omega⟩
  unfold visitOrder at h
  rw [List.range_eq_range' (n := m + 1), List.range'_succ] at h
  split at h
  · have h5 : List.range 5 = [0, 1, 2, 3, 4] := rfl
    rw [h5] at h
    simp only [List.flatMap_cons, List.filter_cons, Nat.zero_mod, decide_True, if_true,
      List.cons_append, List.cons.injEq] at h
    exact h.1.symm
  · simp only [List.cons.injEq] at h
    exact h.1.symm

/-! ## Path check: all waypoints valid, and the first invalid waypoint -/

/-- C7. After a successful interpolation into `n` waypoints, each of which
passes the point validity check, `checkPathForCollision` returns valid with
`path_length = n` and `num_checks = n`, and the indices it has checked are
`visitOrder n`, a permutation of `0, ..., n - 1`. -/
theorem checkPathForCollision_all_valid (ext : Externals) (cs : SBPLCollisionSpace)
    (start end_ : List ℚ) (frames : FrameCache) (verbose : Bool) (path : List (List ℚ))
    (hip : interpolatePath ext cs (normalizeEndpoints ext start end_).1
      (normalizeEndpoints ext start end_).2 cs.inc_ = (true, path))
    (hvalid : ∀ j < path.length, waypointValid ext cs path frames verbose j = true) :
    ∃ r, checkPathForCollision_frames ext cs start end_ frames verbose = some r ∧
      r.ret = true ∧ r.path_length = path.length ∧ r.num_checks = path.length ∧
      r.visited = visitOrder path.length ∧ r.visited.Perm (List.range path.length) := by
  rw [checkPathForCollision_frames_eq_scan ext cs start end_ frames verbose path hip]
  obtain ⟨h1, h2, h3⟩ := scanWaypoints_pathStart ext cs path frames verbose
    (visitOrder path.length) (nodup_visitOrder _) (visitOrder_head _)
  have hidx : (visitOrder path.length).findIdx
      (fun j => !waypointValid ext cs path frames verbose j) =
      (visitOrder path.length).length :=
    List.findIdx_eq_length_of_false (fun j hj => by
      simp [hvalid j ((mem_visitOrder _ _).mp hj)])
  rw [hidx, List.take_of_length_le (Nat.le_succ _)] at h2 h3
  refine ⟨_, rfl, ?_, rfl, ?_, ?_, ?_⟩
  · dsimp only [PathResult.ofLoop]
    rw [h1, List.all_eq_true]
    exact fun j hj => hvalid j ((mem_visitOrder _ _).mp hj)
  · dsimp only [PathResult.ofLoop]
    rw [h3, visitOrder_length]
  · dsimp only [PathResult.ofLoop]
    rw [h2]
  · dsimp only [PathResult.ofLoop]
    rw [h2]
    exact visitOrder_perm path.length

/-- C7 at the example path from 2 to 9 on an empty cache: all of its twelve
waypoints are valid, and all twelve are checked. -/
theorem checkPathForCollision_all_valid_witness :
    (∀ j < (examplePath 2 9).length,
      waypointValid examplePathExt exampleArm (examplePath 2 9) [] false j = true) ∧
    (∃ r, checkPathForCollision_frames examplePathExt exampleArm [2] [9] [] false = some r ∧
      r.ret = true ∧ r.path_length = (examplePath 2 9).length ∧
      r.num_checks = (examplePath 2 9).length ∧
      r.visited = visitOrder (examplePath 2 9).length ∧
      r.visited.Perm (List.range (examplePath 2 9).length)) ∧
    (checkPathForCollision_frames examplePathExt exampleArm [2] [9] [] false).map
      (fun r => (r.ret, r.path_length, r.num_checks, r.visited)) =
        some (true, 12, 12, [0, 5, 10, 1, 6, 11, 2, 7, 3, 8, 4, 9]) :=
  ⟨by decide!,
    checkPathForCollision_all_valid examplePathExt exampleArm [2] [9] [] false (examplePath 2 9)
      (by decide!) (by decide!),
    by decide!⟩

/-- The path check in terms of the verdicts on the caches the loops carry.
After a successful interpolation into `n` waypoints, `checkPathForCollision`
reports `path_length = n`. With `waypointValid j` the verdict of the point
check on waypoint `j` run on the cache with which the loops reach it: when some waypoint is invalid the
call returns invalid, `num_checks` is the 1-based position in `visitOrder n`
of the first invalid waypoint, and the indices it has checked are the prefix
of `visitOrder n` up to that position, so no later waypoint is checked. The
call returns valid exactly when every waypoint is valid, and exactly when the
plain loop over the waypoints `0, ..., n - 1` returns valid. -/
theorem checkPathForCollision_first_invalid_cached (ext : Externals) (cs : SBPLCollisionSpace)
    (start end_ : List ℚ) (frames : FrameCache) (verbose : Bool) (path : List (List ℚ))
    (hip : interpolatePath ext cs (normalizeEndpoints ext start end_).1
      (normalizeEndpoints ext start end_).2 cs.inc_ = (true, path)) :
    ∃ r, checkPathForCollision_frames ext cs start end_ frames verbose = some r ∧
      r.path_length = path.length ∧
      ((∃ j < path.length, waypointValid ext cs path frames verbose j = false) →
        r.ret = false ∧
        (visitOrder path.length).findIdx
          (fun j => !waypointValid ext cs path frames verbose j) < path.length ∧
        r.num_checks = (visitOrder path.length).findIdx
          (fun j => !waypointValid ext cs path frames verbose j) + 1 ∧
        r.visited = (visitOrder path.length).take
          ((visitOrder path.length).findIdx
            (fun j => !waypointValid ext cs path frames verbose j) + 1)) ∧
      (r.ret = true ↔ ∀ j < path.length, waypointValid ext cs path frames verbose j = true) ∧
      (r.ret = true ↔
        (checkPathForCollision_linear ext cs path verbose path.length 0
          (pathStart cs frames)).1 = true) := by
  rw [checkPathForCollision_frames_eq_scan ext cs start end_ frames verbose path hip]
  obtain ⟨h1, h2, h3⟩ := scanWaypoints_pathStart ext cs path frames verbose
    (visitOrder path.length) (nodup_visitOrder _) (visitOrder_head _)
  obtain ⟨g1, -, -⟩ := scanWaypoints_pathStart ext cs path frames verbose
    (List.range' 0 path.length) (List.nodup_range' _ _)
    (fun j rest h => by
      cases hn : path.length with
      | zero => rw [hn] at h; simp at h
      | succ m =>
        rw [hn, List.range'_succ] at h
        exact (List.cons.inj h).1.symm)
  refine ⟨_, rfl, rfl, ?_, ?_, ?_⟩
  · rintro ⟨j, hj, hjv⟩
    have hlt : (visitOrder path.length).findIdx
        (fun j => !waypointValid ext cs path frames verbose j) <
        (visitOrder path.length).length :=
      List.findIdx_lt_length_of_exists ⟨j, (mem_visitOrder _ _).mpr hj, by simp [hjv]⟩
    refine ⟨?_, by rwa [visitOrder_length] at hlt, ?_, ?_⟩
    · dsimp only [PathResult.ofLoop]
      rw [h1, List.all_eq_false]
      exact ⟨j, (mem_visitOrder _ _).mpr hj, by simp [hjv]⟩
    · dsimp only [PathResult.ofLoop]
      rw [h3, List.length_take]
      omega
    · dsimp only [PathResult.ofLoop]
      rw [h2]
  · dsimp only [PathResult.ofLoop]
    rw [h1, List.all_eq_true]
    exact ⟨fun h j hj => h j ((mem_visitOrder _ _).mpr hj),
      fun h j hj => h j ((mem_visitOrder _ _).mp hj)⟩
  · dsimp only [PathResult.ofLoop]
    rw [checkPathForCollision_linear_eq, h1, g1, ← List.range_eq_range',
      all_eq_of_perm _ (visitOrder_perm path.length)]

/-- The example path from 9 to 0 on an empty cache: waypoint 10 is
invalid and third in the visitation order, and the call stops there with
`num_checks = 3`, having checked the waypoints 0, 5 and 10. -/
theorem checkPathForCollision_first_invalid_cached_example :
    (∃ r, checkPathForCollision_frames examplePathExt exampleArm [9] [0] [] false = some r ∧
      r.path_length = (examplePath 9 0).length ∧
      ((∃ j < (examplePath 9 0).length,
          waypointValid examplePathExt exampleArm (examplePath 9 0) [] false j = false) →
        r.ret = false ∧
        (visitOrder (examplePath 9 0).length).findIdx
          (fun j => !waypointValid examplePathExt exampleArm (examplePath 9 0) [] false j) <
          (examplePath 9 0).length ∧
        r.num_checks = (visitOrder (examplePath 9 0).length).findIdx
          (fun j => !waypointValid examplePathExt exampleArm (examplePath 9 0) [] false j) + 1 ∧
        r.visited = (visitOrder (examplePath 9 0).length).take
          ((visitOrder (examplePath 9 0).length).findIdx
            (fun j => !waypointValid examplePathExt exampleArm (examplePath 9 0) [] false j)
            + 1)) ∧
      (r.ret = true ↔ ∀ j < (examplePath 9 0).length,
        waypointValid examplePathExt exampleArm (examplePath 9 0) [] false j = true) ∧
      (r.ret = true ↔
        (checkPathForCollision_linear examplePathExt exampleArm (examplePath 9 0) false
          (examplePath 9 0).length 0 (pathStart exampleArm [])).1 = true)) ∧
    (List.range 12).map (waypointValid examplePathExt exampleArm (examplePath 9 0) [] false) =
      [true, true, true, true, true, true, true, true, true, false, false, false] ∧
    (checkPathForCollision_frames examplePathExt exampleArm [9] [0] [] false).map
      (fun r => (r.ret, r.path_length, r.num_checks, r.visited)) =
        some (false, 12, 3, [0, 5, 10]) :=
  ⟨checkPathForCollision_first_invalid_cached examplePathExt exampleArm [9] [0] [] false
    (examplePath 9 0) (by decide!), by decide!, by decide!⟩

/-! ## Sphere-vs-field test: a centre out of bounds -/

theorem ite_lt_eq_min (m d : ℚ) : (if d < m then d else m) = min m d := by
  split
  · rw [min_eq_right (le_of_lt ‹d < m›)]
  · rw [min_eq_left (not_lt.mp ‹¬ d < m›)]

/-- One iteration of the loop of `checkSpheresAgainstWorld`. -/
theorem checkSpheresAgainstWorld_loop_cons (cs : SBPLCollisionSpace) (frames : GroupFrames)
    (visualize : Bool) (s : Sphere) (rest : List Sphere) (i : Nat) (st : SpheresLoop) :
    checkSpheresAgainstWorld_loop cs frames visualize (s :: rest) i st =
      if sphereInBounds cs frames s = false then
        (false, { st with sph_poses := st.sph_poses.set i (posedCenter frames s) })
      else if fieldDistance cs frames s ≤ dadd s.radius cs.padding_ then
        if visualize = true then
          checkSpheresAgainstWorld_loop cs frames visualize rest (i + 1)
            { sph_poses := st.sph_poses.set i (posedCenter frames s),
              dist := fieldDistance cs frames s, dist_temp := fieldDistance cs frames s,
              in_collision := true,
              collision_spheres_ :=
                st.collision_spheres_ ++ [{ s with v := posedCenter frames s }] }
        else
          (false, { st with sph_poses := st.sph_poses.set i (posedCenter frames s),
                            dist := fieldDistance cs frames s,
                            dist_temp := fieldDistance cs frames s })
      else
        checkSpheresAgainstWorld_loop cs frames visualize rest (i + 1)
          { st with sph_poses := st.sph_poses.set i (posedCenter frames s),
                    dist := if fieldDistance cs frames s < st.dist
                      then fieldDistance cs frames s else st.dist,
                    dist_temp := fieldDistance cs frames s } := by
  simp only [checkSpheresAgainstWorld_loop, sphereInBounds, fieldDistance, sphereCell]
  cases hb : cs.grid_.isInBounds
        (cs.grid_.worldToGrid (posedCenter frames s).x (posedCenter frames s).y
          (posedCenter frames s).z).1
        (cs.grid_.worldToGrid (posedCenter frames s).x (posedCenter frames s).y
          (posedCenter frames s).z).2.1
        (cs.grid_.worldToGrid (posedCenter frames s).x (posedCenter frames s).y
          (posedCenter frames s).z).2.2
  · simp
  · simp only [Bool.not_true, Bool.false_eq_true, if_false, lt_self_iff_false]
    rfl

/-- A sphere whose posed centre is out of bounds ends the loop of
`checkSpheresAgainstWorld` with `return false`: the clearance and the recorded
spheres are those of the loop over the spheres before it. -/
theorem checkSpheresAgainstWorld_loop_cut (cs : SBPLCollisionSpace) (frames : GroupFrames)
    (visualize : Bool) (s : Sphere) (suf : List Sphere)
    (hs : sphereInBounds cs frames s = false) :
    ∀ (pre : List Sphere) (i : Nat) (st st' : SpheresLoop),
      st.dist = st'.dist → st.collision_spheres_ = st'.collision_spheres_ →
      (checkSpheresAgainstWorld_loop cs frames visualize (pre ++ s :: suf) i st).1 = false ∧
      (checkSpheresAgainstWorld_loop cs frames visualize (pre ++ s :: suf) i st).2.dist =
        (checkSpheresAgainstWorld_loop cs frames visualize pre i st').2.dist ∧
      (checkSpheresAgainstWorld_loop cs frames visualize (pre ++ s :: suf) i
          st).2.collision_spheres_ =
        (checkSpheresAgainstWorld_loop cs frames visualize pre i st').2.collision_spheres_ := by
  intro pre
  induction pre with
  | nil =>
    intro i st st' hd hc
    rw [List.nil_append, checkSpheresAgainstWorld_loop_cons, if_pos hs]
    exact ⟨rfl, hd, hc⟩
  | cons p pre ih =>
    intro i st st' hd hc
    simp only [List.cons_append, checkSpheresAgainstWorld_loop_cons]
    cases hb : sphereInBounds cs frames p
    · simp only [if_true]
      exact ⟨trivial, hd, hc⟩
    · simp only [Bool.true_eq_false, if_false]
      by_cases hcol : fieldDistance cs frames p ≤ dadd p.radius cs.padding_
      · simp only [hcol, if_true]
        cases visualize
        · simp only [Bool.false_eq_true, if_false]
          exact ⟨trivial, trivial, hc⟩
        · simp only [if_true]
          exact ih _ _ _ rfl (by rw [hc])
      · simp only [hcol, if_false]
        exact ih _ _ _ (by simp only [hd]) hc

/-- What `checkSpheresAgainstWorld` returns when a sphere's posed centre is out
of bounds: `false`, with the clearance and the recorded spheres of the call on
the spheres before that sphere. -/
theorem checkSpheresAgainstWorld_cut (cs : SBPLCollisionSpace) (frames : GroupFrames)
    (pre : List Sphere) (s : Sphere) (suf : List Sphere) (verbose visualize : Bool)
    (sph_poses sph_poses' : List KDL.Vector) (hs : sphereInBounds cs frames s = false) :
    (checkSpheresAgainstWorld cs frames (pre ++ s :: suf) verbose visualize sph_poses).ret
      = false ∧
    (checkSpheresAgainstWorld cs frames (pre ++ s :: suf) verbose visualize sph_poses).dist =
      (checkSpheresAgainstWorld cs frames pre verbose visualize sph_poses').dist ∧
    (checkSpheresAgainstWorld cs frames (pre ++ s :: suf) verbose visualize
        sph_poses).collision_spheres_ =
      (checkSpheresAgainstWorld cs frames pre verbose visualize sph_poses').collision_spheres_ := by
  obtain ⟨h1, h3, h4⟩ := checkSpheresAgainstWorld_loop_cut cs frames visualize s suf hs pre 0
    { sph_poses := resize sph_poses (pre ++ s :: suf).length, dist := 100, dist_temp := 100,
      in_collision := false, collision_spheres_ := cs.collision_spheres_ }
    { sph_poses := resize sph_poses' pre.length, dist := 100, dist_temp := 100,
      in_collision := false, collision_spheres_ := cs.collision_spheres_ } rfl rfl
  rw [checkSpheresAgainstWorld_eq, checkSpheresAgainstWorld_eq]
  unfold spheresRun
  simp only [h1, h3, h4, Bool.false_and, and_self]

/-- The per-resolution check returns `false` when a sphere it has to examine
is posed out of bounds. -/
theorem checkCollision_res_out_of_bounds (ext : Externals) (cs : SBPLCollisionSpace)
    (angles : List ℚ) (low_res verbose visualize : Bool)
    (h : (cs.object_attached_ = true ∧ ∃ s ∈ cs.object_spheres_p_,
          sphereInBounds cs (cs.model_.computeDefaultGroupFK angles).2 s = false) ∨
      (∃ s ∈ cs.model_.default_group.getSpheres low_res,
          sphereInBounds cs (cs.model_.computeDefaultGroupFK angles).2 s = false) ∨
      (∃ g ∈ cs.model_.sphere_groups.drop 1, ∃ s ∈ g.getSpheres low_res,
          sphereInBounds cs (g.computeFK []).2 s = false)) :
    (checkCollision_res ext cs angles low_res verbose visualize).ret = false := by
  rw [← Bool.not_eq_true, checkCollision_res_ret_iff]
  rintro ⟨-, hatt, hdef, hoth⟩
  rcases h with ⟨ha, s, hs, hb⟩ | ⟨s, hs, hb⟩ | ⟨g, hg, s, hs, hb⟩
  · have := (hatt ha s hs).1
    rw [hb] at this
    exact Bool.false_ne_true this
  · have := (hdef s hs).1
    rw [hb] at this
    exact Bool.false_ne_true this
  · have := ((hoth (g, g.computeFK []) (List.mem_map.mpr ⟨g, hg, rfl⟩)).2.1 s hs).1
    rw [hb] at this
    exact Bool.false_ne_true this

/-- The caching per-resolution check returns `false` when a sphere it has to
examine is posed out of bounds by the frames it uses. -/
theorem checkCollision_frames_out_of_bounds (ext : Externals) (cs : SBPLCollisionSpace)
    (angles : List ℚ) (frames : FrameCache) (low_res verbose visualize : Bool)
    (sg0 : Group) (sg : List Group) (hsg : cs.model_.sphere_groups = sg0 :: sg)
    (h : (cs.object_attached_ = true ∧ ∃ s ∈ cs.object_spheres_p_,
          sphereInBounds cs
            (cachedFK (cs.model_.computeDefaultGroupFK angles) (initialCache cs frames) 0).2 s
            = false) ∨
      (∃ s ∈ sg0.getSpheres low_res,
          sphereInBounds cs
            (cachedFK (cs.model_.computeDefaultGroupFK angles) (initialCache cs frames) 0).2 s
            = false) ∨
      (∃ gf ∈ cachedGroups sg 1 (initialCache cs frames), ∃ s ∈ gf.1.getSpheres low_res,
          sphereInBounds cs gf.2.2 s = false)) :
    (checkCollision_frames ext cs angles frames low_res verbose visualize).ret = false := by
  rw [← Bool.not_eq_true, checkCollision_frames_ret_iff]
  rintro ⟨a, b, hab, -, hatt, hdef, hoth⟩
  have hab' : sg0 :: sg = a :: b := hsg.symm.trans hab
  cases hab'
  rcases h with ⟨ha, s, hs, hb⟩ | ⟨s, hs, hb⟩ | ⟨gf, hgf, s, hs, hb⟩
  · have := (hatt ha s hs).1
    rw [hb] at this
    exact Bool.false_ne_true this
  · have := (hdef s hs).1
    rw [hb] at this
    exact Bool.false_ne_true this
  · have := ((hoth gf hgf).2.1 s hs).1
    rw [hb] at this
    exact Bool.false_ne_true this

/-- C11, the failing instance. On the example grid the call on a clear sphere
followed by a sphere posed out of bounds reports `(false, 3)`, and so does the
call on a single sphere that is in bounds and in collision; the per-resolution
and the two-level `checkCollision` report `(false, 100)` both for a
configuration that poses the arm out of bounds and for one that poses it in
bounds and in collision. -/
theorem out_of_bounds_reported_as_collision :
    (sphereInBounds exampleArm [] (ballAt 3 1) = true ∧
      (ballAt 3 1).radius + exampleArm.padding_ < fieldDistance exampleArm [] (ballAt 3 1) ∧
      sphereInBounds exampleArm [] (ballAt 12 1) = false) ∧
    (sphereInBounds exampleArm [] (ballAt 3 5) = true ∧
      fieldDistance exampleArm [] (ballAt 3 5) ≤ (ballAt 3 5).radius + exampleArm.padding_) ∧
    ((checkSpheresAgainstWorld exampleArm [] [ballAt 3 1, ballAt 12 1] false false []).ret,
      (checkSpheresAgainstWorld exampleArm [] [ballAt 3 1, ballAt 12 1] false false []).dist) =
      (false, 3) ∧
    ((checkSpheresAgainstWorld exampleArm [] [ballAt 3 5] false false []).ret,
      (checkSpheresAgainstWorld exampleArm [] [ballAt 3 5] false false []).dist) =
      (false, 3) ∧
    (∀ s ∈ exampleArm.model_.default_group.getSpheres false,
      sphereInBounds exampleArm (exampleArm.model_.computeDefaultGroupFK [12]).2 s = false) ∧
    (∀ s ∈ exampleArm.model_.default_group.getSpheres false,
      sphereInBounds exampleArm (exampleArm.model_.computeDefaultGroupFK [1]).2 s = true ∧
      fieldDistance exampleArm (exampleArm.model_.computeDefaultGroupFK [1]).2 s ≤
        s.radius + exampleArm.padding_) ∧
    ((checkCollision_res exampleExt exampleArm [12] false false false).ret,
      (checkCollision_res exampleExt exampleArm [12] false false false).dist) = (false, 100) ∧
    ((checkCollision_res exampleExt exampleArm [1] false false false).ret,
      (checkCollision_res exampleExt exampleArm [1] false false false).dist) = (false, 100) ∧
    ((checkCollision exampleExt exampleArm [12] false false).ret,
      (checkCollision exampleExt exampleArm [12] false false).dist) = (false, 100) ∧
    ((checkCollision exampleExt exampleArm [1] false false).ret,
      (checkCollision exampleExt exampleArm [1] false false).dist) = (false, 100) := by
  refine ⟨by decide!, by decide!, by decide!, by decide!, by decide!, by decide!, by decide!,
    by decide!, by decide!, by decide!⟩

/-- C11, amended. A sphere whose posed centre is out of bounds makes
`checkSpheresAgainstWorld` return `false` at once, for either setting of
`visualize`: the spheres after it are not examined, it is not recorded as a
colliding sphere, and the clearance is that of the spheres before it. The
per-resolution `checkCollision`, in both overloads, returns `false` whenever a
sphere it has to examine (of the attached object, of the default group or of
another group) is posed out of bounds by the frames it uses. The status is the
`false` that also reports a collision. -/
theorem out_of_bounds_returns_false (ext : Externals) (cs : SBPLCollisionSpace)
    (frames : GroupFrames) (pre : List Sphere) (s : Sphere) (suf : List Sphere)
    (verbose visualize : Bool) (sph_poses : List KDL.Vector)
    (hs : sphereInBounds cs frames s = false) :
    ((checkSpheresAgainstWorld cs frames (pre ++ s :: suf) verbose visualize sph_poses).ret
      = false ∧
    (checkSpheresAgainstWorld cs frames (pre ++ s :: suf) verbose visualize sph_poses).dist =
      (checkSpheresAgainstWorld cs frames pre verbose visualize sph_poses).dist ∧
    (checkSpheresAgainstWorld cs frames (pre ++ s :: suf) verbose visualize
        sph_poses).collision_spheres_ =
      (checkSpheresAgainstWorld cs frames pre verbose visualize sph_poses).collision_spheres_) ∧
    (∀ (angles : List ℚ) (low_res : Bool),
      ((cs.object_attached_ = true ∧ ∃ s ∈ cs.object_spheres_p_,
          sphereInBounds cs (cs.model_.computeDefaultGroupFK angles).2 s = false) ∨
        (∃ s ∈ cs.model_.default_group.getSpheres low_res,
          sphereInBounds cs (cs.model_.computeDefaultGroupFK angles).2 s = false) ∨
        (∃ g ∈ cs.model_.sphere_groups.drop 1, ∃ s ∈ g.getSpheres low_res,
          sphereInBounds cs (g.computeFK []).2 s = false)) →
      (checkCollision_res ext cs angles low_res verbose visualize).ret = false) ∧
    ∀ (angles : List ℚ) (cache : FrameCache) (low_res : Bool) (sg0 : Group) (sg : List Group),
      cs.model_.sphere_groups = sg0 :: sg →
      ((cs.object_attached_ = true ∧ ∃ s ∈ cs.object_spheres_p_,
          sphereInBounds cs
            (cachedFK (cs.model_.computeDefaultGroupFK angles) (initialCache cs cache) 0).2 s
            = false) ∨
        (∃ s ∈ sg0.getSpheres low_res,
          sphereInBounds cs
            (cachedFK (cs.model_.computeDefaultGroupFK angles) (initialCache cs cache) 0).2 s
            = false) ∨
        (∃ gf ∈ cachedGroups sg 1 (initialCache cs cache), ∃ s ∈ gf.1.getSpheres low_res,
          sphereInBounds cs gf.2.2 s = false)) →
      (checkCollision_frames ext cs angles cache low_res verbose visualize).ret = false :=
  ⟨checkSpheresAgainstWorld_cut cs frames pre s suf verbose visualize sph_poses sph_poses hs,
    fun angles low_res h =>
      checkCollision_res_out_of_bounds ext cs angles low_res verbose visualize h,
    fun angles cache low_res sg0 sg hsg h =>
      checkCollision_frames_out_of_bounds ext cs angles cache low_res verbose visualize sg0 sg
        hsg h⟩

/-- C11, amended, on the example grid: after a colliding sphere recorded for
visualization, a sphere posed out of bounds ends the call; the third sphere is
not examined. -/
theorem out_of_bounds_returns_false_witness :
    sphereInBounds exampleArm [] (ballAt 12 1) = false ∧
    ((checkSpheresAgainstWorld exampleArm [] ([ballAt 1 2] ++ ballAt 12 1 :: [ballAt 0 1])
        false true []).ret = false ∧
      (checkSpheresAgainstWorld exampleArm [] ([ballAt 1 2] ++ ballAt 12 1 :: [ballAt 0 1])
        false true []).dist =
        (checkSpheresAgainstWorld exampleArm [] [ballAt 1 2] false true []).dist ∧
      (checkSpheresAgainstWorld exampleArm [] ([ballAt 1 2] ++ ballAt 12 1 :: [ballAt 0 1])
        false true []).collision_spheres_ =
        (checkSpheresAgainstWorld exampleArm [] [ballAt 1 2] false true []).collision_spheres_) ∧
    (checkSpheresAgainstWorld exampleArm [] ([ballAt 1 2] ++ ballAt 12 1 :: [ballAt 0 1])
      false true []).collision_spheres_ = [ballAt 1 2] ∧
    (checkSpheresAgainstWorld exampleArm [] ([ballAt 1 2] ++ ballAt 12 1 :: [ballAt 0 1])
      false true []).dist = 1 ∧
    (checkCollision_res exampleExt exampleArm [12] false false true).ret = false ∧
    (checkCollision_frames exampleExt exampleArm [12] [] false false true).ret = false :=
  ⟨by decide!,
    (out_of_bounds_returns_false exampleExt exampleArm [] [ballAt 1 2] (ballAt 12 1) [ballAt 0 1]
      false true [] (by decide!)).1,
    by decide!, by decide!,
    (out_of_bounds_returns_false exampleExt exampleArm [] [ballAt 1 2] (ballAt 12 1) [ballAt 0 1]
      false true [] (by decide!)).2.1 [12] false (Or.inr (Or.inl (by decide!))),
    (out_of_bounds_returns_false exampleExt exampleArm [] [ballAt 1 2] (ballAt 12 1) [ballAt 0 1]
      false true [] (by decide!)).2.2 [12] [] false (exampleGroup "arm" 0) [] rfl
      (Or.inr (Or.inl (by decide!)))⟩

/-! ## Sphere-vs-field test: the clearance -/

/-- When no sphere is in collision or out of bounds, the loop of
`checkSpheresAgainstWorld` tracks the minimum of the cell distances. -/
theorem checkSpheresAgainstWorld_loop_dist_of_clear (cs : SBPLCollisionSpace)
    (frames : GroupFrames) (visualize : Bool) (spheres : List Sphere) :
    ∀ (i : Nat) (st : SpheresLoop), (∀ s ∈ spheres, SphereClear cs frames s) →
      (checkSpheresAgainstWorld_loop cs frames visualize spheres i st).2.dist =
        (spheres.map (fieldDistance cs frames)).foldl (fun m d => if d < m then d else m)
          st.dist := by
  induction spheres with
  | nil => intro i st _; rfl
  | cons s rest ih =>
    intro i st h
    obtain ⟨hb, hd⟩ := h s (List.mem_cons_self _ _)
    rw [checkSpheresAgainstWorld_loop_cons, if_neg (by rw [hb]; decide),
      if_neg (not_le.mpr hd), ih _ _ (fun x hx => h x (List.mem_cons_of_mem _ hx))]
    rfl

/-- When the sphere-vs-field test returns valid, the clearance it reports is
the minimum of 100 and the cell distances of all spheres of the list. -/
theorem checkSpheresAgainstWorld_dist_of_valid (cs : SBPLCollisionSpace) (frames : GroupFrames)
    (spheres : List Sphere) (verbose visualize : Bool) (sph_poses : List KDL.Vector)
    (h : (checkSpheresAgainstWorld cs frames spheres verbose visualize sph_poses).ret = true) :
    (checkSpheresAgainstWorld cs frames spheres verbose visualize sph_poses).dist =
      minCapped (spheres.map (fieldDistance cs frames)) := by
  have hc := (checkSpheresAgainstWorld_ret_iff cs frames spheres verbose visualize sph_poses).mp h
  rw [checkSpheresAgainstWorld_eq]
  exact checkSpheresAgainstWorld_loop_dist_of_clear cs frames visualize spheres 0 _ hc

/-- C13, the failing instances, on the example grid, where the cell distance
of a sphere posed at `(x, 0, 0)` is `x`. Without visualization a clear sphere
at distance 2 followed by a colliding sphere at distance 4 gives the clearance
4, not the minimum 2. With visualization two colliding spheres at the
distances 1 and 2 give the clearance 2, not the minimum 1. -/
theorem checkSpheresAgainstWorld_dist_overwritten :
    ([ballAt 2 1, ballAt 4 5].map (fieldDistance exampleArm []) = [2, 4] ∧
      (checkSpheresAgainstWorld exampleArm [] [ballAt 2 1, ballAt 4 5] false false []).ret
        = false ∧
      (checkSpheresAgainstWorld exampleArm [] [ballAt 2 1, ballAt 4 5] false false []).dist = 4 ∧
      minCapped ([ballAt 2 1, ballAt 4 5].map (fieldDistance exampleArm [])) = 2) ∧
    ([ballAt 1 2, ballAt 2 2].map (fieldDistance exampleArm []) = [1, 2] ∧
      (checkSpheresAgainstWorld exampleArm [] [ballAt 1 2, ballAt 2 2] false true []).ret
        = false ∧
      (checkSpheresAgainstWorld exampleArm [] [ballAt 1 2, ballAt 2 2] false true []).dist = 2 ∧
      minCapped ([ballAt 1 2, ballAt 2 2].map (fieldDistance exampleArm [])) = 1) := by
  refine ⟨⟨by decide!, by decide!, by decide!, by decide!⟩,
    ⟨by decide!, by decide!, by decide!, by decide!⟩⟩

/-! ## Per-resolution check: the clearance -/

/-- C12, the failing instances. At the example engine with one group, the arm
posed at `x = 1` collides with the field: the sub-check reports the clearance
1, and without visualization both per-resolution overloads return with the
clearance 100; with visualization they report 1. At the example engine with
three groups and the arm posed at `x = 15/2`, the sub-checks against the field
report 7 and 8 and the pairwise test of the arm and group `a` finds a violation
at distance 1/2: without visualization the clearance is 7, with visualization
it is 1/2. -/
theorem checkCollision_dist_skips_violating_check :
    ((checkSpheresAgainstWorld exampleArm (exampleArm.model_.computeDefaultGroupFK [1]).2
        (exampleArm.model_.default_group.getSpheres false) false false []).ret = false ∧
      (checkSpheresAgainstWorld exampleArm (exampleArm.model_.computeDefaultGroupFK [1]).2
        (exampleArm.model_.default_group.getSpheres false) false false []).dist = 1 ∧
      (checkCollision_res exampleExt exampleArm [1] false false false).ret = false ∧
      (checkCollision_res exampleExt exampleArm [1] false false false).dist = 100 ∧
      (checkCollision_frames exampleExt exampleArm [1] [] false false false).ret = false ∧
      (checkCollision_frames exampleExt exampleArm [1] [] false false false).dist = 100 ∧
      (checkCollision_res exampleExt exampleArm [1] false false true).ret = false ∧
      (checkCollision_res exampleExt exampleArm [1] false false true).dist = 1 ∧
      (checkCollision_frames exampleExt exampleArm [1] [] false false true).dist = 1) ∧
    ((checkSpheresAgainstWorld exampleThreeGroups [[xShift (15 / 2)]]
        ((exampleGroup "arm" 4).getSpheres false) false false []).dist = 7 ∧
      (checkSpheresAgainstWorld exampleThreeGroups [[xShift 8]]
        ((exampleGroup "a" 8).getSpheres false) false false []).dist = 8 ∧
      (checkSphereGroupAgainstSphereGroup exampleExt exampleThreeGroups (exampleGroup "arm" 4)
        (exampleGroup "a" 8) [⟨15 / 2, 0, 0⟩] [⟨8, 0, 0⟩] false false false false).ret = false ∧
      (checkSphereGroupAgainstSphereGroup exampleExt exampleThreeGroups (exampleGroup "arm" 4)
        (exampleGroup "a" 8) [⟨15 / 2, 0, 0⟩] [⟨8, 0, 0⟩] false false false false).dist = 1 / 2 ∧
      (checkCollision_res exampleExt exampleThreeGroups [15 / 2] false false false).ret = false ∧
      (checkCollision_res exampleExt exampleThreeGroups [15 / 2] false false false).dist = 7 ∧
      (checkCollision_frames exampleExt exampleThreeGroups [15 / 2] [] false false false).dist
        = 7 ∧
      (checkCollision_res exampleExt exampleThreeGroups [15 / 2] false false true).ret = false ∧
      (checkCollision_res exampleExt exampleThreeGroups [15 / 2] false false true).dist
        = 1 / 2) := by
  refine ⟨⟨by decide!, by decide!, by decide!, by decide!, by decide!, by decide!, by decide!,
    by decide!, by decide!⟩,
    ⟨by decide!, by decide!, by decide!, by decide!, by decide!, by decide!, by decide!,
      by decide!, by decide!⟩⟩

/-! ## Sphere-group-vs-sphere-group test: one pass over the pairs -/

theorem ite_lt_idem (d m : ℚ) :
    (if d < (if d < m then d else m) then d else (if d < m then d else m)) =
      if d < m then d else m := by
  by_cases h : d < m
  · simp [h]
  · simp [h]

theorem pairScan_append (ext : Externals) (cs : SBPLCollisionSpace) (visualize : Bool)
    (l1 l2 : List ((Sphere × KDL.Vector) × (Sphere × KDL.Vector))) :
    ∀ st, pairScan ext cs visualize (l1 ++ l2) st =
      match pairScan ext cs visualize l1 st with
      | (false, st1) => (false, st1)
      | (true, st1) => pairScan ext cs visualize l2 st1 := by
  induction l1 with
  | nil => intro st; rfl
  | cons q rest ih =>
    intro st
    simp only [List.cons_append, pairScan]
    split
    · split
      · exact ih _
      · rfl
    · exact ih _

/-- The inner loop is the pass over the pairs of one row. -/
theorem checkSphereGroupAgainstSphereGroup_inner_eq_scan (ext : Externals)
    (cs : SBPLCollisionSpace) (visualize : Bool) (g1 : Sphere) (s1 : KDL.Vector)
    (l2 : List (Sphere × KDL.Vector)) :
    ∀ st, checkSphereGroupAgainstSphereGroup_inner ext cs visualize g1 s1 l2 st =
      pairScan ext cs visualize (l2.map (fun p2 => ((g1, s1), p2))) st := by
  induction l2 with
  | nil => intro st; rfl
  | cons p2 rest ih =>
    intro st
    obtain ⟨g2, s2⟩ := p2
    simp only [checkSphereGroupAgainstSphereGroup_inner, List.map_cons, pairScan, pairViolates,
      pairDistance, decide_eq_true_eq, ite_lt_idem]
    split
    · split
      · exact ih _
      · rfl
    · exact ih _

/-- The two loops are the pass over all pairs in row-major order. -/
theorem checkSphereGroupAgainstSphereGroup_outer_eq_scan (ext : Externals)
    (cs : SBPLCollisionSpace) (visualize : Bool) (l2 l1 : List (Sphere × KDL.Vector)) :
    ∀ st, checkSphereGroupAgainstSphereGroup_outer ext cs visualize l2 l1 st =
      pairScan ext cs visualize (pairList l1 l2) st := by
  induction l1 with
  | nil => intro st; rfl
  | cons p1 rest ih =>
    intro st
    obtain ⟨g1, s1⟩ := p1
    simp only [checkSphereGroupAgainstSphereGroup_outer, pairList, List.flatMap_cons,
      pairScan_append, checkSphereGroupAgainstSphereGroup_inner_eq_scan]
    generalize pairScan ext cs visualize (List.map (fun p2 => ((g1, s1), p2)) l2) st = r
    obtain ⟨b, st1⟩ := r
    cases b
    · rfl
    · exact ih st1

/-- Without visualization the pass stops at the first violating pair: the
clearance is the minimum over the pairs up to that one, the counter is the
number of pairs before it, and nothing is recorded. -/
theorem pairScan_false (ext : Externals) (cs : SBPLCollisionSpace)
    (L : List ((Sphere × KDL.Vector) × (Sphere × KDL.Vector))) :
    ∀ st : GroupPairLoop,
      (pairScan ext cs false L st).1 = L.all (fun q => !pairViolates ext cs q) ∧
      (pairScan ext cs false L st).2.dist =
        ((L.take (L.findIdx (pairViolates ext cs) + 1)).map (pairDistance ext)).foldl
          (fun m d => if d < m then d else m) st.dist ∧
      (pairScan ext cs false L st).2.cntr = st.cntr + L.findIdx (pairViolates ext cs) ∧
      (pairScan ext cs false L st).2.collision_spheres_ = st.collision_spheres_ ∧
      (pairScan ext cs false L st).2.in_collision = st.in_collision := by
  induction L with
  | nil => intro st; simp [pairScan]
  | cons q rest ih =>
    intro st
    simp only [pairScan, List.all_cons, List.findIdx_cons]
    cases hv : pairViolates ext cs q
    · obtain ⟨h1, h2, h3, h4, h5⟩ := ih { st with
        dist := if pairDistance ext q < st.dist then pairDistance ext q else st.dist,
        cntr := st.cntr + 1 }
      simp only [Bool.false_eq_true, if_false, Bool.not_false, Bool.true_and, cond_false,
        List.take_succ_cons, List.map_cons, List.foldl_cons]
      refine ⟨h1, h2, ?_, h4, h5⟩
      rw [h3]
      simp only
      omega
    · simp [hv]

/-- With visualization the pass visits every pair: the clearance is the
minimum over all pairs, and every violating pair is recorded. -/
theorem pairScan_true (ext : Externals) (cs : SBPLCollisionSpace)
    (L : List ((Sphere × KDL.Vector) × (Sphere × KDL.Vector))) :
    ∀ st : GroupPairLoop,
      (pairScan ext cs true L st).1 = true ∧
      (pairScan ext cs true L st).2.dist =
        (L.map (pairDistance ext)).foldl (fun m d => if d < m then d else m) st.dist ∧
      (pairScan ext cs true L st).2.cntr = st.cntr + L.length ∧
      (pairScan ext cs true L st).2.in_collision =
        (st.in_collision || L.any (pairViolates ext cs)) ∧
      (pairScan ext cs true L st).2.collision_spheres_ =
        st.collision_spheres_ ++ (L.filter (pairViolates ext cs)).flatMap
          (fun q => [{ q.1.1 with v := q.1.2 }, { q.2.1 with v := q.2.2 }]) := by
  induction L with
  | nil => intro st; simp [pairScan]
  | cons q rest ih =>
    intro st
    simp only [pairScan, List.any_cons, List.map_cons, List.foldl_cons, List.length_cons]
    cases hv : pairViolates ext cs q
    · obtain ⟨h1, h2, h3, h4, h5⟩ := ih { st with
        dist := if pairDistance ext q < st.dist then pairDistance ext q else st.dist,
        cntr := st.cntr + 1 }
      simp only [Bool.false_eq_true, if_false, Bool.false_or, List.filter_cons, hv]
      refine ⟨h1, h2, ?_, h4, h5⟩
      rw [h3]
      simp only
      omega
    · obtain ⟨h1, h2, h3, h4, h5⟩ := ih
        { dist := if pairDistance ext q < st.dist then pairDistance ext q else st.dist,
          in_collision := true,
          collision_spheres_ :=
            st.collision_spheres_ ++ [{ q.1.1 with v := q.1.2 }, { q.2.1 with v := q.2.2 }],
          cntr := st.cntr + 1 }
      simp only [if_true, Bool.true_or, Bool.or_true, List.filter_cons, hv, List.flatMap_cons]
      refine ⟨h1, h2, ?_, ?_, ?_⟩
      · rw [h3]
        simp only
        omega
      · rw [h4]
        simp
      · rw [h5]
        simp

theorem pairList_length (l1 l2 : List (Sphere × KDL.Vector)) :
    (pairList l1 l2).length = l1.length * l2.length := by
  induction l1 with
  | nil => simp [pairList]
  | cons p rest ih =>
    simp only [pairList, List.flatMap_cons, List.length_append, List.length_map,
      List.length_cons] at ih ⊢
    rw [ih]
    ring

/-! ## Sphere-group-vs-sphere-group test: the clearance -/

theorem foldl_min_le_init (l : List ℚ) :
    ∀ m : ℚ, l.foldl (fun m d => if d < m then d else m) m ≤ m := by
  induction l with
  | nil => intro m; exact le_refl m
  | cons d rest ih =>
    intro m
    simp only [List.foldl_cons]
    refine le_trans (ih _) ?_
    split
    · exact le_of_lt ‹d < m›
    · exact le_refl m

theorem foldl_min_le_mem (l : List ℚ) :
    ∀ (m x : ℚ), x ∈ l → l.foldl (fun m d => if d < m then d else m) m ≤ x := by
  induction l with
  | nil => intro m x hx; simp at hx
  | cons d rest ih =>
    intro m x hx
    simp only [List.foldl_cons]
    rcases List.mem_cons.mp hx with rfl | hx
    · refine le_trans (foldl_min_le_init rest _) ?_
      split
      · exact le_refl x
      · exact not_lt.mp ‹¬ x < m›
    · exact ih _ x hx

theorem foldl_min_mem (l : List ℚ) :
    ∀ m : ℚ, l.foldl (fun m d => if d < m then d else m) m = m ∨
      l.foldl (fun m d => if d < m then d else m) m ∈ l := by
  induction l with
  | nil => intro m; exact Or.inl rfl
  | cons d rest ih =>
    intro m
    simp only [List.foldl_cons, List.mem_cons]
    rcases ih (if d < m then d else m) with h | h
    · rw [h]
      split
      · exact Or.inr (Or.inl rfl)
      · exact Or.inl rfl
    · exact Or.inr (Or.inr h)

theorem minCapped_le_of_subset (l1 l2 : List ℚ) (h : ∀ x ∈ l2, x ∈ l1) :
    minCapped l1 ≤ minCapped l2 := by
  unfold minCapped
  rcases foldl_min_mem l2 100 with h2 | h2
  · rw [h2]
    exact foldl_min_le_init l1 100
  · exact foldl_min_le_mem l1 100 _ (h _ h2)

/-- The tracked minimum depends only on which values occur. -/
theorem minCapped_congr (l1 l2 : List ℚ) (h : ∀ x, x ∈ l1 ↔ x ∈ l2) :
    minCapped l1 = minCapped l2 :=
  le_antisymm (minCapped_le_of_subset l1 l2 (fun x hx => (h x).mpr hx))
    (minCapped_le_of_subset l2 l1 (fun x hx => (h x).mp hx))

theorem mem_pairList (l1 l2 : List (Sphere × KDL.Vector))
    (q : (Sphere × KDL.Vector) × (Sphere × KDL.Vector)) :
    q ∈ pairList l1 l2 ↔ q.1 ∈ l1 ∧ q.2 ∈ l2 := by
  obtain ⟨a, b⟩ := q
  simp only [pairList, List.mem_flatMap, List.mem_map, Prod.mk.injEq]
  constructor
  · rintro ⟨p1, h1, p2, h2, rfl, rfl⟩
    exact ⟨h1, h2⟩
  · rintro ⟨h1, h2⟩
    exact ⟨a, h1, b, h2, rfl, rfl⟩

/-- The clearance and the counter of the pairwise test when the lengths match,
in terms of the row-major list of pairs. -/
theorem checkSphereGroupAgainstSphereGroup_scan (ext : Externals) (cs : SBPLCollisionSpace)
    (group1 group2 : Group) (spheres1 spheres2 : List KDL.Vector)
    (low_res1 low_res2 verbose visualize : Bool)
    (h1 : (group1.getSpheres low_res1).length = spheres1.length)
    (h2 : (group2.getSpheres low_res2).length = spheres2.length) :
    (visualize = false →
      (checkSphereGroupAgainstSphereGroup ext cs group1 group2 spheres1 spheres2 low_res1
        low_res2 verbose visualize).ret =
        (pairList ((group1.getSpheres low_res1).zip spheres1)
          ((group2.getSpheres low_res2).zip spheres2)).all (fun q => !pairViolates ext cs q) ∧
      (checkSphereGroupAgainstSphereGroup ext cs group1 group2 spheres1 spheres2 low_res1
        low_res2 verbose visualize).dist =
        minCapped (((pairList ((group1.getSpheres low_res1).zip spheres1)
          ((group2.getSpheres low_res2).zip spheres2)).take
            ((pairList ((group1.getSpheres low_res1).zip spheres1)
              ((group2.getSpheres low_res2).zip spheres2)).findIdx (pairViolates ext cs) + 1)).map
          (pairDistance ext)) ∧
      (checkSphereGroupAgainstSphereGroup ext cs group1 group2 spheres1 spheres2 low_res1
        low_res2 verbose visualize).cntr =
        (pairList ((group1.getSpheres low_res1).zip spheres1)
          ((group2.getSpheres low_res2).zip spheres2)).findIdx (pairViolates ext cs) ∧
      (checkSphereGroupAgainstSphereGroup ext cs group1 group2 spheres1 spheres2 low_res1
        low_res2 verbose visualize).collision_spheres_ = cs.collision_spheres_) ∧
    (visualize = true →
      (checkSphereGroupAgainstSphereGroup ext cs group1 group2 spheres1 spheres2 low_res1
        low_res2 verbose visualize).ret =
        (pairList ((group1.getSpheres low_res1).zip spheres1)
          ((group2.getSpheres low_res2).zip spheres2)).all (fun q => !pairViolates ext cs q) ∧
      (checkSphereGroupAgainstSphereGroup ext cs group1 group2 spheres1 spheres2 low_res1
        low_res2 verbose visualize).dist =
        minCapped ((pairList ((group1.getSpheres low_res1).zip spheres1)
          ((group2.getSpheres low_res2).zip spheres2)).map (pairDistance ext)) ∧
      (checkSphereGroupAgainstSphereGroup ext cs group1 group2 spheres1 spheres2 low_res1
        low_res2 verbose visualize).cntr =
        (pairList ((group1.getSpheres low_res1).zip spheres1)
          ((group2.getSpheres low_res2).zip spheres2)).length) := by
  rw [checkSphereGroupAgainstSphereGroup_eq ext cs group1 group2 spheres1 spheres2 low_res1
    low_res2 verbose visualize h1 h2]
  unfold groupPairRun
  rw [checkSphereGroupAgainstSphereGroup_outer_eq_scan]
  generalize pairList ((group1.getSpheres low_res1).zip spheres1)
    ((group2.getSpheres low_res2).zip spheres2) = L
  constructor
  · rintro rfl
    obtain ⟨g1, g2, g3, g4, g5⟩ := pairScan_false ext cs L
      { dist := 100, in_collision := false, collision_spheres_ := cs.collision_spheres_,
        cntr := 0 }
    simp only [g1, g2, g3, g4, Bool.false_and, Bool.not_false, Bool.and_true, Nat.zero_add,
      minCapped, and_self]
  · rintro rfl
    obtain ⟨g1, g2, g3, g4, g5⟩ := pairScan_true ext cs L
      { dist := 100, in_collision := false, collision_spheres_ := cs.collision_spheres_,
        cntr := 0 }
    simp only [g1, g2, g3, g4, Bool.true_and, Bool.false_or, Nat.zero_add, minCapped, and_true]
    rw [Bool.eq_iff_iff]
    simp

/-! ## Sphere-group-vs-sphere-group test: clearance, early exit and mismatched lengths -/

theorem findIdx_eq_length_of_all_not {α : Type} (p : α → Bool) (l : List α)
    (h : l.all (fun q => !p q) = true) : l.findIdx p = l.length := by
  apply List.findIdx_eq_length_of_false
  intro x hx
  have := List.all_eq_true.mp h x hx
  simpa using this

theorem all_not_eq_false_iff {α : Type} (p : α → Bool) (l : List α) :
    l.all (fun q => !p q) = false ↔ l.findIdx p < l.length := by
  rw [List.findIdx_lt_length, List.all_eq_false]
  constructor
  · rintro ⟨x, hx, h⟩
    exact ⟨x, hx, by simpa using h⟩
  · rintro ⟨x, hx, h⟩
    exact ⟨x, hx, by simpa using h⟩

/-- With visualization, or when the result is valid, the pairwise test examines
all pairs, and `dist` is the minimum of 100 and all pair distances. -/
theorem checkSphereGroupAgainstSphereGroup_dist_all (ext : Externals)
    (cs : SBPLCollisionSpace) (group1 group2 : Group) (spheres1 spheres2 : List KDL.Vector)
    (low_res1 low_res2 verbose visualize : Bool)
    (h1 : (group1.getSpheres low_res1).length = spheres1.length)
    (h2 : (group2.getSpheres low_res2).length = spheres2.length)
    (h : visualize = true ∨
      (checkSphereGroupAgainstSphereGroup ext cs group1 group2 spheres1 spheres2 low_res1
        low_res2 verbose visualize).ret = true) :
    (checkSphereGroupAgainstSphereGroup ext cs group1 group2 spheres1 spheres2 low_res1
      low_res2 verbose visualize).dist =
      minCapped ((pairList ((group1.getSpheres low_res1).zip spheres1)
        ((group2.getSpheres low_res2).zip spheres2)).map (pairDistance ext)) ∧
    (checkSphereGroupAgainstSphereGroup ext cs group1 group2 spheres1 spheres2 low_res1
      low_res2 verbose visualize).cntr =
      (pairList ((group1.getSpheres low_res1).zip spheres1)
        ((group2.getSpheres low_res2).zip spheres2)).length := by
  obtain ⟨hF, hT⟩ := checkSphereGroupAgainstSphereGroup_scan ext cs group1 group2 spheres1
    spheres2 low_res1 low_res2 verbose visualize h1 h2
  cases hv : visualize
  · obtain ⟨g1, g2, g3, -⟩ := hF hv
    have hret : (checkSphereGroupAgainstSphereGroup ext cs group1 group2 spheres1 spheres2
        low_res1 low_res2 verbose visualize).ret = true := by
      rcases h with h | h
      · rw [hv] at h
        exact absurd h Bool.false_ne_true
      · exact h
    rw [g1] at hret
    have hidx := findIdx_eq_length_of_all_not _ _ hret
    rw [hv] at g2 g3
    rw [g2, g3, hidx, List.take_of_length_le (Nat.le_succ _)]
    exact ⟨rfl, rfl⟩
  · obtain ⟨-, g2, g3⟩ := hT hv
    rw [hv] at g2 g3
    exact ⟨g2, g3⟩

/-- C16. With matching lengths, the pairs (one posed sphere of each group) are
examined in row-major order, the list `pairList` with its `n * m` entries.
Without visualization the test returns `false` exactly when some pair
violates the threshold, the examination stops at the first violating pair, and
`dist` is the minimum of 100 and the distances of the pairs up to and
including that one; `cntr` counts the pairs before it. With visualization, or
when the result is valid, all pairs are examined and `dist` is the minimum of
100 and the distances of all pairs. -/
theorem checkSphereGroupAgainstSphereGroup_clearance (ext : Externals)
    (cs : SBPLCollisionSpace) (group1 group2 : Group) (spheres1 spheres2 : List KDL.Vector)
    (low_res1 low_res2 verbose visualize : Bool)
    (h1 : (group1.getSpheres low_res1).length = spheres1.length)
    (h2 : (group2.getSpheres low_res2).length = spheres2.length) :
    (pairList ((group1.getSpheres low_res1).zip spheres1)
      ((group2.getSpheres low_res2).zip spheres2)).length = spheres1.length * spheres2.length ∧
    (visualize = false →
      ((checkSphereGroupAgainstSphereGroup ext cs group1 group2 spheres1 spheres2 low_res1
          low_res2 verbose visualize).ret = false ↔
        (pairList ((group1.getSpheres low_res1).zip spheres1)
          ((group2.getSpheres low_res2).zip spheres2)).findIdx (pairViolates ext cs) <
        (pairList ((group1.getSpheres low_res1).zip spheres1)
          ((group2.getSpheres low_res2).zip spheres2)).length) ∧
      (checkSphereGroupAgainstSphereGroup ext cs group1 group2 spheres1 spheres2 low_res1
        low_res2 verbose visualize).dist =
        minCapped (((pairList ((group1.getSpheres low_res1).zip spheres1)
          ((group2.getSpheres low_res2).zip spheres2)).take
            ((pairList ((group1.getSpheres low_res1).zip spheres1)
              ((group2.getSpheres low_res2).zip spheres2)).findIdx (pairViolates ext cs) + 1)).map
          (pairDistance ext)) ∧
      (checkSphereGroupAgainstSphereGroup ext cs group1 group2 spheres1 spheres2 low_res1
        low_res2 verbose visualize).cntr =
        (pairList ((group1.getSpheres low_res1).zip spheres1)
          ((group2.getSpheres low_res2).zip spheres2)).findIdx (pairViolates ext cs)) ∧
    (visualize = true ∨
      (checkSphereGroupAgainstSphereGroup ext cs group1 group2 spheres1 spheres2 low_res1
        low_res2 verbose visualize).ret = true →
      (checkSphereGroupAgainstSphereGroup ext cs group1 group2 spheres1 spheres2 low_res1
        low_res2 verbose visualize).dist =
        minCapped ((pairList ((group1.getSpheres low_res1).zip spheres1)
          ((group2.getSpheres low_res2).zip spheres2)).map (pairDistance ext)) ∧
      (checkSphereGroupAgainstSphereGroup ext cs group1 group2 spheres1 spheres2 low_res1
        low_res2 verbose visualize).cntr =
        (pairList ((group1.getSpheres low_res1).zip spheres1)
          ((group2.getSpheres low_res2).zip spheres2)).length) := by
  obtain ⟨hF, -⟩ := checkSphereGroupAgainstSphereGroup_scan ext cs group1 group2 spheres1
    spheres2 low_res1 low_res2 verbose visualize h1 h2
  refine ⟨?_, ?_, ?_⟩
  · rw [pairList_length, List.length_zip, List.length_zip, h1, h2, Nat.min_self, Nat.min_self]
  · intro hv
    obtain ⟨g1, g2, g3, -⟩ := hF hv
    exact ⟨by rw [g1]; exact all_not_eq_false_iff _ _, g2, g3⟩
  · intro h
    exact checkSphereGroupAgainstSphereGroup_dist_all ext cs group1 group2 spheres1 spheres2
      low_res1 low_res2 verbose visualize h1 h2 h

/-- C16 at two groups of two spheres each, with the pair distances 5, 1, 3/2
and 11/2 in row-major order and the threshold 2: without visualization the
test stops at the second pair with `dist = 1`; with visualization it examines
all four pairs. -/
theorem checkSphereGroupAgainstSphereGroup_clearance_witness :
    ((pairList (((exampleTwoBalls "a").getSpheres false).zip [⟨0, 0, 0⟩, ⟨13 / 2, 0, 0⟩])
      (((exampleTwoBalls "b").getSpheres false).zip [⟨5, 0, 0⟩, ⟨1, 0, 0⟩])).map
        (pairDistance exampleExt) = [5, 1, 3 / 2, 11 / 2]) ∧
    ((checkSphereGroupAgainstSphereGroup exampleExt exampleArm (exampleTwoBalls "a")
        (exampleTwoBalls "b") [⟨0, 0, 0⟩, ⟨13 / 2, 0, 0⟩] [⟨5, 0, 0⟩, ⟨1, 0, 0⟩] false false false
        false).ret,
      (checkSphereGroupAgainstSphereGroup exampleExt exampleArm (exampleTwoBalls "a")
        (exampleTwoBalls "b") [⟨0, 0, 0⟩, ⟨13 / 2, 0, 0⟩] [⟨5, 0, 0⟩, ⟨1, 0, 0⟩] false false false
        false).dist,
      (checkSphereGroupAgainstSphereGroup exampleExt exampleArm (exampleTwoBalls "a")
        (exampleTwoBalls "b") [⟨0, 0, 0⟩, ⟨13 / 2, 0, 0⟩] [⟨5, 0, 0⟩, ⟨1, 0, 0⟩] false false false
        false).cntr) = (false, 1, 1) ∧
    ((checkSphereGroupAgainstSphereGroup exampleExt exampleArm (exampleTwoBalls "a")
        (exampleTwoBalls "b") [⟨0, 0, 0⟩, ⟨13 / 2, 0, 0⟩] [⟨5, 0, 0⟩, ⟨1, 0, 0⟩] false false false
        true).ret,
      (checkSphereGroupAgainstSphereGroup exampleExt exampleArm (exampleTwoBalls "a")
        (exampleTwoBalls "b") [⟨0, 0, 0⟩, ⟨13 / 2, 0, 0⟩] [⟨5, 0, 0⟩, ⟨1, 0, 0⟩] false false false
        true).dist,
      (checkSphereGroupAgainstSphereGroup exampleExt exampleArm (exampleTwoBalls "a")
        (exampleTwoBalls "b") [⟨0, 0, 0⟩, ⟨13 / 2, 0, 0⟩] [⟨5, 0, 0⟩, ⟨1, 0, 0⟩] false false false
        true).cntr) = (false, 1, 4) ∧
    ((checkSphereGroupAgainstSphereGroup exampleExt exampleArm (exampleTwoBalls "a")
        (exampleTwoBalls "b") [⟨0, 0, 0⟩, ⟨13 / 2, 0, 0⟩] [⟨5, 0, 0⟩, ⟨1, 0, 0⟩] false false false
        false).dist =
      minCapped (((pairList
          (((exampleTwoBalls "a").getSpheres false).zip [⟨0, 0, 0⟩, ⟨13 / 2, 0, 0⟩])
          (((exampleTwoBalls "b").getSpheres false).zip [⟨5, 0, 0⟩, ⟨1, 0, 0⟩])).take
        ((pairList (((exampleTwoBalls "a").getSpheres false).zip [⟨0, 0, 0⟩, ⟨13 / 2, 0, 0⟩])
          (((exampleTwoBalls "b").getSpheres false).zip [⟨5, 0, 0⟩, ⟨1, 0, 0⟩])).findIdx
            (pairViolates exampleExt exampleArm) + 1)).map (pairDistance exampleExt))) :=
  ⟨by decide!, by decide!, by decide!,
    ((checkSphereGroupAgainstSphereGroup_clearance exampleExt exampleArm (exampleTwoBalls "a")
      (exampleTwoBalls "b") [⟨0, 0, 0⟩, ⟨13 / 2, 0, 0⟩] [⟨5, 0, 0⟩, ⟨1, 0, 0⟩] false false false
      false (by decide) (by decide)).2.1 rfl).2.1⟩

/-- C17. When the length of either posed sphere list differs from the sphere
count of its group at the requested resolution,
`checkSphereGroupAgainstSphereGroup` returns `false` with `dist = 100`; it
examines no pair (the counter of distance computations is 0 and the result
does not depend on the distance function) and records no colliding sphere. -/
theorem checkSphereGroupAgainstSphereGroup_length_mismatch (ext : Externals)
    (cs : SBPLCollisionSpace) (group1 group2 : Group) (spheres1 spheres2 : List KDL.Vector)
    (low_res1 low_res2 verbose visualize : Bool)
    (h : (group1.getSpheres low_res1).length ≠ spheres1.length ∨
      (group2.getSpheres low_res2).length ≠ spheres2.length) :
    (checkSphereGroupAgainstSphereGroup ext cs group1 group2 spheres1 spheres2 low_res1
      low_res2 verbose visualize).ret = false ∧
    (checkSphereGroupAgainstSphereGroup ext cs group1 group2 spheres1 spheres2 low_res1
      low_res2 verbose visualize).dist = 100 ∧
    (checkSphereGroupAgainstSphereGroup ext cs group1 group2 spheres1 spheres2 low_res1
      low_res2 verbose visualize).cntr = 0 ∧
    (checkSphereGroupAgainstSphereGroup ext cs group1 group2 spheres1 spheres2 low_res1
      low_res2 verbose visualize).collision_spheres_ = cs.collision_spheres_ ∧
    ∀ ext' : Externals,
      checkSphereGroupAgainstSphereGroup ext' cs group1 group2 spheres1 spheres2 low_res1
        low_res2 verbose visualize =
      checkSphereGroupAgainstSphereGroup ext cs group1 group2 spheres1 spheres2 low_res1
        low_res2 verbose visualize := by
  rw [checkSphereGroupAgainstSphereGroup_mismatch ext cs group1 group2 spheres1 spheres2
    low_res1 low_res2 verbose visualize h]
  refine ⟨rfl, rfl, rfl, rfl, fun ext' => ?_⟩
  rw [checkSphereGroupAgainstSphereGroup_mismatch ext' cs group1 group2 spheres1 spheres2
    low_res1 low_res2 verbose visualize h]

/-- C17 at a group of two spheres given three posed centres that all coincide
with those of the other group: the call with visualization returns `false`
with `dist = 100` and records nothing. -/
theorem checkSphereGroupAgainstSphereGroup_length_mismatch_witness :
    ((exampleTwoBalls "a").getSpheres false).length ≠
        ([⟨0, 0, 0⟩, ⟨0, 0, 0⟩, ⟨0, 0, 0⟩] : List KDL.Vector).length ∧
    ((checkSphereGroupAgainstSphereGroup exampleExt exampleArm (exampleTwoBalls "a")
      (exampleTwoBalls "b") [⟨0, 0, 0⟩, ⟨0, 0, 0⟩, ⟨0, 0, 0⟩] [⟨0, 0, 0⟩, ⟨0, 0, 0⟩] false false
      false true).ret = false ∧
    (checkSphereGroupAgainstSphereGroup exampleExt exampleArm (exampleTwoBalls "a")
      (exampleTwoBalls "b") [⟨0, 0, 0⟩, ⟨0, 0, 0⟩, ⟨0, 0, 0⟩] [⟨0, 0, 0⟩, ⟨0, 0, 0⟩] false false
      false true).dist = 100 ∧
    (checkSphereGroupAgainstSphereGroup exampleExt exampleArm (exampleTwoBalls "a")
      (exampleTwoBalls "b") [⟨0, 0, 0⟩, ⟨0, 0, 0⟩, ⟨0, 0, 0⟩] [⟨0, 0, 0⟩, ⟨0, 0, 0⟩] false false
      false true).cntr = 0 ∧
    (checkSphereGroupAgainstSphereGroup exampleExt exampleArm (exampleTwoBalls "a")
      (exampleTwoBalls "b") [⟨0, 0, 0⟩, ⟨0, 0, 0⟩, ⟨0, 0, 0⟩] [⟨0, 0, 0⟩, ⟨0, 0, 0⟩] false false
      false true).collision_spheres_ = exampleArm.collision_spheres_ ∧
    ∀ ext' : Externals,
      checkSphereGroupAgainstSphereGroup ext' exampleArm (exampleTwoBalls "a")
        (exampleTwoBalls "b") [⟨0, 0, 0⟩, ⟨0, 0, 0⟩, ⟨0, 0, 0⟩] [⟨0, 0, 0⟩, ⟨0, 0, 0⟩] false false
        false true =
      checkSphereGroupAgainstSphereGroup exampleExt exampleArm (exampleTwoBalls "a")
        (exampleTwoBalls "b") [⟨0, 0, 0⟩, ⟨0, 0, 0⟩, ⟨0, 0, 0⟩] [⟨0, 0, 0⟩, ⟨0, 0, 0⟩] false false
        false true) :=
  ⟨by decide,
    checkSphereGroupAgainstSphereGroup_length_mismatch exampleExt exampleArm
      (exampleTwoBalls "a") (exampleTwoBalls "b") [⟨0, 0, 0⟩, ⟨0, 0, 0⟩, ⟨0, 0, 0⟩]
      [⟨0, 0, 0⟩, ⟨0, 0, 0⟩] false false false true (Or.inl (by decide))⟩

/-! ## Sphere-group-vs-sphere-group test: swapping the groups -/

theorem pairClear_symm (ext : Externals) (cs : SBPLCollisionSpace)
    (hsym : ∀ a b, ext.distance a b = ext.distance b a) (p1 p2 : Sphere × KDL.Vector) :
    PairClear ext cs p1 p2 ↔ PairClear ext cs p2 p1 := by
  unfold PairClear
  rw [max_comm, hsym]

theorem groupsClear_symm (ext : Externals) (cs : SBPLCollisionSpace)
    (hsym : ∀ a b, ext.distance a b = ext.distance b a) (group1 group2 : Group)
    (low_res1 low_res2 : Bool) (spheres1 spheres2 : List KDL.Vector) :
    GroupsClear ext cs group1 group2 low_res1 low_res2 spheres1 spheres2 ↔
      GroupsClear ext cs group2 group1 low_res2 low_res1 spheres2 spheres1 := by
  unfold GroupsClear
  constructor
  · rintro ⟨⟨h1, h2⟩, h⟩
    exact ⟨⟨h2, h1⟩, fun p2 hp2 p1 hp1 => (pairClear_symm ext cs hsym p1 p2).mp (h p1 hp1 p2 hp2)⟩
  · rintro ⟨⟨h2, h1⟩, h⟩
    exact ⟨⟨h1, h2⟩, fun p1 hp1 p2 hp2 => (pairClear_symm ext cs hsym p2 p1).mp (h p2 hp2 p1 hp1)⟩

/-- The verdict of the pairwise test does not depend on the order of the two
groups, when the distance function is symmetric. -/
theorem checkSphereGroupAgainstSphereGroup_ret_symm (ext : Externals) (cs : SBPLCollisionSpace)
    (hsym : ∀ a b, ext.distance a b = ext.distance b a) (group1 group2 : Group)
    (spheres1 spheres2 : List KDL.Vector) (low_res1 low_res2 verbose visualize : Bool) :
    (checkSphereGroupAgainstSphereGroup ext cs group1 group2 spheres1 spheres2 low_res1 low_res2
      verbose visualize).ret =
    (checkSphereGroupAgainstSphereGroup ext cs group2 group1 spheres2 spheres1 low_res2 low_res1
      verbose visualize).ret := by
  rw [Bool.eq_iff_iff, checkSphereGroupAgainstSphereGroup_ret_iff',
    checkSphereGroupAgainstSphereGroup_ret_iff']
  exact groupsClear_symm ext cs hsym group1 group2 low_res1 low_res2 spheres1 spheres2

/-- C14. For a symmetric distance function, every two groups, every two posed
sphere lists (of matching lengths or not), every padding and either setting of
`visualize`, `checkSphereGroupAgainstSphereGroup(g1, g2, s1, s2, ...)` and
`checkSphereGroupAgainstSphereGroup(g2, g1, s2, s1, ...)` return the same
verdict. -/
theorem checkSphereGroupAgainstSphereGroup_verdict_symm (ext : Externals)
    (cs : SBPLCollisionSpace) (group1 group2 : Group) (spheres1 spheres2 : List KDL.Vector)
    (low_res1 low_res2 verbose visualize : Bool)
    (hsym : ∀ a b, ext.distance a b = ext.distance b a) :
    (checkSphereGroupAgainstSphereGroup ext cs group1 group2 spheres1 spheres2 low_res1 low_res2
      verbose visualize).ret =
    (checkSphereGroupAgainstSphereGroup ext cs group2 group1 spheres2 spheres1 low_res2 low_res1
      verbose visualize).ret :=
  checkSphereGroupAgainstSphereGroup_ret_symm ext cs hsym group1 group2 spheres1 spheres2
    low_res1 low_res2 verbose visualize

theorem exampleExt_distance_symm (a b : KDL.Vector) :
    exampleExt.distance a b = exampleExt.distance b a := by
  simp only [exampleExt]
  exact abs_sub_comm a.x b.x

/-- C14 at two groups of two spheres each, in collision: both orders report a
collision, with and without visualization. -/
theorem checkSphereGroupAgainstSphereGroup_verdict_symm_witness :
    (∀ a b, exampleExt.distance a b = exampleExt.distance b a) ∧
    (checkSphereGroupAgainstSphereGroup exampleExt exampleArm (exampleTwoBalls "a")
      (exampleTwoBalls "b") [⟨0, 0, 0⟩, ⟨13 / 2, 0, 0⟩] [⟨5, 0, 0⟩, ⟨1, 0, 0⟩] false false false
      false).ret =
    (checkSphereGroupAgainstSphereGroup exampleExt exampleArm (exampleTwoBalls "b")
      (exampleTwoBalls "a") [⟨5, 0, 0⟩, ⟨1, 0, 0⟩] [⟨0, 0, 0⟩, ⟨13 / 2, 0, 0⟩] false false false
      false).ret ∧
    (checkSphereGroupAgainstSphereGroup exampleExt exampleArm (exampleTwoBalls "a")
      (exampleTwoBalls "b") [⟨0, 0, 0⟩, ⟨13 / 2, 0, 0⟩] [⟨5, 0, 0⟩, ⟨1, 0, 0⟩] false false false
      false).ret = false ∧
    (checkSphereGroupAgainstSphereGroup exampleExt exampleArm (exampleTwoBalls "a")
      (exampleTwoBalls "b") [⟨0, 0, 0⟩, ⟨13 / 2, 0, 0⟩] [⟨10, 0, 0⟩, ⟨20, 0, 0⟩] false false false
      false).ret = true :=
  ⟨exampleExt_distance_symm,
    checkSphereGroupAgainstSphereGroup_verdict_symm exampleExt exampleArm (exampleTwoBalls "a")
      (exampleTwoBalls "b") [⟨0, 0, 0⟩, ⟨13 / 2, 0, 0⟩] [⟨5, 0, 0⟩, ⟨1, 0, 0⟩] false false false
      false exampleExt_distance_symm,
    by decide!, by decide!⟩

/-- C15, the failing instance. Two groups of two spheres each with the
threshold 2, posed on the x axis at 0 and 13/2, and at 5 and 1; the distance
function is symmetric. Without visualization the test in the order (a, b)
stops at its second pair with `dist = 1`; in the order (b, a) it stops at its
second pair, a different one, with `dist = 3/2`. -/
theorem swapped_groups_different_dist :
    (∀ a b, exampleExt.distance a b = exampleExt.distance b a) ∧
    ((exampleTwoBalls "a").getSpheres false).length =
      ([⟨0, 0, 0⟩, ⟨13 / 2, 0, 0⟩] : List KDL.Vector).length ∧
    ((exampleTwoBalls "b").getSpheres false).length =
      ([⟨5, 0, 0⟩, ⟨1, 0, 0⟩] : List KDL.Vector).length ∧
    (checkSphereGroupAgainstSphereGroup exampleExt exampleArm (exampleTwoBalls "a")
      (exampleTwoBalls "b") [⟨0, 0, 0⟩, ⟨13 / 2, 0, 0⟩] [⟨5, 0, 0⟩, ⟨1, 0, 0⟩] false false false
      false).ret = false ∧
    (checkSphereGroupAgainstSphereGroup exampleExt exampleArm (exampleTwoBalls "a")
      (exampleTwoBalls "b") [⟨0, 0, 0⟩, ⟨13 / 2, 0, 0⟩] [⟨5, 0, 0⟩, ⟨1, 0, 0⟩] false false false
      false).dist = 1 ∧
    (checkSphereGroupAgainstSphereGroup exampleExt exampleArm (exampleTwoBalls "b")
      (exampleTwoBalls "a") [⟨5, 0, 0⟩, ⟨1, 0, 0⟩] [⟨0, 0, 0⟩, ⟨13 / 2, 0, 0⟩] false false false
      false).ret = false ∧
    (checkSphereGroupAgainstSphereGroup exampleExt exampleArm (exampleTwoBalls "b")
      (exampleTwoBalls "a") [⟨5, 0, 0⟩, ⟨1, 0, 0⟩] [⟨0, 0, 0⟩, ⟨13 / 2, 0, 0⟩] false false false
      false).dist = 3 / 2 ∧
    (checkSphereGroupAgainstSphereGroup exampleExt exampleArm (exampleTwoBalls "a")
      (exampleTwoBalls "b") [⟨0, 0, 0⟩, ⟨13 / 2, 0, 0⟩] [⟨5, 0, 0⟩, ⟨1, 0, 0⟩] false false false
      false).dist ≠
    (checkSphereGroupAgainstSphereGroup exampleExt exampleArm (exampleTwoBalls "b")
      (exampleTwoBalls "a") [⟨5, 0, 0⟩, ⟨1, 0, 0⟩] [⟨0, 0, 0⟩, ⟨13 / 2, 0, 0⟩] false false false
      false).dist :=
  ⟨exampleExt_distance_symm, by decide, by decide, by decide!, by decide!, by decide!,
    by decide!, by decide!⟩

theorem mem_pairList_distances_swap (ext : Externals)
    (hsym : ∀ a b, ext.distance a b = ext.distance b a) (l1 l2 : List (Sphere × KDL.Vector))
    (x : ℚ) (hx : x ∈ (pairList l1 l2).map (pairDistance ext)) :
    x ∈ (pairList l2 l1).map (pairDistance ext) := by
  obtain ⟨q, hq, rfl⟩ := List.mem_map.mp hx
  obtain ⟨h1, h2⟩ := (mem_pairList l1 l2 q).mp hq
  exact List.mem_map.mpr ⟨(q.2, q.1), (mem_pairList l2 l1 _).mpr ⟨h2, h1⟩, hsym _ _⟩

/-- C15, amended. For a symmetric distance function, swapping the order of
the two groups yields the identical `dist` whenever the test examines all
pairs, that is with visualization or when the result is valid, and when the
lengths do not match (both calls report 100). When a collision is found
without visualization each call stops at the first violating pair of its own
row-major order, and the two values of `dist` need not agree. -/
theorem checkSphereGroupAgainstSphereGroup_dist_symm (ext : Externals)
    (cs : SBPLCollisionSpace) (group1 group2 : Group) (spheres1 spheres2 : List KDL.Vector)
    (low_res1 low_res2 verbose visualize : Bool)
    (hsym : ∀ a b, ext.distance a b = ext.distance b a)
    (h : visualize = true ∨
      (checkSphereGroupAgainstSphereGroup ext cs group1 group2 spheres1 spheres2 low_res1
        low_res2 verbose visualize).ret = true ∨
      (group1.getSpheres low_res1).length ≠ spheres1.length ∨
      (group2.getSpheres low_res2).length ≠ spheres2.length) :
    (checkSphereGroupAgainstSphereGroup ext cs group1 group2 spheres1 spheres2 low_res1 low_res2
      verbose visualize).dist =
    (checkSphereGroupAgainstSphereGroup ext cs group2 group1 spheres2 spheres1 low_res2 low_res1
      verbose visualize).dist := by
  by_cases hm : (group1.getSpheres low_res1).length = spheres1.length ∧
      (group2.getSpheres low_res2).length = spheres2.length
  · obtain ⟨h1, h2⟩ := hm
    have h12 : visualize = true ∨
        (checkSphereGroupAgainstSphereGroup ext cs group1 group2 spheres1 spheres2 low_res1
          low_res2 verbose visualize).ret = true := by
      rcases h with h | h | h | h
      · exact Or.inl h
      · exact Or.inr h
      · exact absurd h1 h
      · exact absurd h2 h
    have h21 : visualize = true ∨
        (checkSphereGroupAgainstSphereGroup ext cs group2 group1 spheres2 spheres1 low_res2
          low_res1 verbose visualize).ret = true := by
      rw [← checkSphereGroupAgainstSphereGroup_ret_symm ext cs hsym group1 group2 spheres1
        spheres2 low_res1 low_res2 verbose visualize]
      exact h12
    rw [(checkSphereGroupAgainstSphereGroup_dist_all ext cs group1 group2 spheres1 spheres2
        low_res1 low_res2 verbose visualize h1 h2 h12).1,
      (checkSphereGroupAgainstSphereGroup_dist_all ext cs group2 group1 spheres2 spheres1
        low_res2 low_res1 verbose visualize h2 h1 h21).1]
    exact minCapped_congr _ _ (fun x =>
      ⟨mem_pairList_distances_swap ext hsym _ _ x, mem_pairList_distances_swap ext hsym _ _ x⟩)
  · have hne : (group1.getSpheres low_res1).length ≠ spheres1.length ∨
        (group2.getSpheres low_res2).length ≠ spheres2.length := by
      by_contra hc
      push_neg at hc
      exact hm hc
    rw [checkSphereGroupAgainstSphereGroup_mismatch ext cs group1 group2 spheres1 spheres2
        low_res1 low_res2 verbose visualize hne,
      checkSphereGroupAgainstSphereGroup_mismatch ext cs group2 group1 spheres2 spheres1
        low_res2 low_res1 verbose visualize hne.symm]

/-- C15, amended, at the two groups of the failing instance, with
visualization: both orders examine all four pairs and report `dist = 1`. -/
theorem checkSphereGroupAgainstSphereGroup_dist_symm_witness :
    (∀ a b, exampleExt.distance a b = exampleExt.distance b a) ∧
    (checkSphereGroupAgainstSphereGroup exampleExt exampleArm (exampleTwoBalls "a")
      (exampleTwoBalls "b") [⟨0, 0, 0⟩, ⟨13 / 2, 0, 0⟩] [⟨5, 0, 0⟩, ⟨1, 0, 0⟩] false false false
      true).dist =
    (checkSphereGroupAgainstSphereGroup exampleExt exampleArm (exampleTwoBalls "b")
      (exampleTwoBalls "a") [⟨5, 0, 0⟩, ⟨1, 0, 0⟩] [⟨0, 0, 0⟩, ⟨13 / 2, 0, 0⟩] false false false
      true).dist ∧
    (checkSphereGroupAgainstSphereGroup exampleExt exampleArm (exampleTwoBalls "a")
      (exampleTwoBalls "b") [⟨0, 0, 0⟩, ⟨13 / 2, 0, 0⟩] [⟨5, 0, 0⟩, ⟨1, 0, 0⟩] false false false
      true).dist = 1 :=
  ⟨exampleExt_distance_symm,
    checkSphereGroupAgainstSphereGroup_dist_symm exampleExt exampleArm (exampleTwoBalls "a")
      (exampleTwoBalls "b") [⟨0, 0, 0⟩, ⟨13 / 2, 0, 0⟩] [⟨5, 0, 0⟩, ⟨1, 0, 0⟩] false false false
      true exampleExt_distance_symm (Or.inl rfl),
    by decide!⟩

/-! ## Visualization and the verdict -/

/-- The verdict of the non-caching per-resolution check does not depend on
`visualize`. -/
theorem checkCollision_res_ret_visualize (ext : Externals) (cs : SBPLCollisionSpace)
    (angles : List ℚ) (low_res verbose v1 v2 : Bool) :
    (checkCollision_res ext cs angles low_res verbose v1).ret =
      (checkCollision_res ext cs angles low_res verbose v2).ret := by
  rw [Bool.eq_iff_iff, checkCollision_res_ret_iff, checkCollision_res_ret_iff]

/-- The verdict of the caching per-resolution check on a given cache does not
depend on `visualize`. -/
theorem checkCollision_frames_ret_visualize (ext : Externals) (cs : SBPLCollisionSpace)
    (angles : List ℚ) (frames : FrameCache) (low_res verbose v1 v2 : Bool) :
    (checkCollision_frames ext cs angles frames low_res verbose v1).ret =
      (checkCollision_frames ext cs angles frames low_res verbose v2).ret := by
  rw [Bool.eq_iff_iff, checkCollision_frames_ret_iff, checkCollision_frames_ret_iff]

/-- When the forward kinematics of the other groups succeeds or leaves no
frames, their views on the cache left by a caching check on the empty cache
are the fresh outcomes. -/
theorem checkCollision_frames_groups_of_clean (ext : Externals) (cs : SBPLCollisionSpace)
    (angles : List ℚ) (low_res verbose visualize : Bool) (sg0 : Group) (sg : List Group)
    (hsg : cs.model_.sphere_groups = sg0 :: sg)
    (ho : ∀ g ∈ sg, FKClean (g.computeFK [])) :
    cachedGroups sg 1 (checkCollision_frames ext cs angles [] low_res verbose visualize).frames =
      sg.map (fun g => (g, g.computeFK [])) := by
  obtain ⟨-, h2⟩ := checkCollision_frames_cacheLE ext cs angles [] low_res verbose visualize
    sg0 sg hsg
  rw [initialCache_nil, hsg] at h2
  apply cachedGroups_eq_map
  intro k g hk
  have hklt : k < sg.length := by
    by_contra hge
    rw [List.getElem?_eq_none (by omega)] at hk
    exact absurd hk (by simp)
  exact cachedFK_eq_of_clean _ _ _ (1 + k) (ho g (List.mem_iff_getElem?.mpr ⟨k, hk⟩))
    (cachedFK_replicate _ _ _ (by simp; omega)) (h2 k g hk)

/-- The view of the default group on the cache left by a caching check does
not depend on `visualize`. -/
theorem checkCollision_frames_view_zero (ext : Externals) (cs : SBPLCollisionSpace)
    (angles : List ℚ) (frames : FrameCache) (low_res verbose v1 v2 : Bool) (sg0 : Group)
    (sg : List Group) (hsg : cs.model_.sphere_groups = sg0 :: sg) (r : Bool × GroupFrames) :
    cachedFK r (checkCollision_frames ext cs angles frames low_res verbose v1).frames 0 =
      cachedFK r (checkCollision_frames ext cs angles frames low_res verbose v2).frames 0 := by
  obtain ⟨a1, a2⟩ := checkCollision_frames_frames_zero ext cs angles frames low_res verbose v1
    sg0 sg hsg
  obtain ⟨b1, b2⟩ := checkCollision_frames_frames_zero ext cs angles frames low_res verbose v2
    sg0 sg hsg
  exact cachedFK_congr r _ _ 0 (a2.trans b2.symm) (a1.trans b1.symm)

/-- With multi-level checking, the two-level check is valid exactly when the
coarse pass is, or the fine pass on the cache left by the coarse pass is. -/
theorem checkCollision_ret_multi (ext : Externals) (cs : SBPLCollisionSpace) (angles : List ℚ)
    (verbose visualize : Bool) (hm : cs.use_multi_level_collision_check_ = true) :
    (checkCollision ext cs angles verbose visualize).ret =
      ((checkCollision_frames ext cs angles [] true verbose visualize).ret ||
        (checkCollision_frames ext
          { cs with collision_spheres_ :=
              (checkCollision_frames ext cs angles [] true verbose visualize).collision_spheres_ }
          angles (checkCollision_frames ext cs angles [] true verbose visualize).frames false
          verbose visualize).ret) := by
  unfold checkCollision
  dsimp only
  rw [hm]
  simp only [Bool.not_true, Bool.false_eq_true, if_false]
  cases hc : (checkCollision_frames ext cs angles [] true verbose visualize).ret
  · simp
  · simp [hc]

/-- The verdict of the fine pass on the cache left by the coarse pass, when
the forward kinematics of the other groups succeeds or leaves no frames. -/
theorem checkCollision_fine_after_coarse_iff (ext : Externals) (cs : SBPLCollisionSpace)
    (angles : List ℚ) (verbose visualize v0 : Bool) (l : List Sphere)
    (sg0 : Group) (sg : List Group) (hsg : cs.model_.sphere_groups = sg0 :: sg)
    (ho : ∀ g ∈ sg, FKClean (g.computeFK [])) :
    (checkCollision_frames ext { cs with collision_spheres_ := l } angles
        (checkCollision_frames ext cs angles [] true verbose visualize).frames false verbose
        visualize).ret = true ↔
      CheckPass ext cs sg0 false
        (cachedFK (cs.model_.computeDefaultGroupFK angles)
          (checkCollision_frames ext cs angles [] true verbose v0).frames 0)
        (sg.map (fun g => (g, g.computeFK []))) := by
  have hlen := checkCollision_frames_frames_length_pos ext cs angles true verbose visualize
    sg0 sg hsg
  have hinit : initialCache { cs with collision_spheres_ := l }
      (checkCollision_frames ext cs angles [] true verbose visualize).frames =
      (checkCollision_frames ext cs angles [] true verbose visualize).frames :=
    initialCache_of_length_pos _ _ hlen
  rw [checkCollision_frames_ret_iff, hinit]
  have hg := checkCollision_frames_groups_of_clean ext cs angles true verbose visualize sg0 sg
    hsg ho
  have hz := checkCollision_frames_view_zero ext cs angles [] true verbose visualize v0 sg0 sg
    hsg (cs.model_.computeDefaultGroupFK angles)
  constructor
  · rintro ⟨a, b, hab, hpass⟩
    have hab' : sg0 :: sg = a :: b := hsg.symm.trans hab
    cases hab'
    have hpass' : CheckPass ext cs sg0 false
        (cachedFK (cs.model_.computeDefaultGroupFK angles)
          (checkCollision_frames ext cs angles [] true verbose visualize).frames 0)
        (cachedGroups sg 1
          (checkCollision_frames ext cs angles [] true verbose visualize).frames) := hpass
    rw [hg, hz] at hpass'
    exact hpass'
  · intro hpass
    refine ⟨sg0, sg, hsg, ?_⟩
    have hpass' : CheckPass ext cs sg0 false
        (cachedFK (cs.model_.computeDefaultGroupFK angles)
          (checkCollision_frames ext cs angles [] true verbose visualize).frames 0)
        (cachedGroups sg 1
          (checkCollision_frames ext cs angles [] true verbose visualize).frames) := by
      rw [hg, hz]
      exact hpass
    exact hpass'

/-- The verdict of the two-level check does not depend on `visualize`, when
the forward kinematics of every sphere group but the first succeeds or leaves
no frames. -/
theorem checkCollision_ret_visualize_of_clean (ext : Externals) (cs : SBPLCollisionSpace)
    (angles : List ℚ) (verbose v1 v2 : Bool)
    (ho : ∀ g ∈ cs.model_.sphere_groups.drop 1, FKClean (g.computeFK [])) :
    (checkCollision ext cs angles verbose v1).ret =
      (checkCollision ext cs angles verbose v2).ret := by
  cases hm : cs.use_multi_level_collision_check_
  · unfold checkCollision
    dsimp only
    rw [hm]
    simp only [Bool.not_false, if_true]
    exact checkCollision_res_ret_visualize ext cs angles false verbose v1 v2
  · rw [checkCollision_ret_multi ext cs angles verbose v1 hm,
      checkCollision_ret_multi ext cs angles verbose v2 hm,
      checkCollision_frames_ret_visualize ext cs angles [] true verbose v1 v2]
    congr 1
    cases hsg : cs.model_.sphere_groups with
    | nil =>
      rw [Bool.eq_iff_iff, checkCollision_frames_ret_iff, checkCollision_frames_ret_iff]
      constructor
      · rintro ⟨a, b, hab, -⟩
        exact absurd (hsg.symm.trans hab) (by simp)
      · rintro ⟨a, b, hab, -⟩
        exact absurd (hsg.symm.trans hab) (by simp)
    | cons sg0 sg =>
      have ho' : ∀ g ∈ sg, FKClean (g.computeFK []) := by
        intro g hg
        apply ho g
        rw [hsg]
        exact hg
      rw [Bool.eq_iff_iff,
        checkCollision_fine_after_coarse_iff ext cs angles verbose v1 v1 _ sg0 sg hsg ho',
        checkCollision_fine_after_coarse_iff ext cs angles verbose v2 v1 _ sg0 sg hsg ho']

/-- C18, the failing instance. At the example engine whose second group has a
forward kinematics that fails after writing frames, and the configuration
`[4]`, the coarse sphere of the default group collides and its fine sphere is
clear. Without visualization the coarse pass returns before the forward
kinematics of the second group, the fine pass runs it, and the two-level check
reports not valid. With visualization the coarse pass goes on to the second
group and leaves its frames in the cache, the fine pass reuses them, and the
two-level check reports valid. -/
theorem visualize_changes_two_level_verdict :
    (checkCollision_frames exampleExt exampleFailingEngine [4] [] true false false).ret
      = false ∧
    (checkCollision_frames exampleExt exampleFailingEngine [4] [] true false false).frames =
      [[[xShift 4]], []] ∧
    (checkCollision_frames exampleExt exampleFailingEngine [4] [] true false true).ret
      = false ∧
    (checkCollision_frames exampleExt exampleFailingEngine [4] [] true false true).frames =
      [[[xShift 4]], [[xShift 8]]] ∧
    (checkCollision exampleExt exampleFailingEngine [4] false false).ret = false ∧
    (checkCollision exampleExt exampleFailingEngine [4] false true).ret = true := by
  refine ⟨by decide!, by decide!, by decide!, by decide!, by decide!, by decide!⟩

/-- C18, amended. Requesting visualization does not change the verdict of the
sphere-vs-field test, of the pairwise test, or of the per-resolution
`checkCollision` (both overloads, the caching one on any cache): a call that
finds a violation with `visualize = true` goes on and still reports not valid.
The two-level `checkCollision` returns the same verdict with and without
visualization when multi-level checking is off, and when the forward
kinematics of every sphere group but the first either succeeds or leaves no
frames in the cache. -/
theorem visualize_same_verdict (ext : Externals) (cs : SBPLCollisionSpace) (angles : List ℚ)
    (verbose : Bool) :
    (∀ (frames : GroupFrames) (spheres : List Sphere) (sph_poses : List KDL.Vector),
      (checkSpheresAgainstWorld cs frames spheres verbose true sph_poses).ret =
        (checkSpheresAgainstWorld cs frames spheres verbose false sph_poses).ret) ∧
    (∀ (group1 group2 : Group) (spheres1 spheres2 : List KDL.Vector) (low_res1 low_res2 : Bool),
      (checkSphereGroupAgainstSphereGroup ext cs group1 group2 spheres1 spheres2 low_res1
        low_res2 verbose true).ret =
      (checkSphereGroupAgainstSphereGroup ext cs group1 group2 spheres1 spheres2 low_res1
        low_res2 verbose false).ret) ∧
    (∀ low_res : Bool,
      (checkCollision_res ext cs angles low_res verbose true).ret =
        (checkCollision_res ext cs angles low_res verbose false).ret) ∧
    (∀ (frames : FrameCache) (low_res : Bool),
      (checkCollision_frames ext cs angles frames low_res verbose true).ret =
        (checkCollision_frames ext cs angles frames low_res verbose false).ret) ∧
    (cs.use_multi_level_collision_check_ = false →
      (checkCollision ext cs angles verbose true).ret =
        (checkCollision ext cs angles verbose false).ret) ∧
    ((∀ g ∈ cs.model_.sphere_groups.drop 1, FKClean (g.computeFK [])) →
      (checkCollision ext cs angles verbose true).ret =
        (checkCollision ext cs angles verbose false).ret) := by
  refine ⟨?_, ?_, ?_, ?_, ?_, ?_⟩
  · intro frames spheres sph_poses
    rw [Bool.eq_iff_iff, checkSpheresAgainstWorld_ret_iff, checkSpheresAgainstWorld_ret_iff]
  · intro group1 group2 spheres1 spheres2 low_res1 low_res2
    rw [Bool.eq_iff_iff, checkSphereGroupAgainstSphereGroup_ret_iff,
      checkSphereGroupAgainstSphereGroup_ret_iff]
  · intro low_res
    exact checkCollision_res_ret_visualize ext cs angles low_res verbose true false
  · intro frames low_res
    exact checkCollision_frames_ret_visualize ext cs angles frames low_res verbose true false
  · intro hm
    unfold checkCollision
    dsimp only
    rw [hm]
    simp only [Bool.not_false, if_true]
    exact checkCollision_res_ret_visualize ext cs angles false verbose true false
  · intro ho
    exact checkCollision_ret_visualize_of_clean ext cs angles verbose true false ho

/-- C18, amended, at the example engine with three groups, whose forward
kinematics always succeeds: at the configuration `[15/2]` the default group
violates the pairwise threshold against both other groups; the call with
visualization records the four spheres of the two violating pairs and reports
not valid, as the call without visualization does. -/
theorem visualize_same_verdict_witness :
    (∀ g ∈ exampleThreeGroups.model_.sphere_groups.drop 1, FKClean (g.computeFK [])) ∧
    (checkCollision exampleExt exampleThreeGroups [15 / 2] false true).ret =
      (checkCollision exampleExt exampleThreeGroups [15 / 2] false false).ret ∧
    (checkCollision exampleExt exampleThreeGroups [15 / 2] false false).ret = false ∧
    (checkCollision exampleExt exampleThreeGroups [15 / 2] false true).collision_spheres_.length
      = 4 :=
  ⟨by
      intro g hg
      have hg' : g = exampleGroup "a" 8 ∨ g = exampleGroup "b" 8 := by
        simpa [exampleThreeGroups] using hg
      rcases hg' with rfl | rfl <;> exact Or.inl rfl,
    (visualize_same_verdict exampleExt exampleThreeGroups [15 / 2] false).2.2.2.2.2 (by
      intro g hg
      have hg' : g = exampleGroup "a" 8 ∨ g = exampleGroup "b" 8 := by
        simpa [exampleThreeGroups] using hg
      rcases hg' with rfl | rfl <;> exact Or.inl rfl),
    by decide!, by decide!⟩

/-! ## Line segment validity -/

/-- The loop of `isValidLineSegment` over cells none of which blocks the
segment: it ends with the minimum of the distances. -/
theorem isValidLineSegment_loop_free (cs : SBPLCollisionSpace) (radius : Int)
    (cells : List (Int × Int × Int)) :
    ∀ st : LineLoop, (∀ c ∈ cells, cellBlocked cs radius c = false) →
      isValidLineSegment_loop cs radius true cells st =
        (none, { retvalue := st.retvalue,
                 min_dist := (cells.map (fun c => cs.grid_.getDistance c.1 c.2.1 c.2.2)).foldl
                   (fun m d => if d < m then d else m) st.min_dist,
                 tested := st.tested,
                 examined := st.examined ++ cells }) := by
  induction cells with
  | nil => intro st _; simp [isValidLineSegment_loop]
  | cons c rest ih =>
    intro st h
    have hc := h c (List.mem_cons_self _ _)
    simp only [cellBlocked, Bool.or_eq_false_iff, Bool.not_eq_false', decide_eq_false_iff_not]
      at hc
    obtain ⟨hb, hd⟩ := hc
    simp only [isValidLineSegment_loop, hb, hd, Bool.not_true, Bool.false_eq_true, if_false,
      false_and, if_true]
    rw [ih _ (fun x hx => h x (List.mem_cons_of_mem _ hx))]
    simp

/-- The loop of `isValidLineSegment` at a first blocking cell `c` after free
cells `pre`: it returns there, with 0 when `c` is out of bounds and with the
distance of `c` otherwise, and reads no cell after `c`. -/
theorem isValidLineSegment_loop_blocked (cs : SBPLCollisionSpace) (radius : Int)
    (pre : List (Int × Int × Int)) (c : Int × Int × Int) (suf : List (Int × Int × Int))
    (hpre : ∀ x ∈ pre, cellBlocked cs radius x = false) (hc : cellBlocked cs radius c = true) :
    ∀ st : LineLoop,
      (isValidLineSegment_loop cs radius true (pre ++ c :: suf) st).1 =
        some (if cs.grid_.isInBounds c.1 c.2.1 c.2.2 then cs.grid_.getDistance c.1 c.2.1 c.2.2
          else 0) ∧
      (isValidLineSegment_loop cs radius true (pre ++ c :: suf) st).2.examined =
        st.examined ++ pre ++ [c] := by
  induction pre with
  | nil =>
    intro st
    simp only [cellBlocked, Bool.or_eq_true, Bool.not_eq_true', decide_eq_true_eq] at hc
    simp only [List.nil_append, isValidLineSegment_loop, List.append_nil]
    cases hb : cs.grid_.isInBounds c.1 c.2.1 c.2.2
    · simp
    · rw [hb] at hc
      have hd : cs.grid_.getDistance c.1 c.2.1 c.2.2 ≤ (radius : ℚ) := by
        rcases hc with h | h
        · exact absurd h (by decide)
        · exact h
      simp [hd]
  | cons p pre ih =>
    intro st
    have hp := hpre p (List.mem_cons_self _ _)
    simp only [cellBlocked, Bool.or_eq_false_iff, Bool.not_eq_false', decide_eq_false_iff_not]
      at hp
    obtain ⟨hb, hd⟩ := hp
    simp only [List.cons_append, isValidLineSegment_loop, hb, hd, Bool.not_true,
      Bool.false_eq_true, if_false, false_and, if_true, List.append_eq]
    obtain ⟨h1, h2⟩ := ih (fun x hx => hpre x (List.mem_cons_of_mem _ hx))
      { retvalue := st.retvalue,
        min_dist := if cs.grid_.getDistance p.1 p.2.1 p.2.2 < st.min_dist
          then cs.grid_.getDistance p.1 p.2.1 p.2.2 else st.min_dist,
        tested := st.tested, examined := st.examined ++ [p] }
    refine ⟨h1, ?_⟩
    rw [h2]
    simp

theorem minCapped_pos (l : List ℚ) (h : ∀ x ∈ l, 0 < x) : 0 < minCapped l := by
  unfold minCapped
  rcases foldl_min_mem l 100 with h1 | h1
  · rw [h1]
    norm_num
  · exact h _ h1

/-- C19. When every cell of the traversal from `a` to `b` is in bounds and
has a distance strictly greater than `radius`, with `radius ≥ 0`,
`isValidLineSegment` reads all cells of the traversal and returns the minimum
of 100 and their distances, a value greater than 0. -/
theorem isValidLineSegment_free
    (get_bresenham3d_parameters : Int → Int → Int → Int → Int → Int → Bresenham3D)
    (cs : SBPLCollisionSpace) (a b : List Int) (radius : Int) (hr : 0 ≤ radius)
    (hfree : ∀ c ∈ (get_bresenham3d_parameters (a.getD 0 0) (a.getD 1 0) (a.getD 2 0)
        (b.getD 0 0) (b.getD 1 0) (b.getD 2 0)).cells,
      cs.grid_.isInBounds c.1 c.2.1 c.2.2 = true ∧
      (radius : ℚ) < cs.grid_.getDistance c.1 c.2.1 c.2.2) :
    (isValidLineSegment get_bresenham3d_parameters cs a b radius).ret =
      minCapped ((get_bresenham3d_parameters (a.getD 0 0) (a.getD 1 0) (a.getD 2 0)
        (b.getD 0 0) (b.getD 1 0) (b.getD 2 0)).cells.map
          (fun c => cs.grid_.getDistance c.1 c.2.1 c.2.2)) ∧
    0 < (isValidLineSegment get_bresenham3d_parameters cs a b radius).ret ∧
    (isValidLineSegment get_bresenham3d_parameters cs a b radius).examined =
      (get_bresenham3d_parameters (a.getD 0 0) (a.getD 1 0) (a.getD 2 0)
        (b.getD 0 0) (b.getD 1 0) (b.getD 2 0)).cells := by
  have hfree' : ∀ c ∈ (get_bresenham3d_parameters (a.getD 0 0) (a.getD 1 0) (a.getD 2 0)
      (b.getD 0 0) (b.getD 1 0) (b.getD 2 0)).cells, cellBlocked cs radius c = false := by
    intro c hc
    obtain ⟨h1, h2⟩ := hfree c hc
    simp [cellBlocked, h1, h2]
  have hloop := isValidLineSegment_loop_free cs radius _
    { retvalue := 1, min_dist := 100, tested := [], examined := [] } hfree'
  have hret : (isValidLineSegment get_bresenham3d_parameters cs a b radius).ret =
      minCapped ((get_bresenham3d_parameters (a.getD 0 0) (a.getD 1 0) (a.getD 2 0)
        (b.getD 0 0) (b.getD 1 0) (b.getD 2 0)).cells.map
          (fun c => cs.grid_.getDistance c.1 c.2.1 c.2.2)) := by
    unfold isValidLineSegment
    dsimp only
    rw [hloop]
    simp [minCapped]
  refine ⟨hret, ?_, ?_⟩
  · rw [hret]
    apply minCapped_pos
    intro x hx
    obtain ⟨c, hc, rfl⟩ := List.mem_map.mp hx
    have hq : (0 : ℚ) ≤ (radius : ℚ) := by exact_mod_cast hr
    exact lt_of_le_of_lt hq (hfree c hc).2
  · unfold isValidLineSegment
    dsimp only
    rw [hloop]
    simp

/-- C19 on the example grid, along the x axis from `(3, 0, 0)` to `(6, 0, 0)`
with radius 2: the cell distances are 3, 4, 5 and 6, and the call returns 3. -/
theorem isValidLineSegment_free_witness :
    ((isValidLineSegment xAxisLine exampleArm [3, 0, 0] [6, 0, 0] 2).ret =
      minCapped ((xAxisLine (([3, 0, 0] : List Int).getD 0 0) (([3, 0, 0] : List Int).getD 1 0)
        (([3, 0, 0] : List Int).getD 2 0) (([6, 0, 0] : List Int).getD 0 0)
        (([6, 0, 0] : List Int).getD 1 0) (([6, 0, 0] : List Int).getD 2 0)).cells.map
          (fun c => exampleArm.grid_.getDistance c.1 c.2.1 c.2.2)) ∧
      0 < (isValidLineSegment xAxisLine exampleArm [3, 0, 0] [6, 0, 0] 2).ret ∧
      (isValidLineSegment xAxisLine exampleArm [3, 0, 0] [6, 0, 0] 2).examined =
        (xAxisLine (([3, 0, 0] : List Int).getD 0 0) (([3, 0, 0] : List Int).getD 1 0)
          (([3, 0, 0] : List Int).getD 2 0) (([6, 0, 0] : List Int).getD 0 0)
          (([6, 0, 0] : List Int).getD 1 0) (([6, 0, 0] : List Int).getD 2 0)).cells) ∧
    (isValidLineSegment xAxisLine exampleArm [3, 0, 0] [6, 0, 0] 2).ret = 3 ∧
    (isValidLineSegment xAxisLine exampleArm [3, 0, 0] [6, 0, 0] 2).examined =
      [(3, 0, 0), (4, 0, 0), (5, 0, 0), (6, 0, 0)] :=
  ⟨isValidLineSegment_free xAxisLine exampleArm [3, 0, 0] [6, 0, 0] 2 (by decide)
      (by decide!),
    by decide!, by decide!⟩

/-- On a blocked segment `isValidLineSegment` returns at the first blocking
cell of the traversal and reads no cell after it; it returns 0 when that cell
is out of bounds, and the distance of that cell when it is in bounds. -/
theorem isValidLineSegment_blocked
    (get_bresenham3d_parameters : Int → Int → Int → Int → Int → Int → Bresenham3D)
    (cs : SBPLCollisionSpace) (a b : List Int) (radius : Int)
    (pre : List (Int × Int × Int)) (c : Int × Int × Int) (suf : List (Int × Int × Int))
    (hcells : (get_bresenham3d_parameters (a.getD 0 0) (a.getD 1 0) (a.getD 2 0)
        (b.getD 0 0) (b.getD 1 0) (b.getD 2 0)).cells = pre ++ c :: suf)
    (hpre : ∀ x ∈ pre, cellBlocked cs radius x = false) (hc : cellBlocked cs radius c = true) :
    (isValidLineSegment get_bresenham3d_parameters cs a b radius).ret =
      (if cs.grid_.isInBounds c.1 c.2.1 c.2.2 then cs.grid_.getDistance c.1 c.2.1 c.2.2
        else 0) ∧
    (isValidLineSegment get_bresenham3d_parameters cs a b radius).examined = pre ++ [c] := by
  obtain ⟨h1, h2⟩ := isValidLineSegment_loop_blocked cs radius pre c suf hpre hc
    { retvalue := 1, min_dist := 100, tested := [], examined := [] }
  unfold isValidLineSegment
  dsimp only
  rw [hcells]
  generalize isValidLineSegment_loop cs radius true (pre ++ c :: suf)
    { retvalue := 1, min_dist := 100, tested := [], examined := [] } = r at h1 h2
  obtain ⟨v, st⟩ := r
  simp only at h1 h2
  subst h1
  simp only [h2, List.nil_append, and_self]

/-- C20, the failing instance, on the example grid along the x axis with
radius 2. From `(3, 0, 0)` to `(1, 0, 0)` the cell `(2, 0, 0)` of distance 2 is
the first occupied cell: the call halts there and returns 2, not 0. From
`(8, 0, 0)` to `(11, 0, 0)` the cell `(10, 0, 0)` is out of bounds: the call
halts there and returns 0. -/
theorem isValidLineSegment_returns_cell_distance :
    ((xAxisLine 3 0 0 1 0 0).cells = [(3, 0, 0), (2, 0, 0), (1, 0, 0)] ∧
      [(3, 0, 0), (2, 0, 0), (1, 0, 0)].map (cellBlocked exampleArm 2) = [false, true, true] ∧
      (isValidLineSegment xAxisLine exampleArm [3, 0, 0] [1, 0, 0] 2).examined =
        [(3, 0, 0), (2, 0, 0)] ∧
      (isValidLineSegment xAxisLine exampleArm [3, 0, 0] [1, 0, 0] 2).ret = 2) ∧
    ((xAxisLine 8 0 0 11 0 0).cells = [(8, 0, 0), (9, 0, 0), (10, 0, 0), (11, 0, 0)] ∧
      [(8, 0, 0), (9, 0, 0), (10, 0, 0), (11, 0, 0)].map (cellBlocked exampleArm 2) =
        [false, false, true, true] ∧
      (isValidLineSegment xAxisLine exampleArm [8, 0, 0] [11, 0, 0] 2).examined =
        [(8, 0, 0), (9, 0, 0), (10, 0, 0)] ∧
      (isValidLineSegment xAxisLine exampleArm [8, 0, 0] [11, 0, 0] 2).ret = 0) := by
  refine ⟨⟨by decide, by decide!, by decide!, by decide!⟩,
    ⟨by decide, by decide!, by decide!, by decide!⟩⟩

/-! ## Clearance of a configuration -/

/-- The loop of `getClearance` reads every sphere of the list once, adds up
the clearances and tracks their minimum. -/
theorem getClearance_loop_eq (cs : SBPLCollisionSpace) (frames : GroupFrames)
    (l : List Sphere) :
    ∀ (i : Nat) (st : ClearanceLoop),
      (getClearance_loop cs frames l i st).sum =
        st.sum + (l.map (sphereClearance cs frames)).sum ∧
      (getClearance_loop cs frames l i st).min_dist =
        (l.map (sphereClearance cs frames)).foldl (fun m d => if d < m then d else m)
          st.min_dist ∧
      (getClearance_loop cs frames l i st).read = st.read ++ List.range' i l.length := by
  induction l with
  | nil => intro i st; simp [getClearance_loop]
  | cons s rest ih =>
    intro i st
    obtain ⟨h1, h2, h3⟩ := ih (i + 1)
      { sum := st.sum + sphereClearance cs frames s, dist := sphereClearance cs frames s,
        min_dist := if st.min_dist > sphereClearance cs frames s
          then sphereClearance cs frames s else st.min_dist,
        read := st.read ++ [i] }
    have e : getClearance_loop cs frames (s :: rest) i st =
        getClearance_loop cs frames rest (i + 1)
          { sum := st.sum + sphereClearance cs frames s, dist := sphereClearance cs frames s,
            min_dist := if st.min_dist > sphereClearance cs frames s
              then sphereClearance cs frames s else st.min_dist,
            read := st.read ++ [i] } := rfl
    rw [e, h1, h2, h3]
    refine ⟨?_, rfl, ?_⟩
    · simp only [List.map_cons, List.sum_cons]
      ring
    · simp [List.range'_succ]

/-- The outputs of a `getClearance` call whose forward kinematics succeeds. -/
theorem getClearance_eq (cs : SBPLCollisionSpace) (angles : List ℚ) (num_spheres : Int)
    (avg_dist : ℚ) (hfk : (cs.model_.computeDefaultGroupFK angles).1 = true) :
    (getClearance cs angles num_spheres avg_dist).ret = true ∧
    (getClearance cs angles num_spheres avg_dist).num_spheres =
      (if num_spheres > ((cs.model_.default_group.getSpheres false).length : Int)
        then ((cs.model_.default_group.getSpheres false).length : Int) else num_spheres) ∧
    (getClearance cs angles num_spheres avg_dist).avg_dist =
      ((cs.model_.default_group.getSpheres false).map
        (sphereClearance cs (cs.model_.computeDefaultGroupFK angles).2)).sum /
      (((if num_spheres > ((cs.model_.default_group.getSpheres false).length : Int)
        then ((cs.model_.default_group.getSpheres false).length : Int) else num_spheres : Int)
        : ℚ)) ∧
    (getClearance cs angles num_spheres avg_dist).min_dist =
      minCapped ((cs.model_.default_group.getSpheres false).map
        (sphereClearance cs (cs.model_.computeDefaultGroupFK angles).2)) ∧
    (getClearance cs angles num_spheres avg_dist).read =
      List.range (cs.model_.default_group.getSpheres false).length := by
  obtain ⟨h1, h2, h3⟩ := getClearance_loop_eq cs (cs.model_.computeDefaultGroupFK angles).2
    (cs.model_.default_group.getSpheres false) 0
    { sum := 0, dist := 100, min_dist := 100, read := [] }
  unfold getClearance
  simp only [hfk, Bool.not_true, Bool.false_eq_true, if_false]
  refine ⟨trivial, trivial, ?_, ?_, ?_⟩
  · rw [h1]
    simp
  · rw [h2]
    rfl
  · rw [h3, List.range_eq_range']
    simp

/-- The loop of `getClearance` uses only `worldToGrid` and `getDistance` of the
engine. -/
theorem getClearance_loop_congr (cs cs' : SBPLCollisionSpace) (frames : GroupFrames)
    (hw : cs.grid_.worldToGrid = cs'.grid_.worldToGrid)
    (hd : cs.grid_.getDistance = cs'.grid_.getDistance) (l : List Sphere) :
    ∀ (i : Nat) (st : ClearanceLoop),
      getClearance_loop cs frames l i st = getClearance_loop cs' frames l i st := by
  induction l with
  | nil => intro i st; rfl
  | cons s rest ih =>
    intro i st
    simp only [getClearance_loop, hw, hd, ih]

/-- The method `getClearance` uses only `worldToGrid`, `getDistance` and the
robot model of the engine. -/
theorem getClearance_congr (cs cs' : SBPLCollisionSpace) (angles : List ℚ) (num_spheres : Int)
    (avg_dist : ℚ) (hm : cs.model_ = cs'.model_)
    (hw : cs.grid_.worldToGrid = cs'.grid_.worldToGrid)
    (hd : cs.grid_.getDistance = cs'.grid_.getDistance) :
    getClearance cs angles num_spheres avg_dist = getClearance cs' angles num_spheres avg_dist := by
  unfold getClearance
  simp only [hm, getClearance_loop_congr cs cs' _ hw hd]

/-- C21. When the forward kinematics of the default group succeeds, the group
has `k ≥ 1` fine spheres and more than `k` spheres are requested,
`getClearance` uses `k` as the count, reads the sphere indices `0, ..., k - 1`
and no other, and reports as `avg_dist` the sum of the `k` values (cell
distance minus radius), one per sphere of the group, divided by `k`. -/
theorem getClearance_clamped (cs : SBPLCollisionSpace) (angles : List ℚ) (num_spheres : Int)
    (avg_dist : ℚ) (hfk : (cs.model_.computeDefaultGroupFK angles).1 = true)
    (hk : 1 ≤ (cs.model_.default_group.getSpheres false).length)
    (hn : ((cs.model_.default_group.getSpheres false).length : Int) < num_spheres) :
    (getClearance cs angles num_spheres avg_dist).ret = true ∧
    (getClearance cs angles num_spheres avg_dist).num_spheres =
      ((cs.model_.default_group.getSpheres false).length : Int) ∧
    (getClearance cs angles num_spheres avg_dist).read =
      List.range (cs.model_.default_group.getSpheres false).length ∧
    (∀ i ∈ (getClearance cs angles num_spheres avg_dist).read,
      i < (cs.model_.default_group.getSpheres false).length) ∧
    ((cs.model_.default_group.getSpheres false).map
      (sphereClearance cs (cs.model_.computeDefaultGroupFK angles).2)).length =
      (cs.model_.default_group.getSpheres false).length ∧
    (getClearance cs angles num_spheres avg_dist).avg_dist =
      ((cs.model_.default_group.getSpheres false).map
        (sphereClearance cs (cs.model_.computeDefaultGroupFK angles).2)).sum /
      (((cs.model_.default_group.getSpheres false).length : Int) : ℚ) := by
  obtain ⟨h1, h2, h3, -, h5⟩ := getClearance_eq cs angles num_spheres avg_dist hfk
  rw [if_pos hn] at h2 h3
  refine ⟨h1, h2, h5, ?_, by simp, h3⟩
  intro i hi
  rw [h5] at hi
  exact List.mem_range.mp hi

/-- C21 at the example engine with two fine spheres of clearance 2 and 4, and
7 spheres requested: the count is 2 and the average is 3. -/
theorem getClearance_clamped_witness :
    ((getClearance exampleClearanceEngine [] 7 0).ret = true ∧
      (getClearance exampleClearanceEngine [] 7 0).num_spheres =
        ((exampleClearanceEngine.model_.default_group.getSpheres false).length : Int) ∧
      (getClearance exampleClearanceEngine [] 7 0).read =
        List.range (exampleClearanceEngine.model_.default_group.getSpheres false).length ∧
      (∀ i ∈ (getClearance exampleClearanceEngine [] 7 0).read,
        i < (exampleClearanceEngine.model_.default_group.getSpheres false).length) ∧
      ((exampleClearanceEngine.model_.default_group.getSpheres false).map
        (sphereClearance exampleClearanceEngine
          (exampleClearanceEngine.model_.computeDefaultGroupFK []).2)).length =
        (exampleClearanceEngine.model_.default_group.getSpheres false).length ∧
      (getClearance exampleClearanceEngine [] 7 0).avg_dist =
        ((exampleClearanceEngine.model_.default_group.getSpheres false).map
          (sphereClearance exampleClearanceEngine
            (exampleClearanceEngine.model_.computeDefaultGroupFK []).2)).sum /
        (((exampleClearanceEngine.model_.default_group.getSpheres false).length : Int) : ℚ)) ∧
    (exampleClearanceEngine.model_.default_group.getSpheres false).map
      (sphereClearance exampleClearanceEngine
        (exampleClearanceEngine.model_.computeDefaultGroupFK []).2) = [2, 4] ∧
    (getClearance exampleClearanceEngine [] 7 0).avg_dist = 3 ∧
    (getClearance exampleClearanceEngine [] 7 0).read = [0, 1] :=
  ⟨getClearance_clamped exampleClearanceEngine [] 7 0 rfl (by decide) (by decide),
    by decide!, by decide!, by decide!⟩

/-- C28. When the forward kinematics of the default group succeeds and at
least one sphere is requested, `getClearance` reads all `k` fine spheres of
the default group: `min_dist` is the minimum of 100 and the `k` values (cell
distance minus radius), and, for a group with at least one fine sphere,
`avg_dist` is the sum of all `k` values divided by `min(num_spheres, k)`. The
result does not depend on `padding_` or on `isInBounds`. -/
theorem getClearance_whole_group (cs : SBPLCollisionSpace) (angles : List ℚ)
    (num_spheres : Int) (avg_dist : ℚ)
    (hfk : (cs.model_.computeDefaultGroupFK angles).1 = true) (hn : 1 ≤ num_spheres) :
    (getClearance cs angles num_spheres avg_dist).read =
      List.range (cs.model_.default_group.getSpheres false).length ∧
    (getClearance cs angles num_spheres avg_dist).min_dist =
      minCapped ((cs.model_.default_group.getSpheres false).map
        (sphereClearance cs (cs.model_.computeDefaultGroupFK angles).2)) ∧
    (1 ≤ (cs.model_.default_group.getSpheres false).length →
      1 ≤ min num_spheres ((cs.model_.default_group.getSpheres false).length : Int) ∧
      (getClearance cs angles num_spheres avg_dist).avg_dist =
        ((cs.model_.default_group.getSpheres false).map
          (sphereClearance cs (cs.model_.computeDefaultGroupFK angles).2)).sum /
        ((min num_spheres ((cs.model_.default_group.getSpheres false).length : Int) : Int)
          : ℚ)) ∧
    (∀ p : ℚ, getClearance { cs with padding_ := p } angles num_spheres avg_dist =
      getClearance cs angles num_spheres avg_dist) ∧
    (∀ inb : Int → Int → Int → Bool,
      getClearance { cs with grid_ := { cs.grid_ with isInBounds := inb } } angles num_spheres
        avg_dist = getClearance cs angles num_spheres avg_dist) := by
  obtain ⟨-, -, h3, h4, h5⟩ := getClearance_eq cs angles num_spheres avg_dist hfk
  refine ⟨h5, h4, fun hk => ⟨?_, ?_⟩, ?_, ?_⟩
  · exact le_min hn (by exact_mod_cast hk)
  · rw [h3]
    congr 2
    by_cases h : num_spheres > ((cs.model_.default_group.getSpheres false).length : Int)
    · rw [if_pos h, min_eq_right (le_of_lt h)]
    · rw [if_neg h, min_eq_left (not_lt.mp h)]
  · intro p
    exact getClearance_congr _ _ _ _ _ rfl rfl rfl
  · intro inb
    exact getClearance_congr _ _ _ _ _ rfl rfl rfl

/-- C28 at the example engine with two fine spheres of clearance 2 and 4, and
one sphere requested: the minimum is 2 and the reported average is
`(2 + 4) / 1 = 6`, the mean of no single one of the two values. -/
theorem getClearance_whole_group_witness :
    ((getClearance exampleClearanceEngine [] 1 0).read =
        List.range (exampleClearanceEngine.model_.default_group.getSpheres false).length ∧
      (getClearance exampleClearanceEngine [] 1 0).min_dist =
        minCapped ((exampleClearanceEngine.model_.default_group.getSpheres false).map
          (sphereClearance exampleClearanceEngine
            (exampleClearanceEngine.model_.computeDefaultGroupFK []).2)) ∧
      (1 ≤ (exampleClearanceEngine.model_.default_group.getSpheres false).length →
        1 ≤ min 1 ((exampleClearanceEngine.model_.default_group.getSpheres false).length : Int) ∧
        (getClearance exampleClearanceEngine [] 1 0).avg_dist =
          ((exampleClearanceEngine.model_.default_group.getSpheres false).map
            (sphereClearance exampleClearanceEngine
              (exampleClearanceEngine.model_.computeDefaultGroupFK []).2)).sum /
          ((min 1 ((exampleClearanceEngine.model_.default_group.getSpheres false).length : Int)
            : Int) : ℚ)) ∧
      (∀ p : ℚ, getClearance { exampleClearanceEngine with padding_ := p } [] 1 0 =
        getClearance exampleClearanceEngine [] 1 0) ∧
      (∀ inb : Int → Int → Int → Bool,
        getClearance { exampleClearanceEngine with
          grid_ := { exampleClearanceEngine.grid_ with isInBounds := inb } } [] 1 0 =
        getClearance exampleClearanceEngine [] 1 0)) ∧
    (exampleClearanceEngine.model_.default_group.getSpheres false).length = 2 ∧
    (exampleClearanceEngine.model_.default_group.getSpheres false).map
      (sphereClearance exampleClearanceEngine
        (exampleClearanceEngine.model_.computeDefaultGroupFK []).2) = [2, 4] ∧
    (getClearance exampleClearanceEngine [] 1 0).min_dist = 2 ∧
    (getClearance exampleClearanceEngine [] 1 0).avg_dist = 6 ∧
    (getClearance exampleClearanceEngine [] 1 0).read = [0, 1] :=
  ⟨getClearance_whole_group exampleClearanceEngine [] 1 0 rfl (by decide),
    by decide, by decide!, by decide!, by decide!, by decide!⟩

/-! ## Scene and state updates -/

/-- C29. When the number of joint names differs from the number of joint
positions, `setRobotState` returns with the state it was called in, and
`setPlanningScene` returns `false` with the state it was called in: no joint
position is set, and the transform, the distance field, the registered and
the attached objects are as before. -/
theorem malformed_state_rejected {W : Type} (ops : SceneOps W) (st : SceneState W)
    (state : RobotState) (scene : PlanningScene)
    (h1 : state.joint_state.name.length ≠ state.joint_state.position.length)
    (h2 : scene.robot_state.joint_state.name.length ≠
      scene.robot_state.joint_state.position.length) :
    setRobotState ops st state = st ∧ setPlanningScene ops st scene = (false, st) := by
  unfold setRobotState setPlanningScene
  rw [if_pos h1, if_pos h2]
  exact ⟨rfl, rfl⟩

/-- C29 with the recording operations: no call is logged. -/
theorem malformed_state_rejected_witness :
    exampleMalformedState.joint_state.name.length ≠
      exampleMalformedState.joint_state.position.length ∧
    (setRobotState (recordingOps [exampleVoxelGroup] (fun _ => (true, []))) exampleSceneState
        exampleMalformedState = exampleSceneState ∧
      setPlanningScene (recordingOps [exampleVoxelGroup] (fun _ => (true, []))) exampleSceneState
        (exampleScene exampleMalformedState) = (false, exampleSceneState)) ∧
    (setRobotState (recordingOps [exampleVoxelGroup] (fun _ => (true, []))) exampleSceneState
      exampleMalformedState).world = [] :=
  ⟨by decide,
    malformed_state_rejected (recordingOps [exampleVoxelGroup] (fun _ => (true, [])))
      exampleSceneState exampleMalformedState (exampleScene exampleMalformedState)
      (by decide) (by decide),
    by decide⟩

/-- C22, the failing instance, with the recording operations. For the same
well-formed robot state, `setRobotState` makes the one call that sets the joint
position; `setPlanningScene` makes that call and then sets the transform,
resets the distance field, registers and inserts the collision object, sets
the attached objects, inserts the collision map and the voxel group. -/
theorem setRobotState_no_rebuild :
    exampleRobotState.joint_state.name.length = exampleRobotState.joint_state.position.length ∧
    (setRobotState (recordingOps [exampleVoxelGroup] (fun _ => (true, []))) exampleSceneState
      exampleRobotState).world = [SceneCall.setJointPosition "shoulder" 1] ∧
    SceneCall.reset ∉
      (setRobotState (recordingOps [exampleVoxelGroup] (fun _ => (true, []))) exampleSceneState
        exampleRobotState).world ∧
    (setPlanningScene (recordingOps [exampleVoxelGroup] (fun _ => (true, []))) exampleSceneState
      (exampleScene exampleRobotState)).1 = true ∧
    (setPlanningScene (recordingOps [exampleVoxelGroup] (fun _ => (true, []))) exampleSceneState
      (exampleScene exampleRobotState)).2.world =
      [SceneCall.setJointPosition "shoulder" 1, SceneCall.setModelToWorldTransform "map",
        SceneCall.reset, SceneCall.processCollisionObjectMsg "box",
        SceneCall.putCollisionObjectsInGrid, SceneCall.setAttachedObjects 0,
        SceneCall.addPointsToField [⟨1, 2, 3⟩], SceneCall.addPointsToField [⟨0, 0, 0⟩]] ∧
    (setRobotState (recordingOps [exampleVoxelGroup] (fun _ => (true, []))) exampleSceneState
      exampleRobotState).world ≠
    (setPlanningScene (recordingOps [exampleVoxelGroup] (fun _ => (true, []))) exampleSceneState
      (exampleScene exampleRobotState)).2.world := by
  refine ⟨by decide, by decide!, by decide!, by decide!, by decide!, by decide!⟩

/-- C22, amended. After `setRobotState` with a well-formed state the joint
positions have been set, name by name in the order of the message, as
`setPlanningScene` sets them, and nothing else has happened: no other
operation is called, and the members of the engine are as before. -/
theorem setRobotState_sets_joint_positions {W : Type} (ops : SceneOps W) (st : SceneState W)
    (state : RobotState)
    (h : state.joint_state.name.length = state.joint_state.position.length) :
    (setRobotState ops st state).world =
      (state.joint_state.name.zip state.joint_state.position).foldl
        (fun w np => ops.setJointPosition np.1 np.2 w) st.world ∧
    (setRobotState ops st state).group_name_ = st.group_name_ ∧
    (setRobotState ops st state).object_map_ = st.object_map_ ∧
    (setRobotState ops st state).reference_frame_ = st.reference_frame_ ∧
    ∀ scene : PlanningScene, scene.robot_state = state →
      (ops.setModelToWorldTransform state.multi_dof_joint_state scene.collision_map.frame_id
        (setRobotState ops st state).world).1 = false →
      setPlanningScene ops st scene =
        (false, { st with world :=
          (ops.setModelToWorldTransform state.multi_dof_joint_state scene.collision_map.frame_id
            (setRobotState ops st state).world).2 }) := by
  have hw : (setRobotState ops st state).world =
      (state.joint_state.name.zip state.joint_state.position).foldl
        (fun w np => ops.setJointPosition np.1 np.2 w) st.world := by
    unfold setRobotState
    rw [if_neg (not_not.mpr h)]
    rfl
  refine ⟨hw, ?_, ?_, ?_, ?_⟩
  · unfold setRobotState
    rw [if_neg (not_not.mpr h)]
  · unfold setRobotState
    rw [if_neg (not_not.mpr h)]
  · unfold setRobotState
    rw [if_neg (not_not.mpr h)]
  · rintro scene rfl ht
    rw [hw] at ht ⊢
    unfold setPlanningScene
    rw [if_neg (not_not.mpr h)]
    simp only [setJointPositions]
    rw [ht]
    rfl

/-- C22, amended, with the recording operations. -/
theorem setRobotState_sets_joint_positions_witness :
    exampleRobotState.joint_state.name.length = exampleRobotState.joint_state.position.length ∧
    (setRobotState (recordingOps [exampleVoxelGroup] (fun _ => (true, []))) exampleSceneState
      exampleRobotState).world =
      (exampleRobotState.joint_state.name.zip exampleRobotState.joint_state.position).foldl
        (fun w np =>
          (recordingOps [exampleVoxelGroup] (fun _ => (true, []))).setJointPosition np.1 np.2 w)
        exampleSceneState.world ∧
    (setRobotState (recordingOps [exampleVoxelGroup] (fun _ => (true, []))) exampleSceneState
      exampleRobotState).object_map_ = exampleSceneState.object_map_ :=
  ⟨by decide,
    (setRobotState_sets_joint_positions (recordingOps [exampleVoxelGroup] (fun _ => (true, [])))
      exampleSceneState exampleRobotState (by decide)).1,
    (setRobotState_sets_joint_positions (recordingOps [exampleVoxelGroup] (fun _ => (true, [])))
      exampleSceneState exampleRobotState (by decide)).2.2.1⟩

/-- C23, the failing instance, with the recording operations and a voxel group
whose forward kinematics fails: `updateVoxelGroups` returns `false`, `init`
returns `false`, and `setPlanningScene` returns `true`. -/
theorem setPlanningScene_ignores_voxel_group_failure :
    (updateVoxelGroup (recordingOps [exampleVoxelGroup] (fun _ => (false, []))) exampleVoxelGroup
      exampleSceneState).1 = false ∧
    (updateVoxelGroups (recordingOps [exampleVoxelGroup] (fun _ => (false, [])))
      exampleSceneState).1 = false ∧
    (init (recordingOps [exampleVoxelGroup] (fun _ => (false, []))) "arm" "ns"
      exampleSceneState).1 = false ∧
    (setPlanningScene (recordingOps [exampleVoxelGroup] (fun _ => (false, []))) exampleSceneState
      (exampleScene exampleRobotState)).1 = true := by
  refine ⟨by decide, by decide, by decide, by decide⟩

/-! ## Path check: the clearance -/

/-- Without multi-level checking the clearance of the point check does not
depend on the cache. -/
theorem isStateValid_frames_dist_single (ext : Externals) (cs : SBPLCollisionSpace)
    (angles : List ℚ) (frames : FrameCache) (verbose visualize : Bool)
    (hm : cs.use_multi_level_collision_check_ = false) :
    (isStateValid_frames ext cs angles frames verbose visualize).dist =
      (checkCollision_res ext cs angles false verbose visualize).dist := by
  have hmulti : (!cs.use_multi_level_collision_check_) = true := by simp [hm]
  unfold isStateValid_frames
  dsimp only
  rw [if_pos hmulti]

/-- Once a point check has returned valid, the cache it leaves is settled:
from it, and from every cache a later point check leaves, the verdict and the
clearance on a waypoint are the same. -/
theorem isStateValid_frames_settled_dist (ext : Externals) (cs : SBPLCollisionSpace)
    (angles0 : List ℚ) (frames : FrameCache) (verbose : Bool)
    (h : (isStateValid_frames ext cs angles0 frames verbose false).ret = true) :
    ∃ Inv : FrameCache → Prop,
      Inv (isStateValid_frames ext cs angles0 frames verbose false).frames ∧
      ∀ angles fr, Inv fr →
        (isStateValid_frames ext cs angles fr verbose false).ret =
          (isStateValid_frames ext cs angles
            (isStateValid_frames ext cs angles0 frames verbose false).frames verbose false).ret ∧
        (isStateValid_frames ext cs angles fr verbose false).dist =
          (isStateValid_frames ext cs angles
            (isStateValid_frames ext cs angles0 frames verbose false).frames verbose false).dist ∧
        Inv (isStateValid_frames ext cs angles fr verbose false).frames := by
  cases hm : cs.use_multi_level_collision_check_
  · refine ⟨fun _ => True, trivial, fun angles fr _ => ⟨?_, ?_, trivial⟩⟩
    · rw [isStateValid_frames_ret_single ext cs angles fr verbose false hm,
        isStateValid_frames_ret_single ext cs angles _ verbose false hm]
    · rw [isStateValid_frames_dist_single ext cs angles fr verbose false hm,
        isStateValid_frames_dist_single ext cs angles _ verbose false hm]
  · obtain ⟨sg0, sg, a, T, hsg, hfr, hst⟩ :=
      isStateValid_frames_stable_of_valid ext cs angles0 frames verbose false hm h
    refine ⟨fun fr => ∃ b, fr = b :: T, ⟨a, hfr⟩, ?_⟩
    rintro angles fr ⟨b, rfl⟩
    have hstb : CacheStable sg 1 (b :: T) := by
      refine cacheStable_congr sg 1 (a :: T) _ (by simp) (fun j hj => ?_) hst
      cases j with
      | zero => omega
      | succ j => simp
    refine ⟨?_, ?_, _, isStateValid_frames_of_stable ext cs angles b T verbose false sg0 sg hsg
      hm hstb⟩
    · rw [hfr, isStateValid_frames_cons ext cs angles b T,
        isStateValid_frames_cons ext cs angles a T]
    · rw [hfr, isStateValid_frames_cons ext cs angles b T,
        isStateValid_frames_cons ext cs angles a T]

/-- The state after one point check of the path loops. -/
theorem checkPathForCollision_body_eq (ext : Externals) (cs : SBPLCollisionSpace)
    (path : List (List ℚ)) (verbose : Bool) (j : Nat) (st : PathLoop)
    (hcs : st.collision_spheres_ = cs.collision_spheres_) :
    (checkPathForCollision_body ext cs path verbose j st).1 =
      (isStateValid_frames ext cs (path.getD j []) st.frames verbose false).ret ∧
    (checkPathForCollision_body ext cs path verbose j st).2.dist =
      (if (isStateValid_frames ext cs (path.getD j []) st.frames verbose false).ret = true then
        (if (isStateValid_frames ext cs (path.getD j []) st.frames verbose false).dist < st.dist
          then (isStateValid_frames ext cs (path.getD j []) st.frames verbose false).dist
          else st.dist)
       else (isStateValid_frames ext cs (path.getD j []) st.frames verbose false).dist) ∧
    (checkPathForCollision_body ext cs path verbose j st).2.frames =
      (isStateValid_frames ext cs (path.getD j []) st.frames verbose false).frames ∧
    (checkPathForCollision_body ext cs path verbose j st).2.collision_spheres_ =
      cs.collision_spheres_ := by
  have hcol := isStateValid_frames_collision_spheres ext cs (path.getD j []) st.frames verbose
  unfold checkPathForCollision_body
  dsimp only
  rw [hcs, with_collision_spheres_self]
  cases hr : (isStateValid_frames ext cs (path.getD j []) st.frames verbose false).ret
  · simp only [Bool.not_false, if_true, Bool.false_eq_true, if_false, hcol, and_self]
  · simp only [Bool.not_true, Bool.false_eq_true, if_false, if_true, hcol, and_self]

/-- The clearance after a scan, when the verdict and the clearance of every
point check are given by `valid` and `clr` on the caches that satisfy an
invariant `Inv` of the point check: the clearance of the first invalid
waypoint, or else the tracked minimum. -/
theorem scanWaypoints_dist_of_valid (ext : Externals) (cs : SBPLCollisionSpace)
    (path : List (List ℚ)) (verbose : Bool) (Inv : FrameCache → Prop) (valid : Nat → Bool)
    (clr : Nat → ℚ) (l : List Nat)
    (hpure : ∀ j ∈ l, ∀ fr, Inv fr →
      (isStateValid_frames ext cs (path.getD j []) fr verbose false).ret = valid j ∧
      (isStateValid_frames ext cs (path.getD j []) fr verbose false).dist = clr j ∧
      Inv (isStateValid_frames ext cs (path.getD j []) fr verbose false).frames) :
    ∀ st : PathLoop, st.collision_spheres_ = cs.collision_spheres_ → Inv st.frames →
      (scanWaypoints ext cs path verbose l st).2.dist =
        match l.find? (fun j => !valid j) with
        | some j => clr j
        | none => (l.map clr).foldl (fun m d => if d < m then d else m) st.dist := by
  induction l with
  | nil => intro st _ _; rfl
  | cons j js ih =>
    intro st hcs hinv
    obtain ⟨h1, h2, h3⟩ := hpure j (List.mem_cons_self _ _) st.frames hinv
    obtain ⟨b1, b2, b3, b4⟩ := checkPathForCollision_body_eq ext cs path verbose j st hcs
    rw [h1] at b1 b2
    rw [h2] at b2
    simp only [scanWaypoints, List.find?_cons, List.map_cons, List.foldl_cons]
    generalize checkPathForCollision_body ext cs path verbose j st = r at b1 b2 b3 b4
    obtain ⟨b, st1⟩ := r
    simp only at b1 b2 b3 b4
    subst b1
    cases hv : valid j
    · simp only [Bool.not_false]
      rw [b2, hv]
      simp
    · simp only [Bool.not_true]
      rw [ih (fun x hx => hpure x (List.mem_cons_of_mem _ hx)) st1 b4 (by rw [b3]; exact h3), b2,
        hv]
      simp

/-- The clearance after the scan of a duplicate-free list of indices that
starts with waypoint 0, from the state in which the path check enters its
loops. -/
theorem scanWaypoints_pathStart_dist (ext : Externals) (cs : SBPLCollisionSpace)
    (path : List (List ℚ)) (frames : FrameCache) (verbose : Bool) (l : List Nat)
    (hnd : l.Nodup) (hhead : ∀ j rest, l = j :: rest → j = 0) :
    (scanWaypoints ext cs path verbose l (pathStart cs frames)).2.dist =
      match l.find? (fun j => !waypointValid ext cs path frames verbose j) with
      | some j => waypointClearance ext cs path frames verbose j
      | none => minCapped (l.map (waypointClearance ext cs path frames verbose)) := by
  cases l with
  | nil => rfl
  | cons j rest =>
    obtain rfl := hhead j rest rfl
    have hnot : (0 : Nat) ∉ rest := (List.nodup_cons.mp hnd).1
    have hV0 : waypointValid ext cs path frames verbose 0 =
        (isStateValid_frames ext cs (path.getD 0 []) frames verbose false).ret := by
      simp [waypointValid]
    have hC0 : waypointClearance ext cs path frames verbose 0 =
        (isStateValid_frames ext cs (path.getD 0 []) frames verbose false).dist := by
      simp [waypointClearance]
    obtain ⟨b1, b2, b3, b4⟩ := checkPathForCollision_body_eq ext cs path verbose 0
      (pathStart cs frames) rfl
    have hfr : (pathStart cs frames).frames = frames := rfl
    have hd : (pathStart cs frames).dist = 100 := rfl
    rw [hfr] at b1 b2 b3
    rw [hd, ← hC0, ← hV0] at b2
    rw [← hV0] at b1
    simp only [scanWaypoints, List.find?_cons, List.map_cons]
    generalize checkPathForCollision_body ext cs path verbose 0 (pathStart cs frames) = r
      at b1 b2 b3 b4
    obtain ⟨b, st1⟩ := r
    simp only at b1 b2 b3 b4
    subst b1
    cases hv : waypointValid ext cs path frames verbose 0
    · simp only [Bool.not_false]
      rw [b2, hv]
      simp
    · simp only [Bool.not_true]
      have hr : (isStateValid_frames ext cs (path.getD 0 []) frames verbose false).ret = true := by
        rw [← hV0]
        exact hv
      obtain ⟨Inv, hI0, hI⟩ := isStateValid_frames_settled_dist ext cs (path.getD 0 []) frames
        verbose hr
      have hpure : ∀ j ∈ rest, ∀ fr, Inv fr →
          (isStateValid_frames ext cs (path.getD j []) fr verbose false).ret =
            waypointValid ext cs path frames verbose j ∧
          (isStateValid_frames ext cs (path.getD j []) fr verbose false).dist =
            waypointClearance ext cs path frames verbose j ∧
          Inv (isStateValid_frames ext cs (path.getD j []) fr verbose false).frames := by
        intro j hj fr hfr'
        have hj0 : j ≠ 0 := fun h0 => hnot (h0 ▸ hj)
        obtain ⟨h1, h2, h3⟩ := hI (path.getD j []) fr hfr'
        refine ⟨?_, ?_, h3⟩
        · rw [h1]
          simp [waypointValid, hj0]
        · rw [h2]
          simp [waypointClearance, hj0]
      rw [scanWaypoints_dist_of_valid ext cs path verbose Inv
        (waypointValid ext cs path frames verbose) (waypointClearance ext cs path frames verbose)
        rest hpure st1 b4 (by rw [b3]; exact hI0), b2, hv]
      simp only [if_true, minCapped, List.foldl_cons]

/-- C25. After a successful interpolation, with `waypointValid j` and
`waypointClearance j` the verdict and the clearance of the point check on
waypoint `j`: when `checkPathForCollision` returns valid, `dist` is the
minimum of 100 and the clearances of all waypoints; when a waypoint is
invalid, the call returns not valid and `dist` is the clearance of the first
invalid waypoint in the visitation order, whatever the clearances of the
waypoints checked before it. -/
theorem checkPathForCollision_dist (ext : Externals) (cs : SBPLCollisionSpace)
    (start end_ : List ℚ) (frames : FrameCache) (verbose : Bool) (path : List (List ℚ))
    (hip : interpolatePath ext cs (normalizeEndpoints ext start end_).1
      (normalizeEndpoints ext start end_).2 cs.inc_ = (true, path)) :
    ∃ r, checkPathForCollision_frames ext cs start end_ frames verbose = some r ∧
      (r.ret = true →
        r.dist = minCapped ((List.range path.length).map
          (waypointClearance ext cs path frames verbose))) ∧
      (∀ j, (visitOrder path.length).find?
          (fun j => !waypointValid ext cs path frames verbose j) = some j →
        r.ret = false ∧ r.dist = waypointClearance ext cs path frames verbose j) ∧
      (r.ret = false →
        ∃ j, (visitOrder path.length).find?
          (fun j => !waypointValid ext cs path frames verbose j) = some j) := by
  rw [checkPathForCollision_frames_eq_scan ext cs start end_ frames verbose path hip]
  obtain ⟨h1, -, -⟩ := scanWaypoints_pathStart ext cs path frames verbose
    (visitOrder path.length) (nodup_visitOrder _) (visitOrder_head _)
  have hd := scanWaypoints_pathStart_dist ext cs path frames verbose
    (visitOrder path.length) (nodup_visitOrder _) (visitOrder_head _)
  refine ⟨_, rfl, ?_, ?_, ?_⟩
  · intro hret
    dsimp only [PathResult.ofLoop] at hret ⊢
    rw [h1, List.all_eq_true] at hret
    have hnone : (visitOrder path.length).find?
        (fun j => !waypointValid ext cs path frames verbose j) = none := by
      rw [List.find?_eq_none]
      intro x hx
      simp [hret x hx]
    rw [hd, hnone]
    apply minCapped_congr
    intro x
    simp only [List.mem_map, mem_visitOrder, List.mem_range]
  · intro j hj
    dsimp only [PathResult.ofLoop]
    refine ⟨?_, by rw [hd, hj]⟩
    rw [h1, List.all_eq_false]
    refine ⟨j, List.mem_of_find?_eq_some hj, ?_⟩
    have := List.find?_some hj
    simpa using this
  · intro hret
    dsimp only [PathResult.ofLoop] at hret
    rw [h1, List.all_eq_false] at hret
    obtain ⟨x, hx, hxv⟩ := hret
    cases hf : (visitOrder path.length).find?
        (fun j => !waypointValid ext cs path frames verbose j) with
    | some j => exact ⟨j, rfl⟩
    | none =>
      rw [List.find?_eq_none] at hf
      exact absurd (by simpa using hxv) (hf x hx)

/-- C25 at the example engine. On the path from 2 to 9 all waypoints are valid
and `dist` is the minimum of their clearances. On the path from 9 to 0 the
waypoints 0 and 5 are valid with the clearances 9 and 4, waypoint 10 is
invalid and its check returns the clearance 100, and `dist` is 100. -/
theorem checkPathForCollision_dist_witness :
    (∃ r, checkPathForCollision_frames examplePathExt exampleArm [9] [0] [] false = some r ∧
      (r.ret = true →
        r.dist = minCapped ((List.range (examplePath 9 0).length).map
          (waypointClearance examplePathExt exampleArm (examplePath 9 0) [] false))) ∧
      (∀ j, (visitOrder (examplePath 9 0).length).find?
          (fun j => !waypointValid examplePathExt exampleArm (examplePath 9 0) [] false j)
            = some j →
        r.ret = false ∧
        r.dist = waypointClearance examplePathExt exampleArm (examplePath 9 0) [] false j) ∧
      (r.ret = false →
        ∃ j, (visitOrder (examplePath 9 0).length).find?
          (fun j => !waypointValid examplePathExt exampleArm (examplePath 9 0) [] false j)
            = some j)) ∧
    ([0, 5, 10].map (waypointClearance examplePathExt exampleArm (examplePath 9 0) [] false) =
      [9, 4, 100]) ∧
    (checkPathForCollision_frames examplePathExt exampleArm [9] [0] [] false).map
      (fun r => (r.ret, r.dist, r.visited)) = some (false, 100, [0, 5, 10]) ∧
    (checkPathForCollision_frames examplePathExt exampleArm [2] [9] [] false).map
      (fun r => (r.ret, r.dist)) = some (true, 2) :=
  ⟨checkPathForCollision_dist examplePathExt exampleArm [9] [0] [] false (examplePath 9 0)
    (by decide!), by decide!, by decide!, by decide!⟩

/-! ## Path check: element accesses -/

/-- After a successful interpolation every element access of the path check on
`start`, `end`, the normalized endpoints and the limit tables has an index
below `start.size()`. -/
theorem checkPathForCollision_accesses_success (ext : Externals) (cs : SBPLCollisionSpace)
    (start end_ : List ℚ)
    (hip : (interpolatePath ext cs (normalizeEndpoints ext start end_).1
      (normalizeEndpoints ext start end_).2 cs.inc_).1 = true) :
    ∀ a ∈ checkPathForCollision_accesses ext cs start end_, a.2 < start.length := by
  intro a ha
  unfold checkPathForCollision_accesses at ha
  simp only [hip, Bool.not_true, Bool.false_eq_true, if_false, List.mem_flatMap, List.mem_range,
    List.mem_cons, List.mem_singleton, List.not_mem_nil, or_false] at ha
  obtain ⟨i, hi, h⟩ := ha
  rcases h with rfl | rfl | rfl | rfl <;> exact hi

/-- When the interpolation fails, every element access of the path check has
an index below `start.size()` exactly when `start` has seven elements or
more: the report reads the elements 0 to 6. -/
theorem checkPathForCollision_accesses_failure (ext : Externals) (cs : SBPLCollisionSpace)
    (start end_ : List ℚ)
    (hip : (interpolatePath ext cs (normalizeEndpoints ext start end_).1
      (normalizeEndpoints ext start end_).2 cs.inc_).1 = false) :
    (∀ a ∈ checkPathForCollision_accesses ext cs start end_, a.2 < start.length) ↔
      7 ≤ start.length := by
  unfold checkPathForCollision_accesses
  simp only [hip, Bool.not_false, if_true]
  constructor
  · intro h
    have := h (PathVector.start_norm, 6) (by simp)
    exact this
  · intro h a ha
    simp only [List.mem_append, List.mem_flatMap, List.mem_range, List.mem_map, List.mem_cons,
      List.mem_singleton, List.not_mem_nil, or_false] at ha
    rcases ha with (((⟨i, hi, h1⟩ | ⟨i, hi, rfl⟩) | ⟨i, hi, rfl⟩) | ⟨i, hi, rfl⟩) | ⟨i, hi, rfl⟩
    · rcases h1 with rfl | rfl | rfl | rfl <;> exact hi
    all_goals (dsimp only; omega)

/-- C26, the failing instance: the example engine has one joint and limit
tables of length 1, `start` and `end` have length 1, and the interpolator
fails. The call returns not valid with `path_length = 0`, and on the way it
accesses the elements 0 to 6 of `start_norm`, `end_norm`, `min_limits_` and
`max_limits_`, all of size 1. -/
theorem checkPathForCollision_failure_report_reads_past_end :
    (checkPathForCollision_frames exampleExt exampleArm [0] [0] [] false).map
      (fun r => (r.ret, r.path_length)) = some (false, 0) ∧
    [PathVector.start, PathVector.end_, PathVector.start_norm, PathVector.end_norm,
      PathVector.min_limits_, PathVector.max_limits_].map
        (PathVector.size exampleArm [0] [0]) = [1, 1, 1, 1, 1, 1] ∧
    checkPathForCollision_accesses exampleExt exampleArm [0] [0] =
      [(PathVector.start_norm, 0), (PathVector.start, 0),
       (PathVector.end_norm, 0), (PathVector.end_, 0),
       (PathVector.start_norm, 0), (PathVector.start_norm, 1), (PathVector.start_norm, 2),
       (PathVector.start_norm, 3), (PathVector.start_norm, 4), (PathVector.start_norm, 5),
       (PathVector.start_norm, 6),
       (PathVector.end_norm, 0), (PathVector.end_norm, 1), (PathVector.end_norm, 2),
       (PathVector.end_norm, 3), (PathVector.end_norm, 4), (PathVector.end_norm, 5),
       (PathVector.end_norm, 6),
       (PathVector.min_limits_, 0), (PathVector.min_limits_, 1), (PathVector.min_limits_, 2),
       (PathVector.min_limits_, 3), (PathVector.min_limits_, 4), (PathVector.min_limits_, 5),
       (PathVector.min_limits_, 6),
       (PathVector.max_limits_, 0), (PathVector.max_limits_, 1), (PathVector.max_limits_, 2),
       (PathVector.max_limits_, 3), (PathVector.max_limits_, 4), (PathVector.max_limits_, 5),
       (PathVector.max_limits_, 6)] ∧
    (checkPathForCollision_accesses exampleExt exampleArm [0] [0]).any
      (fun a => decide (PathVector.size exampleArm [0] [0] a.1 ≤ a.2)) = true := by
  refine ⟨by decide!, by decide, by decide!, by decide!⟩

/-! ## Path checks and the continuity flags -/

/-- The loop of `checkSpheresAgainstWorld` does not read `continuous_`. -/
theorem checkSpheresAgainstWorld_loop_continuous
    (g : OccupancyGrid) (m : RobotModel) (p : ℚ) (oa : Bool) (os : List Sphere) (um : Bool)
    (x : List Sphere) (inc mn mx : List ℚ) (c c' : List Bool)
    (frames : GroupFrames) (visualize : Bool) (l : List Sphere) :
    ∀ (i : Nat) (st : SpheresLoop),
    checkSpheresAgainstWorld_loop (SBPLCollisionSpace.mk g m p oa os um x inc mn mx c) frames visualize l i st =
      checkSpheresAgainstWorld_loop (SBPLCollisionSpace.mk g m p oa os um x inc mn mx c') frames visualize l i st := by
  induction l with
  | nil => intro i st; rfl
  | cons s rest ih =>
    intro i st
    simp only [checkSpheresAgainstWorld_loop, ih]

/-- The method `checkSpheresAgainstWorld` does not read `continuous_`. -/
theorem checkSpheresAgainstWorld_continuous
    (g : OccupancyGrid) (m : RobotModel) (p : ℚ) (oa : Bool) (os : List Sphere) (um : Bool)
    (x : List Sphere) (inc mn mx : List ℚ) (c c' : List Bool)
    (frames : GroupFrames) (spheres : List Sphere) (verbose visualize : Bool)
    (sph_poses : List KDL.Vector) :
    checkSpheresAgainstWorld (SBPLCollisionSpace.mk g m p oa os um x inc mn mx c) frames spheres verbose visualize sph_poses =
      checkSpheresAgainstWorld (SBPLCollisionSpace.mk g m p oa os um x inc mn mx c') frames spheres verbose visualize sph_poses := by
  unfold checkSpheresAgainstWorld
  simp only [checkSpheresAgainstWorld_loop_continuous _ _ _ _ _ _ _ _ _ _ c c']

/-- The inner loop of the pairwise test does not read `continuous_`. -/
theorem checkSphereGroupAgainstSphereGroup_inner_continuous
    (g : OccupancyGrid) (m : RobotModel) (p : ℚ) (oa : Bool) (os : List Sphere) (um : Bool)
    (x : List Sphere) (inc mn mx : List ℚ) (c c' : List Bool)
    (ext : Externals) (visualize : Bool) (g1 : Sphere) (s1 : KDL.Vector)
    (l : List (Sphere × KDL.Vector)) :
    ∀ (st : GroupPairLoop),
    checkSphereGroupAgainstSphereGroup_inner ext (SBPLCollisionSpace.mk g m p oa os um x inc mn mx c) visualize g1 s1 l st =
      checkSphereGroupAgainstSphereGroup_inner ext (SBPLCollisionSpace.mk g m p oa os um x inc mn mx c') visualize g1 s1 l st := by
  induction l with
  | nil => intro st; rfl
  | cons q rest ih =>
    intro st
    obtain ⟨g2, s2⟩ := q
    simp only [checkSphereGroupAgainstSphereGroup_inner, ih]

/-- The outer loop of the pairwise test does not read `continuous_`. -/
theorem checkSphereGroupAgainstSphereGroup_outer_continuous
    (g : OccupancyGrid) (m : RobotModel) (p : ℚ) (oa : Bool) (os : List Sphere) (um : Bool)
    (x : List Sphere) (inc mn mx : List ℚ) (c c' : List Bool)
    (ext : Externals) (visualize : Bool) (l2 l : List (Sphere × KDL.Vector)) :
    ∀ (st : GroupPairLoop),
    checkSphereGroupAgainstSphereGroup_outer ext (SBPLCollisionSpace.mk g m p oa os um x inc mn mx c) visualize l2 l st =
      checkSphereGroupAgainstSphereGroup_outer ext (SBPLCollisionSpace.mk g m p oa os um x inc mn mx c') visualize l2 l st := by
  induction l with
  | nil => intro st; rfl
  | cons q rest ih =>
    intro st
    obtain ⟨g1, s1⟩ := q
    simp only [checkSphereGroupAgainstSphereGroup_outer, ih,
      checkSphereGroupAgainstSphereGroup_inner_continuous _ _ _ _ _ _ _ _ _ _ c c']

/-- The method `checkSphereGroupAgainstSphereGroup` does not read `continuous_`. -/
theorem checkSphereGroupAgainstSphereGroup_continuous
    (g : OccupancyGrid) (m : RobotModel) (p : ℚ) (oa : Bool) (os : List Sphere) (um : Bool)
    (x : List Sphere) (inc mn mx : List ℚ) (c c' : List Bool)
    (ext : Externals) (group1 group2 : Group) (spheres1 spheres2 : List KDL.Vector)
    (low_res1 low_res2 verbose visualize : Bool) :
    checkSphereGroupAgainstSphereGroup ext (SBPLCollisionSpace.mk g m p oa os um x inc mn mx c) group1 group2 spheres1 spheres2 low_res1 low_res2 verbose visualize =
      checkSphereGroupAgainstSphereGroup ext (SBPLCollisionSpace.mk g m p oa os um x inc mn mx c') group1 group2 spheres1 spheres2 low_res1 low_res2 verbose visualize := by
  unfold checkSphereGroupAgainstSphereGroup
  simp only [checkSphereGroupAgainstSphereGroup_outer_continuous _ _ _ _ _ _ _ _ _ _ c c']

/-- The attached-object block does not read `continuous_`. -/
theorem checkCollision_attached_continuous
    (g : OccupancyGrid) (m : RobotModel) (p : ℚ) (oa : Bool) (os : List Sphere) (um : Bool)
    (x : List Sphere) (inc mn mx : List ℚ) (c c' : List Bool)
    (frames : GroupFrames) (verbose visualize : Bool) (st : CollisionLoop) :
    checkCollision_attached (SBPLCollisionSpace.mk g m p oa os um x inc mn mx c) frames verbose visualize st =
      checkCollision_attached (SBPLCollisionSpace.mk g m p oa os um x inc mn mx c') frames verbose visualize st := by
  unfold checkCollision_attached
  simp only [checkSpheresAgainstWorld_continuous _ _ _ _ _ _ _ _ _ _ c c']

/-- The default-group block does not read `continuous_`. -/
theorem checkCollision_default_continuous
    (g : OccupancyGrid) (m : RobotModel) (p : ℚ) (oa : Bool) (os : List Sphere) (um : Bool)
    (x : List Sphere) (inc mn mx : List ℚ) (c c' : List Bool)
    (dgroup : Group) (frames : GroupFrames) (low_res verbose visualize : Bool)
    (st : CollisionLoop) :
    checkCollision_default (SBPLCollisionSpace.mk g m p oa os um x inc mn mx c) dgroup frames low_res verbose visualize st =
      checkCollision_default (SBPLCollisionSpace.mk g m p oa os um x inc mn mx c') dgroup frames low_res verbose visualize st := by
  unfold checkCollision_default
  simp only [checkSpheresAgainstWorld_continuous _ _ _ _ _ _ _ _ _ _ c c']

/-- The blocks for one of the other sphere groups do not read `continuous_`. -/
theorem checkCollision_group_continuous
    (g : OccupancyGrid) (m : RobotModel) (p : ℚ) (oa : Bool) (os : List Sphere) (um : Bool)
    (x : List Sphere) (inc mn mx : List ℚ) (c c' : List Bool)
    (ext : Externals) (dgroup : Group) (low_res verbose visualize : Bool) (gr : Group)
    (frames : GroupFrames) (st : CollisionLoop) :
    checkCollision_group ext (SBPLCollisionSpace.mk g m p oa os um x inc mn mx c) dgroup low_res verbose visualize gr frames st =
      checkCollision_group ext (SBPLCollisionSpace.mk g m p oa os um x inc mn mx c') dgroup low_res verbose visualize gr frames st := by
  unfold checkCollision_group
  simp only [checkSpheresAgainstWorld_continuous _ _ _ _ _ _ _ _ _ _ c c',
    checkSphereGroupAgainstSphereGroup_continuous _ _ _ _ _ _ _ _ _ _ c c']

/-- The group loop of the non-caching check does not read `continuous_`. -/
theorem checkCollision_res_loop_continuous
    (g : OccupancyGrid) (m : RobotModel) (p : ℚ) (oa : Bool) (os : List Sphere) (um : Bool)
    (x : List Sphere) (inc mn mx : List ℚ) (c c' : List Bool)
    (ext : Externals) (low_res verbose visualize : Bool) (l : List Group) :
    ∀ (st : CollisionLoop),
    checkCollision_res_loop ext (SBPLCollisionSpace.mk g m p oa os um x inc mn mx c) low_res verbose visualize l st =
      checkCollision_res_loop ext (SBPLCollisionSpace.mk g m p oa os um x inc mn mx c') low_res verbose visualize l st := by
  induction l with
  | nil => intro st; rfl
  | cons gr rest ih =>
    intro st
    simp only [checkCollision_res_loop, ih, checkCollision_group_continuous _ _ _ _ _ _ _ _ _ _ c c']

/-- The non-caching per-resolution check does not read `continuous_`. -/
theorem checkCollision_res_continuous
    (g : OccupancyGrid) (m : RobotModel) (p : ℚ) (oa : Bool) (os : List Sphere) (um : Bool)
    (x : List Sphere) (inc mn mx : List ℚ) (c c' : List Bool)
    (ext : Externals) (angles : List ℚ) (low_res verbose visualize : Bool) :
    checkCollision_res ext (SBPLCollisionSpace.mk g m p oa os um x inc mn mx c) angles low_res verbose visualize =
      checkCollision_res ext (SBPLCollisionSpace.mk g m p oa os um x inc mn mx c') angles low_res verbose visualize := by
  unfold checkCollision_res
  simp only [checkCollision_attached_continuous _ _ _ _ _ _ _ _ _ _ c c',
    checkCollision_default_continuous _ _ _ _ _ _ _ _ _ _ c c', checkCollision_res_loop_continuous _ _ _ _ _ _ _ _ _ _ c c']

/-- The group loop of the caching check does not read `continuous_`. -/
theorem checkCollision_frames_loop_continuous
    (g : OccupancyGrid) (m : RobotModel) (p : ℚ) (oa : Bool) (os : List Sphere) (um : Bool)
    (x : List Sphere) (inc mn mx : List ℚ) (c c' : List Bool)
    (ext : Externals) (sg0 : Group) (low_res verbose visualize : Bool) (l : List Group) :
    ∀ (i : Nat) (frames : FrameCache) (st : CollisionLoop),
    checkCollision_frames_loop ext (SBPLCollisionSpace.mk g m p oa os um x inc mn mx c) sg0 low_res verbose visualize l i frames st =
      checkCollision_frames_loop ext (SBPLCollisionSpace.mk g m p oa os um x inc mn mx c') sg0 low_res verbose visualize l i frames st := by
  induction l with
  | nil => intro i frames st; rfl
  | cons gr rest ih =>
    intro i frames st
    simp only [checkCollision_frames_loop, ih, checkCollision_group_continuous _ _ _ _ _ _ _ _ _ _ c c']

/-- The caching per-resolution check does not read `continuous_`. -/
theorem checkCollision_frames_continuous
    (g : OccupancyGrid) (m : RobotModel) (p : ℚ) (oa : Bool) (os : List Sphere) (um : Bool)
    (x : List Sphere) (inc mn mx : List ℚ) (c c' : List Bool)
    (ext : Externals) (angles : List ℚ) (frames : FrameCache) (low_res verbose visualize : Bool) :
    checkCollision_frames ext (SBPLCollisionSpace.mk g m p oa os um x inc mn mx c) angles frames low_res verbose visualize =
      checkCollision_frames ext (SBPLCollisionSpace.mk g m p oa os um x inc mn mx c') angles frames low_res verbose visualize := by
  unfold checkCollision_frames
  simp only [checkCollision_attached_continuous _ _ _ _ _ _ _ _ _ _ c c',
    checkCollision_default_continuous _ _ _ _ _ _ _ _ _ _ c c', checkCollision_frames_loop_continuous _ _ _ _ _ _ _ _ _ _ c c']

/-- The point check does not read `continuous_`. -/
theorem isStateValid_frames_continuous
    (g : OccupancyGrid) (m : RobotModel) (p : ℚ) (oa : Bool) (os : List Sphere) (um : Bool)
    (x : List Sphere) (inc mn mx : List ℚ) (c c' : List Bool)
    (ext : Externals) (angles : List ℚ) (frames : FrameCache) (verbose visualize : Bool) :
    isStateValid_frames ext (SBPLCollisionSpace.mk g m p oa os um x inc mn mx c) angles frames verbose visualize =
      isStateValid_frames ext (SBPLCollisionSpace.mk g m p oa os um x inc mn mx c') angles frames verbose visualize := by
  unfold isStateValid_frames
  simp only [checkCollision_res_continuous _ _ _ _ _ _ _ _ _ _ c c', checkCollision_frames_continuous _ _ _ _ _ _ _ _ _ _ c c']

/-- The body of the waypoint loops does not read `continuous_`. -/
theorem checkPathForCollision_body_continuous
    (g : OccupancyGrid) (m : RobotModel) (p : ℚ) (oa : Bool) (os : List Sphere) (um : Bool)
    (x : List Sphere) (inc mn mx : List ℚ) (c c' : List Bool)
    (ext : Externals) (path : List (List ℚ)) (verbose : Bool) (j : Nat) (st : PathLoop) :
    checkPathForCollision_body ext (SBPLCollisionSpace.mk g m p oa os um x inc mn mx c) path verbose j st =
      checkPathForCollision_body ext (SBPLCollisionSpace.mk g m p oa os um x inc mn mx c') path verbose j st := by
  unfold checkPathForCollision_body
  simp only [isStateValid_frames_continuous _ _ _ _ _ _ _ _ _ _ c c']

/-- The strided waypoint loop does not read `continuous_`. -/
theorem checkPathForCollision_inner_continuous
    (g : OccupancyGrid) (m : RobotModel) (p : ℚ) (oa : Bool) (os : List Sphere) (um : Bool)
    (x : List Sphere) (inc mn mx : List ℚ) (c c' : List Bool)
    (ext : Externals) (path : List (List ℚ)) (verbose : Bool) (inc_cc fuel : Nat) :
    ∀ (j : Nat) (st : PathLoop),
    checkPathForCollision_inner ext (SBPLCollisionSpace.mk g m p oa os um x inc mn mx c) path verbose inc_cc fuel j st =
      checkPathForCollision_inner ext (SBPLCollisionSpace.mk g m p oa os um x inc mn mx c') path verbose inc_cc fuel j st := by
  induction fuel with
  | zero => intro j st; rfl
  | succ k ih =>
    intro j st
    simp only [checkPathForCollision_inner, ih, checkPathForCollision_body_continuous _ _ _ _ _ _ _ _ _ _ c c']

/-- The loop over the phases does not read `continuous_`. -/
theorem checkPathForCollision_outer_continuous
    (g : OccupancyGrid) (m : RobotModel) (p : ℚ) (oa : Bool) (os : List Sphere) (um : Bool)
    (x : List Sphere) (inc mn mx : List ℚ) (c c' : List Bool)
    (ext : Externals) (path : List (List ℚ)) (verbose : Bool) (inc_cc k : Nat) :
    ∀ (i : Nat) (st : PathLoop),
    checkPathForCollision_outer ext (SBPLCollisionSpace.mk g m p oa os um x inc mn mx c) path verbose inc_cc k i st =
      checkPathForCollision_outer ext (SBPLCollisionSpace.mk g m p oa os um x inc mn mx c') path verbose inc_cc k i st := by
  induction k with
  | zero => intro i st; rfl
  | succ k ih =>
    intro i st
    simp only [checkPathForCollision_outer, ih, checkPathForCollision_inner_continuous _ _ _ _ _ _ _ _ _ _ c c']

/-- The plain waypoint loop does not read `continuous_`. -/
theorem checkPathForCollision_linear_continuous
    (g : OccupancyGrid) (m : RobotModel) (p : ℚ) (oa : Bool) (os : List Sphere) (um : Bool)
    (x : List Sphere) (inc mn mx : List ℚ) (c c' : List Bool)
    (ext : Externals) (path : List (List ℚ)) (verbose : Bool) (k : Nat) :
    ∀ (i : Nat) (st : PathLoop),
    checkPathForCollision_linear ext (SBPLCollisionSpace.mk g m p oa os um x inc mn mx c) path verbose k i st =
      checkPathForCollision_linear ext (SBPLCollisionSpace.mk g m p oa os um x inc mn mx c') path verbose k i st := by
  induction k with
  | zero => intro i st; rfl
  | succ k ih =>
    intro i st
    simp only [checkPathForCollision_linear, ih, checkPathForCollision_body_continuous _ _ _ _ _ _ _ _ _ _ c c']

/-- The path check does not read `continuous_`. -/
theorem checkPathForCollision_frames_continuous
    (g : OccupancyGrid) (m : RobotModel) (p : ℚ) (oa : Bool) (os : List Sphere) (um : Bool)
    (x : List Sphere) (inc mn mx : List ℚ) (c c' : List Bool)
    (ext : Externals) (start end_ : List ℚ) (frames : FrameCache) (verbose : Bool) :
    checkPathForCollision_frames ext (SBPLCollisionSpace.mk g m p oa os um x inc mn mx c) start end_ frames verbose =
      checkPathForCollision_frames ext (SBPLCollisionSpace.mk g m p oa os um x inc mn mx c') start end_ frames verbose := by
  unfold checkPathForCollision_frames interpolatePath
  simp only [checkPathForCollision_outer_continuous _ _ _ _ _ _ _ _ _ _ c c',
    checkPathForCollision_linear_continuous _ _ _ _ _ _ _ _ _ _ c c']

/-- C27. Replacing the table `continuous_` of an engine state by any other
table, all other members unchanged, changes nothing in the result of
`interpolatePath`, for every step vector, and nothing in the result of either
overload of `checkPathForCollision`: the same verdict, `path_length`,
`num_checks`, clearance, cache and visited waypoints. -/
theorem continuous_no_influence_on_path_checks (ext : Externals) (cs : SBPLCollisionSpace)
    (c : List Bool) (start end_ inc : List ℚ) (frames : FrameCache) (verbose : Bool) :
    interpolatePath ext { cs with continuous_ := c } start end_ inc =
      interpolatePath ext cs start end_ inc ∧
    interpolatePath ext { cs with continuous_ := c } start end_
        ({ cs with continuous_ := c } : SBPLCollisionSpace).inc_ =
      interpolatePath ext cs start end_ cs.inc_ ∧
    checkPathForCollision_frames ext { cs with continuous_ := c } start end_ frames verbose =
      checkPathForCollision_frames ext cs start end_ frames verbose ∧
    checkPathForCollision ext { cs with continuous_ := c } start end_ verbose =
      checkPathForCollision ext cs start end_ verbose := by
  obtain ⟨g, m, p, oa, os, um, x, inc0, mn, mx, c0⟩ := cs
  refine ⟨rfl, rfl, ?_, ?_⟩
  · exact checkPathForCollision_frames_continuous g m p oa os um x inc0 mn mx c c0 ext start end_
      frames verbose
  · exact checkPathForCollision_frames_continuous g m p oa os um x inc0 mn mx c c0 ext start end_
      [] verbose

/-! ## Caching and non-caching check -/

/-- On a cache whose views are fresh the group loop of the caching check runs
as the group loop of the non-caching check. -/
theorem checkCollision_frames_loop_fresh (ext : Externals) (cs : SBPLCollisionSpace)
    (low_res verbose visualize : Bool) (sg : List Group) :
    ∀ (i : Nat) (F : FrameCache) (st : CollisionLoop),
      cachedGroups sg i F = sg.map (fun g => (g, g.computeFK [])) →
      (checkCollision_frames_loop ext cs cs.model_.default_group low_res verbose visualize sg i
        F st).1 = (checkCollision_res_loop ext cs low_res verbose visualize sg st).1 ∧
      (checkCollision_frames_loop ext cs cs.model_.default_group low_res verbose visualize sg i
        F st).2.2 = (checkCollision_res_loop ext cs low_res verbose visualize sg st).2 := by
  induction sg with
  | nil => intro i F st _; exact ⟨rfl, rfl⟩
  | cons g rest ih =>
    intro i F st h
    simp only [cachedGroups, List.map_cons, List.cons.injEq, Prod.mk.injEq, true_and] at h
    obtain ⟨h1, h2⟩ := h
    have e1 : (cachedFK_step (g.computeFK []) F i).1 = (g.computeFK []).1 :=
      congrArg Prod.fst h1
    have e2 : (cachedFK_step (g.computeFK []) F i).2.getD i [] = (g.computeFK []).2 :=
      congrArg Prod.snd h1
    have h3 : cachedGroups rest (i + 1) (cachedFK_step (g.computeFK []) F i).2 =
        rest.map (fun g => (g, g.computeFK [])) := by
      rw [cachedGroups_of_step _ _ i rest (i + 1) (by omega)]
      exact h2
    have ih' := ih (i + 1) (cachedFK_step (g.computeFK []) F i).2
    simp only [checkCollision_frames_loop, checkCollision_res_loop, e1, e2]
    cases (g.computeFK []).1
    · exact ⟨rfl, rfl⟩
    · simp only [Bool.not_true, Bool.false_eq_true, if_false]
      generalize checkCollision_group ext cs cs.model_.default_group low_res verbose visualize g
        (g.computeFK []).2 st = G
      obtain ⟨bG, stG⟩ := G
      cases bG
      · exact ⟨rfl, rfl⟩
      · exact ih' stG h3

/-- On a fresh cache, with the default group as first sphere group, the
caching check returns the verdict, the clearance and the collision spheres of
the non-caching check. -/
theorem checkCollision_frames_eq_res_of_fresh (ext : Externals) (cs : SBPLCollisionSpace)
    (angles : List ℚ) (F : FrameCache) (low_res verbose visualize : Bool)
    (sg : List Group) (hsg : cs.model_.sphere_groups = cs.model_.default_group :: sg)
    (hF : CacheFresh cs angles F) :
    (checkCollision_frames ext cs angles F low_res verbose visualize).ret =
      (checkCollision_res ext cs angles low_res verbose visualize).ret ∧
    (checkCollision_frames ext cs angles F low_res verbose visualize).dist =
      (checkCollision_res ext cs angles low_res verbose visualize).dist ∧
    (checkCollision_frames ext cs angles F low_res verbose visualize).collision_spheres_ =
      (checkCollision_res ext cs angles low_res verbose visualize).collision_spheres_ := by
  obtain ⟨h0, hk⟩ := hF
  rw [hsg] at hk
  simp only [List.drop_succ_cons, List.drop_zero] at hk
  have hg : cachedGroups sg 1
      (cachedFK_step (cs.model_.computeDefaultGroupFK angles) (initialCache cs F) 0).2 =
      sg.map (fun g => (g, g.computeFK [])) := by
    rw [cachedGroups_of_step _ _ 0 sg 1 Nat.zero_lt_one]
    exact cachedGroups_eq_map sg 1 _ hk
  have e1 : (cachedFK_step (cs.model_.computeDefaultGroupFK angles) (initialCache cs F) 0).1 =
      (cs.model_.computeDefaultGroupFK angles).1 := congrArg Prod.fst h0
  have e2 : (cachedFK_step (cs.model_.computeDefaultGroupFK angles) (initialCache cs F)
      0).2.getD 0 [] = (cs.model_.computeDefaultGroupFK angles).2 := congrArg Prod.snd h0
  have hloop := checkCollision_frames_loop_fresh ext cs low_res verbose visualize sg 1
    (cachedFK_step (cs.model_.computeDefaultGroupFK angles) (initialCache cs F) 0).2
  unfold checkCollision_frames checkCollision_res
  unfold initialCache at e1 e2 hloop hg
  rw [hsg] at e1 e2 hloop hg ⊢
  dsimp only at e1 e2 hloop hg ⊢
  rw [e1, e2]
  cases (cs.model_.computeDefaultGroupFK angles).1
  · exact ⟨rfl, rfl, rfl⟩
  simp only [Bool.not_true, Bool.false_eq_true, if_false, List.drop_succ_cons, List.drop_zero]
  generalize checkCollision_attached _ _ _ _ _ = A
  obtain ⟨bA, stA⟩ := A
  cases bA
  · exact ⟨rfl, rfl, rfl⟩
  dsimp only
  generalize checkCollision_default _ _ _ _ _ _ _ = D
  obtain ⟨bD, stD⟩ := D
  cases bD
  · exact ⟨rfl, rfl, rfl⟩
  dsimp only
  obtain ⟨l1, l2⟩ := hloop stD hg
  generalize checkCollision_frames_loop _ _ _ _ _ _ _ _ _ _ = L at l1 l2
  generalize checkCollision_res_loop _ _ _ _ _ _ _ = R at l1 l2
  obtain ⟨bL, FL, stL⟩ := L
  obtain ⟨bR, stR⟩ := R
  simp only at l1 l2
  subst l1 l2
  cases bL
  · exact ⟨rfl, rfl, rfl⟩
  · dsimp only
    split <;> exact ⟨rfl, rfl, rfl⟩

/-- The empty cache is fresh. -/
theorem cacheFresh_nil (cs : SBPLCollisionSpace) (angles : List ℚ) (sg0 : Group)
    (sg : List Group) (hsg : cs.model_.sphere_groups = sg0 :: sg) :
    CacheFresh cs angles [] := by
  unfold CacheFresh
  rw [initialCache_nil, hsg]
  refine ⟨cachedFK_replicate _ _ _ (by simp), fun k g hk => ?_⟩
  have hlt : k < sg.length := by
    by_contra hge
    simp only [List.drop_succ_cons, List.drop_zero] at hk
    rw [List.getElem?_eq_none (by omega)] at hk
    exact absurd hk (by simp)
  exact cachedFK_replicate _ _ _ (by simp; omega)

/-- When every forward kinematics succeeds or leaves no frames, a call of the
caching check on a fresh cache leaves a fresh cache. -/
theorem cacheFresh_step (ext : Externals) (cs : SBPLCollisionSpace) (angles : List ℚ)
    (F : FrameCache) (low_res verbose visualize : Bool) (l : List Sphere) (sg0 : Group)
    (sg : List Group) (hsg : cs.model_.sphere_groups = sg0 :: sg)
    (hd : FKClean (cs.model_.computeDefaultGroupFK angles))
    (ho : ∀ g ∈ sg, FKClean (g.computeFK []))
    (hF : CacheFresh cs angles F) :
    CacheFresh cs angles
      (checkCollision_frames ext { cs with collision_spheres_ := l } angles F low_res verbose
        visualize).frames := by
  have hle : viewLE (cachedFK (cs.model_.computeDefaultGroupFK angles) (initialCache cs F) 0)
      (cachedFK (cs.model_.computeDefaultGroupFK angles)
        (checkCollision_frames ext { cs with collision_spheres_ := l } angles F low_res verbose
          visualize).frames 0) ∧
      CacheLE sg 1 (initialCache cs F)
        (checkCollision_frames ext { cs with collision_spheres_ := l } angles F low_res verbose
          visualize).frames :=
    checkCollision_frames_cacheLE ext { cs with collision_spheres_ := l } angles F low_res
      verbose visualize sg0 sg hsg
  have hlen : (checkCollision_frames ext { cs with collision_spheres_ := l } angles F low_res
      verbose visualize).frames.length = (initialCache cs F).length :=
    (checkCollision_frames_frames_zero ext { cs with collision_spheres_ := l } angles F low_res
      verbose visualize sg0 sg hsg).1
  have hpos := initialCache_length_pos cs F sg0 sg hsg
  obtain ⟨h0, hk⟩ := hF
  unfold CacheFresh
  rw [initialCache_of_length_pos cs _ (by omega)]
  refine ⟨cachedFK_eq_of_clean _ _ _ 0 hd h0 hle.1, fun k g hg => ?_⟩
  have hg' : sg[k]? = some g := by
    rw [hsg] at hg
    simpa using hg
  exact cachedFK_eq_of_clean _ _ _ (1 + k) (ho g (List.mem_iff_getElem?.mpr ⟨k, hg'⟩))
    (hk k g hg) (hle.2 k g hg')

/-- When every forward kinematics succeeds or leaves no frames, any sequence
of calls of the caching check from a fresh cache leaves a fresh cache. -/
theorem cacheFresh_afterCalls (ext : Externals) (cs : SBPLCollisionSpace) (angles : List ℚ)
    (sg0 : Group) (sg : List Group) (hsg : cs.model_.sphere_groups = sg0 :: sg)
    (hd : FKClean (cs.model_.computeDefaultGroupFK angles))
    (ho : ∀ g ∈ sg, FKClean (g.computeFK [])) (calls : List (Bool × Bool × Bool)) :
    ∀ s : FrameCache × List Sphere, CacheFresh cs angles s.1 →
      CacheFresh cs angles (afterCalls ext cs angles calls s).1 := by
  induction calls with
  | nil => intro s hs; exact hs
  | cons c rest ih =>
    intro s hs
    obtain ⟨low_res, verbose, visualize⟩ := c
    exact ih _ (cacheFresh_step ext cs angles s.1 low_res verbose visualize s.2 sg0 sg hsg hd ho
      hs)

/-- C24, the failing instance. At the example engine whose second group has a
forward kinematics that fails after writing frames, and the configuration
`[4]`, the first sphere group is the default group. The caching fine check on
the empty cache and the non-caching fine check both report not valid, at the
failed forward kinematics. The caching check has left the written frames in
the cache, and the same call on that cache skips the forward kinematics and
reports valid. -/
theorem cached_check_reuses_frames_of_failed_fk :
    exampleFailingEngine.model_.sphere_groups.head?.map Group.name =
      some exampleFailingEngine.model_.default_group.name ∧
    (checkCollision_res exampleExt exampleFailingEngine [4] false false false).ret = false ∧
    (checkCollision_frames exampleExt exampleFailingEngine [4] [] false false false).ret
      = false ∧
    (checkCollision_frames exampleExt exampleFailingEngine [4] [] false false false).frames =
      [[[xShift 4]], [[xShift 8]]] ∧
    (checkCollision_frames exampleExt exampleFailingEngine [4]
      (checkCollision_frames exampleExt exampleFailingEngine [4] [] false false false).frames
      false false false).ret = true ∧
    (checkCollision_frames exampleExt exampleFailingEngine [4]
      (checkCollision_frames exampleExt exampleFailingEngine [4] [] false false false).frames
      false false false).ret ≠
    (checkCollision_res exampleExt exampleFailingEngine [4] false false false).ret := by
  refine ⟨by decide, by decide!, by decide!, by decide!, by decide!, by decide!⟩

/-- C24, amended. When the first sphere group is the default group, the
caching check called with an empty cache returns the verdict and the clearance
of the non-caching check for the same resolution. When moreover every forward
kinematics either succeeds or leaves no frames, the same holds for the caching
check called with the cache that any sequence of earlier calls of the caching
check for the same configuration has left, whatever their resolutions and
whether they returned early. -/
theorem checkCollision_frames_agrees_with_res (ext : Externals) (cs : SBPLCollisionSpace)
    (angles : List ℚ) (low_res verbose visualize : Bool)
    (hhead : cs.model_.sphere_groups.head? = some cs.model_.default_group) :
    ((checkCollision_frames ext cs angles [] low_res verbose visualize).ret =
        (checkCollision_res ext cs angles low_res verbose visualize).ret ∧
      (checkCollision_frames ext cs angles [] low_res verbose visualize).dist =
        (checkCollision_res ext cs angles low_res verbose visualize).dist) ∧
    (FKClean (cs.model_.computeDefaultGroupFK angles) →
      (∀ g ∈ cs.model_.sphere_groups.drop 1, FKClean (g.computeFK [])) →
      ∀ calls : List (Bool × Bool × Bool),
        (checkCollision_frames ext
          { cs with collision_spheres_ :=
              (afterCalls ext cs angles calls ([], cs.collision_spheres_)).2 }
          angles (afterCalls ext cs angles calls ([], cs.collision_spheres_)).1 low_res verbose
          visualize).ret =
        (checkCollision_res ext
          { cs with collision_spheres_ :=
              (afterCalls ext cs angles calls ([], cs.collision_spheres_)).2 }
          angles low_res verbose visualize).ret ∧
        (checkCollision_frames ext
          { cs with collision_spheres_ :=
              (afterCalls ext cs angles calls ([], cs.collision_spheres_)).2 }
          angles (afterCalls ext cs angles calls ([], cs.collision_spheres_)).1 low_res verbose
          visualize).dist =
        (checkCollision_res ext
          { cs with collision_spheres_ :=
              (afterCalls ext cs angles calls ([], cs.collision_spheres_)).2 }
          angles low_res verbose visualize).dist) := by
  obtain ⟨sg, hsg⟩ : ∃ sg, cs.model_.sphere_groups = cs.model_.default_group :: sg := by
    cases hs : cs.model_.sphere_groups with
    | nil => rw [hs] at hhead; simp at hhead
    | cons a t =>
      rw [hs] at hhead
      simp only [List.head?_cons, Option.some.injEq] at hhead
      exact ⟨t, by rw [hhead]⟩
  have hnil := cacheFresh_nil cs angles _ sg hsg
  constructor
  · obtain ⟨h1, h2, -⟩ := checkCollision_frames_eq_res_of_fresh ext cs angles [] low_res verbose
      visualize sg hsg hnil
    exact ⟨h1, h2⟩
  · intro hd ho calls
    have ho' : ∀ g ∈ sg, FKClean (g.computeFK []) := by
      intro g hg
      apply ho g
      rw [hsg]
      simpa using hg
    have hfresh := cacheFresh_afterCalls ext cs angles _ sg hsg hd ho' calls
      ([], cs.collision_spheres_) hnil
    obtain ⟨h1, h2, -⟩ := checkCollision_frames_eq_res_of_fresh ext
      { cs with collision_spheres_ :=
          (afterCalls ext cs angles calls ([], cs.collision_spheres_)).2 }
      angles (afterCalls ext cs angles calls ([], cs.collision_spheres_)).1 low_res verbose
      visualize sg hsg hfresh
    exact ⟨h1, h2⟩

/-- C24 at the example engine with three groups and the configuration `[8]`:
the first sphere group is the default group and every forward kinematics
succeeds. The coarse pass returns early, at the second group, and leaves the
third entry of the cache empty; the fine caching check on that cache and the
fine non-caching check both report not valid with the clearance 8. -/
theorem checkCollision_frames_agrees_with_res_witness :
    exampleThreeGroups.model_.sphere_groups.head? = some exampleThreeGroups.model_.default_group ∧
    FKClean (exampleThreeGroups.model_.computeDefaultGroupFK [8]) ∧
    (∀ g ∈ exampleThreeGroups.model_.sphere_groups.drop 1, FKClean (g.computeFK [])) ∧
    (afterCalls exampleExt exampleThreeGroups [8] [(true, false, false)]
      ([], exampleThreeGroups.collision_spheres_)).1 = [[[xShift 8]], [[xShift 8]], []] ∧
    (checkCollision_frames exampleExt exampleThreeGroups [8] [] false false false).ret =
      (checkCollision_res exampleExt exampleThreeGroups [8] false false false).ret ∧
    (checkCollision_frames exampleExt
        { exampleThreeGroups with collision_spheres_ :=
            (afterCalls exampleExt exampleThreeGroups [8] [(true, false, false)]
              ([], exampleThreeGroups.collision_spheres_)).2 }
        [8] (afterCalls exampleExt exampleThreeGroups [8] [(true, false, false)]
          ([], exampleThreeGroups.collision_spheres_)).1 false false false).ret =
      (checkCollision_res exampleExt
        { exampleThreeGroups with collision_spheres_ :=
            (afterCalls exampleExt exampleThreeGroups [8] [(true, false, false)]
              ([], exampleThreeGroups.collision_spheres_)).2 }
        [8] false false false).ret ∧
    (checkCollision_frames exampleExt
        { exampleThreeGroups with collision_spheres_ :=
            (afterCalls exampleExt exampleThreeGroups [8] [(true, false, false)]
              ([], exampleThreeGroups.collision_spheres_)).2 }
        [8] (afterCalls exampleExt exampleThreeGroups [8] [(true, false, false)]
          ([], exampleThreeGroups.collision_spheres_)).1 false false false).dist =
      (checkCollision_res exampleExt
        { exampleThreeGroups with collision_spheres_ :=
            (afterCalls exampleExt exampleThreeGroups [8] [(true, false, false)]
              ([], exampleThreeGroups.collision_spheres_)).2 }
        [8] false false false).dist ∧
    (checkCollision_res exampleExt exampleThreeGroups [8] false false false).ret = false ∧
    (checkCollision_res exampleExt exampleThreeGroups [8] false false false).dist = 8 :=
  have hclean : ∀ g ∈ exampleThreeGroups.model_.sphere_groups.drop 1,
      FKClean (g.computeFK []) := by
    intro g hg
    simp only [exampleThreeGroups, List.drop_succ_cons, List.drop_zero, List.mem_cons,
      List.mem_singleton, List.not_mem_nil, or_false] at hg
    rcases hg with rfl | rfl <;> exact Or.inl rfl
  ⟨rfl, Or.inl rfl, hclean, by decide!,
    (checkCollision_frames_agrees_with_res exampleExt exampleThreeGroups [8] false false false
      rfl).1.1,
    ((checkCollision_frames_agrees_with_res exampleExt exampleThreeGroups [8] false false false
      rfl).2 (Or.inl rfl) hclean [(true, false, false)]).1,
    ((checkCollision_frames_agrees_with_res exampleExt exampleThreeGroups [8] false false false
      rfl).2 (Or.inl rfl) hclean [(true, false, false)]).2,
    by decide!, by decide!⟩

/-! ## Threshold tests: the machine sum -/

/-- C1, the failing instance. The radius `0.1`, the padding `0.2` and the cell
distance `0.30000000000000004` are doubles. The cell is in bounds and its
distance is strictly greater than the sum of radius and padding, yet the
machine sum of radius and padding is that distance, the test
`dist_temp <= radius + padding_` holds, and the call reports a collision. -/
theorem machine_sum_reaches_cell_distance :
    (roundToDouble doubleTenth = doubleTenth ∧ roundToDouble doubleFifth = doubleFifth ∧
      roundToDouble doubleThreeTenthsUp = doubleThreeTenthsUp) ∧
    (∀ s ∈ exampleTenthGroup.getSpheres false,
      sphereInBounds exampleRoundingEngine [[KDL.Frame.Identity]] s = true ∧
      s.radius + exampleRoundingEngine.padding_ <
        fieldDistance exampleRoundingEngine [[KDL.Frame.Identity]] s ∧
      dadd s.radius exampleRoundingEngine.padding_ =
        fieldDistance exampleRoundingEngine [[KDL.Frame.Identity]] s) ∧
    (checkSpheresAgainstWorld exampleRoundingEngine [[KDL.Frame.Identity]]
      (exampleTenthGroup.getSpheres false) false false []).ret = false := by
  refine ⟨by decide!, by decide!, by decide!⟩

/-- C2, the failing instance. Two spheres of radius `0.1` with the padding
`0.2` and centres at the distance `0.30000000000000004`, all doubles: the
distance is strictly greater than `max(radius1, radius2) + padding_`, yet it
equals the machine sum, and the pairwise test reports a collision. -/
theorem machine_sum_reaches_pair_distance :
    exampleExt.distance ⟨0, 0, 0⟩ ⟨doubleThreeTenthsUp, 0, 0⟩ = doubleThreeTenthsUp ∧
    max doubleTenth doubleTenth + exampleRoundingEngine.padding_ < doubleThreeTenthsUp ∧
    dadd (max doubleTenth doubleTenth) exampleRoundingEngine.padding_ = doubleThreeTenthsUp ∧
    (checkSphereGroupAgainstSphereGroup exampleExt exampleRoundingEngine exampleTenthGroup
      exampleTenthGroup [⟨0, 0, 0⟩] [⟨doubleThreeTenthsUp, 0, 0⟩] false false false false).ret
      = false := by
  refine ⟨by decide!, by decide!, by decide!, by decide!⟩

/-! ## The two-level check and the full check on the fine subset -/

/-- The blocks of the per-resolution check read the member `collision_spheres_`
through their loop state only. -/
theorem checkCollision_attached_member (cs : SBPLCollisionSpace) (l : List Sphere)
    (frames : GroupFrames) (verbose visualize : Bool) (st : CollisionLoop) :
    checkCollision_attached { cs with collision_spheres_ := l } frames verbose visualize st =
      checkCollision_attached cs frames verbose visualize st := rfl

theorem checkCollision_default_member (cs : SBPLCollisionSpace) (l : List Sphere)
    (dgroup : Group) (frames : GroupFrames) (low_res verbose visualize : Bool)
    (st : CollisionLoop) :
    checkCollision_default { cs with collision_spheres_ := l } dgroup frames low_res verbose
        visualize st =
      checkCollision_default cs dgroup frames low_res verbose visualize st := rfl

theorem checkCollision_group_member (ext : Externals) (cs : SBPLCollisionSpace) (l : List Sphere)
    (dgroup : Group) (low_res verbose visualize : Bool) (g : Group) (frames : GroupFrames)
    (st : CollisionLoop) :
    checkCollision_group ext { cs with collision_spheres_ := l } dgroup low_res verbose
        visualize g frames st =
      checkCollision_group ext cs dgroup low_res verbose visualize g frames st := rfl

theorem checkCollision_res_loop_member (ext : Externals) (cs : SBPLCollisionSpace)
    (l : List Sphere) (low_res verbose visualize : Bool) (sg : List Group) :
    ∀ st : CollisionLoop,
      checkCollision_res_loop ext { cs with collision_spheres_ := l } low_res verbose visualize
          sg st =
        checkCollision_res_loop ext cs low_res verbose visualize sg st := by
  induction sg with
  | nil => intro st; rfl
  | cons g rest ih =>
    intro st
    simp only [checkCollision_res_loop, ih, checkCollision_group_member]

theorem checkCollision_frames_loop_member (ext : Externals) (cs : SBPLCollisionSpace)
    (l : List Sphere) (sg0 : Group) (low_res verbose visualize : Bool) (sg : List Group) :
    ∀ (i : Nat) (frames : FrameCache) (st : CollisionLoop),
      checkCollision_frames_loop ext { cs with collision_spheres_ := l } sg0 low_res verbose
          visualize sg i frames st =
        checkCollision_frames_loop ext cs sg0 low_res verbose visualize sg i frames st := by
  induction sg with
  | nil => intro i frames st; rfl
  | cons g rest ih =>
    intro i frames st
    simp only [checkCollision_frames_loop, ih, checkCollision_group_member]

/-- With visualization the per-resolution checks clear the member
`collision_spheres_` first: what it held has no effect. -/
theorem checkCollision_frames_member (ext : Externals) (cs : SBPLCollisionSpace)
    (l : List Sphere) (angles : List ℚ) (frames : FrameCache) (low_res verbose : Bool) :
    checkCollision_frames ext { cs with collision_spheres_ := l } angles frames low_res verbose
        true =
      checkCollision_frames ext cs angles frames low_res verbose true := by
  unfold checkCollision_frames
  simp only [checkCollision_frames_loop_member, checkCollision_attached_member,
    checkCollision_default_member, if_true]

theorem checkCollision_res_member (ext : Externals) (cs : SBPLCollisionSpace)
    (l : List Sphere) (angles : List ℚ) (low_res verbose : Bool) :
    checkCollision_res ext { cs with collision_spheres_ := l } angles low_res verbose true =
      checkCollision_res ext cs angles low_res verbose true := by
  unfold checkCollision_res
  simp only [checkCollision_res_loop_member, checkCollision_attached_member,
    checkCollision_default_member, if_true]

/-- A per-resolution check that follows a caching check with the same
`visualize` runs as in the engine state before that check. -/
theorem checkCollision_frames_after (ext : Externals) (cs : SBPLCollisionSpace)
    (angles : List ℚ) (F G : FrameCache) (lr0 low_res verbose visualize : Bool) :
    checkCollision_frames ext
        { cs with collision_spheres_ :=
            (checkCollision_frames ext cs angles F lr0 verbose visualize).collision_spheres_ }
        angles G low_res verbose visualize =
      checkCollision_frames ext cs angles G low_res verbose visualize := by
  cases visualize
  · rw [checkCollision_frames_collision_spheres]
  · rw [checkCollision_frames_member]

theorem checkCollision_res_after (ext : Externals) (cs : SBPLCollisionSpace)
    (angles : List ℚ) (F : FrameCache) (lr0 low_res verbose visualize : Bool) :
    checkCollision_res ext
        { cs with collision_spheres_ :=
            (checkCollision_frames ext cs angles F lr0 verbose visualize).collision_spheres_ }
        angles low_res verbose visualize =
      checkCollision_res ext cs angles low_res verbose visualize := by
  cases visualize
  · rw [checkCollision_frames_collision_spheres]
  · rw [checkCollision_res_member]

/-- With no sphere group the caching check returns at once. -/
theorem checkCollision_frames_no_groups (ext : Externals) (cs : SBPLCollisionSpace)
    (angles : List ℚ) (F : FrameCache) (low_res verbose visualize : Bool)
    (h : cs.model_.sphere_groups = []) :
    (checkCollision_frames ext cs angles F low_res verbose visualize).ret = false ∧
    (checkCollision_frames ext cs angles F low_res verbose visualize).dist = 100 ∧
    (checkCollision_frames ext cs angles F low_res verbose visualize).frames = F ∧
    (checkCollision_frames ext cs angles F low_res verbose visualize).collision_spheres_ =
      if visualize then [] else cs.collision_spheres_ := by
  unfold checkCollision_frames
  rw [h]
  exact ⟨rfl, rfl, rfl, rfl⟩

/-- On two caches whose views are fresh the group loop of the caching check
runs alike. -/
theorem checkCollision_frames_loop_fresh_pair (ext : Externals) (cs : SBPLCollisionSpace)
    (sg0 : Group) (low_res verbose visualize : Bool) (sg : List Group) :
    ∀ (i : Nat) (F G : FrameCache) (st : CollisionLoop),
      cachedGroups sg i F = sg.map (fun g => (g, g.computeFK [])) →
      cachedGroups sg i G = sg.map (fun g => (g, g.computeFK [])) →
      (checkCollision_frames_loop ext cs sg0 low_res verbose visualize sg i F st).1 =
        (checkCollision_frames_loop ext cs sg0 low_res verbose visualize sg i G st).1 ∧
      (checkCollision_frames_loop ext cs sg0 low_res verbose visualize sg i F st).2.2 =
        (checkCollision_frames_loop ext cs sg0 low_res verbose visualize sg i G st).2.2 := by
  induction sg with
  | nil => intro i F G st _ _; exact ⟨rfl, rfl⟩
  | cons g rest ih =>
    intro i F G st hF hG
    simp only [cachedGroups, List.map_cons, List.cons.injEq, Prod.mk.injEq, true_and] at hF hG
    obtain ⟨f1, f2⟩ := hF
    obtain ⟨g1, g2⟩ := hG
    have e1 : (cachedFK_step (g.computeFK []) F i).1 = (g.computeFK []).1 :=
      congrArg Prod.fst f1
    have e2 : (cachedFK_step (g.computeFK []) F i).2.getD i [] = (g.computeFK []).2 :=
      congrArg Prod.snd f1
    have e3 : (cachedFK_step (g.computeFK []) G i).1 = (g.computeFK []).1 :=
      congrArg Prod.fst g1
    have e4 : (cachedFK_step (g.computeFK []) G i).2.getD i [] = (g.computeFK []).2 :=
      congrArg Prod.snd g1
    have f3 : cachedGroups rest (i + 1) (cachedFK_step (g.computeFK []) F i).2 =
        rest.map (fun g => (g, g.computeFK [])) := by
      rw [cachedGroups_of_step _ _ i rest (i + 1) (by omega)]
      exact f2
    have g3 : cachedGroups rest (i + 1) (cachedFK_step (g.computeFK []) G i).2 =
        rest.map (fun g => (g, g.computeFK [])) := by
      rw [cachedGroups_of_step _ _ i rest (i + 1) (by omega)]
      exact g2
    have ih' := ih (i + 1) (cachedFK_step (g.computeFK []) F i).2
      (cachedFK_step (g.computeFK []) G i).2
    simp only [checkCollision_frames_loop, e1, e2, e3, e4]
    cases (g.computeFK []).1
    · exact ⟨rfl, rfl⟩
    · simp only [Bool.not_true, Bool.false_eq_true, if_false]
      generalize checkCollision_group ext cs sg0 low_res verbose visualize g
        (g.computeFK []).2 st = R
      obtain ⟨bR, stR⟩ := R
      cases bR
      · exact ⟨rfl, rfl⟩
      · exact ih' stR f3 g3

/-- On two fresh caches the caching check returns the same verdict, clearance
and collision spheres. -/
theorem checkCollision_frames_fresh_pair (ext : Externals) (cs : SBPLCollisionSpace)
    (angles : List ℚ) (F G : FrameCache) (low_res verbose visualize : Bool)
    (hF : CacheFresh cs angles F) (hG : CacheFresh cs angles G) :
    (checkCollision_frames ext cs angles F low_res verbose visualize).ret =
      (checkCollision_frames ext cs angles G low_res verbose visualize).ret ∧
    (checkCollision_frames ext cs angles F low_res verbose visualize).dist =
      (checkCollision_frames ext cs angles G low_res verbose visualize).dist ∧
    (checkCollision_frames ext cs angles F low_res verbose visualize).collision_spheres_ =
      (checkCollision_frames ext cs angles G low_res verbose visualize).collision_spheres_ := by
  cases hsg : cs.model_.sphere_groups with
  | nil =>
    obtain ⟨a1, a2, -, a4⟩ := checkCollision_frames_no_groups ext cs angles F low_res verbose
      visualize hsg
    obtain ⟨b1, b2, -, b4⟩ := checkCollision_frames_no_groups ext cs angles G low_res verbose
      visualize hsg
    exact ⟨a1.trans b1.symm, a2.trans b2.symm, a4.trans b4.symm⟩
  | cons sg0 sg =>
    obtain ⟨f0, fk⟩ := hF
    obtain ⟨g0, gk⟩ := hG
    rw [hsg] at fk gk
    simp only [List.drop_succ_cons, List.drop_zero] at fk gk
    have fg : cachedGroups sg 1
        (cachedFK_step (cs.model_.computeDefaultGroupFK angles) (initialCache cs F) 0).2 =
        sg.map (fun g => (g, g.computeFK [])) := by
      rw [cachedGroups_of_step _ _ 0 sg 1 Nat.zero_lt_one]
      exact cachedGroups_eq_map sg 1 _ fk
    have gg : cachedGroups sg 1
        (cachedFK_step (cs.model_.computeDefaultGroupFK angles) (initialCache cs G) 0).2 =
        sg.map (fun g => (g, g.computeFK [])) := by
      rw [cachedGroups_of_step _ _ 0 sg 1 Nat.zero_lt_one]
      exact cachedGroups_eq_map sg 1 _ gk
    have e1 : (cachedFK_step (cs.model_.computeDefaultGroupFK angles) (initialCache cs F) 0).1 =
        (cs.model_.computeDefaultGroupFK angles).1 := congrArg Prod.fst f0
    have e2 : (cachedFK_step (cs.model_.computeDefaultGroupFK angles) (initialCache cs F)
        0).2.getD 0 [] = (cs.model_.computeDefaultGroupFK angles).2 := congrArg Prod.snd f0
    have e3 : (cachedFK_step (cs.model_.computeDefaultGroupFK angles) (initialCache cs G) 0).1 =
        (cs.model_.computeDefaultGroupFK angles).1 := congrArg Prod.fst g0
    have e4 : (cachedFK_step (cs.model_.computeDefaultGroupFK angles) (initialCache cs G)
        0).2.getD 0 [] = (cs.model_.computeDefaultGroupFK angles).2 := congrArg Prod.snd g0
    have hloop := checkCollision_frames_loop_fresh_pair ext cs sg0 low_res verbose visualize sg 1
      (cachedFK_step (cs.model_.computeDefaultGroupFK angles) (initialCache cs F) 0).2
      (cachedFK_step (cs.model_.computeDefaultGroupFK angles) (initialCache cs G) 0).2
    unfold checkCollision_frames
    unfold initialCache at e1 e2 e3 e4 hloop fg gg
    rw [hsg] at e1 e2 e3 e4 hloop fg gg ⊢
    dsimp only at e1 e2 e3 e4 hloop fg gg ⊢
    rw [e1, e2, e3, e4]
    cases (cs.model_.computeDefaultGroupFK angles).1
    · exact ⟨rfl, rfl, rfl⟩
    simp only [Bool.not_true, Bool.false_eq_true, if_false]
    generalize checkCollision_attached _ _ _ _ _ = A
    obtain ⟨bA, stA⟩ := A
    cases bA
    · exact ⟨rfl, rfl, rfl⟩
    dsimp only
    generalize checkCollision_default _ _ _ _ _ _ _ = D
    obtain ⟨bD, stD⟩ := D
    cases bD
    · exact ⟨rfl, rfl, rfl⟩
    dsimp only
    obtain ⟨l1, l2⟩ := hloop stD fg gg
    generalize checkCollision_frames_loop ext cs sg0 low_res verbose visualize sg 1
      (cachedFK_step (cs.model_.computeDefaultGroupFK angles)
        (if F.isEmpty = true then List.replicate (sg0 :: sg).length [] else F) 0).2 stD = L
      at l1 l2
    generalize checkCollision_frames_loop ext cs sg0 low_res verbose visualize sg 1
      (cachedFK_step (cs.model_.computeDefaultGroupFK angles)
        (if G.isEmpty = true then List.replicate (sg0 :: sg).length [] else G) 0).2 stD = R
      at l1 l2
    obtain ⟨bL, FL, stL⟩ := L
    obtain ⟨bR, FR, stR⟩ := R
    simp only at l1 l2
    subst l1 l2
    cases bL
    · exact ⟨rfl, rfl, rfl⟩
    · dsimp only
      split <;> exact ⟨rfl, rfl, rfl⟩

theorem cacheFreshGroups_of_no_groups (cs : SBPLCollisionSpace) (F : FrameCache)
    (h : cs.model_.sphere_groups = []) : CacheFreshGroups cs F := by
  intro k g hk
  rw [h] at hk
  simp at hk

theorem cacheFreshGroups_nil (cs : SBPLCollisionSpace) : CacheFreshGroups cs [] := by
  cases hsg : cs.model_.sphere_groups with
  | nil => exact cacheFreshGroups_of_no_groups cs [] hsg
  | cons sg0 sg => exact (cacheFresh_nil cs [] sg0 sg hsg).2

/-- Once `frames[0]` is cleared, a cache that is fresh for the groups after the
first is fresh for every configuration. -/
theorem cacheFresh_of_cleared (cs : SBPLCollisionSpace) (angles : List ℚ) (F : FrameCache)
    (sg0 : Group) (sg : List Group) (hsg : cs.model_.sphere_groups = sg0 :: sg)
    (hF : CacheFreshGroups cs F) :
    CacheFresh cs angles (if !F.isEmpty then F.set 0 [] else F) := by
  cases F with
  | nil => exact cacheFresh_nil cs angles sg0 sg hsg
  | cons a T =>
    have h0 : (if !(a :: T).isEmpty then (a :: T).set 0 [] else (a :: T)) = [] :: T := rfl
    rw [h0]
    have hi : initialCache cs ([] :: T) = [] :: T := rfl
    have hi' : initialCache cs (a :: T) = a :: T := rfl
    unfold CacheFresh
    unfold CacheFreshGroups at hF
    rw [hi]
    rw [hi'] at hF
    refine ⟨?_, fun k g hk => ?_⟩
    · rw [cachedFK_eq]
      simp
    · refine (cachedFK_congr (g.computeFK []) ([] :: T) (a :: T) (1 + k) ?_ rfl).trans
        (hF k g hk)
      rw [Nat.add_comm]
      rfl

theorem isStateValid_frames_nil (ext : Externals) (cs : SBPLCollisionSpace) (angles : List ℚ)
    (verbose visualize : Bool) :
    isStateValid_frames ext cs angles [] verbose visualize =
      checkCollision ext cs angles verbose visualize := rfl

/-- With no sphere group the point check does not depend on the cache. -/
theorem isStateValid_frames_no_groups (ext : Externals) (cs : SBPLCollisionSpace)
    (angles : List ℚ) (F : FrameCache) (verbose visualize : Bool)
    (h : cs.model_.sphere_groups = []) :
    (isStateValid_frames ext cs angles F verbose visualize).ret =
      (if !cs.use_multi_level_collision_check_ then
        (checkCollision_res ext cs angles false verbose visualize).ret else false) ∧
    (isStateValid_frames ext cs angles F verbose visualize).dist =
      (if !cs.use_multi_level_collision_check_ then
        (checkCollision_res ext cs angles false verbose visualize).dist else 100) := by
  unfold isStateValid_frames
  dsimp only
  by_cases hm : (!cs.use_multi_level_collision_check_) = true
  · rw [if_pos hm, if_pos hm, if_pos hm]
    exact ⟨rfl, rfl⟩
  · rw [if_neg hm, if_neg hm, if_neg hm]
    have a := checkCollision_frames_no_groups ext cs angles
      (if !F.isEmpty then F.set 0 [] else F) true verbose visualize h
    rw [if_neg (by rw [a.1]; decide)]
    generalize (checkCollision_frames ext cs angles (if !F.isEmpty then F.set 0 [] else F) true
      verbose visualize).collision_spheres_ = X
    generalize (checkCollision_frames ext cs angles (if !F.isEmpty then F.set 0 [] else F) true
      verbose visualize).frames = Y
    have b := checkCollision_frames_no_groups ext { cs with collision_spheres_ := X } angles Y
      false verbose visualize h
    exact ⟨b.1, b.2.1⟩

/-- When the forward kinematics of the default group at the configuration and
those of the other sphere groups succeed or leave no frames, the point check
handed two caches that are fresh for the groups after the first returns the
same verdict and clearance, and the cache it leaves is fresh for them. -/
theorem isStateValid_frames_fresh_pair (ext : Externals) (cs : SBPLCollisionSpace)
    (angles : List ℚ) (F G : FrameCache) (verbose visualize : Bool)
    (hd : FKClean (cs.model_.computeDefaultGroupFK angles))
    (ho : ∀ g ∈ cs.model_.sphere_groups.drop 1, FKClean (g.computeFK []))
    (hF : CacheFreshGroups cs F) (hG : CacheFreshGroups cs G) :
    (isStateValid_frames ext cs angles F verbose visualize).ret =
      (isStateValid_frames ext cs angles G verbose visualize).ret ∧
    (isStateValid_frames ext cs angles F verbose visualize).dist =
      (isStateValid_frames ext cs angles G verbose visualize).dist ∧
    CacheFreshGroups cs (isStateValid_frames ext cs angles F verbose visualize).frames := by
  cases hsg : cs.model_.sphere_groups with
  | nil =>
    obtain ⟨a1, a2⟩ := isStateValid_frames_no_groups ext cs angles F verbose visualize hsg
    obtain ⟨b1, b2⟩ := isStateValid_frames_no_groups ext cs angles G verbose visualize hsg
    exact ⟨a1.trans b1.symm, a2.trans b2.symm, cacheFreshGroups_of_no_groups cs _ hsg⟩
  | cons sg0 sg =>
    have ho' : ∀ g ∈ sg, FKClean (g.computeFK []) := by
      intro g hg
      apply ho g
      rw [hsg]
      simpa using hg
    have hF0 := cacheFresh_of_cleared cs angles F sg0 sg hsg hF
    have hG0 := cacheFresh_of_cleared cs angles G sg0 sg hsg hG
    unfold isStateValid_frames
    dsimp only
    generalize (if !F.isEmpty then F.set 0 [] else F) = F0 at hF0
    generalize (if !G.isEmpty then G.set 0 [] else G) = G0 at hG0
    by_cases hm : (!cs.use_multi_level_collision_check_) = true
    · rw [if_pos hm, if_pos hm]
      exact ⟨rfl, rfl, hF0.2⟩
    · rw [if_neg hm, if_neg hm]
      obtain ⟨c1, c2, c3⟩ := checkCollision_frames_fresh_pair ext cs angles F0 G0 true verbose
        visualize hF0 hG0
      have hF1 : CacheFresh cs angles
          (checkCollision_frames ext cs angles F0 true verbose visualize).frames :=
        cacheFresh_step ext cs angles F0 true verbose visualize cs.collision_spheres_ sg0 sg hsg
          hd ho' hF0
      have hG1 : CacheFresh cs angles
          (checkCollision_frames ext cs angles G0 true verbose visualize).frames :=
        cacheFresh_step ext cs angles G0 true verbose visualize cs.collision_spheres_ sg0 sg hsg
          hd ho' hG0
      by_cases hc : (checkCollision_frames ext cs angles F0 true verbose visualize).ret = true
      · have hc' : (checkCollision_frames ext cs angles G0 true verbose visualize).ret = true := by
          rw [← c1]
          exact hc
        rw [if_pos hc, if_pos hc']
        exact ⟨c1, c2, hF1.2⟩
      · have hc' : ¬ (checkCollision_frames ext cs angles G0 true verbose visualize).ret
            = true := by
          rw [← c1]
          exact hc
        rw [if_neg hc, if_neg hc', ← c3]
        obtain ⟨d1, d2, -⟩ := checkCollision_frames_fresh_pair ext
          { cs with collision_spheres_ :=
              (checkCollision_frames ext cs angles F0 true verbose visualize).collision_spheres_ }
          angles (checkCollision_frames ext cs angles F0 true verbose visualize).frames
          (checkCollision_frames ext cs angles G0 true verbose visualize).frames false verbose
          visualize hF1 hG1
        refine ⟨d1, d2, ?_⟩
        exact (cacheFresh_step ext cs angles _ false verbose visualize _ sg0 sg hsg hd ho'
          hF1).2

/-- When the forward kinematics succeed or leave no frames, the point check on
a cache that is fresh for the groups after the first returns the verdict and
the clearance of the point check that starts from an empty cache. -/
theorem isStateValid_frames_fresh (ext : Externals) (cs : SBPLCollisionSpace)
    (angles : List ℚ) (F : FrameCache) (verbose visualize : Bool)
    (hd : FKClean (cs.model_.computeDefaultGroupFK angles))
    (ho : ∀ g ∈ cs.model_.sphere_groups.drop 1, FKClean (g.computeFK []))
    (hF : CacheFreshGroups cs F) :
    (isStateValid_frames ext cs angles F verbose visualize).ret =
      (isStateValid ext cs angles verbose visualize).ret ∧
    (isStateValid_frames ext cs angles F verbose visualize).dist =
      (isStateValid ext cs angles verbose visualize).dist ∧
    CacheFreshGroups cs (isStateValid_frames ext cs angles F verbose visualize).frames :=
  isStateValid_frames_fresh_pair ext cs angles F [] verbose visualize hd ho hF
    (cacheFreshGroups_nil cs)

/-- C4, the failing instance. At the example engine whose second group has a
forward kinematics that fails after writing frames, with multi-level checking
enabled and the configuration `[6]`: the coarse pass reports not valid, at the
failed forward kinematics, and the full check on the fine subset reports not
valid with the clearance 6, by either overload; the two-level check, whose
fine pass finds the written frames in the cache, returns valid with the
clearance 2. -/
theorem two_level_differs_from_fine_check :
    exampleFailingEngine.use_multi_level_collision_check_ = true ∧
    ((checkCollision_frames exampleExt exampleFailingEngine [6] [] true false false).ret,
      (checkCollision_frames exampleExt exampleFailingEngine [6] [] true false false).frames) =
      (false, [[[xShift 6]], [[xShift 8]]]) ∧
    ((checkCollision_res exampleExt exampleFailingEngine [6] false false false).ret,
      (checkCollision_res exampleExt exampleFailingEngine [6] false false false).dist) =
      (false, 6) ∧
    ((checkCollision_frames exampleExt exampleFailingEngine [6] [] false false false).ret,
      (checkCollision_frames exampleExt exampleFailingEngine [6] [] false false false).dist) =
      (false, 6) ∧
    ((checkCollision exampleExt exampleFailingEngine [6] false false).ret,
      (checkCollision exampleExt exampleFailingEngine [6] false false).dist) = (true, 2) ∧
    ((isStateValid_frames exampleExt exampleFailingEngine [6] [] false false).ret,
      (isStateValid_frames exampleExt exampleFailingEngine [6] [] false false).dist) =
      (true, 2) := by
  refine ⟨rfl, by decide!, by decide!, by decide!, by decide!, by decide!⟩

/-- C4, amended. Let the forward kinematics of the default group at the
configuration and those of the other sphere groups succeed or leave no frames.
With multi-level checking enabled, the two-level `checkCollision` returns the
result of the coarse pass (verdict, clearance, cache and collision spheres, so
nothing of a fine pass) when the coarse pass reports valid; otherwise it
returns the verdict and the clearance of the full check on the fine subset, as
the caching overload run on an empty cache reports them and, when the first
sphere group is the default group, as the non-caching overload reports them.
With multi-level checking disabled it returns the verdict and clearance of the
fine-subset check. The overload `isStateValid(angles, frames, ...)` returns
the verdict and clearance of the two-level `checkCollision` on every cache
that is fresh for the groups after the first. -/
theorem checkCollision_two_level (ext : Externals) (cs : SBPLCollisionSpace) (angles : List ℚ)
    (verbose visualize : Bool)
    (hd : FKClean (cs.model_.computeDefaultGroupFK angles))
    (ho : ∀ g ∈ cs.model_.sphere_groups.drop 1, FKClean (g.computeFK [])) :
    (cs.use_multi_level_collision_check_ = true →
      ((checkCollision_frames ext cs angles [] true verbose visualize).ret = true →
        checkCollision ext cs angles verbose visualize =
          checkCollision_frames ext cs angles [] true verbose visualize) ∧
      ((checkCollision_frames ext cs angles [] true verbose visualize).ret = false →
        ((checkCollision ext cs angles verbose visualize).ret =
            (checkCollision_frames ext cs angles [] false verbose visualize).ret ∧
          (checkCollision ext cs angles verbose visualize).dist =
            (checkCollision_frames ext cs angles [] false verbose visualize).dist) ∧
        (cs.model_.sphere_groups.head? = some cs.model_.default_group →
          (checkCollision ext cs angles verbose visualize).ret =
            (checkCollision_res ext cs angles false verbose visualize).ret ∧
          (checkCollision ext cs angles verbose visualize).dist =
            (checkCollision_res ext cs angles false verbose visualize).dist))) ∧
    (cs.use_multi_level_collision_check_ = false →
      (checkCollision ext cs angles verbose visualize).ret =
        (checkCollision_res ext cs angles false verbose visualize).ret ∧
      (checkCollision ext cs angles verbose visualize).dist =
        (checkCollision_res ext cs angles false verbose visualize).dist) ∧
    (∀ frames : FrameCache, CacheFreshGroups cs frames →
      (isStateValid_frames ext cs angles frames verbose visualize).ret =
        (checkCollision ext cs angles verbose visualize).ret ∧
      (isStateValid_frames ext cs angles frames verbose visualize).dist =
        (checkCollision ext cs angles verbose visualize).dist) := by
  obtain ⟨hon, hoff⟩ := checkCollision_two_level_cached ext cs angles [] verbose visualize
  refine ⟨fun hm => ⟨(hon hm).1, fun hc => ?_⟩, fun hm => ⟨(hoff hm).1, (hoff hm).2.1⟩,
    fun frames hF => ?_⟩
  · have heq := (hon hm).2.1 hc
    rw [heq]
    cases hsg : cs.model_.sphere_groups with
    | nil =>
      generalize (checkCollision_frames ext cs angles [] true verbose
        visualize).collision_spheres_ = X
      generalize (checkCollision_frames ext cs angles [] true verbose visualize).frames = Y
      have a := checkCollision_frames_no_groups ext { cs with collision_spheres_ := X } angles Y
        false verbose visualize hsg
      have b := checkCollision_frames_no_groups ext cs angles [] false verbose visualize hsg
      refine ⟨⟨a.1.trans b.1.symm, a.2.1.trans b.2.1.symm⟩, fun hh => ?_⟩
      simp at hh
    | cons sg0 sg =>
      have ho' : ∀ g ∈ sg, FKClean (g.computeFK []) := by
        intro g hg
        apply ho g
        rw [hsg]
        simpa using hg
      have hF1 : CacheFresh cs angles
          (checkCollision_frames ext cs angles [] true verbose visualize).frames :=
        cacheFresh_step ext cs angles [] true verbose visualize cs.collision_spheres_ sg0 sg hsg
          hd ho' (cacheFresh_nil cs angles sg0 sg hsg)
      obtain ⟨d1, d2, -⟩ := checkCollision_frames_fresh_pair ext
        { cs with collision_spheres_ :=
            (checkCollision_frames ext cs angles [] true verbose visualize).collision_spheres_ }
        angles (checkCollision_frames ext cs angles [] true verbose visualize).frames []
        false verbose visualize hF1 (cacheFresh_nil cs angles sg0 sg hsg)
      have r0 := checkCollision_frames_after ext cs angles [] [] true false verbose visualize
      rw [r0] at d1 d2
      refine ⟨⟨d1, d2⟩, fun hh => ?_⟩
      have hsg' : cs.model_.sphere_groups = cs.model_.default_group :: sg := by
        simp only [List.head?_cons, Option.some.injEq] at hh
        rw [hsg, hh]
      obtain ⟨e1, e2, -⟩ := checkCollision_frames_eq_res_of_fresh ext
        { cs with collision_spheres_ :=
            (checkCollision_frames ext cs angles [] true verbose visualize).collision_spheres_ }
        angles (checkCollision_frames ext cs angles [] true verbose visualize).frames
        false verbose visualize sg hsg' hF1
      rw [checkCollision_res_after] at e1 e2
      exact ⟨e1, e2⟩
  · obtain ⟨h1, h2, -⟩ := isStateValid_frames_fresh ext cs angles frames verbose visualize hd ho
      hF
    exact ⟨h1, h2⟩

/-- C4 at the example engine whose coarse and fine subsets differ, with every
forward kinematics succeeding. At the configuration `[6]` the coarse pass
reports a collision of the coarse spheres of the two groups, the full check on
the fine subset reports valid with the clearance 3, and so does the two-level
check. At `[9]` the coarse pass reports valid and the two-level check returns
its result. -/
theorem checkCollision_two_level_witness :
    (FKClean (exampleWideEngine.model_.computeDefaultGroupFK [6]) ∧
      (∀ g ∈ exampleWideEngine.model_.sphere_groups.drop 1, FKClean (g.computeFK [])) ∧
      exampleWideEngine.model_.sphere_groups.head? =
        some exampleWideEngine.model_.default_group ∧
      exampleWideEngine.use_multi_level_collision_check_ = true) ∧
    (checkCollision_frames exampleExt exampleWideEngine [6] [] true false false).ret = false ∧
    ((checkCollision exampleExt exampleWideEngine [6] false false).ret =
        (checkCollision_frames exampleExt exampleWideEngine [6] [] false false false).ret ∧
      (checkCollision exampleExt exampleWideEngine [6] false false).dist =
        (checkCollision_frames exampleExt exampleWideEngine [6] [] false false false).dist) ∧
    ((checkCollision exampleExt exampleWideEngine [6] false false).ret =
        (checkCollision_res exampleExt exampleWideEngine [6] false false false).ret ∧
      (checkCollision exampleExt exampleWideEngine [6] false false).dist =
        (checkCollision_res exampleExt exampleWideEngine [6] false false false).dist) ∧
    ((checkCollision_res exampleExt exampleWideEngine [6] false false false).ret,
      (checkCollision_res exampleExt exampleWideEngine [6] false false false).dist) =
      (true, 3) ∧
    (checkCollision_frames exampleExt exampleWideEngine [9] [] true false false).ret = true ∧
    checkCollision exampleExt exampleWideEngine [9] false false =
      checkCollision_frames exampleExt exampleWideEngine [9] [] true false false :=
  have hclean : ∀ g ∈ exampleWideEngine.model_.sphere_groups.drop 1,
      FKClean (g.computeFK []) := by
    intro g hg
    simp only [exampleWideEngine, List.drop_succ_cons, List.drop_zero, List.mem_singleton] at hg
    subst hg
    exact Or.inl rfl
  have h6 : (checkCollision_frames exampleExt exampleWideEngine [6] [] true false false).ret
      = false := by decide!
  have h9 : (checkCollision_frames exampleExt exampleWideEngine [9] [] true false false).ret
      = true := by decide!
  ⟨⟨Or.inl rfl, hclean, rfl, rfl⟩, h6,
    (((checkCollision_two_level exampleExt exampleWideEngine [6] false false (Or.inl rfl)
      hclean).1 rfl).2 h6).1,
    (((checkCollision_two_level exampleExt exampleWideEngine [6] false false (Or.inl rfl)
      hclean).1 rfl).2 h6).2 rfl,
    by decide!, h9,
    ((checkCollision_two_level exampleExt exampleWideEngine [9] false false (Or.inl rfl)
      hclean).1 rfl).1 h9⟩

/-! ## Path check: the first waypoint that fails the point check -/

theorem findIdx_congr_of_mem {α : Type} (p q : α → Bool) (l : List α)
    (h : ∀ x ∈ l, p x = q x) : l.findIdx p = l.findIdx q := by
  induction l with
  | nil => rfl
  | cons a t ih =>
    rw [List.findIdx_cons, List.findIdx_cons, h a (List.mem_cons_self _ _),
      ih (fun x hx => h x (List.mem_cons_of_mem _ hx))]

/-- When every forward kinematics succeeds or leaves no frames and the cache
handed to the path check is fresh for the groups after the first, the verdict
on a waypoint on the cache with which the loops reach it is the verdict of the
point validity check on the waypoint. -/
theorem waypointValid_eq_pointValid (ext : Externals) (cs : SBPLCollisionSpace)
    (path : List (List ℚ)) (frames : FrameCache) (verbose : Bool)
    (hd : ∀ j < path.length, FKClean (cs.model_.computeDefaultGroupFK (path.getD j [])))
    (ho : ∀ g ∈ cs.model_.sphere_groups.drop 1, FKClean (g.computeFK []))
    (hF : CacheFreshGroups cs frames) (j : Nat) (hj : j < path.length) :
    waypointValid ext cs path frames verbose j = pointValid ext cs path verbose j := by
  unfold waypointValid pointValid
  by_cases h0 : j = 0
  · rw [if_pos h0]
    exact (isStateValid_frames_fresh ext cs _ frames verbose false (hd j hj) ho hF).1
  · rw [if_neg h0]
    have h1 := (isStateValid_frames_fresh ext cs (path.getD 0 []) frames verbose false
      (hd 0 (by omega)) ho hF).2.2
    exact (isStateValid_frames_fresh ext cs _ _ verbose false (hd j hj) ho h1).1

/-- C8, the failing instance. At the example engine whose second group has a
forward kinematics that fails after writing frames, the path from `[6]` to
`[4]` has the two waypoints `[6]` and `[4]`. The point validity check reports
waypoint `[4]` not valid. The path check visits both waypoints, the check of
`[6]` having left the written frames in the cache, and returns valid with
`num_checks = 2`. -/
theorem path_valid_with_invalid_waypoint :
    interpolatePath exampleStepExt exampleFailingEngine
      (normalizeEndpoints exampleStepExt [6] [4]).1 (normalizeEndpoints exampleStepExt [6] [4]).2
      exampleFailingEngine.inc_ = (true, [[6], [4]]) ∧
    (isStateValid exampleStepExt exampleFailingEngine [4] false false).ret = false ∧
    pointValid exampleStepExt exampleFailingEngine [[6], [4]] false 1 = false ∧
    (checkPathForCollision exampleStepExt exampleFailingEngine [6] [4] false).map
      (fun r => (r.ret, r.path_length, r.num_checks, r.visited)) =
        some (true, 2, 2, [0, 1]) := by
  refine ⟨by decide!, by decide!, by decide!, by decide!⟩

/-- C8, amended. Let every forward kinematics, of the default group at each
waypoint and of the other sphere groups, succeed or leave no frames, and let
the cache handed to the call be empty or fresh for the groups after the first.
After a successful interpolation into `n` waypoints, `checkPathForCollision`
reports `path_length = n`. With `pointValid j` the verdict of the point
validity check on waypoint `j`: when some waypoint is invalid the call returns
invalid, `num_checks` is the 1-based position in `visitOrder n` of the first
invalid waypoint, and the indices it has checked are the prefix of
`visitOrder n` up to that position, so no later waypoint is checked. The call
returns valid exactly when every waypoint is valid, and exactly when the plain
loop over the waypoints `0, ..., n - 1` returns valid. -/
theorem checkPathForCollision_first_invalid (ext : Externals) (cs : SBPLCollisionSpace)
    (start end_ : List ℚ) (frames : FrameCache) (verbose : Bool) (path : List (List ℚ))
    (hip : interpolatePath ext cs (normalizeEndpoints ext start end_).1
      (normalizeEndpoints ext start end_).2 cs.inc_ = (true, path))
    (hd : ∀ j < path.length, FKClean (cs.model_.computeDefaultGroupFK (path.getD j [])))
    (ho : ∀ g ∈ cs.model_.sphere_groups.drop 1, FKClean (g.computeFK []))
    (hF : CacheFreshGroups cs frames) :
    ∃ r, checkPathForCollision_frames ext cs start end_ frames verbose = some r ∧
      r.path_length = path.length ∧
      ((∃ j < path.length, pointValid ext cs path verbose j = false) →
        r.ret = false ∧
        (visitOrder path.length).findIdx (fun j => !pointValid ext cs path verbose j)
          < path.length ∧
        r.num_checks =
          (visitOrder path.length).findIdx (fun j => !pointValid ext cs path verbose j) + 1 ∧
        r.visited = (visitOrder path.length).take
          ((visitOrder path.length).findIdx (fun j => !pointValid ext cs path verbose j) + 1)) ∧
      (r.ret = true ↔ ∀ j < path.length, pointValid ext cs path verbose j = true) ∧
      (r.ret = true ↔
        (checkPathForCollision_linear ext cs path verbose path.length 0
          (pathStart cs frames)).1 = true) := by
  have hw := waypointValid_eq_pointValid ext cs path frames verbose hd ho hF
  have hidx : (visitOrder path.length).findIdx
      (fun j => !waypointValid ext cs path frames verbose j) =
      (visitOrder path.length).findIdx (fun j => !pointValid ext cs path verbose j) :=
    findIdx_congr_of_mem _ _ _ (fun x hx => by
      simp only [hw x ((mem_visitOrder _ _).mp hx)])
  obtain ⟨r, hr, h1, h2, h3, h4⟩ := checkPathForCollision_first_invalid_cached ext cs start end_
    frames verbose path hip
  refine ⟨r, hr, h1, ?_, ?_, h4⟩
  · rintro ⟨j, hj, hjv⟩
    have := h2 ⟨j, hj, by rw [hw j hj]; exact hjv⟩
    rw [hidx] at this
    exact this
  · rw [h3]
    constructor
    · intro h j hj
      rw [← hw j hj]
      exact h j hj
    · intro h j hj
      rw [hw j hj]
      exact h j hj

/-- C8 at the example path from 9 to 0 of the engine with the single group
`arm`, on an empty cache: the waypoints 9, 10 and 11 fail the point validity
check, waypoint 10 is third in the visitation order, and the call stops there
with `num_checks = 3`, having checked the waypoints 0, 5 and 10. -/
theorem checkPathForCollision_first_invalid_witness :
    ((∀ j < (examplePath 9 0).length,
        FKClean (exampleArm.model_.computeDefaultGroupFK ((examplePath 9 0).getD j []))) ∧
      (∀ g ∈ exampleArm.model_.sphere_groups.drop 1, FKClean (g.computeFK [])) ∧
      CacheFreshGroups exampleArm []) ∧
    (∃ r, checkPathForCollision_frames examplePathExt exampleArm [9] [0] [] false = some r ∧
      r.path_length = (examplePath 9 0).length ∧
      ((∃ j < (examplePath 9 0).length,
          pointValid examplePathExt exampleArm (examplePath 9 0) false j = false) →
        r.ret = false ∧
        (visitOrder (examplePath 9 0).length).findIdx
          (fun j => !pointValid examplePathExt exampleArm (examplePath 9 0) false j) <
          (examplePath 9 0).length ∧
        r.num_checks = (visitOrder (examplePath 9 0).length).findIdx
          (fun j => !pointValid examplePathExt exampleArm (examplePath 9 0) false j) + 1 ∧
        r.visited = (visitOrder (examplePath 9 0).length).take
          ((visitOrder (examplePath 9 0).length).findIdx
            (fun j => !pointValid examplePathExt exampleArm (examplePath 9 0) false j) + 1)) ∧
      (r.ret = true ↔ ∀ j < (examplePath 9 0).length,
        pointValid examplePathExt exampleArm (examplePath 9 0) false j = true) ∧
      (r.ret = true ↔
        (checkPathForCollision_linear examplePathExt exampleArm (examplePath 9 0) false
          (examplePath 9 0).length 0 (pathStart exampleArm [])).1 = true)) ∧
    (List.range 12).map (pointValid examplePathExt exampleArm (examplePath 9 0) false) =
      [true, true, true, true, true, true, true, true, true, false, false, false] ∧
    (checkPathForCollision_frames examplePathExt exampleArm [9] [0] [] false).map
      (fun r => (r.ret, r.path_length, r.num_checks, r.visited)) =
        some (false, 12, 3, [0, 5, 10]) :=
  have hd : ∀ j < (examplePath 9 0).length,
      FKClean (exampleArm.model_.computeDefaultGroupFK ((examplePath 9 0).getD j [])) :=
    fun _ _ => Or.inl rfl
  have ho : ∀ g ∈ exampleArm.model_.sphere_groups.drop 1, FKClean (g.computeFK []) := by
    intro g hg
    simp [exampleArm] at hg
  ⟨⟨hd, ho, cacheFreshGroups_nil exampleArm⟩,
    checkPathForCollision_first_invalid examplePathExt exampleArm [9] [0] [] false
      (examplePath 9 0) (by decide!) hd ho (cacheFreshGroups_nil exampleArm),
    by decide!, by decide!⟩

/-! ## Coarse and fine subsets: geometric bounding -/

/-- C5, the failing instance, inside the invariant of the data model. In both
groups of the example engine the coarse sphere geometrically bounds the fine
sphere, and no obstacle is near. The coarse centres are `21/2` apart, more than
`max(10, 10)`, so the check on the coarse subset reports valid although the
coarse balls overlap; the fine centres are `1/2` apart, at most `max(5, 5)`, and
the check on the fine subset reports a collision. The two-level check returns
valid where the fine-only check returns not valid. -/
theorem bounding_coarse_valid_fine_invalid :
    (GroupBounded exampleExt exampleBoundedLeft ∧ GroupBounded exampleExt exampleBoundedRight) ∧
    (exampleExt.distance ⟨0, 0, 0⟩ ⟨21 / 2, 0, 0⟩ = 21 / 2 ∧
      exampleExt.distance ⟨5, 0, 0⟩ ⟨11 / 2, 0, 0⟩ = 1 / 2) ∧
    (checkCollision_res exampleExt (exampleBoundingEngine true) [] true false false).ret
      = true ∧
    (checkCollision_res exampleExt (exampleBoundingEngine true) [] false false false).ret
      = false ∧
    (checkCollision_frames exampleExt (exampleBoundingEngine true) [] [] true false false).ret
      = true ∧
    (checkCollision_frames exampleExt (exampleBoundingEngine true) [] [] false false false).ret
      = false ∧
    (checkCollision exampleExt (exampleBoundingEngine true) [] false false).ret = true ∧
    (checkCollision exampleExt (exampleBoundingEngine false) [] false false).ret = false := by
  refine ⟨⟨?_, ?_⟩, by decide!, by decide!, by decide!, by decide!, by decide!, by decide!,
    by decide!⟩
  · intro f hf
    simp only [exampleBoundedLeft, Group.getSpheres, Bool.false_eq_true, if_false,
      List.mem_singleton] at hf
    subst hf
    exact ⟨⟨"coarse", ⟨0, 0, 0⟩, 10, 0, 0⟩, List.mem_singleton.mpr rfl, rfl, rfl, by decide!⟩
  · intro f hf
    simp only [exampleBoundedRight, Group.getSpheres, Bool.false_eq_true, if_false,
      List.mem_singleton] at hf
    subst hf
    exact ⟨⟨"coarse", ⟨21 / 2, 0, 0⟩, 10, 0, 0⟩, List.mem_singleton.mpr rfl, rfl, rfl,
      by decide!⟩

/-- C5, amended, at the example engine whose coarse spheres, of radius 5 and 2,
are wider than its fine spheres, of radius 1, at the same centres. At the
configuration `[9]` the check on the coarse subset reports valid, and so do
the check on the fine subset and the two-level check. At `[6]` the coarse
spheres of the two groups collide and the fine subset is valid. -/
theorem coarse_fine_consistency_witness :
    (∀ g ∈ exampleWideEngine.model_.default_group :: exampleWideEngine.model_.sphere_groups,
      GroupDominated g) ∧
    ((exampleWideGroup.getSpheres true).map Sphere.radius = [5] ∧
      (exampleWideGroup.getSpheres false).map Sphere.radius = [1] ∧
      (exampleNarrowGroup.getSpheres true).map Sphere.radius = [2] ∧
      (exampleNarrowGroup.getSpheres false).map Sphere.radius = [1]) ∧
    ((checkCollision_res exampleExt exampleWideEngine [9] true false false).ret = true ∧
      (checkCollision_frames exampleExt exampleWideEngine [9] [] true false false).ret = true) ∧
    ((checkCollision_res exampleExt exampleWideEngine [9] false false false).ret = true ∧
      (checkCollision_frames exampleExt exampleWideEngine [9] [] false false false).ret = true ∧
      (checkCollision exampleExt exampleWideEngine [9] false false).ret =
        (checkCollision_res exampleExt exampleWideEngine [9] false false false).ret) ∧
    ((checkCollision_res exampleExt exampleWideEngine [6] true false false).ret = false ∧
      (checkCollision_res exampleExt exampleWideEngine [6] false false false).ret = true) :=
  have hdom : ∀ g ∈ exampleWideEngine.model_.default_group ::
      exampleWideEngine.model_.sphere_groups, GroupDominated g := by
    intro g hg
    have hmem : g = exampleWideGroup ∨ g = exampleWideGroup ∨ g = exampleNarrowGroup := by
      simpa [exampleWideEngine] using hg
    rcases hmem with rfl | rfl | rfl
    · intro f hf
      simp only [exampleWideGroup, Group.getSpheres, Bool.false_eq_true, if_false,
        List.mem_singleton] at hf
      subst hf
      exact ⟨⟨"coarse", ⟨0, 0, 0⟩, 5, 0, 0⟩, List.mem_singleton.mpr rfl, rfl, rfl, rfl,
        by decide!⟩
    · intro f hf
      simp only [exampleWideGroup, Group.getSpheres, Bool.false_eq_true, if_false,
        List.mem_singleton] at hf
      subst hf
      exact ⟨⟨"coarse", ⟨0, 0, 0⟩, 5, 0, 0⟩, List.mem_singleton.mpr rfl, rfl, rfl, rfl,
        by decide!⟩
    · intro f hf
      simp only [exampleNarrowGroup, Group.getSpheres, Bool.false_eq_true, if_false,
        List.mem_singleton] at hf
      subst hf
      exact ⟨⟨"coarse", ⟨0, 0, 0⟩, 2, 0, 0⟩, List.mem_singleton.mpr rfl, rfl, rfl, rfl,
        by decide!⟩
  have hclean : ∀ g ∈ exampleWideEngine.model_.sphere_groups.drop 1,
      FKClean (g.computeFK []) := by
    intro g hg
    simp only [exampleWideEngine, List.drop_succ_cons, List.drop_zero, List.mem_singleton] at hg
    subst hg
    exact Or.inl rfl
  have hc : (checkCollision_res exampleExt exampleWideEngine [9] true false false).ret = true := by
    decide!
  have hf : (checkCollision_frames exampleExt exampleWideEngine [9] [] true false false).ret
      = true := by decide!
  ⟨hdom, ⟨by decide!, by decide!, by decide!, by decide!⟩, ⟨hc, hf⟩,
    ⟨(coarse_fine_consistency exampleExt exampleWideEngine [9] false false hdom).1 hc,
      (coarse_fine_consistency exampleExt exampleWideEngine [9] false false hdom).2.1 [] hf,
      (coarse_fine_consistency exampleExt exampleWideEngine [9] false false hdom).2.2 rfl
        (Or.inl rfl) hclean⟩,
    ⟨by decide!, by decide!⟩⟩

end sbpl_arm_planner
